import Mathlib

/-! open62541: node management and reference engine

A shallow embedding of `src/server/ua_services_nodemanagement.c` and of the subscription
client `src/client/ua_client_highlevel_subscriptions.c`.

Conventions of the embedding

* A `UA_StatusCode` is the 32-bit code as a natural number; `retval |= ...` is `|||`.
* The node store is the finite sequence of nodes it owns, looked up by `nodeId`.
  The store itself (`ua_nodestore.c`), `UA_Server_editNode`, the browse service, the
  hierarchy helpers and the type-compatibility helpers are not part of the sources at hand;
  each of them is modelled from the written specification and marked as such.
* Heap allocation (`UA_malloc`, `UA_realloc`, the `_copy` routines, `UA_Array_new`) is taken
  to succeed; a block handed out by `UA_malloc` holds arbitrary data until it is written.
* User callbacks are function pointers.  A node stores the pointer as a number; what a
  constructor or a data source returns is given by the `UA_Callbacks` environment of the
  server, and every destructor / instantiation-callback invocation is appended to a log.
* Recursion through `Service_AddNode_finish` is bounded by a call-depth budget; a run that
  exhausts the budget yields `none`.
* The transport of the subscription client is a synchronous exchange: a function from the
  request to the response and the connection state the exchange leaves; where a function
  makes several exchanges of a kind, the `k`-th of them is the function at `k`.  The
  monotonic clock is the sequence of its readings.
* The handlers of monitored items are user code; their invocations are recorded with the
  arguments passed, and they are taken to return and to leave the client alone.
* The intrusive lists of the client are sequences, head first, far shorter than `2 ^ 31`
  entries, so that counters over them (`int i`, `size_t`) do not wrap; `UA_DateTime`
  arithmetic is exact.  The publish loop is bounded by a number of passes; a run still
  looping at the bound yields `none`.
-/

set_option linter.unusedVariables false

/-! ## Status codes -/

abbrev UA_StatusCode := Nat

abbrev UA_STATUSCODE_GOOD : UA_StatusCode := 0x00000000
abbrev UA_STATUSCODE_BADUNEXPECTEDERROR : UA_StatusCode := 0x80010000
abbrev UA_STATUSCODE_BADOUTOFMEMORY : UA_StatusCode := 0x80030000
abbrev UA_STATUSCODE_BADNOTHINGTODO : UA_StatusCode := 0x800F0000
abbrev UA_STATUSCODE_BADNODEIDINVALID : UA_StatusCode := 0x80330000
abbrev UA_STATUSCODE_BADNODEIDUNKNOWN : UA_StatusCode := 0x80340000
abbrev UA_STATUSCODE_BADNOTIMPLEMENTED : UA_StatusCode := 0x80430000
abbrev UA_STATUSCODE_BADREFERENCETYPEIDINVALID : UA_StatusCode := 0x80510000
abbrev UA_STATUSCODE_BADTYPEDEFINITIONINVALID : UA_StatusCode := 0x80530000
abbrev UA_STATUSCODE_BADREFERENCENOTALLOWED : UA_StatusCode := 0x805A0000
abbrev UA_STATUSCODE_BADPARENTNODEIDINVALID : UA_StatusCode := 0x805B0000
abbrev UA_STATUSCODE_BADNODEIDEXISTS : UA_StatusCode := 0x805E0000
abbrev UA_STATUSCODE_BADNODECLASSINVALID : UA_StatusCode := 0x80610000
abbrev UA_STATUSCODE_BADNODEATTRIBUTESINVALID : UA_StatusCode := 0x80620000
abbrev UA_STATUSCODE_BADTYPEMISMATCH : UA_StatusCode := 0x80740000
abbrev UA_STATUSCODE_UNCERTAINREFERENCENOTDELETED : UA_StatusCode := 0x40BC0000

/-! ## Built-in types -/

/-- The identifier part of a node id: numeric, string, guid or byte string. -/
inductive UA_Identifier where
  | numeric (n : Nat)
  | string (s : String)
  | guid (g : Nat)
  | byteString (b : List Nat)
deriving DecidableEq, Repr

structure UA_NodeId where
  namespaceIndex : Nat
  identifier : UA_Identifier
deriving DecidableEq, Repr

structure UA_ExpandedNodeId where
  nodeId : UA_NodeId
  namespaceUri : String
  serverIndex : Nat
deriving DecidableEq, Repr

structure UA_QualifiedName where
  namespaceIndex : Nat
  name : String
deriving DecidableEq, Repr

structure UA_LocalizedText where
  locale : String
  text : String
deriving DecidableEq, Repr

/-- The macro `UA_NODEID_NUMERIC(nsIndex, identifier)`. -/
def UA_NODEID_NUMERIC (nsIndex identifier : Nat) : UA_NodeId :=
  { namespaceIndex := nsIndex, identifier := UA_Identifier.numeric identifier }

def UA_NODEID_NULL : UA_NodeId := UA_NODEID_NUMERIC 0 0

/-- The macro `UA_EXPANDEDNODEID_NUMERIC`, and the value left by `UA_ExpandedNodeId_init`
once its `nodeId` member is assigned. -/
def UA_ExpandedNodeId_ofNodeId (nodeId : UA_NodeId) : UA_ExpandedNodeId :=
  { nodeId := nodeId, namespaceUri := "", serverIndex := 0 }

/-- Modelled from the spec: `UA_NodeId_isNull` (ua_types.c is not among the sources).  The
null id lives in namespace 0 and carries the zero value of its identifier kind. -/
def UA_NodeId_isNull (p : UA_NodeId) : Bool :=
  p.namespaceIndex == 0 &&
  (match p.identifier with
   | UA_Identifier.numeric n => n == 0
   | UA_Identifier.string s => s.length == 0
   | UA_Identifier.guid g => g == 0
   | UA_Identifier.byteString b => b.length == 0)

/-- Modelled from the spec: `UA_NodeId_equal` is structural equality of node ids. -/
def UA_NodeId_equal (a b : UA_NodeId) : Bool := decide (a = b)

/-! Well-known namespace-0 identifiers (`ua_nodeids.h`). -/

abbrev UA_NS0ID_INT32 : Nat := 6
abbrev UA_NS0ID_BASEDATATYPE : Nat := 24
abbrev UA_NS0ID_HIERARCHICALREFERENCES : Nat := 33
abbrev UA_NS0ID_ORGANIZES : Nat := 35
abbrev UA_NS0ID_HASTYPEDEFINITION : Nat := 40
abbrev UA_NS0ID_AGGREGATES : Nat := 44
abbrev UA_NS0ID_HASSUBTYPE : Nat := 45
abbrev UA_NS0ID_HASPROPERTY : Nat := 46
abbrev UA_NS0ID_HASCOMPONENT : Nat := 47
abbrev UA_NS0ID_BASEOBJECTTYPE : Nat := 58
abbrev UA_NS0ID_BASEDATAVARIABLETYPE : Nat := 63
abbrev UA_NS0ID_PROPERTYTYPE : Nat := 68
abbrev UA_NS0ID_OBJECTSFOLDER : Nat := 85

/-! Node classes (`UA_NodeClass`, a bit mask). -/

abbrev UA_NodeClass := Nat

abbrev UA_NODECLASS_UNSPECIFIED : UA_NodeClass := 0
abbrev UA_NODECLASS_OBJECT : UA_NodeClass := 1
abbrev UA_NODECLASS_VARIABLE : UA_NodeClass := 2
abbrev UA_NODECLASS_METHOD : UA_NodeClass := 4
abbrev UA_NODECLASS_OBJECTTYPE : UA_NodeClass := 8
abbrev UA_NODECLASS_VARIABLETYPE : UA_NodeClass := 16
abbrev UA_NODECLASS_REFERENCETYPE : UA_NodeClass := 32
abbrev UA_NODECLASS_DATATYPE : UA_NodeClass := 64
abbrev UA_NODECLASS_VIEW : UA_NodeClass := 128

/-! ## Values -/

/-- The payload of a variant: nothing, one element, or an array of elements. -/
inductive UA_VariantData where
  | null
  | scalar (v : Int)
  | array (vs : List Int)
deriving DecidableEq, Repr

/-- A variant: `type` is the data-type descriptor (`none` for the empty variant). -/
structure UA_Variant where
  type : Option UA_NodeId
  data : UA_VariantData
  arrayDimensions : List Nat
deriving DecidableEq, Repr

/-- Modelled from the spec: `UA_Variant_isScalar` holds of a variant carrying exactly one
element. -/
def UA_Variant_isScalar (v : UA_Variant) : Bool :=
  match v.data with
  | UA_VariantData.scalar _ => true
  | _ => false

structure UA_DataValue where
  hasValue : Bool
  value : UA_Variant
  status : UA_StatusCode
deriving DecidableEq, Repr

def UA_Variant_empty : UA_Variant :=
  { type := none, data := UA_VariantData.null, arrayDimensions := [] }

/-- The value left by `UA_DataValue_init`. -/
def UA_DataValue_init : UA_DataValue :=
  { hasValue := false, value := UA_Variant_empty, status := UA_STATUSCODE_GOOD }

/-! ## Nodes -/

structure UA_ReferenceNode where
  referenceTypeId : UA_NodeId
  targetId : UA_ExpandedNodeId
  isInverse : Bool
deriving DecidableEq, Repr

/-- Object life-cycle callbacks of an object type; a callback is a function pointer. -/
structure UA_ObjectLifecycleManagement where
  constructor : Option Nat
  destructor : Option Nat
deriving DecidableEq, Repr

inductive UA_ValueSource where
  | data
  | dataSource
deriving DecidableEq, Repr

/-- A node: the common header followed by the members of the class-specific variants.  A
member that the node class does not have keeps the zero value of `UA_NodeStore_newNode`;
the code reads such a member only after checking `nodeClass`. -/
structure UA_Node where
  nodeId : UA_NodeId
  nodeClass : UA_NodeClass
  browseName : UA_QualifiedName
  displayName : UA_LocalizedText
  description : UA_LocalizedText
  writeMask : Nat
  references : List UA_ReferenceNode
  isAbstract : Bool
  symmetric : Bool
  inverseName : UA_LocalizedText
  dataType : UA_NodeId
  valueRank : Int
  arrayDimensions : List Nat
  valueSource : UA_ValueSource
  value : UA_DataValue
  valueCallback : Option Nat
  dataSource : Option Nat
  accessLevel : Nat
  historizing : Bool
  minimumSamplingInterval : Nat
  eventNotifier : Nat
  containsNoLoops : Bool
  instanceHandle : Nat
  lifecycleManagement : UA_ObjectLifecycleManagement
  executable : Bool
  attachedMethod : Option Nat
  methodHandle : Nat
deriving DecidableEq, Repr

/-- Modelled from the spec: `newNode(nodeClass)` hands out a zero-initialised node of the
class. -/
def UA_NodeStore_newNode (nodeClass : UA_NodeClass) : UA_Node :=
  { nodeId := UA_NODEID_NULL, nodeClass := nodeClass,
    browseName := { namespaceIndex := 0, name := "" },
    displayName := { locale := "", text := "" },
    description := { locale := "", text := "" },
    writeMask := 0, references := [], isAbstract := false, symmetric := false,
    inverseName := { locale := "", text := "" },
    dataType := UA_NODEID_NULL, valueRank := 0, arrayDimensions := [],
    valueSource := UA_ValueSource.data, value := UA_DataValue_init,
    valueCallback := none, dataSource := none,
    accessLevel := 0, historizing := false, minimumSamplingInterval := 0,
    eventNotifier := 0, containsNoLoops := false, instanceHandle := 0,
    lifecycleManagement := { constructor := none, destructor := none },
    executable := false, attachedMethod := none, methodHandle := 0 }

/-! ## Node store -/

/-- Modelled from the spec: `get(id)` looks a node up by `(namespaceIndex, identifier)`. -/
def UA_NodeStore_get (ns : List UA_Node) (nodeId : UA_NodeId) : Option UA_Node :=
  ns.find? (fun n => decide (n.nodeId = nodeId))

/-- The largest numeric identifier in use in namespace `nsIndex`. -/
def UA_NodeStore_maxNumeric (nsIndex : Nat) : List UA_Node → Nat
  | [] => 0
  | n :: rest =>
    match n.nodeId.identifier with
    | UA_Identifier.numeric k =>
      if n.nodeId.namespaceIndex = nsIndex then max k (UA_NodeStore_maxNumeric nsIndex rest)
      else UA_NodeStore_maxNumeric nsIndex rest
    | _ => UA_NodeStore_maxNumeric nsIndex rest

/-- Modelled from the spec: `insert(node)` "allocates id if null".  A null identifier (numeric
0 in the first place, whatever the namespace) means "allocate": the store picks a numeric
identifier of the node's namespace that is not in use (the random draw with retry on
collision is represented by its outcome, here the identifier after the largest one in use).
Node ids are unique, so an id already in the store is refused.  The result carries the id
under which the node was stored. -/
def UA_NodeStore_insert (ns : List UA_Node) (node : UA_Node) :
    UA_StatusCode × List UA_Node × UA_NodeId :=
  let nodeId : UA_NodeId :=
    if UA_NodeId_isNull { node.nodeId with namespaceIndex := 0 } then
      UA_NODEID_NUMERIC node.nodeId.namespaceIndex
        (UA_NodeStore_maxNumeric node.nodeId.namespaceIndex ns + 1)
    else node.nodeId
  match UA_NodeStore_get ns nodeId with
  | some _ => (UA_STATUSCODE_BADNODEIDEXISTS, ns, node.nodeId)
  | none => (UA_STATUSCODE_GOOD, ns ++ [{ node with nodeId := nodeId }], nodeId)

/-- Modelled from the spec: `remove(id)`. -/
def UA_NodeStore_remove (ns : List UA_Node) (nodeId : UA_NodeId) :
    UA_StatusCode × List UA_Node :=
  match UA_NodeStore_get ns nodeId with
  | none => (UA_STATUSCODE_BADNODEIDUNKNOWN, ns)
  | some _ => (UA_STATUSCODE_GOOD, ns.filter (fun n => !decide (n.nodeId = nodeId)))

/-- Modelled from the spec: `getCopy(id)` is a deep copy of the stored node. -/
def UA_NodeStore_getCopy (ns : List UA_Node) (nodeId : UA_NodeId) : Option UA_Node :=
  UA_NodeStore_get ns nodeId

/-- Puts the edited version of node `nodeId` in the place of the stored one. -/
def UA_NodeStore_replace (ns : List UA_Node) (nodeId : UA_NodeId) (node : UA_Node) :
    List UA_Node :=
  ns.map (fun n => if n.nodeId = nodeId then node else n)

/-! ## Server -/

/-- What the user-supplied callbacks return when called. -/
structure UA_Callbacks where
  /-- The handle returned by the object constructor at the given function pointer. -/
  construct : Nat → UA_NodeId → Nat
  /-- The outcome of the `read` member of the data source at the given function pointer. -/
  readDataSource : Nat → UA_NodeId → UA_StatusCode × UA_DataValue
  /-- The status of `typeCheckValue` (ua_services_attribute.c, not among the sources). -/
  typeCheckValue : List UA_Node → UA_NodeId → Int → List Nat → UA_Variant → UA_StatusCode

/-- One invocation of a user callback with side effects. -/
inductive UA_CallbackCall where
  | destructor (fn : Nat) (objectId : UA_NodeId) (handle : Nat)
  | instantiation (fn : Nat) (objectId : UA_NodeId) (typeId : UA_NodeId) (handle : Nat)
deriving DecidableEq, Repr

structure UA_Server where
  nodestore : List UA_Node
  namespacesSize : Nat
  callbacks : UA_Callbacks
  /-- The callback invocations made so far, oldest first. -/
  calls : List UA_CallbackCall

structure UA_InstantiationCallback where
  method : Nat
  handle : Nat
deriving DecidableEq, Repr

/-- Modelled from the spec: `edit(session, id, fn, ctx)` looks the node up, hands the mutable
node to the callback and keeps what the callback left.  An unknown id is
`BadNodeIdUnknown`. -/
def UA_Server_editNode (server : UA_Server) (nodeId : UA_NodeId)
    (callback : UA_Node → UA_StatusCode × UA_Node) : UA_StatusCode × UA_Server :=
  match UA_NodeStore_get server.nodestore nodeId with
  | none => (UA_STATUSCODE_BADNODEIDUNKNOWN, server)
  | some node =>
    ((callback node).1,
     { server with nodestore := UA_NodeStore_replace server.nodestore nodeId (callback node).2 })

/-! ## Hierarchy queries and browsing -/

/-- The ids one step up from `nodeId`: the targets of its inverse references whose type is
one of `referenceTypeIds`. -/
def isNodeInTree_parents (ns : List UA_Node) (referenceTypeIds : List UA_NodeId)
    (nodeId : UA_NodeId) : List UA_NodeId :=
  match UA_NodeStore_get ns nodeId with
  | none => []
  | some node =>
    (node.references.filter
      (fun r => r.isInverse && referenceTypeIds.contains r.referenceTypeId)).map
      (fun r => r.targetId.nodeId)

/-- One level of the breadth-first walk per unit of `depth`. -/
def isNodeInTree_walk (ns : List UA_Node) (nodeToFind : UA_NodeId)
    (referenceTypeIds : List UA_NodeId) : Nat → List UA_NodeId → Bool
  | 0, frontier => frontier.contains nodeToFind
  | depth + 1, frontier =>
    frontier.contains nodeToFind ||
    isNodeInTree_walk ns nodeToFind referenceTypeIds depth
      (frontier.flatMap (isNodeInTree_parents ns referenceTypeIds))

/-- Modelled from the spec: `isNodeInTree(start, root, relationReferenceTypeIds)` walks
breadth-first from `leafNode` towards the roots along references of the supplied relation
types and answers whether `nodeToFind` is reached.  A shortest path visits no stored node
twice, so as many levels as the store has nodes are enough. -/
def isNodeInTree (ns : List UA_Node) (leafNode nodeToFind : UA_NodeId)
    (referenceTypeIds : List UA_NodeId) : Bool :=
  isNodeInTree_walk ns nodeToFind referenceTypeIds ns.length [leafNode]

abbrev UA_BROWSEDIRECTION_FORWARD : Nat := 0
abbrev UA_BROWSEDIRECTION_INVERSE : Nat := 1
abbrev UA_BROWSEDIRECTION_BOTH : Nat := 2

abbrev UA_BROWSERESULTMASK_REFERENCETYPEID : Nat := 1
abbrev UA_BROWSERESULTMASK_ISFORWARD : Nat := 2
abbrev UA_BROWSERESULTMASK_NODECLASS : Nat := 4
abbrev UA_BROWSERESULTMASK_BROWSENAME : Nat := 8
abbrev UA_BROWSERESULTMASK_DISPLAYNAME : Nat := 16
abbrev UA_BROWSERESULTMASK_TYPEDEFINITION : Nat := 32

structure UA_BrowseDescription where
  nodeId : UA_NodeId
  browseDirection : Nat
  referenceTypeId : UA_NodeId
  includeSubtypes : Bool
  nodeClassMask : Nat
  resultMask : Nat
deriving DecidableEq, Repr

/-- The value left by `UA_BrowseDescription_init`. -/
def UA_BrowseDescription_init : UA_BrowseDescription :=
  { nodeId := UA_NODEID_NULL, browseDirection := UA_BROWSEDIRECTION_FORWARD,
    referenceTypeId := UA_NODEID_NULL, includeSubtypes := false, nodeClassMask := 0,
    resultMask := 0 }

structure UA_ReferenceDescription where
  referenceTypeId : UA_NodeId
  isForward : Bool
  nodeId : UA_ExpandedNodeId
  browseName : UA_QualifiedName
  displayName : UA_LocalizedText
  nodeClass : UA_NodeClass
  typeDefinition : UA_ExpandedNodeId
deriving DecidableEq, Repr

structure UA_BrowseResult where
  statusCode : UA_StatusCode
  references : List UA_ReferenceDescription
deriving DecidableEq, Repr

/-- Modelled from the spec: the forward `HasTypeDefinition` target of a node (`getNodeType`),
the null id when there is none. -/
def getNodeType (node : UA_Node) : UA_NodeId :=
  match node.references.find?
      (fun r => !r.isInverse &&
        decide (r.referenceTypeId = UA_NODEID_NUMERIC 0 UA_NS0ID_HASTYPEDEFINITION)) with
  | some r => r.targetId.nodeId
  | none => UA_NODEID_NULL

/-- The filter of the browse service on one reference: direction, then reference type
(with subtypes through `isNodeInTree` over `HasSubtype`). -/
def Service_Browse_relevant (ns : List UA_Node) (descr : UA_BrowseDescription)
    (r : UA_ReferenceNode) : Bool :=
  (if descr.browseDirection = UA_BROWSEDIRECTION_FORWARD then !r.isInverse
   else if descr.browseDirection = UA_BROWSEDIRECTION_INVERSE then r.isInverse
   else true) &&
  (UA_NodeId_isNull descr.referenceTypeId ||
   decide (r.referenceTypeId = descr.referenceTypeId) ||
   (descr.includeSubtypes &&
    isNodeInTree ns r.referenceTypeId descr.referenceTypeId
      [UA_NODEID_NUMERIC 0 UA_NS0ID_HASSUBTYPE]))

/-- The description of one browsed reference; only the requested fields are filled in. -/
def Service_Browse_describe (descr : UA_BrowseDescription) (r : UA_ReferenceNode)
    (target : UA_Node) : UA_ReferenceDescription :=
  { referenceTypeId :=
      if descr.resultMask &&& UA_BROWSERESULTMASK_REFERENCETYPEID ≠ 0 then r.referenceTypeId
      else UA_NODEID_NULL,
    isForward :=
      if descr.resultMask &&& UA_BROWSERESULTMASK_ISFORWARD ≠ 0 then !r.isInverse else false,
    nodeId := UA_ExpandedNodeId_ofNodeId target.nodeId,
    browseName :=
      if descr.resultMask &&& UA_BROWSERESULTMASK_BROWSENAME ≠ 0 then target.browseName
      else { namespaceIndex := 0, name := "" },
    displayName :=
      if descr.resultMask &&& UA_BROWSERESULTMASK_DISPLAYNAME ≠ 0 then target.displayName
      else { locale := "", text := "" },
    nodeClass :=
      if descr.resultMask &&& UA_BROWSERESULTMASK_NODECLASS ≠ 0 then target.nodeClass
      else UA_NODECLASS_UNSPECIFIED,
    typeDefinition :=
      if descr.resultMask &&& UA_BROWSERESULTMASK_TYPEDEFINITION ≠ 0 then
        UA_ExpandedNodeId_ofNodeId (getNodeType target)
      else UA_ExpandedNodeId_ofNodeId UA_NODEID_NULL }

/-- Modelled from the spec: `browseSingle(desc)` walks the references of the source node,
keeps those that pass the filter on reference type (with subtypes), browse direction and
node class of the target, and projects the requested fields.  No limit on the number of
references (`maxrefs = 0`), no continuation point. -/
def Service_Browse_single (server : UA_Server) (descr : UA_BrowseDescription) :
    UA_BrowseResult :=
  match UA_NodeStore_get server.nodestore descr.nodeId with
  | none => { statusCode := UA_STATUSCODE_BADNODEIDUNKNOWN, references := [] }
  | some node =>
    { statusCode := UA_STATUSCODE_GOOD,
      references :=
        (node.references.filter (Service_Browse_relevant server.nodestore descr)).filterMap
          (fun r =>
            match UA_NodeStore_get server.nodestore r.targetId.nodeId with
            | none => none
            | some target =>
              if descr.nodeClassMask ≠ 0 ∧ target.nodeClass &&& descr.nodeClassMask = 0 then
                none
              else some (Service_Browse_describe descr r target)) }

/-- The not yet listed supertypes of `nodeId`: targets of its inverse `HasSubtype`
references, provided the node is of class `nodeClass`. -/
def getTypeHierarchy_step (ns : List UA_Node) (nodeClass : UA_NodeClass)
    (results : List UA_NodeId) (nodeId : UA_NodeId) : List UA_NodeId :=
  match UA_NodeStore_get ns nodeId with
  | none => results
  | some node =>
    if node.nodeClass ≠ nodeClass then results
    else
      node.references.foldl
        (fun acc r =>
          if r.isInverse ∧ r.referenceTypeId = UA_NODEID_NUMERIC 0 UA_NS0ID_HASSUBTYPE ∧
              ¬ r.targetId.nodeId ∈ acc then acc ++ [r.targetId.nodeId]
          else acc)
        results

/-- The work-list loop of `getTypeHierarchy`: entry `idx` of the result is expanded next. -/
def getTypeHierarchy_walk (ns : List UA_Node) (nodeClass : UA_NodeClass) :
    Nat → List UA_NodeId → Nat → List UA_NodeId
  | 0, results, _ => results
  | steps + 1, results, idx =>
    match results.get? idx with
    | none => results
    | some nodeId =>
      getTypeHierarchy_walk ns nodeClass steps
        (getTypeHierarchy_step ns nodeClass results nodeId) (idx + 1)

/-- Modelled from the spec: `getTypeHierarchy` lists the type followed by all its supertypes
up to the root, nearest first.  Every entry but the first is the target of a stored
reference, which bounds the number of steps. -/
def getTypeHierarchy (ns : List UA_Node) (typenode : UA_Node) : List UA_NodeId :=
  getTypeHierarchy_walk ns typenode.nodeClass
    ((ns.map (fun n => n.references.length)).sum + 1) [typenode.nodeId] 0

/-! ## Add and delete references -/

structure UA_AddReferencesItem where
  sourceNodeId : UA_NodeId
  referenceTypeId : UA_NodeId
  isForward : Bool
  targetServerUri : String
  targetNodeId : UA_ExpandedNodeId
  targetNodeClass : UA_NodeClass
deriving DecidableEq, Repr

/-- The value left by `UA_AddReferencesItem_init`. -/
def UA_AddReferencesItem_init : UA_AddReferencesItem :=
  { sourceNodeId := UA_NODEID_NULL, referenceTypeId := UA_NODEID_NULL, isForward := false,
    targetServerUri := "", targetNodeId := UA_ExpandedNodeId_ofNodeId UA_NODEID_NULL,
    targetNodeClass := UA_NODECLASS_UNSPECIFIED }

structure UA_DeleteReferencesItem where
  sourceNodeId : UA_NodeId
  referenceTypeId : UA_NodeId
  isForward : Bool
  targetNodeId : UA_ExpandedNodeId
  deleteBidirectional : Bool
deriving DecidableEq, Repr

/-- The value left by `UA_DeleteReferencesItem_init`. -/
def UA_DeleteReferencesItem_init : UA_DeleteReferencesItem :=
  { sourceNodeId := UA_NODEID_NULL, referenceTypeId := UA_NODEID_NULL, isForward := false,
    targetNodeId := UA_ExpandedNodeId_ofNodeId UA_NODEID_NULL, deleteBidirectional := false }

/-- Adds a one-way reference to the local nodestore: the new entry goes to position
`referencesSize`. -/
def addOneWayReference (item : UA_AddReferencesItem) (node : UA_Node) :
    UA_StatusCode × UA_Node :=
  (UA_STATUSCODE_GOOD,
   { node with
     references := node.references ++
       [{ referenceTypeId := item.referenceTypeId, targetId := item.targetNodeId,
          isInverse := !item.isForward }] })

/-- The range of `size_t`. -/
abbrev UA_SIZE_MODULUS : Nat := 2 ^ 64

/-- The step `--i` on a `size_t`, wrapping below zero. -/
def size_t_decrement (i : Nat) : Nat := ((UA_SIZE_MODULUS - 1) + i) % UA_SIZE_MODULUS

/-- The scan of `deleteOneWayReference`, from index `i` downwards; the result is the index
of the entry to delete.  `steps` bounds the number of iterations. -/
def deleteOneWayReference_scan (references : List UA_ReferenceNode)
    (item : UA_DeleteReferencesItem) : Nat → Nat → Option Nat
  | 0, _ => none
  | steps + 1, i =>
    if i > references.length then none
    else
      match references.get? i with
      | none => none
      | some r =>
        if ¬ UA_NodeId_equal item.targetNodeId.nodeId r.targetId.nodeId then
          deleteOneWayReference_scan references item steps (size_t_decrement i)
        else if ¬ UA_NodeId_equal item.referenceTypeId r.referenceTypeId then
          deleteOneWayReference_scan references item steps (size_t_decrement i)
        else if item.isForward = r.isInverse then
          deleteOneWayReference_scan references item steps (size_t_decrement i)
        else some i

/-- Deletes the last reference that matches target, reference type and direction; the last
entry is moved to the freed position. -/
def deleteOneWayReference (item : UA_DeleteReferencesItem) (node : UA_Node) :
    UA_StatusCode × UA_Node :=
  match deleteOneWayReference_scan node.references item (node.references.length + 1)
      (size_t_decrement node.references.length) with
  | none => (UA_STATUSCODE_UNCERTAINREFERENCENOTDELETED, node)
  | some i =>
    match node.references.getLast? with
    | none => (UA_STATUSCODE_UNCERTAINREFERENCENOTDELETED, node)
    | some last =>
      (UA_STATUSCODE_GOOD, { node with references := (node.references.set i last).dropLast })

/-- The request for the second direction in `Service_AddReferences_single`. -/
def Service_AddReferences_secondItem (item : UA_AddReferencesItem) : UA_AddReferencesItem :=
  { UA_AddReferencesItem_init with
    sourceNodeId := item.targetNodeId.nodeId
    referenceTypeId := item.referenceTypeId
    isForward := !item.isForward
    targetNodeId := UA_ExpandedNodeId_ofNodeId item.sourceNodeId }

/-- The request that takes the first direction back in `Service_AddReferences_single`. -/
def Service_AddReferences_deleteItem (item : UA_AddReferencesItem) : UA_DeleteReferencesItem :=
  { sourceNodeId := item.sourceNodeId
    referenceTypeId := item.referenceTypeId
    isForward := item.isForward
    targetNodeId := item.targetNodeId
    deleteBidirectional := false }

def Service_AddReferences_single (server : UA_Server) (item : UA_AddReferencesItem) :
    UA_StatusCode × UA_Server :=
  /- Currently no expandednodeids are allowed -/
  if item.targetServerUri.length > 0 then (UA_STATUSCODE_BADNOTIMPLEMENTED, server)
  else
    /- Add the first direction -/
    let first := UA_Server_editNode server item.sourceNodeId (addOneWayReference item)
    if first.1 ≠ UA_STATUSCODE_GOOD then first
    else
      /- Add the second direction -/
      let secondItem := Service_AddReferences_secondItem item
      let second :=
        UA_Server_editNode first.2 secondItem.sourceNodeId (addOneWayReference secondItem)
      /- remove reference if the second direction failed -/
      if second.1 ≠ UA_STATUSCODE_GOOD then
        (second.1,
         (UA_Server_editNode second.2 item.sourceNodeId
            (deleteOneWayReference (Service_AddReferences_deleteItem item))).2)
      else second

/-- The request for the second direction in `Service_DeleteReferences_single`. -/
def Service_DeleteReferences_secondItem (item : UA_DeleteReferencesItem) :
    UA_DeleteReferencesItem :=
  { UA_DeleteReferencesItem_init with
    isForward := !item.isForward
    sourceNodeId := item.targetNodeId.nodeId
    targetNodeId := UA_ExpandedNodeId_ofNodeId item.sourceNodeId }

def Service_DeleteReferences_single (server : UA_Server) (item : UA_DeleteReferencesItem) :
    UA_StatusCode × UA_Server :=
  let first := UA_Server_editNode server item.sourceNodeId (deleteOneWayReference item)
  if first.1 ≠ UA_STATUSCODE_GOOD then first
  else if ¬ item.deleteBidirectional ∨ item.targetNodeId.serverIndex ≠ 0 then first
  else
    let secondItem := Service_DeleteReferences_secondItem item
    UA_Server_editNode first.2 secondItem.sourceNodeId (deleteOneWayReference secondItem)

/-! ## Delete nodes -/

/-- The destructor loop of `Service_DeleteNodes_single` over the browse result: every listed
object type that is in the store and has a destructor gets it called with the id and the
instance handle of the object. -/
def Service_DeleteNodes_destructors (server : UA_Server) (nodeId : UA_NodeId) (handle : Nat) :
    List UA_ReferenceDescription → UA_Server
  | [] => server
  | rd :: rest =>
    match UA_NodeStore_get server.nodestore rd.nodeId.nodeId with
    | none => Service_DeleteNodes_destructors server nodeId handle rest
    | some typenode =>
      if typenode.nodeClass ≠ UA_NODECLASS_OBJECTTYPE then
        Service_DeleteNodes_destructors server nodeId handle rest
      else
        match typenode.lifecycleManagement.destructor with
        | none => Service_DeleteNodes_destructors server nodeId handle rest
        | some fn =>
          Service_DeleteNodes_destructors
            { server with calls := server.calls ++ [UA_CallbackCall.destructor fn nodeId handle] }
            nodeId handle rest

/-- One iteration `i` of the reference loop of `Service_DeleteNodes_single`.  The node is the
stored one, so the loop condition `i < node->referencesSize` and the entry are read from the
store as the earlier iterations left it. -/
def Service_DeleteNodes_reference (server : UA_Server) (nodeId : UA_NodeId) (i : Nat) :
    UA_Server :=
  match UA_NodeStore_get server.nodestore nodeId with
  | none => server
  | some node =>
    match node.references.get? i with
    | none => server
    | some r =>
      let item : UA_DeleteReferencesItem :=
        { UA_DeleteReferencesItem_init with
          isForward := r.isInverse
          sourceNodeId := r.targetId.nodeId
          targetNodeId := UA_ExpandedNodeId_ofNodeId node.nodeId }
      (UA_Server_editNode server r.targetId.nodeId (deleteOneWayReference item)).2

/-- Deletes a node.  The reference loop runs `i = 0, 1, ...` while `i < referencesSize`; an
edit never lengthens a reference list, so the indices below the size at entry cover it. -/
def Service_DeleteNodes_single (server : UA_Server) (nodeId : UA_NodeId)
    (deleteReferences : Bool) : UA_StatusCode × UA_Server :=
  match UA_NodeStore_get server.nodestore nodeId with
  | none => (UA_STATUSCODE_BADNODEIDUNKNOWN, server)
  | some node =>
    /- destroy an object before removing it -/
    let destroyed :=
      if node.nodeClass = UA_NODECLASS_OBJECT then
        /- find the object type(s) -/
        let bd : UA_BrowseDescription :=
          { UA_BrowseDescription_init with
            browseDirection := UA_BROWSEDIRECTION_INVERSE
            nodeId := nodeId
            referenceTypeId := UA_NODEID_NUMERIC 0 UA_NS0ID_HASSUBTYPE
            includeSubtypes := true
            nodeClassMask := UA_NODECLASS_OBJECTTYPE }
        Service_DeleteNodes_destructors server nodeId node.instanceHandle
          (Service_Browse_single server bd).references
      else server
    /- remove references -/
    let unlinked :=
      if deleteReferences = true then
        (List.range node.references.length).foldl
          (fun srv i => Service_DeleteNodes_reference srv nodeId i) destroyed
      else destroyed
    let removed := UA_NodeStore_remove unlinked.nodestore nodeId
    (removed.1, { unlinked with nodestore := removed.2 })

/-! ## Consistency checks -/

/-- Check if the requested parent node exists, has the right node class and is referenced
with an allowed (hierarchical) reference type.  For "type" nodes, only hasSubType references
are allowed. -/
def checkParentReference (server : UA_Server) (nodeClass : UA_NodeClass)
    (parentNodeId referenceTypeId : UA_NodeId) : UA_StatusCode :=
  /- See if the parent exists -/
  match UA_NodeStore_get server.nodestore parentNodeId with
  | none => UA_STATUSCODE_BADPARENTNODEIDINVALID
  | some parent =>
    /- Check the referencetype exists -/
    match UA_NodeStore_get server.nodestore referenceTypeId with
    | none => UA_STATUSCODE_BADREFERENCETYPEIDINVALID
    | some referenceType =>
      /- Check if the referencetype is a reference type node -/
      if referenceType.nodeClass ≠ UA_NODECLASS_REFERENCETYPE then
        UA_STATUSCODE_BADREFERENCETYPEIDINVALID
      /- Check that the reference type is not abstract -/
      else if referenceType.isAbstract = true then UA_STATUSCODE_BADREFERENCENOTALLOWED
      /- Check hassubtype relation for type nodes -/
      else if nodeClass = UA_NODECLASS_DATATYPE ∨ nodeClass = UA_NODECLASS_VARIABLETYPE ∨
          nodeClass = UA_NODECLASS_OBJECTTYPE ∨ nodeClass = UA_NODECLASS_REFERENCETYPE then
        /- type needs hassubtype reference to the supertype -/
        if ¬ UA_NodeId_equal referenceTypeId (UA_NODEID_NUMERIC 0 UA_NS0ID_HASSUBTYPE) then
          UA_STATUSCODE_BADREFERENCENOTALLOWED
        /- supertype needs to be of the same node type -/
        else if parent.nodeClass ≠ nodeClass then UA_STATUSCODE_BADPARENTNODEIDINVALID
        else UA_STATUSCODE_GOOD
      /- Test if the referencetype is hierarchical -/
      else if ¬ isNodeInTree server.nodestore referenceTypeId
          (UA_NODEID_NUMERIC 0 UA_NS0ID_HIERARCHICALREFERENCES)
          [UA_NODEID_NUMERIC 0 UA_NS0ID_HASSUBTYPE] then
        UA_STATUSCODE_BADREFERENCETYPEIDINVALID
      else UA_STATUSCODE_GOOD

/-- Modelled from the spec: `compatibleDataType`: the node's data type must be a subtype of
the type's data type. -/
def compatibleDataType (server : UA_Server) (dataType constraintDataType : UA_NodeId) : Bool :=
  isNodeInTree server.nodestore dataType constraintDataType
    [UA_NODEID_NUMERIC 0 UA_NS0ID_HASSUBTYPE]

/-- Modelled from the spec: `readValueAttribute`: the stored value, or what the data source
returns; a failure of the data source surfaces. -/
def readValueAttribute (server : UA_Server) (node : UA_Node) : UA_StatusCode × UA_DataValue :=
  match node.valueSource with
  | UA_ValueSource.data => (UA_STATUSCODE_GOOD, node.value)
  | UA_ValueSource.dataSource =>
    match node.dataSource with
    | none => (UA_STATUSCODE_BADUNEXPECTEDERROR, UA_DataValue_init)
    | some fn => server.callbacks.readDataSource fn node.nodeId

/-- Modelled from the spec: `compatibleValueRankArrayDimensions(valueRank, arrayDims)`:
scalar (rank -1) goes with no dimensions; OneOrMoreDimensions (rank 0) accepts any number of
dimensions from 1; OneDimension (rank 1) requires one dimension (not more than one, and, as
the scenario "rank mismatch" has it, not none); a rank from 2 requires as many dimensions as
the rank.  The spec puts no constraint on the ranks below -1. -/
def compatibleValueRankArrayDimensions (valueRank : Int) (arrayDimensionsSize : Nat) :
    UA_StatusCode :=
  if valueRank = -1 then
    if arrayDimensionsSize = 0 then UA_STATUSCODE_GOOD else UA_STATUSCODE_BADTYPEMISMATCH
  else if valueRank = 0 then
    if 1 ≤ arrayDimensionsSize then UA_STATUSCODE_GOOD else UA_STATUSCODE_BADTYPEMISMATCH
  else if valueRank = 1 then
    if arrayDimensionsSize = 1 then UA_STATUSCODE_GOOD else UA_STATUSCODE_BADTYPEMISMATCH
  else if 2 ≤ valueRank then
    if (arrayDimensionsSize : Int) = valueRank then UA_STATUSCODE_GOOD
    else UA_STATUSCODE_BADTYPEMISMATCH
  else UA_STATUSCODE_GOOD

/-- Modelled from the spec: `compatibleValueRanks(valueRank, constraintValueRank)`: the rank
of the type, if fixed (at least 0), must be matched; the wildcard ranks of the type widen. -/
def compatibleValueRanks (valueRank constraintValueRank : Int) : UA_StatusCode :=
  if 0 ≤ constraintValueRank then
    if valueRank = constraintValueRank then UA_STATUSCODE_GOOD
    else UA_STATUSCODE_BADTYPEMISMATCH
  else UA_STATUSCODE_GOOD

/-- The dimensions of the node against those of the type, entry by entry. -/
def compatibleArrayDimensions_entries : List Nat → List Nat → Bool
  | _, [] => true
  | [], c :: constraint => c == 0 && compatibleArrayDimensions_entries [] constraint
  | d :: dims, c :: constraint =>
    (c == 0 || d == c) && compatibleArrayDimensions_entries dims constraint

/-- Modelled from the spec: `compatibleArrayDimensions`: where the type pins a dimension to
non-zero, the node must pin the same; zeros are wildcards. -/
def compatibleArrayDimensions (arrayDimensions constraintArrayDimensions : List Nat) :
    UA_StatusCode :=
  if compatibleArrayDimensions_entries arrayDimensions constraintArrayDimensions then
    UA_STATUSCODE_GOOD
  else UA_STATUSCODE_BADTYPEMISMATCH

/-- The edit behind `UA_Server_writeValueRank`. -/
def writeValueRankAttribute (valueRank : Int) (node : UA_Node) : UA_StatusCode × UA_Node :=
  (UA_STATUSCODE_GOOD, { node with valueRank := valueRank })

/-- Modelled from the spec: `UA_Server_writeValueRank` persists the value rank on the stored
node. -/
def UA_Server_writeValueRank (server : UA_Server) (nodeId : UA_NodeId) (valueRank : Int) :
    UA_StatusCode × UA_Server :=
  UA_Server_editNode server nodeId (writeValueRankAttribute valueRank)

/-- The number of array dimensions `typeCheckVariableNode` works with: the
`arrayDimensionsSize` of the node; no array dimensions on an array implies one dimension. -/
def typeCheckVariableNode_arrayDims (node : UA_Node) (value : UA_DataValue) : Nat :=
  if node.arrayDimensions.length = 0 ∧ value.hasValue = true ∧
      value.value.type.isSome = true ∧ UA_Variant_isScalar value.value = false then 1
  else node.arrayDimensions.length

/-- Check the consistency of the variable (or variable type) attributes data type, value
rank, array dimensions internally and against the parent variable type. -/
def typeCheckVariableNode (server : UA_Server) (node : UA_Node) (typeDef : UA_NodeId) :
    UA_StatusCode × UA_Server :=
  /- Omit some type checks for ns0 generation -/
  if UA_NodeId_equal node.nodeId (UA_NODEID_NUMERIC 0 UA_NS0ID_BASEDATAVARIABLETYPE) then
    (UA_STATUSCODE_GOOD, server)
  else
    /- Get the variable type -/
    match UA_NodeStore_get server.nodestore typeDef with
    | none => (UA_STATUSCODE_BADTYPEDEFINITIONINVALID, server)
    | some vt =>
      if vt.nodeClass ≠ UA_NODECLASS_VARIABLETYPE then
        (UA_STATUSCODE_BADTYPEDEFINITIONINVALID, server)
      else if node.nodeClass = UA_NODECLASS_VARIABLE ∧ vt.isAbstract = true then
        (UA_STATUSCODE_BADTYPEDEFINITIONINVALID, server)
      /- Check the datatype against the vt -/
      else if ¬ compatibleDataType server node.dataType vt.dataType then
        (UA_STATUSCODE_BADTYPEMISMATCH, server)
      else
        /- We need the value for some checks. Might come from a datasource. -/
        let read := readValueAttribute server node
        if read.1 ≠ UA_STATUSCODE_GOOD then (read.1, server)
        else
          let value := read.2
          /- Get the array dimensions -/
          let arrayDims : Nat := typeCheckVariableNode_arrayDims node value
          /- Check valueRank against array dimensions -/
          if compatibleValueRankArrayDimensions node.valueRank arrayDims ≠ UA_STATUSCODE_GOOD then
            (compatibleValueRankArrayDimensions node.valueRank arrayDims, server)
          /- Check valueRank against the vt -/
          else if compatibleValueRanks node.valueRank vt.valueRank ≠ UA_STATUSCODE_GOOD then
            (compatibleValueRanks node.valueRank vt.valueRank, server)
          /- Check array dimensions against the vt -/
          else if compatibleArrayDimensions node.arrayDimensions vt.arrayDimensions ≠
              UA_STATUSCODE_GOOD then
            (compatibleArrayDimensions node.arrayDimensions vt.arrayDimensions, server)
          else
            /- Set a sane valueRank (the most permissive) -/
            let written :=
              if node.valueRank = 0 ∧ value.hasValue = true ∧
                  UA_Variant_isScalar value.value = false then
                (UA_Server_writeValueRank server node.nodeId (-2)).2
              else server
            /- the node is the stored one: its members are read as the write left them -/
            let stored := (UA_NodeStore_get written.nodestore node.nodeId).getD node
            /- This internally converts the value to a valid type if possible -/
            if value.hasValue = true then
              (server.callbacks.typeCheckValue written.nodestore stored.dataType
                 stored.valueRank stored.arrayDimensions value.value, written)
            else (UA_STATUSCODE_GOOD, written)

/-! ## Instantiate node -/

/-- The edit that stores the constructor result on an object without a handle. -/
def setObjectInstanceHandle (constructor : UA_NodeId → Nat) (node : UA_Node) :
    UA_StatusCode × UA_Node :=
  if node.nodeClass ≠ UA_NODECLASS_OBJECT then (UA_STATUSCODE_BADNODECLASSINVALID, node)
  else if node.instanceHandle = 0 then
    (UA_STATUSCODE_GOOD, { node with instanceHandle := constructor node.nodeId })
  else (UA_STATUSCODE_GOOD, node)

/-- The loop `for(...) retval |= f(...)` over the elements of a list; `none` when one of
the calls exhausts the call-depth budget. -/
def UA_statusLoop {α : Type} (f : UA_Server → α → Option (UA_StatusCode × UA_Server)) :
    List α → UA_StatusCode → UA_Server → Option (UA_StatusCode × UA_Server)
  | [], retval, server => some (retval, server)
  | x :: rest, retval, server =>
    match f server x with
    | none => none
    | some r => UA_statusLoop f rest (retval ||| r.1) r.2

/-- Search for an instance of "browseName" in node searchInstance.  Used during
copyChildNodes to find overwritable/mergable nodes.  The second component is the id found,
the null id when no aggregated child carries the name. -/
def instanceFindAggregateByBrowsename (server : UA_Server) (searchInstance : UA_NodeId)
    (browseName : UA_QualifiedName) : UA_StatusCode × UA_NodeId :=
  let bd : UA_BrowseDescription :=
    { UA_BrowseDescription_init with
      nodeId := searchInstance
      referenceTypeId := UA_NODEID_NUMERIC 0 UA_NS0ID_AGGREGATES
      includeSubtypes := true
      browseDirection := UA_BROWSEDIRECTION_FORWARD
      nodeClassMask := UA_NODECLASS_OBJECT ||| UA_NODECLASS_VARIABLE ||| UA_NODECLASS_METHOD
      resultMask := UA_BROWSERESULTMASK_NODECLASS ||| UA_BROWSERESULTMASK_BROWSENAME }
  let br := Service_Browse_single server bd
  if br.statusCode ≠ UA_STATUSCODE_GOOD then (br.statusCode, UA_NODEID_NULL)
  else
    match br.references.find?
        (fun rd => rd.browseName.namespaceIndex == browseName.namespaceIndex &&
          rd.browseName.name == browseName.name) with
    | some rd => (UA_STATUSCODE_GOOD, rd.nodeId.nodeId)
    | none => (UA_STATUSCODE_GOOD, UA_NODEID_NULL)

/-- The browse request of `copyChildNodes` for the children of the source. -/
def copyChildNodes_browse (sourceNodeId : UA_NodeId) : UA_BrowseDescription :=
  { UA_BrowseDescription_init with
    nodeId := sourceNodeId
    referenceTypeId := UA_NODEID_NUMERIC 0 UA_NS0ID_AGGREGATES
    includeSubtypes := true
    browseDirection := UA_BROWSEDIRECTION_FORWARD
    nodeClassMask := UA_NODECLASS_OBJECT ||| UA_NODECLASS_VARIABLE ||| UA_NODECLASS_METHOD
    resultMask := UA_BROWSERESULTMASK_REFERENCETYPEID ||| UA_BROWSERESULTMASK_NODECLASS |||
      UA_BROWSERESULTMASK_BROWSENAME }

/-- The exit `cleanup:` of `Service_AddNode_finish`. -/
def Service_AddNode_finish_cleanup (server : UA_Server) (nodeId : UA_NodeId)
    (retval : UA_StatusCode) : UA_StatusCode × UA_Server :=
  (retval, (Service_DeleteNodes_single server nodeId true).2)

/-- The reference type `Service_AddNode_finish` works with: `HasSubtype` for type nodes
(use the typeDefinition as parent for type-nodes), the requested one otherwise. -/
def Service_AddNode_finish_referenceTypeId (node : UA_Node) (referenceTypeId : UA_NodeId) :
    UA_NodeId :=
  if node.nodeClass = UA_NODECLASS_VARIABLETYPE ∨ node.nodeClass = UA_NODECLASS_OBJECTTYPE ∨
      node.nodeClass = UA_NODECLASS_REFERENCETYPE ∨ node.nodeClass = UA_NODECLASS_DATATYPE then
    UA_NODEID_NUMERIC 0 UA_NS0ID_HASSUBTYPE
  else referenceTypeId

/-- The type definition `Service_AddNode_finish` works with: the parent for type nodes; for
variables and objects an empty typeDefinition is replaced with the most permissive
default. -/
def Service_AddNode_finish_typeDefinition (node : UA_Node)
    (parentNodeId typeDefinition : UA_NodeId) : UA_NodeId :=
  let typeDefinition1 : UA_NodeId :=
    if node.nodeClass = UA_NODECLASS_VARIABLETYPE ∨ node.nodeClass = UA_NODECLASS_OBJECTTYPE ∨
        node.nodeClass = UA_NODECLASS_REFERENCETYPE ∨ node.nodeClass = UA_NODECLASS_DATATYPE then
      parentNodeId
    else typeDefinition
  if (node.nodeClass = UA_NODECLASS_VARIABLE ∨ node.nodeClass = UA_NODECLASS_OBJECT) ∧
      UA_NodeId_isNull typeDefinition1 = true then
    if node.nodeClass = UA_NODECLASS_VARIABLE then
      UA_NODEID_NUMERIC 0 UA_NS0ID_BASEDATAVARIABLETYPE
    else UA_NODEID_NUMERIC 0 UA_NS0ID_BASEOBJECTTYPE
  else typeDefinition1

/-- Check parent reference. Objects may have no parent. -/
def Service_AddNode_finish_checkParent (server : UA_Server) (node : UA_Node)
    (parentNodeId referenceTypeId : UA_NodeId) : UA_StatusCode :=
  if node.nodeClass ≠ UA_NODECLASS_OBJECT ∨ UA_NodeId_isNull parentNodeId = false ∨
      UA_NodeId_isNull referenceTypeId = false then
    checkParentReference server node.nodeClass parentNodeId referenceTypeId
  else UA_STATUSCODE_GOOD

/-- Type check node: variables and variable types only. -/
def Service_AddNode_finish_typeCheck (server : UA_Server) (node : UA_Node)
    (typeDefinition : UA_NodeId) : UA_StatusCode × UA_Server :=
  if node.nodeClass = UA_NODECLASS_VARIABLE ∨ node.nodeClass = UA_NODECLASS_VARIABLETYPE then
    typeCheckVariableNode server node typeDefinition
  else (UA_STATUSCODE_GOOD, server)

/-- The request `ref_item` of `Service_AddNode_finish` for the reference to the parent. -/
def Service_AddNode_finish_parentItem (node : UA_Node) (parentNodeId referenceTypeId : UA_NodeId) :
    UA_AddReferencesItem :=
  { UA_AddReferencesItem_init with
    sourceNodeId := node.nodeId
    referenceTypeId := referenceTypeId
    isForward := false
    targetNodeId := UA_ExpandedNodeId_ofNodeId parentNodeId }

/-- Add parent reference, unless the parent id is null. -/
def Service_AddNode_finish_addParent (server : UA_Server) (node : UA_Node)
    (parentNodeId referenceTypeId : UA_NodeId) : UA_StatusCode × UA_Server :=
  if UA_NodeId_isNull parentNodeId = false then
    Service_AddReferences_single server
      (Service_AddNode_finish_parentItem node parentNodeId referenceTypeId)
  else (UA_STATUSCODE_GOOD, server)

/-- See if the type has the correct node class (and is not abstract). -/
def instantiateNode_typeOk (nodeClass : UA_NodeClass) (typenode : UA_Node) : Bool :=
  if nodeClass = UA_NODECLASS_VARIABLE then
    !decide (typenode.nodeClass ≠ UA_NODECLASS_VARIABLETYPE ∨ typenode.isAbstract = true)
  else
    !decide (typenode.nodeClass ≠ UA_NODECLASS_OBJECTTYPE ∨ typenode.isAbstract = true)

/-- Call the object constructor: only the type node itself is asked for one. -/
def instantiateNode_construct (server : UA_Server) (nodeId : UA_NodeId) (typenode : UA_Node) :
    UA_Server :=
  if typenode.nodeClass = UA_NODECLASS_OBJECTTYPE then
    match typenode.lifecycleManagement.constructor with
    | some fn =>
      (UA_Server_editNode server nodeId
        (setObjectInstanceHandle (server.callbacks.construct fn))).2
    | none => server
  else server

/-- The request `addref` of `instantiateNode` for the hasType reference. -/
def instantiateNode_addref (nodeId typeId : UA_NodeId) : UA_AddReferencesItem :=
  { UA_AddReferencesItem_init with
    sourceNodeId := nodeId
    referenceTypeId := UA_NODEID_NUMERIC 0 UA_NS0ID_HASTYPEDEFINITION
    isForward := true
    targetNodeId := UA_ExpandedNodeId_ofNodeId typeId }

/-- The end of `instantiateNode`, once the members of the type and supertypes are copied:
call the object constructor, add a hasType reference, call the custom callback. -/
def instantiateNode_complete (server : UA_Server) (nodeId : UA_NodeId) (typenode : UA_Node)
    (typeId : UA_NodeId) (instantiationCallback : Option UA_InstantiationCallback) :
    UA_StatusCode × UA_Server :=
  let added := Service_AddReferences_single (instantiateNode_construct server nodeId typenode)
    (instantiateNode_addref nodeId typeId)
  match instantiationCallback with
  | some cb =>
    if added.1 = UA_STATUSCODE_GOOD then
      (added.1,
       { added.2 with
         calls := added.2.calls ++
           [UA_CallbackCall.instantiation cb.method nodeId typeId cb.handle] })
    else added
  | none => added

mutual

def Service_AddNode_finish : Nat → UA_Server → UA_NodeId → UA_NodeId → UA_NodeId → UA_NodeId →
    Option UA_InstantiationCallback → Option (UA_StatusCode × UA_Server)
  | 0, _, _, _, _, _, _ => none
  | budget + 1, server, nodeId, parentNodeId, referenceTypeId0, typeDefinition0,
      instantiationCallback =>
    /- Get the node -/
    match UA_NodeStore_get server.nodestore nodeId with
    | none => some (UA_STATUSCODE_BADNODEIDUNKNOWN, server)
    | some node =>
      let referenceTypeId := Service_AddNode_finish_referenceTypeId node referenceTypeId0
      let typeDefinition :=
        Service_AddNode_finish_typeDefinition node parentNodeId typeDefinition0
      /- Check parent reference. Objects may have no parent. -/
      let checked := Service_AddNode_finish_checkParent server node parentNodeId referenceTypeId
      if checked ≠ UA_STATUSCODE_GOOD then
        some (Service_AddNode_finish_cleanup server nodeId checked)
      else
        /- Type check node -/
        let typed := Service_AddNode_finish_typeCheck server node typeDefinition
        if typed.1 ≠ UA_STATUSCODE_GOOD then
          some (Service_AddNode_finish_cleanup typed.2 nodeId typed.1)
        else
          /- Add parent reference -/
          let linked := Service_AddNode_finish_addParent typed.2 node parentNodeId referenceTypeId
          if linked.1 ≠ UA_STATUSCODE_GOOD then
            some (Service_AddNode_finish_cleanup linked.2 nodeId linked.1)
          else
            /- Instantiate node -/
            match instantiateNode budget linked.2 nodeId node.nodeClass typeDefinition
                instantiationCallback with
            | none => none
            | some instantiated =>
              if instantiated.1 ≠ UA_STATUSCODE_GOOD then
                some (Service_AddNode_finish_cleanup instantiated.2 nodeId instantiated.1)
              else some (UA_STATUSCODE_GOOD, instantiated.2)

def instantiateNode : Nat → UA_Server → UA_NodeId → UA_NodeClass → UA_NodeId →
    Option UA_InstantiationCallback → Option (UA_StatusCode × UA_Server)
  | 0, _, _, _, _, _ => none
  | budget + 1, server, nodeId, nodeClass, typeId, instantiationCallback =>
    /- Currently, only variables and objects are instantiated -/
    if nodeClass ≠ UA_NODECLASS_VARIABLE ∧ nodeClass ≠ UA_NODECLASS_OBJECT then
      some (UA_STATUSCODE_GOOD, server)
    else
      /- Get the type node -/
      match UA_NodeStore_get server.nodestore typeId with
      | none => some (UA_STATUSCODE_BADTYPEDEFINITIONINVALID, server)
      | some typenode =>
        /- See if the type has the correct node class -/
        if instantiateNode_typeOk nodeClass typenode = false then
          some (UA_STATUSCODE_BADTYPEDEFINITIONINVALID, server)
        else
          /- Get the hierarchy of the type and all its supertypes;
             copy members of the type and supertypes -/
          match UA_statusLoop
              (fun srv sourceNodeId =>
                copyChildNodes budget srv sourceNodeId nodeId instantiationCallback)
              (getTypeHierarchy server.nodestore typenode) UA_STATUSCODE_GOOD server with
          | none => none
          | some copied =>
            if copied.1 ≠ UA_STATUSCODE_GOOD then some copied
            else some (instantiateNode_complete copied.2 nodeId typenode typeId
              instantiationCallback)

def copyChildNode : Nat → UA_Server → UA_NodeId → UA_ReferenceDescription →
    Option UA_InstantiationCallback → Option (UA_StatusCode × UA_Server)
  | 0, _, _, _, _ => none
  | budget + 1, server, destinationNodeId, rd, instantiationCallback =>
    let found := instanceFindAggregateByBrowsename server destinationNodeId rd.browseName
    if found.1 ≠ UA_STATUSCODE_GOOD then some (found.1, server)
    /- Have a child with that browseName. Try to deep-copy missing members. -/
    else if UA_NodeId_isNull found.2 = false then
      if rd.nodeClass = UA_NODECLASS_VARIABLE ∨ rd.nodeClass = UA_NODECLASS_OBJECT then
        copyChildNodes budget server rd.nodeId.nodeId found.2 instantiationCallback
      else some (UA_STATUSCODE_GOOD, server)
    /- No existing child with that browsename. Create it. -/
    else if rd.nodeClass = UA_NODECLASS_METHOD then
      /- Add a reference to the method in the objecttype -/
      some (Service_AddReferences_single server
        { UA_AddReferencesItem_init with
          sourceNodeId := destinationNodeId
          referenceTypeId := rd.referenceTypeId
          isForward := true
          targetNodeId := rd.nodeId
          targetNodeClass := UA_NODECLASS_METHOD })
    else if rd.nodeClass = UA_NODECLASS_VARIABLE ∨ rd.nodeClass = UA_NODECLASS_OBJECT then
      /- Copy the node -/
      match UA_NodeStore_getCopy server.nodestore rd.nodeId.nodeId with
      | none => some (UA_STATUSCODE_BADNODEIDINVALID, server)
      | some node =>
        /- Get the type; reset the NodeId (random numeric id will be assigned in the
           nodestore); add the node to the nodestore -/
        let inserted := UA_NodeStore_insert server.nodestore
          { node with nodeId := UA_NODEID_NUMERIC destinationNodeId.namespaceIndex 0 }
        if inserted.1 = UA_STATUSCODE_GOOD then
          Service_AddNode_finish budget { server with nodestore := inserted.2.1 } inserted.2.2
            destinationNodeId rd.referenceTypeId (getNodeType node) instantiationCallback
        else some (inserted.1, server)
    else some (UA_STATUSCODE_GOOD, server)

def copyChildNodes : Nat → UA_Server → UA_NodeId → UA_NodeId →
    Option UA_InstantiationCallback → Option (UA_StatusCode × UA_Server)
  | 0, _, _, _, _ => none
  | budget + 1, server, sourceNodeId, destinationNodeId, instantiationCallback =>
    /- Browse to get all children of the source -/
    let br := Service_Browse_single server (copyChildNodes_browse sourceNodeId)
    if br.statusCode ≠ UA_STATUSCODE_GOOD then some (br.statusCode, server)
    else
      /- Copy all children from source to destination -/
      UA_statusLoop
        (fun srv rd => copyChildNode budget srv destinationNodeId rd instantiationCallback)
        br.references UA_STATUSCODE_GOOD server

end

/-! ## Create nodes from attribute description -/

/-- The type descriptor an extension object points to (an entry of `UA_TYPES`). -/
inductive UA_DataTypeTag where
  | objectAttributes
  | variableAttributes
  | methodAttributes
  | objectTypeAttributes
  | variableTypeAttributes
  | referenceTypeAttributes
  | dataTypeAttributes
  | viewAttributes
  | other (index : Nat)
deriving DecidableEq, Repr

/-- The members of the decoded attribute structures; all of them start with the members of
`UA_NodeAttributes`. -/
structure UA_NodeAttributes where
  displayName : UA_LocalizedText
  description : UA_LocalizedText
  writeMask : Nat
  eventNotifier : Nat
  value : UA_Variant
  dataType : UA_NodeId
  valueRank : Int
  arrayDimensions : List Nat
  accessLevel : Nat
  historizing : Bool
  minimumSamplingInterval : Nat
  isAbstract : Bool
  symmetric : Bool
  inverseName : UA_LocalizedText
  containsNoLoops : Bool
  executable : Bool
deriving DecidableEq, Repr

abbrev UA_EXTENSIONOBJECT_ENCODED_NOBODY : Nat := 0
abbrev UA_EXTENSIONOBJECT_ENCODED_BYTESTRING : Nat := 1
abbrev UA_EXTENSIONOBJECT_ENCODED_XML : Nat := 2
abbrev UA_EXTENSIONOBJECT_DECODED : Nat := 3
abbrev UA_EXTENSIONOBJECT_DECODED_NODELETE : Nat := 4

/-- An extension object holding node attributes: `decodedType` is `content.decoded.type`
(`none` for a null pointer), `decodedData` is what `content.decoded.data` points to. -/
structure UA_ExtensionObject where
  encoding : Nat
  decodedType : Option UA_DataTypeTag
  decodedData : UA_NodeAttributes
deriving DecidableEq, Repr

structure UA_AddNodesItem where
  parentNodeId : UA_ExpandedNodeId
  referenceTypeId : UA_NodeId
  requestedNewNodeId : UA_ExpandedNodeId
  browseName : UA_QualifiedName
  nodeClass : UA_NodeClass
  nodeAttributes : UA_ExtensionObject
  typeDefinition : UA_ExpandedNodeId
deriving DecidableEq, Repr

structure UA_AddNodesResult where
  statusCode : UA_StatusCode
  addedNodeId : UA_NodeId
deriving DecidableEq, Repr

def copyStandardAttributes (node : UA_Node) (item : UA_AddNodesItem)
    (attr : UA_NodeAttributes) : UA_StatusCode × UA_Node :=
  (UA_STATUSCODE_GOOD,
   { node with
     nodeId := item.requestedNewNodeId.nodeId
     browseName := item.browseName
     displayName := attr.displayName
     description := attr.description
     writeMask := attr.writeMask })

def copyCommonVariableAttributes (node : UA_Node) (attr : UA_NodeAttributes) :
    UA_StatusCode × UA_Node :=
  (UA_STATUSCODE_GOOD,
   { node with
     /- Copy the array dimensions -/
     arrayDimensions := attr.arrayDimensions
     /- Data type and value rank -/
     dataType := attr.dataType
     valueRank := attr.valueRank
     /- Copy the value -/
     valueSource := UA_ValueSource.data
     value := { node.value with value := attr.value, hasValue := true } })

def copyVariableNodeAttributes (vnode : UA_Node) (attr : UA_NodeAttributes) :
    UA_StatusCode × UA_Node :=
  copyCommonVariableAttributes
    { vnode with
      accessLevel := attr.accessLevel
      historizing := attr.historizing
      minimumSamplingInterval := attr.minimumSamplingInterval } attr

def copyVariableTypeNodeAttributes (vtnode : UA_Node) (attr : UA_NodeAttributes) :
    UA_StatusCode × UA_Node :=
  copyCommonVariableAttributes { vtnode with isAbstract := attr.isAbstract } attr

def copyObjectNodeAttributes (onode : UA_Node) (attr : UA_NodeAttributes) :
    UA_StatusCode × UA_Node :=
  (UA_STATUSCODE_GOOD, { onode with eventNotifier := attr.eventNotifier })

def copyReferenceTypeNodeAttributes (rtnode : UA_Node) (attr : UA_NodeAttributes) :
    UA_StatusCode × UA_Node :=
  (UA_STATUSCODE_GOOD,
   { rtnode with
     isAbstract := attr.isAbstract
     symmetric := attr.symmetric
     inverseName := attr.inverseName })

def copyObjectTypeNodeAttributes (otnode : UA_Node) (attr : UA_NodeAttributes) :
    UA_StatusCode × UA_Node :=
  (UA_STATUSCODE_GOOD, { otnode with isAbstract := attr.isAbstract })

def copyViewNodeAttributes (vnode : UA_Node) (attr : UA_NodeAttributes) :
    UA_StatusCode × UA_Node :=
  (UA_STATUSCODE_GOOD,
   { vnode with containsNoLoops := attr.containsNoLoops, eventNotifier := attr.eventNotifier })

def copyDataTypeNodeAttributes (dtnode : UA_Node) (attr : UA_NodeAttributes) :
    UA_StatusCode × UA_Node :=
  (UA_STATUSCODE_GOOD, { dtnode with isAbstract := attr.isAbstract })

/-- One `case` of the switch in `createNodeFromAttributes`: the macro `CHECK_ATTRIBUTES`
followed by `retval |= copy...Attributes(node, data)`. -/
def createNodeFromAttributes_case (item : UA_AddNodesItem) (tag : UA_DataTypeTag)
    (copy : UA_Node → UA_NodeAttributes → UA_StatusCode × UA_Node)
    (standard : UA_StatusCode × UA_Node) : UA_StatusCode × UA_Node :=
  if item.nodeAttributes.decodedType ≠ some tag then
    (UA_STATUSCODE_BADNODEATTRIBUTESINVALID, standard.2)
  else
    (standard.1 ||| (copy standard.2 item.nodeAttributes.decodedData).1,
     (copy standard.2 item.nodeAttributes.decodedData).2)

/-- The `switch(item->nodeClass)` of `createNodeFromAttributes`, entered with the status and
the node left by `copyStandardAttributes`. -/
def createNodeFromAttributes_switch (item : UA_AddNodesItem)
    (standard : UA_StatusCode × UA_Node) : UA_StatusCode × UA_Node :=
  if item.nodeClass = UA_NODECLASS_OBJECT then
    createNodeFromAttributes_case item UA_DataTypeTag.objectAttributes
      copyObjectNodeAttributes standard
  else if item.nodeClass = UA_NODECLASS_VARIABLE then
    createNodeFromAttributes_case item UA_DataTypeTag.variableAttributes
      copyVariableNodeAttributes standard
  else if item.nodeClass = UA_NODECLASS_OBJECTTYPE then
    createNodeFromAttributes_case item UA_DataTypeTag.objectTypeAttributes
      copyObjectTypeNodeAttributes standard
  else if item.nodeClass = UA_NODECLASS_VARIABLETYPE then
    createNodeFromAttributes_case item UA_DataTypeTag.variableTypeAttributes
      copyVariableTypeNodeAttributes standard
  else if item.nodeClass = UA_NODECLASS_REFERENCETYPE then
    createNodeFromAttributes_case item UA_DataTypeTag.referenceTypeAttributes
      copyReferenceTypeNodeAttributes standard
  else if item.nodeClass = UA_NODECLASS_DATATYPE then
    createNodeFromAttributes_case item UA_DataTypeTag.dataTypeAttributes
      copyDataTypeNodeAttributes standard
  else if item.nodeClass = UA_NODECLASS_VIEW then
    createNodeFromAttributes_case item UA_DataTypeTag.viewAttributes
      copyViewNodeAttributes standard
  else (UA_STATUSCODE_BADNODECLASSINVALID, standard.2)

/-- Copy the attributes into a new node.  On success (status Good) the second component is
the created node; otherwise no node is produced. -/
def createNodeFromAttributes (item : UA_AddNodesItem) : UA_StatusCode × Option UA_Node :=
  /- Check that we can read the attributes -/
  if item.nodeAttributes.encoding < UA_EXTENSIONOBJECT_DECODED ∨
      item.nodeAttributes.decodedType = none then
    (UA_STATUSCODE_BADNODEATTRIBUTESINVALID, none)
  else
    /- Create the node; copy the attributes into the node -/
    let filled := createNodeFromAttributes_switch item
      (copyStandardAttributes (UA_NodeStore_newNode item.nodeClass) item
        item.nodeAttributes.decodedData)
    if filled.1 = UA_STATUSCODE_GOOD then (filled.1, some filled.2) else (filled.1, none)

/-! ## Add node -/

/-- The value left by `UA_AddNodesResult_init`. -/
def UA_AddNodesResult_init : UA_AddNodesResult :=
  { statusCode := UA_STATUSCODE_GOOD, addedNodeId := UA_NODEID_NULL }

def Service_AddNode_begin (server : UA_Server) (item : UA_AddNodesItem) :
    UA_AddNodesResult × UA_Server :=
  /- Check the namespaceindex -/
  if item.requestedNewNodeId.nodeId.namespaceIndex ≥ server.namespacesSize then
    ({ UA_AddNodesResult_init with statusCode := UA_STATUSCODE_BADNODEIDINVALID }, server)
  else
    /- Add the node to the nodestore -/
    match createNodeFromAttributes item with
    | (status, none) => ({ UA_AddNodesResult_init with statusCode := status }, server)
    | (status, some node) =>
      if status ≠ UA_STATUSCODE_GOOD then
        ({ UA_AddNodesResult_init with statusCode := status }, server)
      else
        let inserted := UA_NodeStore_insert server.nodestore node
        if inserted.1 ≠ UA_STATUSCODE_GOOD then
          ({ UA_AddNodesResult_init with statusCode := inserted.1 }, server)
        else
          /- Copy the nodeid of the new node -/
          ({ statusCode := UA_STATUSCODE_GOOD, addedNodeId := inserted.2.2 },
           { server with nodestore := inserted.2.1 })

def Service_AddNodes_single (budget : Nat) (server : UA_Server) (item : UA_AddNodesItem)
    (instantiationCallback : Option UA_InstantiationCallback) :
    Option (UA_AddNodesResult × UA_Server) :=
  /- AddNodes_begin -/
  let begun := Service_AddNode_begin server item
  if begun.1.statusCode ≠ UA_STATUSCODE_GOOD then some begun
  else
    /- AddNodes_finish -/
    match Service_AddNode_finish budget begun.2 begun.1.addedNodeId item.parentNodeId.nodeId
        item.referenceTypeId item.typeDefinition.nodeId instantiationCallback with
    | none => none
    | some finished =>
      if finished.1 ≠ UA_STATUSCODE_GOOD then
        some ({ statusCode := finished.1, addedNodeId := UA_NODEID_NULL }, finished.2)
      else some ({ begun.1 with statusCode := finished.1 }, finished.2)

/-! ## Example address spaces -/

/-- A numeric node id of namespace 0. -/
def ex_id (n : Nat) : UA_NodeId := UA_NODEID_NUMERIC 0 n

/-- A reference to a node of namespace 0. -/
def ex_ref (referenceType target : Nat) (isInverse : Bool) : UA_ReferenceNode :=
  { referenceTypeId := ex_id referenceType,
    targetId := UA_ExpandedNodeId_ofNodeId (ex_id target), isInverse := isInverse }

/-- A node of namespace 0 with the given class, browse name and references. -/
def ex_node (id : Nat) (nodeClass : UA_NodeClass) (name : String)
    (references : List UA_ReferenceNode) : UA_Node :=
  { UA_NodeStore_newNode nodeClass with
    nodeId := ex_id id, browseName := { namespaceIndex := 0, name := name },
    references := references }

/-- Callbacks for the examples: constructor `fn` returns the handle `fn + 100`, data sources
fail, every value passes `typeCheckValue`. -/
def ex_callbacks : UA_Callbacks :=
  { construct := fun fn _ => fn + 100,
    readDataSource := fun _ _ => (UA_STATUSCODE_BADUNEXPECTEDERROR, UA_DataValue_init),
    typeCheckValue := fun _ _ _ _ _ => UA_STATUSCODE_GOOD }

/-- A server over the given nodes. -/
def ex_server (nodes : List UA_Node) : UA_Server :=
  { nodestore := nodes, namespacesSize := 2, callbacks := ex_callbacks, calls := [] }

/-- The reference types, data types and base types the examples build on. -/
def ex_ns0 : List UA_Node :=
  [ ex_node UA_NS0ID_HIERARCHICALREFERENCES UA_NODECLASS_REFERENCETYPE "HierarchicalReferences"
      [ex_ref UA_NS0ID_HASSUBTYPE UA_NS0ID_ORGANIZES false],
    ex_node UA_NS0ID_ORGANIZES UA_NODECLASS_REFERENCETYPE "Organizes"
      [ex_ref UA_NS0ID_HASSUBTYPE UA_NS0ID_HIERARCHICALREFERENCES true],
    ex_node UA_NS0ID_HASSUBTYPE UA_NODECLASS_REFERENCETYPE "HasSubtype" [],
    ex_node UA_NS0ID_HASTYPEDEFINITION UA_NODECLASS_REFERENCETYPE "HasTypeDefinition" [],
    ex_node UA_NS0ID_AGGREGATES UA_NODECLASS_REFERENCETYPE "Aggregates" [],
    ex_node UA_NS0ID_BASEDATATYPE UA_NODECLASS_DATATYPE "BaseDataType"
      [ex_ref UA_NS0ID_HASSUBTYPE UA_NS0ID_INT32 false],
    ex_node UA_NS0ID_INT32 UA_NODECLASS_DATATYPE "Int32"
      [ex_ref UA_NS0ID_HASSUBTYPE UA_NS0ID_BASEDATATYPE true],
    { ex_node UA_NS0ID_BASEDATAVARIABLETYPE UA_NODECLASS_VARIABLETYPE "BaseDataVariableType" []
      with dataType := ex_id UA_NS0ID_BASEDATATYPE, valueRank := -2 },
    ex_node UA_NS0ID_BASEOBJECTTYPE UA_NODECLASS_OBJECTTYPE "BaseObjectType" [],
    ex_node UA_NS0ID_OBJECTSFOLDER UA_NODECLASS_OBJECT "Objects" [] ]

/-- A plain object `A` (id 1001) and a plain object `B` (id 1002) without references. -/
def ex_pair : UA_Server :=
  ex_server [ex_node 1001 UA_NODECLASS_OBJECT "A" [], ex_node 1002 UA_NODECLASS_OBJECT "B" []]

/-- The request: add the forward reference `A --Organizes--> B`. -/
def ex_addAB : UA_AddReferencesItem :=
  { UA_AddReferencesItem_init with
    sourceNodeId := ex_id 1001, referenceTypeId := ex_id UA_NS0ID_ORGANIZES, isForward := true,
    targetNodeId := UA_ExpandedNodeId_ofNodeId (ex_id 1002) }

/-- The request: add the forward reference `A --Organizes--> A` (source and target
coincide). -/
def ex_addAA : UA_AddReferencesItem :=
  { ex_addAB with targetNodeId := UA_ExpandedNodeId_ofNodeId (ex_id 1001) }

/-- The request: add `A --Organizes--> C` where `C` (id 1003) is not in the store. -/
def ex_addAC : UA_AddReferencesItem :=
  { ex_addAB with targetNodeId := UA_ExpandedNodeId_ofNodeId (ex_id 1003) }

/-- Objects `A` and `B` linked by `A --Organizes--> B` and its mirror on `B`. -/
def ex_linked : UA_Server :=
  ex_server
    [ ex_node 1001 UA_NODECLASS_OBJECT "A" [ex_ref UA_NS0ID_ORGANIZES 1002 false],
      ex_node 1002 UA_NODECLASS_OBJECT "B" [ex_ref UA_NS0ID_ORGANIZES 1001 true] ]

/-- The request: delete `A --Organizes--> B` in both directions. -/
def ex_deleteAB : UA_DeleteReferencesItem :=
  { sourceNodeId := ex_id 1001, referenceTypeId := ex_id UA_NS0ID_ORGANIZES, isForward := true,
    targetNodeId := UA_ExpandedNodeId_ofNodeId (ex_id 1002), deleteBidirectional := true }

/-- An object type `TT` (id 2000) with a constructor (function pointer 1, returning the
handle 101) and a destructor (function pointer 2), and a new object `o1` (id 2001). -/
def ex_lifecycle : UA_Server :=
  ex_server (ex_ns0 ++
    [ { ex_node 2000 UA_NODECLASS_OBJECTTYPE "TT" [] with
        lifecycleManagement := { constructor := some 1, destructor := some 2 } },
      ex_node 2001 UA_NODECLASS_OBJECT "o1" [] ])

/-- The object `o1` instantiated from `TT`, without a parent. -/
def ex_lifecycle_added : Option (UA_StatusCode × UA_Server) :=
  Service_AddNode_finish 4 ex_lifecycle (ex_id 2001) UA_NODEID_NULL UA_NODEID_NULL (ex_id 2000)
    none

/-! ## Relations between address spaces -/

/-- The members of a node that no call on the way through `Service_AddNode_finish` writes:
all but the references, the value rank and the instance handle. -/
def UA_Node_fixedMembers (m : UA_Node) : UA_Node :=
  { m with references := [], valueRank := 0, instanceHandle := 0 }

/-- Node `m'` is node `m` with references appended at the end and possibly another value
rank; when `keepHandle` holds, the instance handle is the same as well. -/
def UA_Node_extends (keepHandle : Bool) (m m' : UA_Node) : Prop :=
  UA_Node_fixedMembers m' = UA_Node_fixedMembers m ∧
  (∃ added, m'.references = m.references ++ added) ∧
  (keepHandle = true → m'.instanceHandle = m.instanceHandle)

/-- Every node of the store `ns` is still in the store `ns'`, extended in the sense of
`UA_Node_extends`; the instance handle is kept for every node but `edited`. -/
def UA_NodeStore_extends (edited : Option UA_NodeId) (ns ns' : List UA_Node) : Prop :=
  ∀ nodeId m, UA_NodeStore_get ns nodeId = some m →
    ∃ m', UA_NodeStore_get ns' nodeId = some m' ∧
      UA_Node_extends (decide (some nodeId ≠ edited)) m m'

/-- The address space of `s'` extends that of `s` and the callbacks are the same. -/
def UA_Server_extends (edited : Option UA_NodeId) (s s' : UA_Server) : Prop :=
  UA_NodeStore_extends edited s.nodestore s'.nodestore ∧ s'.callbacks = s.callbacks

/-- The variable `v1` (id 3001): an Int32 scalar with the value 7. -/
def ex_v1 : UA_Node :=
  { ex_node 3001 UA_NODECLASS_VARIABLE "v1" [] with
    dataType := ex_id UA_NS0ID_INT32, valueRank := -1,
    value :=
      { hasValue := true,
        value := { type := some (ex_id UA_NS0ID_INT32), data := UA_VariantData.scalar 7,
                   arrayDimensions := [] },
        status := UA_STATUSCODE_GOOD } }

/-- The base address space with the new variable `v1`. -/
def ex_variables : UA_Server := ex_server (ex_ns0 ++ [ex_v1])

/-- An object type `S` (id 2100) with a constructor (function pointer 1), its subtype `T`
(id 2101) without life-cycle callbacks, and a new object `o` (id 2102). -/
def ex_subtype : UA_Server :=
  ex_server (ex_ns0 ++
    [ { ex_node 2100 UA_NODECLASS_OBJECTTYPE "S" [ex_ref UA_NS0ID_HASSUBTYPE 2101 false] with
        lifecycleManagement := { constructor := some 1, destructor := none } },
      ex_node 2101 UA_NODECLASS_OBJECTTYPE "T" [ex_ref UA_NS0ID_HASSUBTYPE 2100 true],
      ex_node 2102 UA_NODECLASS_OBJECT "o" [] ])

/-- The server left by `ex_lifecycle_added`. -/
def ex_lifecycle_server : UA_Server :=
  (ex_lifecycle_added.map (fun r => r.2)).getD ex_lifecycle

/-- The object `o` instantiated from `T`, the subtype without constructor. -/
def ex_subtype_added : Option (UA_StatusCode × UA_Server) :=
  Service_AddNode_finish 4 ex_subtype (ex_id 2102) UA_NODEID_NULL UA_NODEID_NULL (ex_id 2101)
    none

/-- Scenario "hierarchical add": `v1` under `ObjectsFolder` via `Organizes` with typeDef
`BaseDataVariableType`. -/
def ex_v1_added : Option (UA_StatusCode × UA_Server) :=
  Service_AddNode_finish 4 ex_variables (ex_id 3001) (ex_id UA_NS0ID_OBJECTSFOLDER)
    (ex_id UA_NS0ID_ORGANIZES) (ex_id UA_NS0ID_BASEDATAVARIABLETYPE) none

/-- The server left by `ex_v1_added`. -/
def ex_v1_server : UA_Server := (ex_v1_added.map (fun r => r.2)).getD ex_variables

/-- The same add with the null id as type definition. -/
def ex_v1_added_default : Option (UA_StatusCode × UA_Server) :=
  Service_AddNode_finish 4 ex_variables (ex_id 3001) (ex_id UA_NS0ID_OBJECTSFOLDER)
    (ex_id UA_NS0ID_ORGANIZES) UA_NODEID_NULL none

/-- The add of `v1` under a parent (id 9999) that is not in the store. -/
def ex_v1_orphan : Option (UA_StatusCode × UA_Server) :=
  Service_AddNode_finish 4 ex_variables (ex_id 3001) (ex_id 9999)
    (ex_id UA_NS0ID_ORGANIZES) (ex_id UA_NS0ID_BASEDATAVARIABLETYPE) none

/-- The server left by `ex_v1_orphan`. -/
def ex_v1_orphan_server : UA_Server := (ex_v1_orphan.map (fun r => r.2)).getD ex_variables

/-- The base address space with an abstract variable type `AbstractType` (id 3100). -/
def ex_abstract : UA_Server :=
  ex_server (ex_ns0 ++
    [ { ex_node 3100 UA_NODECLASS_VARIABLETYPE "AbstractType" [] with
        isAbstract := true, dataType := ex_id UA_NS0ID_BASEDATATYPE, valueRank := -2 } ])

/-- Decoded variable attributes: an `Int32` scalar. -/
def ex_variableAttributes : UA_ExtensionObject :=
  { encoding := UA_EXTENSIONOBJECT_DECODED,
    decodedType := some UA_DataTypeTag.variableAttributes,
    decodedData :=
      { displayName := { locale := "", text := "v2" },
        description := { locale := "", text := "" },
        writeMask := 0, eventNotifier := 0,
        value := { type := some (ex_id UA_NS0ID_INT32), data := UA_VariantData.scalar 7,
                   arrayDimensions := [] },
        dataType := ex_id UA_NS0ID_INT32, valueRank := -1, arrayDimensions := [],
        accessLevel := 1, historizing := false, minimumSamplingInterval := 0,
        isAbstract := false, symmetric := false,
        inverseName := { locale := "", text := "" },
        containsNoLoops := false, executable := false } }

/-- Scenario "abstract type rejection": the request to add the variable `v2` (id 3002) under
`ObjectsFolder` via `Organizes` with the abstract `AbstractType` as type definition. -/
def ex_item_abstract : UA_AddNodesItem :=
  { parentNodeId := UA_ExpandedNodeId_ofNodeId (ex_id UA_NS0ID_OBJECTSFOLDER),
    referenceTypeId := ex_id UA_NS0ID_ORGANIZES,
    requestedNewNodeId := UA_ExpandedNodeId_ofNodeId (ex_id 3002),
    browseName := { namespaceIndex := 0, name := "v2" },
    nodeClass := UA_NODECLASS_VARIABLE,
    nodeAttributes := ex_variableAttributes,
    typeDefinition := UA_ExpandedNodeId_ofNodeId (ex_id 3100) }

/-- The same request asking for a node id in namespace 5, which the server does not have. -/
def ex_item_abstract_namespace : UA_AddNodesItem :=
  { ex_item_abstract with
    requestedNewNodeId := UA_ExpandedNodeId_ofNodeId (UA_NODEID_NUMERIC 5 3002) }

/-- A variable with the given id and value rank, no array dimensions and the scalar value
`Int32(7)`. -/
def ex_ranked (id : Nat) (valueRank : Int) : UA_Node :=
  { ex_node id UA_NODECLASS_VARIABLE "r" [] with
    dataType := ex_id UA_NS0ID_INT32, valueRank := valueRank, arrayDimensions := [],
    value :=
      { hasValue := true,
        value := { type := some (ex_id UA_NS0ID_INT32), data := UA_VariantData.scalar 7,
                   arrayDimensions := [] },
        status := UA_STATUSCODE_GOOD } }

/-- Scenario "rank mismatch": the base address space with the new variable 3003 of value
rank 1. -/
def ex_rank1 : UA_Server := ex_server (ex_ns0 ++ [ex_ranked 3003 1])

/-- A request with decoded variable attributes whose node class is Unspecified, asking for
a node id in namespace 5, which the server does not have. -/
def ex_item_unspecified_namespace : UA_AddNodesItem :=
  { ex_item_abstract_namespace with nodeClass := UA_NODECLASS_UNSPECIFIED }

/-- The same request with the node id 3002 of namespace 0. -/
def ex_item_unspecified : UA_AddNodesItem :=
  { ex_item_abstract with nodeClass := UA_NODECLASS_UNSPECIFIED }

/-- The reference types of the instantiation examples: `HasComponent` is a subtype of
`Aggregates`, which is a subtype of `HierarchicalReferences`. -/
def ex_aggregates : List UA_Node :=
  [ ex_node UA_NS0ID_HIERARCHICALREFERENCES UA_NODECLASS_REFERENCETYPE "HierarchicalReferences"
      [ex_ref UA_NS0ID_HASSUBTYPE UA_NS0ID_AGGREGATES false],
    ex_node UA_NS0ID_HASSUBTYPE UA_NODECLASS_REFERENCETYPE "HasSubtype" [],
    ex_node UA_NS0ID_HASTYPEDEFINITION UA_NODECLASS_REFERENCETYPE "HasTypeDefinition" [],
    ex_node UA_NS0ID_AGGREGATES UA_NODECLASS_REFERENCETYPE "Aggregates"
      [ex_ref UA_NS0ID_HASSUBTYPE UA_NS0ID_HIERARCHICALREFERENCES true,
       ex_ref UA_NS0ID_HASSUBTYPE UA_NS0ID_HASCOMPONENT false],
    ex_node UA_NS0ID_HASCOMPONENT UA_NODECLASS_REFERENCETYPE "HasComponent"
      [ex_ref UA_NS0ID_HASSUBTYPE UA_NS0ID_AGGREGATES true],
    ex_node UA_NS0ID_BASEDATATYPE UA_NODECLASS_DATATYPE "BaseDataType"
      [ex_ref UA_NS0ID_HASSUBTYPE UA_NS0ID_INT32 false],
    ex_node UA_NS0ID_INT32 UA_NODECLASS_DATATYPE "Int32"
      [ex_ref UA_NS0ID_HASSUBTYPE UA_NS0ID_BASEDATATYPE true],
    { ex_node UA_NS0ID_BASEDATAVARIABLETYPE UA_NODECLASS_VARIABLETYPE "BaseDataVariableType" []
      with dataType := ex_id UA_NS0ID_BASEDATATYPE, valueRank := -2 },
    ex_node UA_NS0ID_BASEOBJECTTYPE UA_NODECLASS_OBJECTTYPE "BaseObjectType" [] ]

/-- An object type `MT` (id 4000) with the method `m` (id 4001) as component, and an object
`mo` (id 4002) without children. -/
def ex_method : UA_Server :=
  ex_server (ex_aggregates ++
    [ ex_node 4000 UA_NODECLASS_OBJECTTYPE "MT" [ex_ref UA_NS0ID_HASCOMPONENT 4001 false],
      ex_node 4001 UA_NODECLASS_METHOD "m" [ex_ref UA_NS0ID_HASCOMPONENT 4000 true],
      ex_node 4002 UA_NODECLASS_OBJECT "mo" [] ])

/-- The description of the method `m` as `copyChildNodes` finds it on `MT`. -/
def ex_method_rd : UA_ReferenceDescription :=
  { referenceTypeId := ex_id UA_NS0ID_HASCOMPONENT, isForward := false,
    nodeId := UA_ExpandedNodeId_ofNodeId (ex_id 4001),
    browseName := { namespaceIndex := 0, name := "m" },
    displayName := { locale := "", text := "" },
    nodeClass := UA_NODECLASS_METHOD,
    typeDefinition := UA_ExpandedNodeId_ofNodeId UA_NODEID_NULL }

/-- A variable with the given id and browse name: an `Int32` scalar, with the references
given. -/
def ex_variable (id : Nat) (name : String) (references : List UA_ReferenceNode) : UA_Node :=
  { ex_node id UA_NODECLASS_VARIABLE name references with
    dataType := ex_id UA_NS0ID_INT32, valueRank := -1,
    value :=
      { hasValue := true,
        value := { type := some (ex_id UA_NS0ID_INT32), data := UA_VariantData.scalar 7,
                   arrayDimensions := [] },
        status := UA_STATUSCODE_GOOD } }

/-- An object type `CT` (id 4100) with the variable `c` (id 4101) and the method `m`
(id 4102) as components, and a new object `co` (id 4103). -/
def ex_components : UA_Server :=
  ex_server (ex_aggregates ++
    [ ex_node 4100 UA_NODECLASS_OBJECTTYPE "CT"
        [ex_ref UA_NS0ID_HASCOMPONENT 4101 false, ex_ref UA_NS0ID_HASCOMPONENT 4102 false],
      ex_variable 4101 "c" [ex_ref UA_NS0ID_HASCOMPONENT 4100 true],
      ex_node 4102 UA_NODECLASS_METHOD "m" [ex_ref UA_NS0ID_HASCOMPONENT 4100 true],
      ex_node 4103 UA_NODECLASS_OBJECT "co" [] ])

/-- The object `co` instantiated from `CT`. -/
def ex_components_instantiated : Option (UA_StatusCode × UA_Server) :=
  instantiateNode 6 ex_components (ex_id 4103) UA_NODECLASS_OBJECT (ex_id 4100) none

/-- The server left by `ex_components_instantiated`. -/
def ex_components_server : UA_Server :=
  (ex_components_instantiated.map (fun r => r.2)).getD ex_components

/-- The node id of namespace 0 with the empty string as identifier: a null id. -/
def ex_id_empty : UA_NodeId := { namespaceIndex := 0, identifier := UA_Identifier.string "" }

/-- The type `CT` with its components, and a new object stored under the null id
`ex_id_empty`. -/
def ex_components_null : UA_Server :=
  ex_server (ex_aggregates ++
    [ ex_node 4100 UA_NODECLASS_OBJECTTYPE "CT"
        [ex_ref UA_NS0ID_HASCOMPONENT 4101 false, ex_ref UA_NS0ID_HASCOMPONENT 4102 false],
      ex_variable 4101 "c" [ex_ref UA_NS0ID_HASCOMPONENT 4100 true],
      ex_node 4102 UA_NODECLASS_METHOD "m" [ex_ref UA_NS0ID_HASCOMPONENT 4100 true],
      { ex_node 0 UA_NODECLASS_OBJECT "co" [] with nodeId := ex_id_empty } ])

/-- The object under the null id instantiated from `CT`. -/
def ex_components_null_instantiated : Option (UA_StatusCode × UA_Server) :=
  instantiateNode 6 ex_components_null ex_id_empty UA_NODECLASS_OBJECT (ex_id 4100) none

/-- The server left by `ex_components_null_instantiated`. -/
def ex_components_null_server : UA_Server :=
  (ex_components_null_instantiated.map (fun r => r.2)).getD ex_components_null

/-- The children of `CT` copied to the object `co` of `ex_components`. -/
def ex_components_copied : Option (UA_StatusCode × UA_Server) :=
  copyChildNodes 5 ex_components (ex_id 4100) (ex_id 4103) none

/-- The server left by `ex_components_copied`. -/
def ex_components_copied_server : UA_Server :=
  (ex_components_copied.map (fun r => r.2)).getD ex_components

/-- An object type `RT` (id 4200) whose component is the object `i` (id 4201). -/
def ex_recursive : UA_Server :=
  ex_server (ex_aggregates ++
    [ ex_node 4200 UA_NODECLASS_OBJECTTYPE "RT" [ex_ref UA_NS0ID_HASCOMPONENT 4201 false],
      ex_node 4201 UA_NODECLASS_OBJECT "i" [ex_ref UA_NS0ID_HASCOMPONENT 4200 true] ])

/-- The children of `RT` copied to its own component `i`. -/
def ex_recursive_first : Option (UA_StatusCode × UA_Server) :=
  copyChildNodes 5 ex_recursive (ex_id 4200) (ex_id 4201) none

/-- The server left by `ex_recursive_first`. -/
def ex_recursive_server : UA_Server :=
  (ex_recursive_first.map (fun r => r.2)).getD ex_recursive

/-- The children of `RT` copied to `i` a second time. -/
def ex_recursive_second : Option (UA_StatusCode × UA_Server) :=
  copyChildNodes 7 ex_recursive_server (ex_id 4200) (ex_id 4201) none

/-! ## Aggregated children -/

/-- The browse request of `instanceFindAggregateByBrowsename` on `searchInstance`. -/
def instanceFindAggregateByBrowsename_browse (searchInstance : UA_NodeId) :
    UA_BrowseDescription :=
  { UA_BrowseDescription_init with
    nodeId := searchInstance
    referenceTypeId := UA_NODEID_NUMERIC 0 UA_NS0ID_AGGREGATES
    includeSubtypes := true
    browseDirection := UA_BROWSEDIRECTION_FORWARD
    nodeClassMask := UA_NODECLASS_OBJECT ||| UA_NODECLASS_VARIABLE ||| UA_NODECLASS_METHOD
    resultMask := UA_BROWSERESULTMASK_NODECLASS ||| UA_BROWSERESULTMASK_BROWSENAME }

/-- The comparison of browse names in the loop of `instanceFindAggregateByBrowsename`. -/
def instanceFindAggregateByBrowsename_equal (browseName : UA_QualifiedName)
    (rd : UA_ReferenceDescription) : Bool :=
  rd.browseName.namespaceIndex == browseName.namespaceIndex &&
    rd.browseName.name == browseName.name

/-- Whether `nodeId` has an aggregated child of the browse name, as
`instanceFindAggregateByBrowsename` sees it. -/
def instanceFindAggregateByBrowsename_exists (server : UA_Server) (nodeId : UA_NodeId)
    (browseName : UA_QualifiedName) : Bool :=
  (Service_Browse_single server
    (instanceFindAggregateByBrowsename_browse nodeId)).references.any
    (instanceFindAggregateByBrowsename_equal browseName)

/-- Every aggregated child of `source` has a counterpart of the same browse name on
`destination`, and so have, `depth` levels down, the aggregated children of its variable and
object children on their counterparts: `copyChildNodes` finds nothing to copy. -/
def copyChildNodes_merged (server : UA_Server) : Nat → UA_NodeId → UA_NodeId → Bool
  | 0, _, _ => false
  | depth + 1, sourceNodeId, destinationNodeId =>
    decide ((Service_Browse_single server (copyChildNodes_browse sourceNodeId)).statusCode =
      UA_STATUSCODE_GOOD) &&
    (Service_Browse_single server (copyChildNodes_browse sourceNodeId)).references.all
      (fun rd =>
        decide ((instanceFindAggregateByBrowsename server destinationNodeId
          rd.browseName).1 = UA_STATUSCODE_GOOD) &&
        !UA_NodeId_isNull
          (instanceFindAggregateByBrowsename server destinationNodeId rd.browseName).2 &&
        (if rd.nodeClass = UA_NODECLASS_VARIABLE ∨ rd.nodeClass = UA_NODECLASS_OBJECT then
          copyChildNodes_merged server depth rd.nodeId.nodeId
            (instanceFindAggregateByBrowsename server destinationNodeId rd.browseName).2
         else true))

/-- The store `ns'` holds every node of `ns`, with the same members apart from appended
references, the value rank and the instance handle, and has at least as many nodes. -/
def UA_NodeStore_grows (ns ns' : List UA_Node) : Prop :=
  (∀ nodeId m, UA_NodeStore_get ns nodeId = some m →
    ∃ m', UA_NodeStore_get ns' nodeId = some m' ∧ UA_Node_extends false m m') ∧
  ns.length ≤ ns'.length

/-- The reference description `rd` describes an aggregated child that is in the store: its
reference type passes the filter of `copyChildNodes_browse`, and the node it names is stored
with the browse name and the node class of the description. -/
def copyChildNode_described (ns : List UA_Node) (rd : UA_ReferenceDescription) : Prop :=
  Service_Browse_relevant ns (copyChildNodes_browse UA_NODEID_NULL)
    { referenceTypeId := rd.referenceTypeId, targetId := rd.nodeId, isInverse := false } = true ∧
  ∃ target, UA_NodeStore_get ns rd.nodeId.nodeId = some target ∧
    target.browseName = rd.browseName ∧ target.nodeClass = rd.nodeClass

/-! ## Subscription client: data model -/

abbrev UA_STATUSCODE_BADSERVERNOTCONNECTED : UA_StatusCode := 0x800D0000
abbrev UA_STATUSCODE_BADSUBSCRIPTIONIDINVALID : UA_StatusCode := 0x80280000
abbrev UA_STATUSCODE_BADMONITOREDITEMIDINVALID : UA_StatusCode := 0x80420000
abbrev UA_STATUSCODE_BADSEQUENCENUMBERUNKNOWN : UA_StatusCode := 0x807D0000
abbrev UA_STATUSCODE_GOODNONCRITICALTIMEOUT : UA_StatusCode := 0x0000CA00

/-- A `UA_Double` is only carried around by the subscription client, never computed with;
it is represented by its 64-bit pattern. -/
abbrev UA_Double := Nat

/-- The connection state of the client (`UA_ClientState`). -/
abbrev UA_ClientState := Nat

abbrev UA_UINT32_MODULUS : Nat := 4294967296

abbrev UA_MONITORINGMODE_DISABLED : Nat := 0
abbrev UA_MONITORINGMODE_SAMPLING : Nat := 1
abbrev UA_MONITORINGMODE_REPORTING : Nat := 2

structure UA_SubscriptionSettings where
  requestedPublishingInterval : UA_Double
  requestedLifetimeCount : Nat
  requestedMaxKeepAliveCount : Nat
  maxNotificationsPerPublish : Nat
  publishingEnabled : Bool
  priority : Nat
deriving DecidableEq, Repr

structure UA_ResponseHeader where
  serviceResult : UA_StatusCode
deriving DecidableEq, Repr

structure UA_CreateSubscriptionRequest where
  requestedPublishingInterval : UA_Double
  requestedLifetimeCount : Nat
  requestedMaxKeepAliveCount : Nat
  maxNotificationsPerPublish : Nat
  publishingEnabled : Bool
  priority : Nat
deriving DecidableEq, Repr

/-- The value left by `UA_CreateSubscriptionRequest_init`. -/
def UA_CreateSubscriptionRequest_init : UA_CreateSubscriptionRequest :=
  { requestedPublishingInterval := 0, requestedLifetimeCount := 0,
    requestedMaxKeepAliveCount := 0, maxNotificationsPerPublish := 0,
    publishingEnabled := false, priority := 0 }

structure UA_CreateSubscriptionResponse where
  responseHeader : UA_ResponseHeader
  subscriptionId : Nat
  revisedPublishingInterval : UA_Double
  revisedLifetimeCount : Nat
  revisedMaxKeepAliveCount : Nat
deriving DecidableEq, Repr

/-- A monitored item of the client (`UA_Client_MonitoredItem`); handlers are function
pointers (`none` for a null pointer), contexts are addresses. -/
structure UA_Client_MonitoredItem where
  monitoringMode : Nat
  monitoredNodeId : UA_NodeId
  attributeID : Nat
  clientHandle : Nat
  samplingInterval : UA_Double
  queueSize : Nat
  discardOldest : Bool
  handler : Option Nat
  handlerContext : Nat
  handlerEvents : Option Nat
  handlerEventsContext : Nat
  monitoredItemId : Nat
deriving DecidableEq, Repr

/-- A subscription of the client (`UA_Client_Subscription`); `monitoredItems` is the
intrusive list, head first. -/
structure UA_Client_Subscription where
  lifeTime : Nat
  keepAliveCount : Nat
  publishingInterval : UA_Double
  subscriptionID : Nat
  notificationsPerPublish : Nat
  priority : Nat
  monitoredItems : List UA_Client_MonitoredItem
deriving DecidableEq, Repr

structure UA_SubscriptionAcknowledgement where
  subscriptionId : Nat
  sequenceNumber : Nat
deriving DecidableEq, Repr

/-- The member of `UA_ClientConfig` the subscription client reads: the timeout in
milliseconds (a `UA_UInt32`). -/
structure UA_ClientConfig where
  timeout : Nat
deriving DecidableEq, Repr

/-- The members of `UA_Client` the subscription client works with; the lists are the
intrusive lists, head first. -/
structure UA_Client where
  state : UA_ClientState
  config : UA_ClientConfig
  subscriptions : List UA_Client_Subscription
  monitoredItemHandles : Nat
  pendingNotificationsAcks : List UA_SubscriptionAcknowledgement
deriving DecidableEq, Repr

structure UA_ReadValueId where
  nodeId : UA_NodeId
  attributeId : Nat
deriving DecidableEq, Repr

/-- An event filter: the select clauses and the elements of the where clause, as handed in
by the caller. -/
structure UA_EventFilter where
  selectClauses : List Nat
  whereClauseElements : List Nat
deriving DecidableEq, Repr

structure UA_MonitoringParameters where
  clientHandle : Nat
  samplingInterval : UA_Double
  filter : Option UA_EventFilter
  queueSize : Nat
  discardOldest : Bool
deriving DecidableEq, Repr

structure UA_MonitoredItemCreateRequest where
  itemToMonitor : UA_ReadValueId
  monitoringMode : Nat
  requestedParameters : UA_MonitoringParameters
deriving DecidableEq, Repr

/-- The value left by `UA_MonitoredItemCreateRequest_init`. -/
def UA_MonitoredItemCreateRequest_init : UA_MonitoredItemCreateRequest :=
  { itemToMonitor := { nodeId := UA_NODEID_NULL, attributeId := 0 },
    monitoringMode := UA_MONITORINGMODE_DISABLED,
    requestedParameters :=
      { clientHandle := 0, samplingInterval := 0, filter := none, queueSize := 0,
        discardOldest := false } }

structure UA_CreateMonitoredItemsRequest where
  subscriptionId : Nat
  itemsToCreate : List UA_MonitoredItemCreateRequest
deriving DecidableEq, Repr

/-- The value left by `UA_CreateMonitoredItemsRequest_init`. -/
def UA_CreateMonitoredItemsRequest_init : UA_CreateMonitoredItemsRequest :=
  { subscriptionId := 0, itemsToCreate := [] }

structure UA_MonitoredItemCreateResult where
  statusCode : UA_StatusCode
  monitoredItemId : Nat
  revisedSamplingInterval : UA_Double
  revisedQueueSize : Nat
deriving DecidableEq, Repr

/-- A CreateMonitoredItems response; `resultsSize` is the length of `results`. -/
structure UA_CreateMonitoredItemsResponse where
  responseHeader : UA_ResponseHeader
  results : List UA_MonitoredItemCreateResult
deriving DecidableEq, Repr

/-! ## Subscription client: create -/

/-- Modelled from the spec: the transport performs a synchronous request/response exchange.
An exchange is given by the response it leads to and the connection state it leaves the
client in; nothing else of the client is touched. -/
def UA_Client_Service {Request Response : Type}
    (exchange : Request → Response × UA_ClientState) (client : UA_Client)
    (request : Request) : Response × UA_Client :=
  ((exchange request).1, { client with state := (exchange request).2 })

/-- The CreateSubscription request `UA_Client_Subscriptions_new` sends. -/
def UA_Client_Subscriptions_new_request (settings : UA_SubscriptionSettings) :
    UA_CreateSubscriptionRequest :=
  { UA_CreateSubscriptionRequest_init with
    requestedPublishingInterval := settings.requestedPublishingInterval
    requestedLifetimeCount := settings.requestedLifetimeCount
    requestedMaxKeepAliveCount := settings.requestedMaxKeepAliveCount
    maxNotificationsPerPublish := settings.maxNotificationsPerPublish
    publishingEnabled := settings.publishingEnabled
    priority := settings.priority }

/-- The function `UA_Client_Subscriptions_new`.  `newSubscriptionId` tells whether the
caller hands in a place for the new id; the third component of the result is what is written
there.  `UA_malloc` is taken to succeed. -/
def UA_Client_Subscriptions_new (client : UA_Client) (settings : UA_SubscriptionSettings)
    (newSubscriptionId : Bool)
    (exchange : UA_CreateSubscriptionRequest → UA_CreateSubscriptionResponse × UA_ClientState) :
    UA_StatusCode × UA_Client × Option Nat :=
  let request := UA_Client_Subscriptions_new_request settings
  let answered := UA_Client_Service exchange client request
  let response := answered.1
  let retval := response.responseHeader.serviceResult
  if retval ≠ UA_STATUSCODE_GOOD then (retval, answered.2, none)
  else
    let newSub : UA_Client_Subscription :=
      { monitoredItems := []
        lifeTime := response.revisedLifetimeCount
        keepAliveCount := response.revisedMaxKeepAliveCount
        publishingInterval := response.revisedPublishingInterval
        subscriptionID := response.subscriptionId
        notificationsPerPublish := request.maxNotificationsPerPublish
        priority := request.priority }
    (UA_STATUSCODE_GOOD,
     { answered.2 with subscriptions := newSub :: answered.2.subscriptions },
     if newSubscriptionId then some newSub.subscriptionID else none)

/-- The first subscription of the client with the id. -/
def findSubscription (client : UA_Client) (subscriptionId : Nat) :
    Option UA_Client_Subscription :=
  client.subscriptions.find? (fun sub => sub.subscriptionID == subscriptionId)

/-- A write through the pointer `findSubscription` returns: the first subscription with the
id is replaced by its edited version. -/
def UA_Client_Subscription_edit (edit : UA_Client_Subscription → UA_Client_Subscription)
    (subscriptionId : Nat) : List UA_Client_Subscription → List UA_Client_Subscription
  | [] => []
  | sub :: rest =>
    if sub.subscriptionID == subscriptionId then edit sub :: rest
    else sub :: UA_Client_Subscription_edit edit subscriptionId rest

/-- The CreateMonitoredItems request `UA_Client_Subscriptions_addMonitoredItem` sends, with
the client handle drawn for the item. -/
def UA_Client_Subscriptions_addMonitoredItem_request (clientHandle subscriptionId : Nat)
    (nodeId : UA_NodeId) (attributeID : Nat) (samplingInterval : UA_Double) :
    UA_CreateMonitoredItemsRequest :=
  let item : UA_MonitoredItemCreateRequest :=
    { UA_MonitoredItemCreateRequest_init with
      itemToMonitor := { nodeId := nodeId, attributeId := attributeID }
      monitoringMode := UA_MONITORINGMODE_REPORTING
      requestedParameters :=
        { UA_MonitoredItemCreateRequest_init.requestedParameters with
          clientHandle := clientHandle
          samplingInterval := samplingInterval
          discardOldest := true
          queueSize := 1 } }
  { UA_CreateMonitoredItemsRequest_init with
    subscriptionId := subscriptionId
    itemsToCreate := [item] }

/-- The status `UA_Client_Subscriptions_addMonitoredItem` derives from the response
("slight misuse of retval here to check if the addition was successfull"). -/
def UA_Client_Subscriptions_addMonitoredItem_retval
    (response : UA_CreateMonitoredItemsResponse) : UA_StatusCode :=
  if response.responseHeader.serviceResult = UA_STATUSCODE_GOOD then
    if response.results.length = 1 then
      match response.results with
      | result :: _ => result.statusCode
      | [] => UA_STATUSCODE_BADUNEXPECTEDERROR
    else UA_STATUSCODE_BADUNEXPECTEDERROR
  else response.responseHeader.serviceResult

/-- The function `UA_Client_Subscriptions_addMonitoredItem`.  `newMon` is the block
`UA_malloc` hands out (taken to succeed), with the data it happens to hold; the third
component of the result is what is written to `*newMonitoredItemId`. -/
def UA_Client_Subscriptions_addMonitoredItem (client : UA_Client) (subscriptionId : Nat)
    (nodeId : UA_NodeId) (attributeID : Nat) (hf : Option Nat) (hfContext : Nat)
    (samplingInterval : UA_Double) (newMon : UA_Client_MonitoredItem)
    (exchange :
      UA_CreateMonitoredItemsRequest → UA_CreateMonitoredItemsResponse × UA_ClientState) :
    UA_StatusCode × UA_Client × Option Nat :=
  match findSubscription client subscriptionId with
  | none => (UA_STATUSCODE_BADSUBSCRIPTIONIDINVALID, client, none)
  | some sub =>
    /- Send the request -/
    let client1 : UA_Client :=
      { client with
        monitoredItemHandles := (client.monitoredItemHandles + 1) % UA_UINT32_MODULUS }
    let request := UA_Client_Subscriptions_addMonitoredItem_request
      client1.monitoredItemHandles subscriptionId nodeId attributeID samplingInterval
    let answered := UA_Client_Service exchange client1 request
    let response := answered.1
    let retval := UA_Client_Subscriptions_addMonitoredItem_retval response
    if retval ≠ UA_STATUSCODE_GOOD then (retval, answered.2, none)
    else
      /- Set the handler -/
      let created : UA_Client_MonitoredItem :=
        { newMon with
          monitoringMode := UA_MONITORINGMODE_REPORTING
          monitoredNodeId := nodeId
          attributeID := attributeID
          clientHandle := answered.2.monitoredItemHandles
          samplingInterval := samplingInterval
          queueSize := 1
          discardOldest := true
          handler := hf
          handlerContext := hfContext
          monitoredItemId :=
            match response.results with
            | result :: _ => result.monitoredItemId
            | [] => newMon.monitoredItemId }
      (UA_STATUSCODE_GOOD,
       { answered.2 with
         subscriptions :=
           UA_Client_Subscription_edit
             (fun s => { s with monitoredItems := created :: s.monitoredItems })
             subscriptionId answered.2.subscriptions },
       some created.monitoredItemId)

/-! ## Subscription client: examples -/

/-- A client in connection state 3 with one subscription (id 7) without monitored items. -/
def ex_client : UA_Client :=
  { state := 3, config := { timeout := 5000 },
    subscriptions :=
      [ { lifeTime := 100, keepAliveCount := 10, publishingInterval := 500,
          subscriptionID := 7, notificationsPerPublish := 0, priority := 0,
          monitoredItems := [] } ],
    monitoredItemHandles := 41, pendingNotificationsAcks := [] }

/-- The settings asked for: interval 1000, lifetime 60, keep-alive 5. -/
def ex_settings : UA_SubscriptionSettings :=
  { requestedPublishingInterval := 1000, requestedLifetimeCount := 60,
    requestedMaxKeepAliveCount := 5, maxNotificationsPerPublish := 20,
    publishingEnabled := true, priority := 1 }

/-- A server that grants subscription 8 with revised interval 2000, lifetime 30 and
keep-alive 3. -/
def ex_createSubscription (request : UA_CreateSubscriptionRequest) :
    UA_CreateSubscriptionResponse × UA_ClientState :=
  ({ responseHeader := { serviceResult := UA_STATUSCODE_GOOD }, subscriptionId := 8,
     revisedPublishingInterval := 2000, revisedLifetimeCount := 30,
     revisedMaxKeepAliveCount := 3 }, 3)

/-- The block `UA_malloc` hands out in the examples. -/
def ex_block : UA_Client_MonitoredItem :=
  { monitoringMode := 0, monitoredNodeId := UA_NODEID_NULL, attributeID := 0,
    clientHandle := 0, samplingInterval := 0, queueSize := 0, discardOldest := false,
    handler := none, handlerContext := 0, handlerEvents := none, handlerEventsContext := 0,
    monitoredItemId := 0 }

/-- A server that creates the monitored item 55. -/
def ex_createMonitoredItems (request : UA_CreateMonitoredItemsRequest) :
    UA_CreateMonitoredItemsResponse × UA_ClientState :=
  ({ responseHeader := { serviceResult := UA_STATUSCODE_GOOD },
     results := [{ statusCode := UA_STATUSCODE_GOOD, monitoredItemId := 55,
                   revisedSamplingInterval := 250, revisedQueueSize := 1 }] }, 3)

/-! ## Subscription client: monitored events -/

/-- The CreateMonitoredItems request `UA_Client_Subscriptions_addMonitoredEvent` sends: the
event filter rides in `requestedParameters.filter`, sampling interval 0, `discardOldest`
false, the queue size as `UA_MonitoredItemCreateRequest_init` left it. -/
def UA_Client_Subscriptions_addMonitoredEvent_request (clientHandle subscriptionId : Nat)
    (nodeId : UA_NodeId) (attributeID : Nat) (selectClause whereClause : List Nat) :
    UA_CreateMonitoredItemsRequest :=
  let evFilter : UA_EventFilter :=
    { selectClauses := selectClause, whereClauseElements := whereClause }
  let item : UA_MonitoredItemCreateRequest :=
    { UA_MonitoredItemCreateRequest_init with
      itemToMonitor := { nodeId := nodeId, attributeId := attributeID }
      monitoringMode := UA_MONITORINGMODE_REPORTING
      requestedParameters :=
        { UA_MonitoredItemCreateRequest_init.requestedParameters with
          clientHandle := clientHandle
          samplingInterval := 0
          discardOldest := false
          filter := some evFilter } }
  { UA_CreateMonitoredItemsRequest_init with
    subscriptionId := subscriptionId
    itemsToCreate := [item] }

/-- The status `UA_Client_Subscriptions_addMonitoredEvent` derives from the response: the
service result when there are no results, the status of the first result otherwise. -/
def UA_Client_Subscriptions_addMonitoredEvent_retval
    (response : UA_CreateMonitoredItemsResponse) : UA_StatusCode :=
  match response.results with
  | [] => response.responseHeader.serviceResult
  | result :: _ => result.statusCode

/-- The function `UA_Client_Subscriptions_addMonitoredEvent`.  The clauses are the arrays
handed in with their sizes; `newMon` is the block `UA_malloc` hands out, with the data it
happens to hold; the third component of the result is what is written to
`*newMonitoredItemId`.  The result is `none` when the function reads `response.results[0]`
of a response without results: the array of such a response is not a place to read from. -/
def UA_Client_Subscriptions_addMonitoredEvent (client : UA_Client) (subscriptionId : Nat)
    (nodeId : UA_NodeId) (attributeID : Nat) (selectClause whereClause : List Nat)
    (hf : Option Nat) (hfContext : Nat) (newMon : UA_Client_MonitoredItem)
    (exchange :
      UA_CreateMonitoredItemsRequest → UA_CreateMonitoredItemsResponse × UA_ClientState) :
    Option (UA_StatusCode × UA_Client × Option Nat) :=
  match findSubscription client subscriptionId with
  | none => some (UA_STATUSCODE_BADSUBSCRIPTIONIDINVALID, client, none)
  | some _ =>
    /- Send the request -/
    let client1 : UA_Client :=
      { client with
        monitoredItemHandles := (client.monitoredItemHandles + 1) % UA_UINT32_MODULUS }
    let request := UA_Client_Subscriptions_addMonitoredEvent_request
      client1.monitoredItemHandles subscriptionId nodeId attributeID selectClause whereClause
    let answered := UA_Client_Service exchange client1 request
    let response := answered.1
    let retval := UA_Client_Subscriptions_addMonitoredEvent_retval response
    if retval ≠ UA_STATUSCODE_GOOD then some (retval, answered.2, none)
    else
      /- Create the handler -/
      match response.results with
      | [] => none
      | result :: _ =>
        let created : UA_Client_MonitoredItem :=
          { newMon with
            monitoringMode := UA_MONITORINGMODE_REPORTING
            monitoredNodeId := nodeId
            attributeID := attributeID
            clientHandle := answered.2.monitoredItemHandles
            samplingInterval := 0
            queueSize := 0
            discardOldest := false
            handlerEvents := hf
            handlerEventsContext := hfContext
            monitoredItemId := result.monitoredItemId }
        some (UA_STATUSCODE_GOOD,
         { answered.2 with
           subscriptions :=
             UA_Client_Subscription_edit
               (fun s => { s with monitoredItems := created :: s.monitoredItems })
               subscriptionId answered.2.subscriptions },
         some created.monitoredItemId)

/-! ## Subscription client: removal -/

structure UA_DeleteMonitoredItemsRequest where
  subscriptionId : Nat
  monitoredItemIds : List Nat
deriving DecidableEq, Repr

/-- The value left by `UA_DeleteMonitoredItemsRequest_init`. -/
def UA_DeleteMonitoredItemsRequest_init : UA_DeleteMonitoredItemsRequest :=
  { subscriptionId := 0, monitoredItemIds := [] }

/-- A DeleteMonitoredItems response; `resultsSize` is the length of `results`. -/
structure UA_DeleteMonitoredItemsResponse where
  responseHeader : UA_ResponseHeader
  results : List UA_StatusCode
deriving DecidableEq, Repr

structure UA_DeleteSubscriptionsRequest where
  subscriptionIds : List Nat
deriving DecidableEq, Repr

/-- The value left by `UA_DeleteSubscriptionsRequest_init`. -/
def UA_DeleteSubscriptionsRequest_init : UA_DeleteSubscriptionsRequest :=
  { subscriptionIds := [] }

/-- A DeleteSubscriptions response; `resultsSize` is the length of `results`. -/
structure UA_DeleteSubscriptionsResponse where
  responseHeader : UA_ResponseHeader
  results : List UA_StatusCode
deriving DecidableEq, Repr

/-- A request handed to the transport by the removal functions, in the order of sending. -/
inductive UA_Client_ServiceCall where
  | deleteMonitoredItems (request : UA_DeleteMonitoredItemsRequest)
  | deleteSubscriptions (request : UA_DeleteSubscriptionsRequest)
deriving DecidableEq, Repr

/-- The search loop of `UA_Client_Subscriptions_removeMonitoredItem`: the first monitored
item with the id, where `LIST_FOREACH` breaks. -/
def UA_Client_MonitoredItem_find (monitoredItemId : Nat) :
    List UA_Client_MonitoredItem → Option UA_Client_MonitoredItem
  | [] => none
  | mon :: rest =>
    if mon.monitoredItemId == monitoredItemId then some mon
    else UA_Client_MonitoredItem_find monitoredItemId rest

/-- `LIST_REMOVE(mon, listEntry)` for the item the search stopped at: the first monitored
item with the id leaves the list, the others keep their order. -/
def UA_Client_MonitoredItem_remove (monitoredItemId : Nat) :
    List UA_Client_MonitoredItem → List UA_Client_MonitoredItem
  | [] => []
  | mon :: rest =>
    if mon.monitoredItemId == monitoredItemId then rest
    else mon :: UA_Client_MonitoredItem_remove monitoredItemId rest

/-- The code `UA_Client_Subscriptions_removeMonitoredItem` goes by: the service result, the
first result taking its place when the service result is Good and `resultsSize > 1`. -/
def UA_Client_Subscriptions_removeMonitoredItem_retval
    (response : UA_DeleteMonitoredItemsResponse) : UA_StatusCode :=
  if response.responseHeader.serviceResult = UA_STATUSCODE_GOOD ∧ response.results.length > 1
  then
    match response.results with
    | result :: _ => result
    | [] => response.responseHeader.serviceResult
  else response.responseHeader.serviceResult

/-- The function `UA_Client_Subscriptions_removeMonitoredItem`.  The third component of the
result lists the requests handed to the transport. -/
def UA_Client_Subscriptions_removeMonitoredItem (client : UA_Client)
    (subscriptionId monitoredItemId : Nat)
    (exchange :
      UA_DeleteMonitoredItemsRequest → UA_DeleteMonitoredItemsResponse × UA_ClientState) :
    UA_StatusCode × UA_Client × List UA_Client_ServiceCall :=
  match findSubscription client subscriptionId with
  | none => (UA_STATUSCODE_BADSUBSCRIPTIONIDINVALID, client, [])
  | some sub =>
    match UA_Client_MonitoredItem_find monitoredItemId sub.monitoredItems with
    | none => (UA_STATUSCODE_BADMONITOREDITEMIDINVALID, client, [])
    | some mon =>
      /- remove the monitoreditem remotely -/
      let request : UA_DeleteMonitoredItemsRequest :=
        { UA_DeleteMonitoredItemsRequest_init with
          subscriptionId := sub.subscriptionID
          monitoredItemIds := [mon.monitoredItemId] }
      let answered := UA_Client_Service exchange client request
      let retval := UA_Client_Subscriptions_removeMonitoredItem_retval answered.1
      if retval ≠ UA_STATUSCODE_GOOD ∧ retval ≠ UA_STATUSCODE_BADMONITOREDITEMIDINVALID then
        (retval, answered.2, [UA_Client_ServiceCall.deleteMonitoredItems request])
      else
        (UA_STATUSCODE_GOOD,
         { answered.2 with
           subscriptions :=
             UA_Client_Subscription_edit
               (fun s =>
                 { s with
                   monitoredItems :=
                     UA_Client_MonitoredItem_remove monitoredItemId s.monitoredItems })
               subscriptionId answered.2.subscriptions },
         [UA_Client_ServiceCall.deleteMonitoredItems request])

/-- `LIST_REMOVE(sub, listEntry)`: the first subscription with the id, the one
`findSubscription` returned, leaves the list. -/
def UA_Client_Subscription_remove (subscriptionId : Nat) :
    List UA_Client_Subscription → List UA_Client_Subscription
  | [] => []
  | sub :: rest =>
    if sub.subscriptionID == subscriptionId then rest
    else sub :: UA_Client_Subscription_remove subscriptionId rest

/-- The function `UA_Client_Subscriptions_forceDelete` for the subscription
`findSubscription` returned for the id: its monitored items are unlinked and freed one by
one, then the subscription itself. -/
def UA_Client_Subscriptions_forceDelete (client : UA_Client) (subscriptionId : Nat) :
    UA_Client :=
  let emptied := UA_Client_Subscription_edit (fun s => { s with monitoredItems := [] })
    subscriptionId client.subscriptions
  { client with subscriptions := UA_Client_Subscription_remove subscriptionId emptied }

/-- The loop of `UA_Client_Subscriptions_remove` over the monitored items of the
subscription.  `LIST_FOREACH_SAFE` walks the items as they were linked at entry; an
iteration that returns Good has unlinked the head of what was left, which is `mon` itself,
so the walk meets each item of the snapshot once.  The `k`-th DeleteMonitoredItems exchange
of the run is `deleteMonitoredItems k`. -/
def UA_Client_Subscriptions_remove_items
    (deleteMonitoredItems :
      Nat → UA_DeleteMonitoredItemsRequest → UA_DeleteMonitoredItemsResponse × UA_ClientState)
    (subscriptionID : Nat) :
    List UA_Client_MonitoredItem → Nat → UA_Client →
      UA_StatusCode × UA_Client × List UA_Client_ServiceCall
  | [], _, client => (UA_STATUSCODE_GOOD, client, [])
  | mon :: rest, k, client =>
    let removed := UA_Client_Subscriptions_removeMonitoredItem client subscriptionID
      mon.monitoredItemId (deleteMonitoredItems k)
    if removed.1 ≠ UA_STATUSCODE_GOOD then removed
    else
      let others := UA_Client_Subscriptions_remove_items deleteMonitoredItems subscriptionID
        rest (k + 1) removed.2.1
      (others.1, others.2.1, removed.2.2 ++ others.2.2)

/-- The code `UA_Client_Subscriptions_remove` goes by: the service result, the first result
taking its place when the service result is Good and `resultsSize > 0`. -/
def UA_Client_Subscriptions_remove_retval (response : UA_DeleteSubscriptionsResponse) :
    UA_StatusCode :=
  if response.responseHeader.serviceResult = UA_STATUSCODE_GOOD ∧ response.results.length > 0
  then
    match response.results with
    | result :: _ => result
    | [] => response.responseHeader.serviceResult
  else response.responseHeader.serviceResult

/-- The function `UA_Client_Subscriptions_remove`.  The third component of the result lists
the requests handed to the transport. -/
def UA_Client_Subscriptions_remove (client : UA_Client) (subscriptionId : Nat)
    (deleteMonitoredItems :
      Nat → UA_DeleteMonitoredItemsRequest → UA_DeleteMonitoredItemsResponse × UA_ClientState)
    (deleteSubscriptions :
      UA_DeleteSubscriptionsRequest → UA_DeleteSubscriptionsResponse × UA_ClientState) :
    UA_StatusCode × UA_Client × List UA_Client_ServiceCall :=
  match findSubscription client subscriptionId with
  | none => (UA_STATUSCODE_BADSUBSCRIPTIONIDINVALID, client, [])
  | some sub =>
    let items := UA_Client_Subscriptions_remove_items deleteMonitoredItems sub.subscriptionID
      sub.monitoredItems 0 client
    if items.1 ≠ UA_STATUSCODE_GOOD then items
    else
      /- remove the subscription remotely -/
      let request : UA_DeleteSubscriptionsRequest :=
        { UA_DeleteSubscriptionsRequest_init with subscriptionIds := [sub.subscriptionID] }
      let answered := UA_Client_Service deleteSubscriptions items.2.1 request
      let retval := UA_Client_Subscriptions_remove_retval answered.1
      if retval ≠ UA_STATUSCODE_GOOD ∧ retval ≠ UA_STATUSCODE_BADSUBSCRIPTIONIDINVALID then
        (retval, answered.2,
         items.2.2 ++ [UA_Client_ServiceCall.deleteSubscriptions request])
      else
        (UA_STATUSCODE_GOOD, UA_Client_Subscriptions_forceDelete answered.2 sub.subscriptionID,
         items.2.2 ++ [UA_Client_ServiceCall.deleteSubscriptions request])

/-! ## Subscription client: publish -/

abbrev UA_CLIENTSTATE_DISCONNECTED : UA_ClientState := 0
abbrev UA_CLIENTSTATE_CONNECTED : UA_ClientState := 1
abbrev UA_CLIENTSTATE_SECURECHANNEL : UA_ClientState := 2
abbrev UA_CLIENTSTATE_SESSION : UA_ClientState := 3
abbrev UA_CLIENTSTATE_SESSION_RENEWED : UA_ClientState := 4

/-- A `UA_DateTime`: a signed count of 100 nanosecond ticks. -/
abbrev UA_DateTime := Int

/-- Ticks per millisecond (`UA_MSEC_TO_DATETIME`, a `long long` constant). -/
abbrev UA_MSEC_TO_DATETIME : Int := 10000

structure UA_MonitoredItemNotification where
  clientHandle : Nat
  value : UA_DataValue
deriving DecidableEq, Repr

/-- An event field list; `eventFieldsSize` is the length of `eventFields`. -/
structure UA_EventFieldList where
  clientHandle : Nat
  eventFields : List UA_Variant
deriving DecidableEq, Repr

/-- What `content.decoded` of a notification-data extension object holds: the type
descriptor it points to together with the data of that type.  Only two descriptors are
told apart by the client, every other one is `other` with its index in `UA_TYPES`. -/
inductive UA_NotificationData_decoded where
  | dataChangeNotification (monitoredItems : List UA_MonitoredItemNotification)
  | eventNotificationList (events : List UA_EventFieldList)
  | other (typeIndex : Nat)
deriving DecidableEq, Repr

/-- An element of `notificationData`, a `UA_ExtensionObject`.  For an encoding other than
decoded, `decoded` stands for the bytes of the body, which the client does not look at. -/
structure UA_NotificationData where
  encoding : Nat
  decoded : UA_NotificationData_decoded
deriving DecidableEq, Repr

structure UA_NotificationMessage where
  sequenceNumber : Nat
  publishTime : UA_DateTime
  notificationData : List UA_NotificationData
deriving DecidableEq, Repr

/-- A Publish request; `subscriptionAcknowledgementsSize` is the length of the array. -/
structure UA_PublishRequest where
  subscriptionAcknowledgements : List UA_SubscriptionAcknowledgement
deriving DecidableEq, Repr

/-- The value left by `UA_PublishRequest_init`. -/
def UA_PublishRequest_init : UA_PublishRequest :=
  { subscriptionAcknowledgements := [] }

/-- A Publish response; `resultsSize` is the length of `results`. -/
structure UA_PublishResponse where
  responseHeader : UA_ResponseHeader
  subscriptionId : Nat
  availableSequenceNumbers : List Nat
  moreNotifications : Bool
  notificationMessage : UA_NotificationMessage
  results : List UA_StatusCode
deriving DecidableEq, Repr

/-- An invocation of a handler of a monitored item, with the arguments passed: the function
pointer called, the monitored item id, the value or the event fields with their number, and
the context pointer. -/
inductive UA_Client_HandlerCall where
  | dataChange (handler : Option Nat) (monitoredItemId : Nat) (value : UA_DataValue)
      (context : Nat)
  | event (handler : Option Nat) (monitoredItemId : Nat) (eventFieldsSize : Nat)
      (eventFields : List UA_Variant) (context : Nat)
deriving DecidableEq, Repr

/-- The removal loop over the pending acknowledgements: the first entry with the
subscription id and the sequence number of `orig_ack` is unlinked and freed, where
`LIST_FOREACH` breaks.  (The assertion that follows compares the freed entry with the new
head of the list, from which it differs.) -/
def UA_Client_NotificationsAckNumber_remove (orig_ack : UA_SubscriptionAcknowledgement) :
    List UA_SubscriptionAcknowledgement → List UA_SubscriptionAcknowledgement
  | [] => []
  | ack :: rest =>
    if ack.subscriptionId == orig_ack.subscriptionId &&
        ack.sequenceNumber == orig_ack.sequenceNumber then rest
    else ack :: UA_Client_NotificationsAckNumber_remove orig_ack rest

/-- The first loop of `UA_Client_processPublishResponse`, over the indices below both
`response->resultsSize` and `request->subscriptionAcknowledgementsSize`: "Check if the
server has acknowledged any of the sent ACKs".  The arguments are what is left of the two
arrays and the list of pending acknowledgements. -/
def UA_Client_processPublishResponse_acks :
    List UA_StatusCode → List UA_SubscriptionAcknowledgement →
      List UA_SubscriptionAcknowledgement → List UA_SubscriptionAcknowledgement
  | result :: results, orig_ack :: acknowledgements, pending =>
    /- remove also acks that are unknown to the server -/
    if result ≠ UA_STATUSCODE_GOOD ∧ result ≠ UA_STATUSCODE_BADSEQUENCENUMBERUNKNOWN then
      UA_Client_processPublishResponse_acks results acknowledgements pending
    else
      /- Remove the ack from the list -/
      UA_Client_processPublishResponse_acks results acknowledgements
        (UA_Client_NotificationsAckNumber_remove orig_ack pending)
  | _, _, pending => pending

/-- The search loop over the monitored items of the subscription: the first item with the
client handle, where `LIST_FOREACH` breaks. -/
def UA_Client_MonitoredItem_findHandle (clientHandle : Nat) :
    List UA_Client_MonitoredItem → Option UA_Client_MonitoredItem
  | [] => none
  | mon :: rest =>
    if mon.clientHandle == clientHandle then some mon
    else UA_Client_MonitoredItem_findHandle clientHandle rest

/-- The loop over the monitored items of a data change notification. -/
def UA_Client_processPublishResponse_dataChange (sub : UA_Client_Subscription) :
    List UA_MonitoredItemNotification → List UA_Client_HandlerCall
  | [] => []
  | mitemNot :: rest =>
    match UA_Client_MonitoredItem_findHandle mitemNot.clientHandle sub.monitoredItems with
    | some mon =>
      UA_Client_HandlerCall.dataChange mon.handler mon.monitoredItemId mitemNot.value
          mon.handlerContext ::
        UA_Client_processPublishResponse_dataChange sub rest
    | none => UA_Client_processPublishResponse_dataChange sub rest

/-- The loop over the events of an event notification list. -/
def UA_Client_processPublishResponse_events (sub : UA_Client_Subscription) :
    List UA_EventFieldList → List UA_Client_HandlerCall
  | [] => []
  | eventFieldList :: rest =>
    match UA_Client_MonitoredItem_findHandle eventFieldList.clientHandle sub.monitoredItems with
    | some mon =>
      UA_Client_HandlerCall.event mon.handlerEvents mon.monitoredItemId
          eventFieldList.eventFields.length eventFieldList.eventFields mon.handlerContext ::
        UA_Client_processPublishResponse_events sub rest
    | none => UA_Client_processPublishResponse_events sub rest

/-- The second loop of `UA_Client_processPublishResponse`: "Process the notification
messages".  The result lists the handler invocations in the order they are made. -/
def UA_Client_processPublishResponse_notifications (sub : UA_Client_Subscription) :
    List UA_NotificationData → List UA_Client_HandlerCall
  | [] => []
  | notification :: rest =>
    if notification.encoding ≠ UA_EXTENSIONOBJECT_DECODED then
      UA_Client_processPublishResponse_notifications sub rest
    else
      match notification.decoded with
      | UA_NotificationData_decoded.dataChangeNotification monitoredItems =>
        UA_Client_processPublishResponse_dataChange sub monitoredItems ++
          UA_Client_processPublishResponse_notifications sub rest
      | UA_NotificationData_decoded.eventNotificationList events =>
        UA_Client_processPublishResponse_events sub events ++
          UA_Client_processPublishResponse_notifications sub rest
      | UA_NotificationData_decoded.other _ =>
        /- no other types are supported -/
        UA_Client_processPublishResponse_notifications sub rest

/-- The function `UA_Client_processPublishResponse`: the client it leaves and the handler
invocations it makes, in order.  A handler is user code that is handed an id, the data and
its context; it is taken to return and to leave the client alone.  `UA_malloc` is taken to
succeed. -/
def UA_Client_processPublishResponse (client : UA_Client) (request : UA_PublishRequest)
    (response : UA_PublishResponse) : UA_Client × List UA_Client_HandlerCall :=
  if response.responseHeader.serviceResult ≠ UA_STATUSCODE_GOOD then (client, [])
  else
    match findSubscription client response.subscriptionId with
    | none => (client, [])
    | some sub =>
      /- Check if the server has acknowledged any of the sent ACKs -/
      let pending := UA_Client_processPublishResponse_acks response.results
        request.subscriptionAcknowledgements client.pendingNotificationsAcks
      /- Process the notification messages -/
      let msg := response.notificationMessage
      let calls := UA_Client_processPublishResponse_notifications sub msg.notificationData
      /- Add to the list of pending acks -/
      let tmpAck : UA_SubscriptionAcknowledgement :=
        { sequenceNumber := msg.sequenceNumber, subscriptionId := sub.subscriptionID }
      ({ client with pendingNotificationsAcks := tmpAck :: pending }, calls)

/-- The array of acknowledgements of a Publish request: after a first pass has counted the
pending acknowledgements and the array of that size is there, the second pass copies the
`i`-th pending acknowledgement to position `i`.  `written` is the array up to `i`. -/
def UA_PublishRequest_subscriptionAcknowledgements :
    List UA_SubscriptionAcknowledgement → List UA_SubscriptionAcknowledgement →
      List UA_SubscriptionAcknowledgement
  | [], written => written
  | ack :: rest, written =>
    UA_PublishRequest_subscriptionAcknowledgements rest
      (written ++ [{ sequenceNumber := ack.sequenceNumber,
                     subscriptionId := ack.subscriptionId }])

/-- One pass of the loop of `UA_Client_Subscriptions_manuallySendPublishRequest`, as it is
recorded: the client the pass found, the request it built, the response it obtained and the
handler invocations made while the response was processed. -/
structure UA_Client_PublishIteration where
  client : UA_Client
  request : UA_PublishRequest
  response : UA_PublishResponse
  calls : List UA_Client_HandlerCall
deriving DecidableEq, Repr

/-- The `while(moreNotifications)` loop of
`UA_Client_Subscriptions_manuallySendPublishRequest`.  `publish k` is the `k`-th Publish
exchange of the run and `nowMonotonic k` the `k`-th reading of the monotonic clock (reading
0 is taken before the loop).  The first argument bounds the number of passes; `none` means
the bound was reached with the loop still running. -/
def UA_Client_Subscriptions_manuallySendPublishRequest_loop
    (publish : Nat → UA_PublishRequest → UA_PublishResponse × UA_ClientState)
    (nowMonotonic : Nat → UA_DateTime) (maxDate : UA_DateTime) :
    Nat → Nat → UA_Client →
      Option (UA_StatusCode × UA_Client × List UA_Client_PublishIteration)
  | 0, _, _ => none
  | passes + 1, k, client =>
    let request : UA_PublishRequest :=
      { UA_PublishRequest_init with
        subscriptionAcknowledgements :=
          UA_PublishRequest_subscriptionAcknowledgements client.pendingNotificationsAcks [] }
    let answered := UA_Client_Service (publish k) client request
    let response := answered.1
    let processed := UA_Client_processPublishResponse answered.2 request response
    let iteration : UA_Client_PublishIteration :=
      { client := client, request := request, response := response, calls := processed.2 }
    let now := nowMonotonic (k + 1)
    if now > maxDate then
      some (UA_STATUSCODE_GOODNONCRITICALTIMEOUT, processed.1, [iteration])
    else if response.moreNotifications then
      match UA_Client_Subscriptions_manuallySendPublishRequest_loop publish nowMonotonic
          maxDate passes (k + 1) processed.1 with
      | none => none
      | some run => some (run.1, run.2.1, iteration :: run.2.2)
    else some (UA_STATUSCODE_GOOD, processed.1, [iteration])

/-- The function `UA_Client_Subscriptions_manuallySendPublishRequest`; the third component
of the result records the passes of the loop. -/
def UA_Client_Subscriptions_manuallySendPublishRequest (client : UA_Client)
    (publish : Nat → UA_PublishRequest → UA_PublishResponse × UA_ClientState)
    (nowMonotonic : Nat → UA_DateTime) (passes : Nat) :
    Option (UA_StatusCode × UA_Client × List UA_Client_PublishIteration) :=
  if client.state < UA_CLIENTSTATE_SESSION then
    some (UA_STATUSCODE_BADSERVERNOTCONNECTED, client, [])
  else
    let now := nowMonotonic 0
    let maxDate := now + (client.config.timeout : Int) * UA_MSEC_TO_DATETIME
    match UA_Client_Subscriptions_manuallySendPublishRequest_loop publish nowMonotonic maxDate
        passes 0 client with
    | none => none
    | some run =>
      if run.2.1.state < UA_CLIENTSTATE_SESSION then
        some (UA_STATUSCODE_BADSERVERNOTCONNECTED, run.2.1, run.2.2)
      else some run

/-- A server whose CreateMonitoredItems answer carries no result although its service
result is Good. -/
def ex_createMonitoredItems_empty (request : UA_CreateMonitoredItemsRequest) :
    UA_CreateMonitoredItemsResponse × UA_ClientState :=
  ({ responseHeader := { serviceResult := UA_STATUSCODE_GOOD }, results := [] }, 3)

/-- A CreateMonitoredItems answer with a failed service result (BadUnexpectedError) that
nevertheless carries a Good result for the item, monitored item 55. -/
def ex_createMonitoredItems_failed (request : UA_CreateMonitoredItemsRequest) :
    UA_CreateMonitoredItemsResponse × UA_ClientState :=
  ({ responseHeader := { serviceResult := UA_STATUSCODE_BADUNEXPECTEDERROR },
     results := [{ statusCode := UA_STATUSCODE_GOOD, monitoredItemId := 55,
                   revisedSamplingInterval := 0, revisedQueueSize := 0 }] }, 3)

/-- A data-change monitored item as `UA_Client_Subscriptions_addMonitoredItem` registers it,
with handler 1 and context 9. -/
def ex_monitoredItem (monitoredItemId clientHandle : Nat) : UA_Client_MonitoredItem :=
  { ex_block with
    monitoringMode := UA_MONITORINGMODE_REPORTING
    monitoredNodeId := ex_id 3001
    attributeID := 13
    clientHandle := clientHandle
    samplingInterval := 250
    queueSize := 1
    discardOldest := true
    handler := some 1
    handlerContext := 9
    monitoredItemId := monitoredItemId }

/-- Subscription `subscriptionID` with the given monitored items. -/
def ex_subscription (subscriptionID : Nat) (monitoredItems : List UA_Client_MonitoredItem) :
    UA_Client_Subscription :=
  { lifeTime := 100, keepAliveCount := 10, publishingInterval := 500,
    subscriptionID := subscriptionID, notificationsPerPublish := 0, priority := 0,
    monitoredItems := monitoredItems }

/-- A client with subscription 7 (items 56 and 55, client handles 43 and 42) and
subscription 9 (item 70, client handle 44). -/
def ex_client_items : UA_Client :=
  { ex_client with
    subscriptions :=
      [ ex_subscription 7 [ex_monitoredItem 56 43, ex_monitoredItem 55 42],
        ex_subscription 9 [ex_monitoredItem 70 44] ]
    monitoredItemHandles := 44 }

/-- A server that answers DeleteMonitoredItems with the service result Good and the single
result BadUnexpectedError. -/
def ex_deleteMonitoredItems (request : UA_DeleteMonitoredItemsRequest) :
    UA_DeleteMonitoredItemsResponse × UA_ClientState :=
  ({ responseHeader := { serviceResult := UA_STATUSCODE_GOOD },
     results := [UA_STATUSCODE_BADUNEXPECTEDERROR] }, 3)

/-- A server that answers DeleteSubscriptions with the service result Good and the result
BadSubscriptionIdInvalid: it no longer knows the subscription. -/
def ex_deleteSubscriptions (request : UA_DeleteSubscriptionsRequest) :
    UA_DeleteSubscriptionsResponse × UA_ClientState :=
  ({ responseHeader := { serviceResult := UA_STATUSCODE_GOOD },
     results := [UA_STATUSCODE_BADSUBSCRIPTIONIDINVALID] }, 3)

/-- The acknowledgements a Publish response reports as settled: those of the request whose
result, at the same index, is Good or BadSequenceNumberUnknown. -/
def UA_Client_processPublishResponse_acknowledged :
    List UA_StatusCode → List UA_SubscriptionAcknowledgement →
      List UA_SubscriptionAcknowledgement
  | result :: results, orig_ack :: acknowledgements =>
    if result ≠ UA_STATUSCODE_GOOD ∧ result ≠ UA_STATUSCODE_BADSEQUENCENUMBERUNKNOWN then
      UA_Client_processPublishResponse_acknowledged results acknowledgements
    else orig_ack :: UA_Client_processPublishResponse_acknowledged results acknowledgements
  | _, _ => []

/-- A Good Publish response for subscription 7. -/
def ex_publishResponse (sequenceNumber : Nat) (results : List UA_StatusCode)
    (notificationData : List UA_NotificationData) (moreNotifications : Bool) :
    UA_PublishResponse :=
  { responseHeader := { serviceResult := UA_STATUSCODE_GOOD }, subscriptionId := 7,
    availableSequenceNumbers := [sequenceNumber], moreNotifications := moreNotifications,
    notificationMessage :=
      { sequenceNumber := sequenceNumber, publishTime := 0,
        notificationData := notificationData },
    results := results }

/-- The client `ex_client_items` after a first Publish response that delivers sequence
number 42 for subscription 7. -/
def ex_client_delivered : UA_Client :=
  (UA_Client_processPublishResponse ex_client_items { subscriptionAcknowledgements := [] }
    (ex_publishResponse 42 [] [] true)).1

/-! ## Subscription client: reference definitions of the routing property -/

/-- Reference definition: the monitored-item notifications of a Publish response in array
order, that is by index in `notificationData` and then by index in `monitoredItems`; only
decoded data change notifications carry any. -/
def UA_PublishResponse_monitoredItemNotifications_spec (response : UA_PublishResponse) :
    List UA_MonitoredItemNotification :=
  response.notificationMessage.notificationData.flatMap (fun notification =>
    if notification.encoding = UA_EXTENSIONOBJECT_DECODED then
      match notification.decoded with
      | UA_NotificationData_decoded.dataChangeNotification monitoredItems => monitoredItems
      | _ => []
    else [])

/-- Reference definition: the handler invocation a monitored-item notification is routed to,
that of the monitored item of the subscription with the client handle of the notification,
with the id of that item and the value of the notification; none when no item has the
handle. -/
def UA_Client_Subscription_route_spec (sub : UA_Client_Subscription)
    (mitemNot : UA_MonitoredItemNotification) : Option UA_Client_HandlerCall :=
  (sub.monitoredItems.find? (fun mon => mon.clientHandle == mitemNot.clientHandle)).map
    (fun mon => UA_Client_HandlerCall.dataChange mon.handler mon.monitoredItemId
      mitemNot.value mon.handlerContext)

/-- Whether an invocation is one of a data-change handler. -/
def UA_Client_HandlerCall_isDataChange : UA_Client_HandlerCall → Bool
  | UA_Client_HandlerCall.dataChange _ _ _ _ => true
  | UA_Client_HandlerCall.event _ _ _ _ _ => false

/-- A data value holding the scalar `v`. -/
def ex_dataValue (v : Int) : UA_DataValue :=
  { hasValue := true,
    value := { type := some (ex_id UA_NS0ID_INT32), data := UA_VariantData.scalar v,
               arrayDimensions := [] },
    status := UA_STATUSCODE_GOOD }

/-- Notification data of a response: a decoded data change notification for the client
handles 42, 99 (which no item has) and 43, and an event notification list for handle 44. -/
def ex_notificationData : List UA_NotificationData :=
  [ { encoding := UA_EXTENSIONOBJECT_DECODED,
      decoded := UA_NotificationData_decoded.dataChangeNotification
        [ { clientHandle := 42, value := ex_dataValue 1 },
          { clientHandle := 99, value := ex_dataValue 2 },
          { clientHandle := 43, value := ex_dataValue 3 } ] },
    { encoding := UA_EXTENSIONOBJECT_DECODED,
      decoded := UA_NotificationData_decoded.eventNotificationList
        [ { clientHandle := 44, eventFields := [] } ] } ]

/-- The client `ex_client` after `UA_Client_Subscriptions_addMonitoredEvent` has registered
an event item on subscription 7 with event handler 5 and context 9; the server created
monitored item 55, and the block `UA_malloc` handed out was `ex_block`. -/
def ex_client_event : UA_Client :=
  ((UA_Client_Subscriptions_addMonitoredEvent ex_client 7 (ex_id 3001) 12 [1] [] (some 5) 9
    ex_block ex_createMonitoredItems).map (fun r => r.2.1)).getD ex_client

/-- Notification data with one event for client handle 42, with a single field. -/
def ex_eventData : List UA_NotificationData :=
  [ { encoding := UA_EXTENSIONOBJECT_DECODED,
      decoded := UA_NotificationData_decoded.eventNotificationList
        [ { clientHandle := 42, eventFields := [(ex_dataValue 17).value] } ] } ]

/-! ## Subscription client: the record of a publish run -/

/-- Reference definition: the passes recorded for a run are the successive Publish
exchanges, each processed before the next.  The pass found the client `client`; its response
is the one the transport gave, as the `k`-th exchange, to its request; its handler
invocations and the client the next pass finds are what `UA_Client_processPublishResponse`
made of that response; after the last pass the client is `final`. -/
def UA_Client_PublishIteration_chain
    (publish : Nat → UA_PublishRequest → UA_PublishResponse × UA_ClientState) :
    Nat → UA_Client → List UA_Client_PublishIteration → UA_Client → Prop
  | _, client, [], final => final = client
  | k, client, iteration :: rest, final =>
    iteration.client = client ∧
    iteration.response = (publish k iteration.request).1 ∧
    iteration.calls =
      (UA_Client_processPublishResponse
        { client with state := (publish k iteration.request).2 }
        iteration.request iteration.response).2 ∧
    UA_Client_PublishIteration_chain publish (k + 1)
      (UA_Client_processPublishResponse
        { client with state := (publish k iteration.request).2 }
        iteration.request iteration.response).1 rest final

/-- A server for the publish round trip: the first exchange delivers sequence number 42 for
subscription 7 with a data change for the unknown client handle 99 and announces more; the
later exchanges deliver sequence number 43 and announce nothing more.  The session stays
up. -/
def ex_publish (k : Nat) (request : UA_PublishRequest) :
    UA_PublishResponse × UA_ClientState :=
  if k = 0 then
    (ex_publishResponse 42 []
      [ { encoding := UA_EXTENSIONOBJECT_DECODED,
          decoded := UA_NotificationData_decoded.dataChangeNotification
            [ { clientHandle := 99, value := ex_dataValue 2 } ] } ] true, 3)
  else
    (ex_publishResponse 43 (request.subscriptionAcknowledgements.map
      (fun _ => UA_STATUSCODE_GOOD)) [] false, 3)

/-- A server that always has more notifications: the `k`-th exchange delivers sequence
number `k` for subscription 7 and acknowledges what the request carried. -/
def ex_publish_more (k : Nat) (request : UA_PublishRequest) :
    UA_PublishResponse × UA_ClientState :=
  (ex_publishResponse k (request.subscriptionAcknowledgements.map
    (fun _ => UA_STATUSCODE_GOOD)) [] true, 3)

/-- The server of `ex_publish_more`, except that the connection is lost during the second
exchange (the client is left in state 0). -/
def ex_publish_dropped (k : Nat) (request : UA_PublishRequest) :
    UA_PublishResponse × UA_ClientState :=
  ((ex_publish_more k request).1, if k = 0 then 3 else 0)

/-- A monotonic clock that advances by 20 milliseconds (200000 ticks) per reading. -/
def ex_clock (k : Nat) : UA_DateTime := 1000000 + 200000 * (k : Int)

/-- One pass of the publish loop written as a whole: the request carries the ledger, the
transport answers it as its `k`-th exchange, the response is processed.  The result is the
record of the pass and the client the pass leaves. -/
def UA_Client_PublishIteration_pass
    (publish : Nat → UA_PublishRequest → UA_PublishResponse × UA_ClientState)
    (k : Nat) (client : UA_Client) : UA_Client_PublishIteration × UA_Client :=
  let request : UA_PublishRequest :=
    { subscriptionAcknowledgements := client.pendingNotificationsAcks }
  let answered := publish k request
  let processed := UA_Client_processPublishResponse { client with state := answered.2 }
    request answered.1
  ({ client := client, request := request, response := answered.1, calls := processed.2 },
   processed.1)

/-- The client `ex_client_items` with a timeout of 30 milliseconds. -/
def ex_client_short : UA_Client :=
  { ex_client_items with config := { timeout := 30 } }

/-- The publish round trip of `ex_client_items` with the server `ex_publish`. -/
def ex_publish_run : UA_StatusCode × UA_Client × List UA_Client_PublishIteration :=
  (UA_Client_Subscriptions_manuallySendPublishRequest ex_client_items ex_publish ex_clock
    2).getD (UA_STATUSCODE_GOOD, ex_client_items, [])

/-! ## Subscription client: reference definition of the ledger update -/

/-- Reference definition: the old ledger from which, for each index below both
`resultsSize` and the number of acknowledgements of the request and in the order of the
indices, the first entry equal to the acknowledgement of the request at that index has been
removed when the result at that index is Good or BadSequenceNumberUnknown. -/
def UA_Client_pendingNotificationsAcks_spec (pending : List UA_SubscriptionAcknowledgement)
    (request : UA_PublishRequest) (response : UA_PublishResponse) :
    List UA_SubscriptionAcknowledgement :=
  (response.results.zip request.subscriptionAcknowledgements).foldl
    (fun left answered =>
      if answered.1 = UA_STATUSCODE_GOOD ∨ answered.1 = UA_STATUSCODE_BADSEQUENCENUMBERUNKNOWN
      then left.erase answered.2 else left)
    pending

/-- A Publish response with a failed service result (BadUnexpectedError) that nevertheless
names subscription 7, reports a result and carries notification data. -/
def ex_publishResponse_failed : UA_PublishResponse :=
  { ex_publishResponse 43 [UA_STATUSCODE_GOOD] ex_notificationData false with
    responseHeader := { serviceResult := UA_STATUSCODE_BADUNEXPECTEDERROR } }

/-! ## Subscription client: reference definition of the client-handle invariant -/

/-- The client handles of the registered monitored items, subscription by subscription. -/
def UA_Client_clientHandles (client : UA_Client) : List Nat :=
  client.subscriptions.flatMap (fun sub => sub.monitoredItems.map (fun mon => mon.clientHandle))

/-- Reference definition: the invariant of the client-handle generator.  No registered
monitored item has a client handle above the counter; the client handles of all registered
items, across all subscriptions, are pairwise distinct; and in each subscription, whose
list has the item registered last at its head, the client handles decrease from the head,
that is they increase in the order of registration. -/
def UA_Client_monitoredItemHandles_spec (client : UA_Client) : Prop :=
  (∀ handle ∈ UA_Client_clientHandles client, handle ≤ client.monitoredItemHandles) ∧
  (UA_Client_clientHandles client).Nodup ∧
  ∀ sub ∈ client.subscriptions,
    (sub.monitoredItems.map (fun mon => mon.clientHandle)).Pairwise (fun newer older =>
      newer > older)

/-! ## Delete references: the scan with its reads, and the reference definition -/

/-- The scan of `deleteOneWayReference` together with the indices at which it reads
`node->references[i]`, in the order of reading.  The result is `none` when the scan reads at
an index that is not below `referencesSize`, or when it is still running after `steps`
iterations; otherwise it is the index found, if any, and the reads. -/
def deleteOneWayReference_scan_reads (references : List UA_ReferenceNode)
    (item : UA_DeleteReferencesItem) : Nat → Nat → Option (Option Nat × List Nat)
  | 0, _ => none
  | steps + 1, i =>
    if i > references.length then some (none, []) /- underflow after i == 0 -/
    else
      match references.get? i with
      | none => none
      | some r =>
        if ¬ UA_NodeId_equal item.targetNodeId.nodeId r.targetId.nodeId then
          (deleteOneWayReference_scan_reads references item steps (size_t_decrement i)).map
            (fun rest => (rest.1, i :: rest.2))
        else if ¬ UA_NodeId_equal item.referenceTypeId r.referenceTypeId then
          (deleteOneWayReference_scan_reads references item steps (size_t_decrement i)).map
            (fun rest => (rest.1, i :: rest.2))
        else if item.isForward = r.isInverse then
          (deleteOneWayReference_scan_reads references item steps (size_t_decrement i)).map
            (fun rest => (rest.1, i :: rest.2))
        else some (some i, [i])

/-- Reference definition: an entry of the reference list matches the item when the target
node id is equal, the reference type id is equal, and `isInverse` differs from
`item.isForward`. -/
def deleteOneWayReference_matches_spec (item : UA_DeleteReferencesItem)
    (entry : UA_ReferenceNode) : Prop :=
  item.targetNodeId.nodeId = entry.targetId.nodeId ∧
  item.referenceTypeId = entry.referenceTypeId ∧
  entry.isInverse ≠ item.isForward

/-- Object `A` with five references: entries 0 and 2 are `A --Organizes--> B`, entry 1 goes to
another target, entry 3 has another reference type, entry 4 is the inverse direction. -/
def ex_node_references : UA_Node :=
  ex_node 1001 UA_NODECLASS_OBJECT "A"
    [ ex_ref UA_NS0ID_ORGANIZES 1002 false, ex_ref UA_NS0ID_ORGANIZES 1003 false,
      ex_ref UA_NS0ID_ORGANIZES 1002 false, ex_ref UA_NS0ID_HASCOMPONENT 1002 false,
      ex_ref UA_NS0ID_ORGANIZES 1002 true ]

/-! ## Add method nodes -/

abbrev UA_NS0ID_ARGUMENT : Nat := 296

/-- The value left by `UA_VariableAttributes_init` and its siblings: every member zero. -/
def UA_NodeAttributes_init : UA_NodeAttributes :=
  { displayName := { locale := "", text := "" },
    description := { locale := "", text := "" },
    writeMask := 0, eventNotifier := 0, value := UA_Variant_empty,
    dataType := UA_NODEID_NULL, valueRank := 0, arrayDimensions := [],
    accessLevel := 0, historizing := false, minimumSamplingInterval := 0,
    isAbstract := false, symmetric := false,
    inverseName := { locale := "", text := "" },
    containsNoLoops := false, executable := false }

/-- The value left by `UA_AddNodesItem_init`. -/
def UA_AddNodesItem_init : UA_AddNodesItem :=
  { parentNodeId := UA_ExpandedNodeId_ofNodeId UA_NODEID_NULL,
    referenceTypeId := UA_NODEID_NULL,
    requestedNewNodeId := UA_ExpandedNodeId_ofNodeId UA_NODEID_NULL,
    browseName := { namespaceIndex := 0, name := "" },
    nodeClass := UA_NODECLASS_UNSPECIFIED,
    nodeAttributes :=
      { encoding := UA_EXTENSIONOBJECT_ENCODED_NOBODY, decodedType := none,
        decodedData := UA_NodeAttributes_init },
    typeDefinition := UA_ExpandedNodeId_ofNodeId UA_NODEID_NULL }

/-- Modelled from the spec: `UA_NodeId_copy` (ua_types.c is not among the sources) hands out
a copy of the node id; the allocation for a string identifier is taken to succeed. -/
def UA_NodeId_copy (src : UA_NodeId) : UA_StatusCode × UA_NodeId :=
  (UA_STATUSCODE_GOOD, src)

/-- Modelled from the spec: `UA_Variant_setArray` points the variant to an array of elements
of the given data type. -/
def UA_Variant_setArray (array : List Int) (type : UA_NodeId) : UA_Variant :=
  { type := some type, data := UA_VariantData.array array, arrayDimensions := [] }

/-- The call `__UA_Server_addNode`: the AddNodes service for one node with decoded
attributes, as the admin session.  The result carries the status, the server and what is
written to `outNewNodeId`. -/
def __UA_Server_addNode (budget : Nat) (server : UA_Server) (nodeClass : UA_NodeClass)
    (requestedNewNodeId parentNodeId referenceTypeId : UA_NodeId)
    (browseName : UA_QualifiedName) (typeDefinition : UA_NodeId)
    (attributes : UA_NodeAttributes) (attributesType : UA_DataTypeTag)
    (instantiationCallback : Option UA_InstantiationCallback) :
    Option (UA_StatusCode × UA_Server × UA_NodeId) :=
  /- Create the AddNodesItem -/
  let item : UA_AddNodesItem :=
    { UA_AddNodesItem_init with
      requestedNewNodeId := UA_ExpandedNodeId_ofNodeId requestedNewNodeId
      browseName := browseName
      nodeClass := nodeClass
      parentNodeId := UA_ExpandedNodeId_ofNodeId parentNodeId
      referenceTypeId := referenceTypeId
      typeDefinition := UA_ExpandedNodeId_ofNodeId typeDefinition
      nodeAttributes :=
        { encoding := UA_EXTENSIONOBJECT_DECODED_NODELETE, decodedType := some attributesType,
          decodedData := attributes } }
  /- Call the normal addnodes service -/
  match Service_AddNodes_single budget server item instantiationCallback with
  | none => none
  | some result => some (result.1.statusCode, result.2, result.1.addedNodeId)

/-- Modelled from the spec: `UA_Server_addVariableNode` (ua_server.h is not among the
sources) adds one Variable through `__UA_Server_addNode`, with decoded variable
attributes. -/
def UA_Server_addVariableNode (budget : Nat) (server : UA_Server)
    (requestedNewNodeId parentNodeId referenceTypeId : UA_NodeId)
    (browseName : UA_QualifiedName) (typeDefinition : UA_NodeId) (attr : UA_NodeAttributes)
    (instantiationCallback : Option UA_InstantiationCallback) :
    Option (UA_StatusCode × UA_Server × UA_NodeId) :=
  __UA_Server_addNode budget server UA_NODECLASS_VARIABLE requestedNewNodeId parentNodeId
    referenceTypeId browseName typeDefinition attr UA_DataTypeTag.variableAttributes
    instantiationCallback

/-- The first phase of adding a method node.  `method` is the function pointer, `handle` the
user context; `outNewNodeId` tells whether the caller supplied the output.  The result
carries the status, the server and what was written to `outNewNodeId`. -/
def UA_Server_addMethodNode_begin (server : UA_Server) (requestedNewNodeId : UA_NodeId)
    (browseName : UA_QualifiedName) (attr : UA_NodeAttributes) (method : Option Nat)
    (handle : Nat) (outNewNodeId : Bool) : UA_StatusCode × UA_Server × Option UA_NodeId :=
  /- Create the node; set the node attributes -/
  let node : UA_Node :=
    { UA_NodeStore_newNode UA_NODECLASS_METHOD with
      executable := attr.executable
      attachedMethod := method
      methodHandle := handle }
  let item : UA_AddNodesItem :=
    { UA_AddNodesItem_init with
      requestedNewNodeId := UA_ExpandedNodeId_ofNodeId requestedNewNodeId
      browseName := browseName }
  let copied := copyStandardAttributes node item attr
  if copied.1 ≠ UA_STATUSCODE_GOOD then (copied.1, server, none)
  else
    /- Add the node to the nodestore -/
    let inserted := UA_NodeStore_insert server.nodestore copied.2
    if outNewNodeId = true then
      let copy := UA_NodeId_copy inserted.2.2
      if copy.1 ≠ UA_STATUSCODE_GOOD then
        (copy.1,
         { server with nodestore := (UA_NodeStore_remove inserted.2.1 inserted.2.2).2 }, none)
      else (copy.1, { server with nodestore := inserted.2.1 }, some copy.2)
    else (inserted.1, { server with nodestore := inserted.2.1 }, none)

/-- The browse of `UA_Server_addMethodNode_finish`, to see which argument nodes exist. -/
def UA_Server_addMethodNode_finish_browse (nodeId : UA_NodeId) : UA_BrowseDescription :=
  { UA_BrowseDescription_init with
    nodeId := nodeId
    referenceTypeId := UA_NODEID_NUMERIC 0 UA_NS0ID_HASPROPERTY
    includeSubtypes := false
    browseDirection := UA_BROWSEDIRECTION_FORWARD
    nodeClassMask := UA_NODECLASS_VARIABLE
    resultMask := UA_BROWSERESULTMASK_BROWSENAME }

/-- The loop of `UA_Server_addMethodNode_finish` over the browse result: `inputArgsId` and
`outputArgsId`, both null at the start. -/
def UA_Server_addMethodNode_finish_argsIds (references : List UA_ReferenceDescription) :
    UA_NodeId × UA_NodeId :=
  references.foldl
    (fun ids rd =>
      if rd.browseName.namespaceIndex = 0 ∧ rd.browseName.name = "InputArguments" then
        (rd.nodeId.nodeId, ids.2)
      else if rd.browseName.namespaceIndex = 0 ∧ rd.browseName.name = "OutputArguments" then
        (ids.1, rd.nodeId.nodeId)
      else ids)
    (UA_NODEID_NULL, UA_NODEID_NULL)

/-- The variable attributes `UA_Server_addMethodNode_finish` fills in for an argument
property; an argument is represented by a number, as are the elements of a variant. -/
def UA_Server_addMethodNode_finish_attributes (name : String) (arguments : List Int) :
    UA_NodeAttributes :=
  { UA_NodeAttributes_init with
    displayName := { locale := "en_US", text := name }
    minimumSamplingInterval := 100000
    valueRank := 1
    dataType := UA_NODEID_NUMERIC 0 UA_NS0ID_BASEDATATYPE
    value := UA_Variant_setArray arguments (UA_NODEID_NUMERIC 0 UA_NS0ID_ARGUMENT) }

/-- The exit `finish:` of `UA_Server_addMethodNode_finish`. -/
def UA_Server_addMethodNode_finish_cleanup (server : UA_Server) (retval : UA_StatusCode)
    (nodeId inputArgsId outputArgsId : UA_NodeId) : UA_StatusCode × UA_Server :=
  if retval ≠ UA_STATUSCODE_GOOD then
    let deleted := (Service_DeleteNodes_single server nodeId true).2
    let deletedInput := (Service_DeleteNodes_single deleted inputArgsId true).2
    (retval, (Service_DeleteNodes_single deletedInput outputArgsId true).2)
  else (retval, server)

/-- The second phase of adding a method node.  The argument arrays are lists, their sizes
the lengths. -/
def UA_Server_addMethodNode_finish (budget : Nat) (server : UA_Server)
    (nodeId parentNodeId referenceTypeId : UA_NodeId)
    (inputArguments outputArguments : List Int) : Option (UA_StatusCode × UA_Server) :=
  let inputArgsName : UA_QualifiedName := { namespaceIndex := 0, name := "InputArguments" }
  let outputArgsName : UA_QualifiedName := { namespaceIndex := 0, name := "OutputArguments" }
  let hasproperty := UA_NODEID_NUMERIC 0 UA_NS0ID_HASPROPERTY
  let propertytype := UA_NODEID_NUMERIC 0 UA_NS0ID_PROPERTYTYPE
  let argsId := UA_NODEID_NUMERIC nodeId.namespaceIndex 0
  /- Browse to see which argument nodes exist -/
  let br := Service_Browse_single server (UA_Server_addMethodNode_finish_browse nodeId)
  if br.statusCode ≠ UA_STATUSCODE_GOOD then
    some (UA_Server_addMethodNode_finish_cleanup server br.statusCode nodeId UA_NODEID_NULL
      UA_NODEID_NULL)
  else
    let ids := UA_Server_addMethodNode_finish_argsIds br.references
    /- Add the Input Arguments VariableNode -/
    let input : Option (UA_StatusCode × UA_Server × UA_NodeId) :=
      if inputArguments.length > 0 ∧ ¬ UA_NodeId_isNull ids.1 then
        UA_Server_addVariableNode budget server argsId nodeId hasproperty inputArgsName
          propertytype
          (UA_Server_addMethodNode_finish_attributes "InputArguments" inputArguments) none
      else some (br.statusCode, server, ids.1)
    match input with
    | none => none
    | some (retvalInput, serverInput, inputArgsId) =>
      /- Add the Output Arguments VariableNode -/
      let output : Option (UA_StatusCode × UA_Server × UA_NodeId) :=
        if outputArguments.length > 0 ∧ ¬ UA_NodeId_isNull ids.2 then
          match UA_Server_addVariableNode budget serverInput argsId nodeId hasproperty
              outputArgsName propertytype
              (UA_Server_addMethodNode_finish_attributes "OutputArguments" outputArguments)
              none with
          | none => none
          | some added => some (retvalInput ||| added.1, added.2.1, added.2.2)
        else some (retvalInput, serverInput, ids.2)
      match output with
      | none => none
      | some (retvalOutput, serverOutput, outputArgsId) =>
        /- Call finish to add the parent reference -/
        match Service_AddNode_finish budget serverOutput nodeId parentNodeId referenceTypeId
            UA_NODEID_NULL none with
        | none => none
        | some finished =>
          some (UA_Server_addMethodNode_finish_cleanup finished.2
            (retvalOutput ||| finished.1) nodeId inputArgsId outputArgsId)

/-- The reference types of the instantiation examples with `HasProperty` and `PropertyType`,
and the `Objects` folder. -/
def ex_methods : UA_Server :=
  ex_server (ex_aggregates ++
    [ ex_node UA_NS0ID_HASPROPERTY UA_NODECLASS_REFERENCETYPE "HasProperty"
        [ex_ref UA_NS0ID_HASSUBTYPE UA_NS0ID_AGGREGATES true],
      { ex_node UA_NS0ID_PROPERTYTYPE UA_NODECLASS_VARIABLETYPE "PropertyType" []
        with dataType := ex_id UA_NS0ID_BASEDATATYPE, valueRank := -2 },
      ex_node UA_NS0ID_OBJECTSFOLDER UA_NODECLASS_OBJECT "Objects" [] ])

/-- Method attributes: executable, display name `m`. -/
def ex_methodAttributes : UA_NodeAttributes :=
  { UA_NodeAttributes_init with
    displayName := { locale := "en_US", text := "m" }, executable := true }

/-- The server after `UA_Server_addMethodNode_begin` has stored the method `m` under the
id 5001. -/
def ex_methods_begun : UA_Server :=
  (UA_Server_addMethodNode_begin ex_methods (ex_id 5001) { namespaceIndex := 0, name := "m" }
    ex_methodAttributes (some 1) 0 true).2.1

/-- The request the AddNodes path (`__UA_Server_addNode_begin`) builds for an object with
the requested id. -/
def ex_item_object (requestedNewNodeId : UA_NodeId) : UA_AddNodesItem :=
  { UA_AddNodesItem_init with
    requestedNewNodeId := UA_ExpandedNodeId_ofNodeId requestedNewNodeId
    browseName := { namespaceIndex := 0, name := "m" }
    nodeClass := UA_NODECLASS_OBJECT
    nodeAttributes :=
      { encoding := UA_EXTENSIONOBJECT_DECODED_NODELETE,
        decodedType := some UA_DataTypeTag.objectAttributes,
        decodedData := ex_methodAttributes } }

/-- The server `ex_methods_begun` after a property `InputArguments` (id 5002) holding one
argument has been added to the method `m`. -/
def ex_methods_property : UA_Server :=
  ((UA_Server_addVariableNode 8 ex_methods_begun (ex_id 5002) (ex_id 5001)
    (ex_id UA_NS0ID_HASPROPERTY) { namespaceIndex := 0, name := "InputArguments" }
    (ex_id UA_NS0ID_PROPERTYTYPE)
    (UA_Server_addMethodNode_finish_attributes "InputArguments" [7]) none).map
      (fun added => added.2.1)).getD ex_methods_begun

/-- The nodes of a store that carry the browse name `name` in namespace 0, with their
values. -/
def ex_named (name : String) (ns : List UA_Node) : List (UA_NodeId × UA_VariantData) :=
  (ns.filter (fun n => decide (n.browseName = { namespaceIndex := 0, name := name }))).map
    (fun n => (n.nodeId, n.value.value.data))

/-! ## Cyclic Aggregates references -/

/-- Objects `S` (id 5100), `D` (id 5101) and `c` (id 5102) without references, over the
reference types of the instantiation examples. -/
def ex_cycle_base : UA_Server :=
  ex_server (ex_aggregates ++
    [ ex_node 5100 UA_NODECLASS_OBJECT "S" [],
      ex_node 5101 UA_NODECLASS_OBJECT "D" [],
      ex_node 5102 UA_NODECLASS_OBJECT "c" [] ])

/-- The request: add the forward reference `source --HasComponent--> target`. -/
def ex_addComponent (source target : Nat) : UA_AddReferencesItem :=
  { UA_AddReferencesItem_init with
    sourceNodeId := ex_id source, referenceTypeId := ex_id UA_NS0ID_HASCOMPONENT,
    isForward := true, targetNodeId := UA_ExpandedNodeId_ofNodeId (ex_id target) }

/-- The server after `S --HasComponent--> c` and `D --HasComponent--> c` have been added:
`c` is a component of both. -/
def ex_cycle_before : UA_Server :=
  (Service_AddReferences_single
    (Service_AddReferences_single ex_cycle_base (ex_addComponent 5100 5102)).2
    (ex_addComponent 5101 5102)).2

/-- The server after `c --HasComponent--> c` has been added as well: the Aggregates
references below `S` lead back to `c`. -/
def ex_cycle : UA_Server :=
  (Service_AddReferences_single ex_cycle_before (ex_addComponent 5102 5102)).2

/-- Reference definition of "the type or any supertype of it": `root` itself, and every
target of an inverse `HasSubtype` reference of a stored node of class `nodeClass` that is the
type or a supertype of it already. -/
inductive UA_NodeStore_supertype_spec (ns : List UA_Node) (nodeClass : UA_NodeClass)
    (root : UA_NodeId) : UA_NodeId → Prop where
  | self : UA_NodeStore_supertype_spec ns nodeClass root root
  | step (t : UA_NodeId) (node : UA_Node) (r : UA_ReferenceNode) :
    UA_NodeStore_supertype_spec ns nodeClass root t →
    UA_NodeStore_get ns t = some node → node.nodeClass = nodeClass →
    r ∈ node.references → r.isInverse = true →
    r.referenceTypeId = UA_NODEID_NUMERIC 0 UA_NS0ID_HASSUBTYPE →
    UA_NodeStore_supertype_spec ns nodeClass root r.targetId.nodeId

/-- The targets of all references held in the store. -/
def UA_NodeStore_targets (ns : List UA_Node) : List UA_NodeId :=
  ns.flatMap (fun n => n.references.map (fun r => r.targetId.nodeId))

/-- The representation invariant of the node store: no node is stored under a null id
(`UA_NodeStore_insert` allocates an id for a node whose identifier is null). -/
def UA_NodeStore_noNullId (ns : List UA_Node) : Prop :=
  ∀ n ∈ ns, UA_NodeId_isNull n.nodeId = false

/-- An object type `BT` (id 4300) with the variable `b` (id 4301) as component, its subtype
`DT` (id 4302) with the method `d` (id 4303) as component, and a new object `o` (id 4304). -/
def ex_inherited : UA_Server :=
  ex_server (ex_aggregates ++
    [ ex_node 4300 UA_NODECLASS_OBJECTTYPE "BT"
        [ex_ref UA_NS0ID_HASCOMPONENT 4301 false, ex_ref UA_NS0ID_HASSUBTYPE 4302 false],
      ex_variable 4301 "b" [ex_ref UA_NS0ID_HASCOMPONENT 4300 true],
      ex_node 4302 UA_NODECLASS_OBJECTTYPE "DT"
        [ex_ref UA_NS0ID_HASSUBTYPE 4300 true, ex_ref UA_NS0ID_HASCOMPONENT 4303 false],
      ex_node 4303 UA_NODECLASS_METHOD "d" [ex_ref UA_NS0ID_HASCOMPONENT 4302 true],
      ex_node 4304 UA_NODECLASS_OBJECT "o" [] ])

/-- The object `o` instantiated from `DT`. -/
def ex_inherited_instantiated : Option (UA_StatusCode × UA_Server) :=
  instantiateNode 6 ex_inherited (ex_id 4304) UA_NODECLASS_OBJECT (ex_id 4302) none

/-- The server left by `ex_inherited_instantiated`. -/
def ex_inherited_server : UA_Server :=
  (ex_inherited_instantiated.map (fun r => r.2)).getD ex_inherited

/-! ## Stores stratified by browse name -/

/-- A reference type under which `copyChildNode` can put a child: stored as a concrete
ReferenceType below `HierarchicalReferences`, and neither `HasSubtype` nor
`HasTypeDefinition`. -/
def UA_NodeStore_childReferenceType (ns : List UA_Node) (referenceTypeId : UA_NodeId) : Prop :=
  referenceTypeId ≠ UA_NODEID_NUMERIC 0 UA_NS0ID_HASSUBTYPE ∧
  referenceTypeId ≠ UA_NODEID_NUMERIC 0 UA_NS0ID_HASTYPEDEFINITION ∧
  ∃ referenceType, UA_NodeStore_get ns referenceTypeId = some referenceType ∧
    referenceType.nodeClass = UA_NODECLASS_REFERENCETYPE ∧ referenceType.isAbstract = false ∧
    isNodeInTree ns referenceTypeId (UA_NODEID_NUMERIC 0 UA_NS0ID_HIERARCHICALREFERENCES)
      [UA_NODEID_NUMERIC 0 UA_NS0ID_HASSUBTYPE] = true

/-- The node class of the types of the instances of class `nodeClass`. -/
def UA_NodeClass_typeClass (nodeClass : UA_NodeClass) : UA_NodeClass :=
  if nodeClass = UA_NODECLASS_VARIABLE then UA_NODECLASS_VARIABLETYPE
  else UA_NODECLASS_OBJECTTYPE

/-- The type definition `Service_AddNode_finish` takes for an instance that names none. -/
def UA_NodeClass_defaultType (nodeClass : UA_NodeClass) : UA_NodeId :=
  if nodeClass = UA_NODECLASS_VARIABLE then UA_NODEID_NUMERIC 0 UA_NS0ID_BASEDATAVARIABLETYPE
  else UA_NODEID_NUMERIC 0 UA_NS0ID_BASEOBJECTTYPE

/-- The instance `x` can be instantiated from the type `typeId`: the type is stored, concrete
and of the class that goes with `x`; it and its supertypes are stored under browse names that
rank no higher than that of `x`; a variable agrees with the type in data type, value rank and
array dimensions. -/
def UA_NodeStore_instantiable (rank : UA_QualifiedName → Nat) (ns : List UA_Node)
    (x : UA_Node) (typeId : UA_NodeId) : Prop :=
  ∃ typenode, UA_NodeStore_get ns typeId = some typenode ∧
    typenode.nodeClass = UA_NodeClass_typeClass x.nodeClass ∧ typenode.isAbstract = false ∧
    (∀ t, UA_NodeStore_supertype_spec ns typenode.nodeClass typeId t →
      ∃ supertype, UA_NodeStore_get ns t = some supertype ∧
        rank supertype.browseName ≤ rank x.browseName) ∧
    (x.nodeClass = UA_NODECLASS_VARIABLE →
      isNodeInTree ns x.dataType typenode.dataType [UA_NODEID_NUMERIC 0 UA_NS0ID_HASSUBTYPE]
        = true ∧
      compatibleValueRanks x.valueRank typenode.valueRank = UA_STATUSCODE_GOOD ∧
      compatibleArrayDimensions x.arrayDimensions typenode.arrayDimensions =
        UA_STATUSCODE_GOOD)

/-- The object or variable `x` is well-typed: it can be instantiated from the default type of
its class and from the target of each of its forward `HasTypeDefinition` references; a
variable holds its value itself, its value rank goes with its array dimensions, and
`typeCheckVariableNode` has no value rank to rewrite. -/
def UA_NodeStore_instanceOk (rank : UA_QualifiedName → Nat) (ns : List UA_Node)
    (x : UA_Node) : Prop :=
  UA_NodeStore_instantiable rank ns x (UA_NodeClass_defaultType x.nodeClass) ∧
  (∀ r ∈ x.references, r.isInverse = false →
    r.referenceTypeId = UA_NODEID_NUMERIC 0 UA_NS0ID_HASTYPEDEFINITION →
    UA_NodeStore_instantiable rank ns x r.targetId.nodeId) ∧
  (x.nodeClass = UA_NODECLASS_VARIABLE →
    x.valueSource = UA_ValueSource.data ∧
    compatibleValueRankArrayDimensions x.valueRank (typeCheckVariableNode_arrayDims x x.value) =
      UA_STATUSCODE_GOOD ∧
    ¬ (x.valueRank = 0 ∧ x.value.hasValue = true ∧ UA_Variant_isScalar x.value.value = false))

/-- The forward reference `r` of node `p` is in order: its target is stored, and when the
target is an Object, a Variable or a Method, its browse name ranks strictly below that of `p`
and the reference type is one for children. -/
def UA_NodeStore_edgeOk (rank : UA_QualifiedName → Nat) (ns : List UA_Node) (p : UA_Node)
    (r : UA_ReferenceNode) : Prop :=
  ∃ c, UA_NodeStore_get ns r.targetId.nodeId = some c ∧
    (c.nodeClass = UA_NODECLASS_OBJECT ∨ c.nodeClass = UA_NODECLASS_VARIABLE ∨
        c.nodeClass = UA_NODECLASS_METHOD →
      rank c.browseName < rank p.browseName ∧
      UA_NodeStore_childReferenceType ns r.referenceTypeId)

/-- The store is stratified by `rank`, a ranking of browse names: every forward reference of
every stored node is in order (`UA_NodeStore_edgeOk`), and every stored Object or Variable is
well-typed (`UA_NodeStore_instanceOk`). -/
def UA_NodeStore_stratified (rank : UA_QualifiedName → Nat) (ns : List UA_Node) : Prop :=
  ∀ nodeId p, UA_NodeStore_get ns nodeId = some p →
    (∀ r ∈ p.references, r.isInverse = false → UA_NodeStore_edgeOk rank ns p r) ∧
    (p.nodeClass = UA_NODECLASS_OBJECT ∨ p.nodeClass = UA_NODECLASS_VARIABLE →
      UA_NodeStore_instanceOk rank ns p)

theorem UA_NodeStore_get_nodeId {ns : List UA_Node} {nodeId : UA_NodeId} {node : UA_Node}
    (h : UA_NodeStore_get ns nodeId = some node) : node.nodeId = nodeId := by
  unfold UA_NodeStore_get at h
  have := List.find?_some h
  simpa using this

theorem UA_NodeStore_get_replace (ns : List UA_Node) (nodeId other : UA_NodeId)
    (node : UA_Node) (hn : node.nodeId = nodeId) :
    UA_NodeStore_get (UA_NodeStore_replace ns nodeId node) other =
      if other = nodeId then (UA_NodeStore_get ns nodeId).map (fun _ => node)
      else UA_NodeStore_get ns other := by
  induction ns with
  | nil => simp [UA_NodeStore_get, UA_NodeStore_replace]
  | cons m ms ih =>
    simp only [UA_NodeStore_get, UA_NodeStore_replace, List.map_cons, List.find?_cons] at ih ⊢
    by_cases hm : m.nodeId = nodeId
    · by_cases ho : other = nodeId
      · subst ho
        rw [if_pos hm, if_pos rfl, decide_eq_true hn, decide_eq_true hm]
        rfl
      · have hno : ¬ node.nodeId = other := fun h => ho (h.symm.trans hn)
        have hmo : ¬ m.nodeId = other := fun h => ho (h.symm.trans hm)
        rw [if_pos hm, if_neg ho, decide_eq_false hno, decide_eq_false hmo]
        rw [if_neg ho] at ih
        exact ih
    · by_cases ho : other = nodeId
      · subst ho
        rw [if_neg hm, if_pos rfl, decide_eq_false hm]
        rw [if_pos rfl] at ih
        exact ih
      · rw [if_neg hm, if_neg ho]
        rw [if_neg ho] at ih
        by_cases hmo : m.nodeId = other
        · rw [decide_eq_true hmo]
        · rw [decide_eq_false hmo]
          exact ih

theorem UA_Server_editNode_get (server : UA_Server) (nodeId : UA_NodeId)
    (callback : UA_Node → UA_StatusCode × UA_Node)
    (hcb : ∀ n, (callback n).2.nodeId = n.nodeId) (other : UA_NodeId) :
    UA_NodeStore_get (UA_Server_editNode server nodeId callback).2.nodestore other =
      if other = nodeId then
        (UA_NodeStore_get server.nodestore nodeId).map (fun n => (callback n).2)
      else UA_NodeStore_get server.nodestore other := by
  unfold UA_Server_editNode
  cases hg : UA_NodeStore_get server.nodestore nodeId with
  | none =>
    by_cases ho : other = nodeId
    · subst ho; rw [if_pos rfl]; exact hg
    · rw [if_neg ho]
  | some node =>
    have hid : (callback node).2.nodeId = nodeId := by
      rw [hcb, UA_NodeStore_get_nodeId hg]
    show UA_NodeStore_get (UA_NodeStore_replace server.nodestore nodeId (callback node).2) other = _
    rw [UA_NodeStore_get_replace _ _ _ _ hid, hg]
    rfl

theorem UA_Server_editNode_status (server : UA_Server) (nodeId : UA_NodeId)
    (callback : UA_Node → UA_StatusCode × UA_Node) :
    (UA_Server_editNode server nodeId callback).1 =
      match UA_NodeStore_get server.nodestore nodeId with
      | none => UA_STATUSCODE_BADNODEIDUNKNOWN
      | some node => (callback node).1 := by
  unfold UA_Server_editNode
  cases UA_NodeStore_get server.nodestore nodeId <;> rfl

theorem addOneWayReference_nodeId (item : UA_AddReferencesItem) (n : UA_Node) :
    (addOneWayReference item n).2.nodeId = n.nodeId := rfl

theorem deleteOneWayReference_nodeId (item : UA_DeleteReferencesItem) (n : UA_Node) :
    (deleteOneWayReference item n).2.nodeId = n.nodeId := by
  unfold deleteOneWayReference
  split
  · rfl
  · split <;> rfl

/-! ## Add references -/

theorem size_t_decrement_succ (n : Nat) (h : n + 1 < UA_SIZE_MODULUS) :
    size_t_decrement (n + 1) = n := by
  unfold size_t_decrement
  simp only [UA_SIZE_MODULUS] at h ⊢
  omega

/-- The reverse scan finds the entry appended last when it matches the item. -/
theorem deleteOneWayReference_appended (item : UA_DeleteReferencesItem) (node : UA_Node)
    (r : UA_ReferenceNode) (hlen : node.references.length + 1 < UA_SIZE_MODULUS)
    (htarget : item.targetNodeId.nodeId = r.targetId.nodeId)
    (htype : item.referenceTypeId = r.referenceTypeId)
    (hdir : item.isForward ≠ r.isInverse) :
    deleteOneWayReference item { node with references := node.references ++ [r] } =
      (UA_STATUSCODE_GOOD, node) := by
  unfold deleteOneWayReference
  have hscan : deleteOneWayReference_scan (node.references ++ [r]) item
      ((node.references ++ [r]).length + 1) (size_t_decrement (node.references ++ [r]).length) =
      some node.references.length := by
    rw [List.length_append, List.length_singleton, size_t_decrement_succ _ hlen]
    unfold deleteOneWayReference_scan
    have hget : (node.references ++ [r]).get? node.references.length = some r := by
      simp
    rw [if_neg (by simp), hget]
    simp [UA_NodeId_equal, htarget, htype, hdir]
  simp only [hscan]
  simp

theorem UA_Server_editNode_none (server : UA_Server) (nodeId : UA_NodeId)
    (callback : UA_Node → UA_StatusCode × UA_Node)
    (h : UA_NodeStore_get server.nodestore nodeId = none) :
    UA_Server_editNode server nodeId callback = (UA_STATUSCODE_BADNODEIDUNKNOWN, server) := by
  unfold UA_Server_editNode
  rw [h]

/-- The service spelled out over the two edits. -/
theorem Service_AddReferences_single_eq (server : UA_Server) (item : UA_AddReferencesItem)
    (first second : UA_StatusCode × UA_Server)
    (hfirst : UA_Server_editNode server item.sourceNodeId (addOneWayReference item) = first)
    (hsecond : UA_Server_editNode first.2 item.targetNodeId.nodeId
      (addOneWayReference (Service_AddReferences_secondItem item)) = second) :
    Service_AddReferences_single server item =
      if item.targetServerUri.length > 0 then (UA_STATUSCODE_BADNOTIMPLEMENTED, server)
      else if first.1 ≠ UA_STATUSCODE_GOOD then first
      else if second.1 ≠ UA_STATUSCODE_GOOD then
        (second.1,
         (UA_Server_editNode second.2 item.sourceNodeId
            (deleteOneWayReference (Service_AddReferences_deleteItem item))).2)
      else second := by
  subst hfirst hsecond
  rfl

/-- What a successful `Service_AddReferences_single` leaves in the store. -/
theorem Service_AddReferences_single_nodes (server server' : UA_Server)
    (item : UA_AddReferencesItem)
    (h : Service_AddReferences_single server item = (UA_STATUSCODE_GOOD, server')) :
    item.targetServerUri.length = 0 ∧
    ∃ source, UA_NodeStore_get server.nodestore item.sourceNodeId = some source ∧
      (item.targetNodeId.nodeId ≠ item.sourceNodeId →
        ∃ target, UA_NodeStore_get server.nodestore item.targetNodeId.nodeId = some target ∧
          UA_NodeStore_get server'.nodestore item.sourceNodeId =
            some { source with
                   references := source.references ++
                     [{ referenceTypeId := item.referenceTypeId, targetId := item.targetNodeId,
                        isInverse := !item.isForward }] } ∧
          UA_NodeStore_get server'.nodestore item.targetNodeId.nodeId =
            some { target with
                   references := target.references ++
                     [{ referenceTypeId := item.referenceTypeId,
                        targetId := UA_ExpandedNodeId_ofNodeId item.sourceNodeId,
                        isInverse := item.isForward }] }) ∧
      (item.targetNodeId.nodeId = item.sourceNodeId →
        UA_NodeStore_get server'.nodestore item.sourceNodeId =
          some { source with
                 references := source.references ++
                   [{ referenceTypeId := item.referenceTypeId, targetId := item.targetNodeId,
                      isInverse := !item.isForward },
                    { referenceTypeId := item.referenceTypeId,
                      targetId := UA_ExpandedNodeId_ofNodeId item.sourceNodeId,
                      isInverse := item.isForward }] }) ∧
      (∀ other, other ≠ item.sourceNodeId → other ≠ item.targetNodeId.nodeId →
        UA_NodeStore_get server'.nodestore other = UA_NodeStore_get server.nodestore other) := by
  rw [Service_AddReferences_single_eq server item _ _ rfl rfl] at h
  by_cases huri : item.targetServerUri.length > 0
  · rw [if_pos huri] at h
    exact absurd (congrArg Prod.fst h)
      (show ¬ UA_STATUSCODE_BADNOTIMPLEMENTED = UA_STATUSCODE_GOOD by decide)
  rw [if_neg huri] at h
  refine ⟨by omega, ?_⟩
  have hget1 := UA_Server_editNode_get server item.sourceNodeId (addOneWayReference item)
    (addOneWayReference_nodeId item)
  have hst1 := UA_Server_editNode_status server item.sourceNodeId (addOneWayReference item)
  generalize UA_Server_editNode server item.sourceNodeId (addOneWayReference item) = first
    at h hget1 hst1
  have hget2 := UA_Server_editNode_get first.2 item.targetNodeId.nodeId
    (addOneWayReference (Service_AddReferences_secondItem item))
    (addOneWayReference_nodeId _)
  have hst2 := UA_Server_editNode_status first.2 item.targetNodeId.nodeId
    (addOneWayReference (Service_AddReferences_secondItem item))
  generalize UA_Server_editNode first.2 item.targetNodeId.nodeId
    (addOneWayReference (Service_AddReferences_secondItem item)) = second at h hget2 hst2
  by_cases h1 : first.1 ≠ UA_STATUSCODE_GOOD
  · rw [if_pos h1] at h
    exact absurd (congrArg Prod.fst h) h1
  rw [if_neg h1] at h
  by_cases h2 : second.1 ≠ UA_STATUSCODE_GOOD
  · rw [if_pos h2] at h
    exact absurd (congrArg Prod.fst h) h2
  rw [if_neg h2] at h
  have hs' : second.2 = server' := congrArg Prod.snd h
  subst hs'
  cases hsrc : UA_NodeStore_get server.nodestore item.sourceNodeId with
  | none =>
    rw [hsrc] at hst1
    exact absurd (show first.1 ≠ UA_STATUSCODE_GOOD by
      rw [hst1]; show UA_STATUSCODE_BADNODEIDUNKNOWN ≠ UA_STATUSCODE_GOOD; decide) h1
  | some source =>
    refine ⟨source, rfl, ?_, ?_, ?_⟩
    · intro hne
      have hne' : ¬ item.sourceNodeId = item.targetNodeId.nodeId := fun e => hne e.symm
      have ht1 := hget1 item.targetNodeId.nodeId
      rw [if_neg hne] at ht1
      cases htgt : UA_NodeStore_get server.nodestore item.targetNodeId.nodeId with
      | none =>
        rw [ht1, htgt] at hst2
        exact absurd (show second.1 ≠ UA_STATUSCODE_GOOD by
          rw [hst2]; show UA_STATUSCODE_BADNODEIDUNKNOWN ≠ UA_STATUSCODE_GOOD; decide) h2
      | some target =>
        refine ⟨target, rfl, ?_, ?_⟩
        · rw [hget2 item.sourceNodeId, if_neg hne', hget1 item.sourceNodeId, if_pos rfl, hsrc]
          rfl
        · rw [hget2 item.targetNodeId.nodeId, if_pos rfl, ht1, htgt]
          simp [addOneWayReference, Service_AddReferences_secondItem]
    · intro heq
      rw [hget2 item.sourceNodeId, if_pos heq.symm, heq, hget1 item.sourceNodeId, if_pos rfl,
        hsrc]
      simp [addOneWayReference, Service_AddReferences_secondItem]
    · intro other hs ht
      rw [hget2 other, if_neg ht, hget1 other, if_neg hs]

/-- C1 (amended): a successful `Service_AddReferences_single` appends the reference to the
source and the mirror to the target and changes no other node; when source and target are
the same node, that node receives both entries, the reference first. -/
theorem Service_AddReferences_single_good (server server' : UA_Server)
    (item : UA_AddReferencesItem)
    (h : Service_AddReferences_single server item = (UA_STATUSCODE_GOOD, server')) :
    item.targetServerUri.length = 0 ∧
    ∃ source, UA_NodeStore_get server.nodestore item.sourceNodeId = some source ∧
      (item.targetNodeId.nodeId ≠ item.sourceNodeId →
        ∃ target, UA_NodeStore_get server.nodestore item.targetNodeId.nodeId = some target ∧
          UA_NodeStore_get server'.nodestore item.sourceNodeId =
            some { source with
                   references := source.references ++
                     [{ referenceTypeId := item.referenceTypeId, targetId := item.targetNodeId,
                        isInverse := !item.isForward }] } ∧
          UA_NodeStore_get server'.nodestore item.targetNodeId.nodeId =
            some { target with
                   references := target.references ++
                     [{ referenceTypeId := item.referenceTypeId,
                        targetId := UA_ExpandedNodeId_ofNodeId item.sourceNodeId,
                        isInverse := item.isForward }] }) ∧
      (item.targetNodeId.nodeId = item.sourceNodeId →
        UA_NodeStore_get server'.nodestore item.sourceNodeId =
          some { source with
                 references := source.references ++
                   [{ referenceTypeId := item.referenceTypeId, targetId := item.targetNodeId,
                      isInverse := !item.isForward },
                    { referenceTypeId := item.referenceTypeId,
                      targetId := UA_ExpandedNodeId_ofNodeId item.sourceNodeId,
                      isInverse := item.isForward }] }) ∧
      (∀ other, other ≠ item.sourceNodeId → other ≠ item.targetNodeId.nodeId →
        UA_NodeStore_get server'.nodestore other = UA_NodeStore_get server.nodestore other) :=
  Service_AddReferences_single_nodes server server' item h

theorem Service_AddReferences_single_good_witness :
    Service_AddReferences_single ex_pair ex_addAB =
      (UA_STATUSCODE_GOOD, (Service_AddReferences_single ex_pair ex_addAB).2) ∧
    ∃ source, UA_NodeStore_get ex_pair.nodestore ex_addAB.sourceNodeId = some source ∧
      UA_NodeStore_get (Service_AddReferences_single ex_pair ex_addAB).2.nodestore
        ex_addAB.sourceNodeId =
        some { source with
               references := source.references ++
                 [{ referenceTypeId := ex_addAB.referenceTypeId,
                    targetId := ex_addAB.targetNodeId, isInverse := !ex_addAB.isForward }] } :=
  have h : Service_AddReferences_single ex_pair ex_addAB =
      (UA_STATUSCODE_GOOD, (Service_AddReferences_single ex_pair ex_addAB).2) :=
    Prod.ext (by decide) rfl
  ⟨h, by
    obtain ⟨_, source, hs, hdistinct, _, _⟩ :=
      Service_AddReferences_single_good ex_pair _ ex_addAB h
    obtain ⟨_, _, hsource, _⟩ := hdistinct (by decide)
    exact ⟨source, hs, hsource⟩⟩

/-- C1 (as stated) fails when source and target are the same node: the call returns Good and
the reference list of the source is not its old list with one entry appended; it carries the
reference and the mirror. -/
theorem Service_AddReferences_single_self_reference :
    ex_addAA.targetServerUri = "" ∧
    (Service_AddReferences_single ex_pair ex_addAA).1 = UA_STATUSCODE_GOOD ∧
    (UA_NodeStore_get ex_pair.nodestore ex_addAA.sourceNodeId).map (fun n => n.references) =
      some [] ∧
    (UA_NodeStore_get (Service_AddReferences_single ex_pair ex_addAA).2.nodestore
        ex_addAA.sourceNodeId).map (fun n => n.references) ≠
      some ([] ++ [{ referenceTypeId := ex_addAA.referenceTypeId,
                     targetId := ex_addAA.targetNodeId, isInverse := !ex_addAA.isForward }]) ∧
    (UA_NodeStore_get (Service_AddReferences_single ex_pair ex_addAA).2.nodestore
        ex_addAA.sourceNodeId).map (fun n => n.references) =
      some [ex_ref UA_NS0ID_ORGANIZES 1001 false, ex_ref UA_NS0ID_ORGANIZES 1001 true] := by
  decide

/-! ## Delete references -/

/-- C2 (the code at the failing input): with `A --Organizes--> B` and its mirror in place, the
bidirectional delete removes the reference from `A`, leaves the mirror on `B` and returns
`UncertainReferenceNotDeleted`: the request for the second direction carries no reference
type. -/
theorem Service_DeleteReferences_single_keeps_mirror :
    (Service_DeleteReferences_secondItem ex_deleteAB).referenceTypeId = UA_NODEID_NULL ∧
    (Service_DeleteReferences_single ex_linked ex_deleteAB).1 =
      UA_STATUSCODE_UNCERTAINREFERENCENOTDELETED ∧
    (UA_NodeStore_get (Service_DeleteReferences_single ex_linked ex_deleteAB).2.nodestore
        (ex_id 1001)).map (fun n => n.references) = some [] ∧
    (UA_NodeStore_get (Service_DeleteReferences_single ex_linked ex_deleteAB).2.nodestore
        (ex_id 1002)).map (fun n => n.references) =
      some [ex_ref UA_NS0ID_ORGANIZES 1001 true] := by
  decide

/-- C3: when the write of the mirror on the target fails, `Service_AddReferences_single`
returns the status of that write and every node, the source included, is what it was before
the call. -/
theorem Service_AddReferences_single_rollback (server : UA_Server)
    (item : UA_AddReferencesItem) (source : UA_Node)
    (hsource : UA_NodeStore_get server.nodestore item.sourceNodeId = some source)
    (hsize : source.references.length + 1 < UA_SIZE_MODULUS)
    (huri : item.targetServerUri.length = 0)
    (hmirror :
      (UA_Server_editNode
        (UA_Server_editNode server item.sourceNodeId (addOneWayReference item)).2
        item.targetNodeId.nodeId
        (addOneWayReference (Service_AddReferences_secondItem item))).1 ≠ UA_STATUSCODE_GOOD) :
    (Service_AddReferences_single server item).1 =
      (UA_Server_editNode
        (UA_Server_editNode server item.sourceNodeId (addOneWayReference item)).2
        item.targetNodeId.nodeId
        (addOneWayReference (Service_AddReferences_secondItem item))).1 ∧
    UA_NodeStore_get (Service_AddReferences_single server item).2.nodestore item.sourceNodeId =
      some source ∧
    ∀ other, UA_NodeStore_get (Service_AddReferences_single server item).2.nodestore other =
      UA_NodeStore_get server.nodestore other := by
  rw [Service_AddReferences_single_eq server item _ _ rfl rfl]
  rw [if_neg (by omega)]
  have hget1 := UA_Server_editNode_get server item.sourceNodeId (addOneWayReference item)
    (addOneWayReference_nodeId item)
  have hst1 := UA_Server_editNode_status server item.sourceNodeId (addOneWayReference item)
  rw [hsource] at hst1
  generalize UA_Server_editNode server item.sourceNodeId (addOneWayReference item) = first
    at hmirror hget1 hst1 ⊢
  rw [if_neg (by rw [hst1]; exact fun h => h rfl)]
  have hst2 := UA_Server_editNode_status first.2 item.targetNodeId.nodeId
    (addOneWayReference (Service_AddReferences_secondItem item))
  cases htgt : UA_NodeStore_get first.2.nodestore item.targetNodeId.nodeId with
  | some target =>
    rw [htgt] at hst2
    exact absurd hst2 hmirror
  | none =>
    rw [UA_Server_editNode_none _ _ _ htgt]
    rw [if_pos (show UA_STATUSCODE_BADNODEIDUNKNOWN ≠ UA_STATUSCODE_GOOD by decide)]
    have hget3 := UA_Server_editNode_get first.2 item.sourceNodeId
      (deleteOneWayReference (Service_AddReferences_deleteItem item))
      (deleteOneWayReference_nodeId _)
    have hback : deleteOneWayReference (Service_AddReferences_deleteItem item)
        (addOneWayReference item source).2 = (UA_STATUSCODE_GOOD, source) :=
      deleteOneWayReference_appended (Service_AddReferences_deleteItem item) source
        { referenceTypeId := item.referenceTypeId, targetId := item.targetNodeId,
          isInverse := !item.isForward } hsize rfl rfl (by
            show item.isForward ≠ !item.isForward
            cases item.isForward <;> decide)
    have hall : ∀ other, UA_NodeStore_get (UA_Server_editNode first.2 item.sourceNodeId
        (deleteOneWayReference (Service_AddReferences_deleteItem item))).2.nodestore other =
        UA_NodeStore_get server.nodestore other := by
      intro other
      rw [hget3 other]
      by_cases ho : other = item.sourceNodeId
      · rw [if_pos ho, hget1 item.sourceNodeId, if_pos rfl, hsource, ho, hsource]
        show some (deleteOneWayReference (Service_AddReferences_deleteItem item)
          (addOneWayReference item source).2).2 = some source
        rw [hback]
      · rw [if_neg ho, hget1 other, if_neg ho]
    exact ⟨rfl, (hall item.sourceNodeId).trans hsource, hall⟩

theorem Service_AddReferences_single_rollback_witness :
    UA_NodeStore_get ex_pair.nodestore ex_addAC.sourceNodeId =
      some (ex_node 1001 UA_NODECLASS_OBJECT "A" []) ∧
    (Service_AddReferences_single ex_pair ex_addAC).1 = UA_STATUSCODE_BADNODEIDUNKNOWN ∧
    UA_NodeStore_get (Service_AddReferences_single ex_pair ex_addAC).2.nodestore
      ex_addAC.sourceNodeId = some (ex_node 1001 UA_NODECLASS_OBJECT "A" []) :=
  have h := Service_AddReferences_single_rollback ex_pair ex_addAC
    (ex_node 1001 UA_NODECLASS_OBJECT "A" []) (by decide) (by decide) (by decide) (by decide)
  ⟨by decide, h.1.trans (by decide), h.2.1⟩

/-! ## Delete nodes -/

/-- C4 (the code at the failing input): deleting `A` with `deleteReferences = true` returns
Good and removes `A`, but `B` still holds its reference to `A`: the request handed to
`deleteOneWayReference` carries no reference type. -/
theorem Service_DeleteNodes_single_keeps_reference :
    (Service_DeleteNodes_single ex_linked (ex_id 1001) true).1 = UA_STATUSCODE_GOOD ∧
    UA_NodeStore_get (Service_DeleteNodes_single ex_linked (ex_id 1001) true).2.nodestore
      (ex_id 1001) = none ∧
    (UA_NodeStore_get (Service_DeleteNodes_single ex_linked (ex_id 1001) true).2.nodestore
        (ex_id 1002)).map (fun n => n.references) =
      some [ex_ref UA_NS0ID_ORGANIZES 1001 true] := by
  decide

/-- C5 (the code at the failing input): `o1` is instantiated from `TT`, holds the handle 101
returned by the constructor of `TT` and the reference `HasTypeDefinition -> TT`; the browse
of `Service_DeleteNodes_single` follows inverse `HasSubtype` references of `o1`, finds no
type, and `o1` is removed without any destructor call. -/
theorem Service_DeleteNodes_single_no_destructor :
    ex_lifecycle_added.map (fun r => r.1) = some UA_STATUSCODE_GOOD ∧
    ex_lifecycle_added.map (fun r =>
        (UA_NodeStore_get r.2.nodestore (ex_id 2001)).map
          (fun o1 => (o1.instanceHandle, o1.references))) =
      some (some (101, [ex_ref UA_NS0ID_HASTYPEDEFINITION 2000 false])) ∧
    ex_lifecycle_added.map (fun r =>
        (UA_NodeStore_get r.2.nodestore (ex_id 2000)).map
          (fun tt => tt.lifecycleManagement.destructor)) = some (some (some 2)) ∧
    ex_lifecycle_added.map (fun r =>
        (Service_DeleteNodes_single r.2 (ex_id 2001) true).1) = some UA_STATUSCODE_GOOD ∧
    ex_lifecycle_added.map (fun r =>
        UA_NodeStore_get (Service_DeleteNodes_single r.2 (ex_id 2001) true).2.nodestore
          (ex_id 2001)) = some none ∧
    ex_lifecycle_added.map (fun r =>
        (Service_DeleteNodes_single r.2 (ex_id 2001) true).2.calls) = some [] := by
  decide

/-! ## Growth of the address space along successful calls -/

theorem UA_StatusCode_or_eq_good (a b : UA_StatusCode) (h : a ||| b = UA_STATUSCODE_GOOD) :
    a = UA_STATUSCODE_GOOD ∧ b = UA_STATUSCODE_GOOD := by
  have key : ∀ i, a.testBit i = false ∧ b.testBit i = false := by
    intro i
    have := congrArg (fun n => n.testBit i) h
    simp only [Nat.testBit_or, Nat.zero_testBit, Bool.or_eq_false_iff] at this
    exact this
  constructor
  · apply Nat.eq_of_testBit_eq
    intro i
    rw [(key i).1, Nat.zero_testBit]
  · apply Nat.eq_of_testBit_eq
    intro i
    rw [(key i).2, Nat.zero_testBit]

theorem UA_Node_extends_refl (k : Bool) (m : UA_Node) : UA_Node_extends k m m :=
  ⟨rfl, ⟨[], (List.append_nil _).symm⟩, fun _ => rfl⟩

theorem UA_Node_extends_nodeId {k : Bool} {m m' : UA_Node} (h : UA_Node_extends k m m') :
    m'.nodeId = m.nodeId :=
  show (UA_Node_fixedMembers m').nodeId = (UA_Node_fixedMembers m).nodeId from
    congrArg UA_Node.nodeId h.1

theorem UA_Node_extends_nodeClass {k : Bool} {m m' : UA_Node} (h : UA_Node_extends k m m') :
    m'.nodeClass = m.nodeClass :=
  show (UA_Node_fixedMembers m').nodeClass = (UA_Node_fixedMembers m).nodeClass from
    congrArg UA_Node.nodeClass h.1

theorem UA_Node_extends_lifecycle {k : Bool} {m m' : UA_Node} (h : UA_Node_extends k m m') :
    m'.lifecycleManagement = m.lifecycleManagement :=
  show (UA_Node_fixedMembers m').lifecycleManagement = (UA_Node_fixedMembers m).lifecycleManagement from
    congrArg UA_Node.lifecycleManagement h.1

theorem UA_Node_extends_mem {k : Bool} {m m' : UA_Node} (h : UA_Node_extends k m m')
    {r : UA_ReferenceNode} (hr : r ∈ m.references) : r ∈ m'.references := by
  obtain ⟨added, hadded⟩ := h.2.1
  rw [hadded]
  exact List.mem_append_left _ hr

theorem UA_Node_extends_trans {k1 k2 : Bool} {a b c : UA_Node}
    (h1 : UA_Node_extends k1 a b) (h2 : UA_Node_extends k2 b c) :
    UA_Node_extends (k1 && k2) a c := by
  obtain ⟨i1, ⟨e1, r1⟩, hh1⟩ := h1
  obtain ⟨i2, ⟨e2, r2⟩, hh2⟩ := h2
  refine ⟨i2.trans i1, ⟨e1 ++ e2, ?_⟩, ?_⟩
  · rw [r2, r1, List.append_assoc]
  · intro hk
    have hk' : k1 = true ∧ k2 = true := by
      cases k1 <;> cases k2 <;> simp at hk ⊢
    rw [hh2 hk'.2, hh1 hk'.1]

theorem UA_Node_extends_weaken {k : Bool} {a b : UA_Node} (h : UA_Node_extends true a b) :
    UA_Node_extends k a b :=
  ⟨h.1, h.2.1, fun _ => h.2.2 rfl⟩

theorem UA_NodeStore_extends_refl (e : Option UA_NodeId) (ns : List UA_Node) :
    UA_NodeStore_extends e ns ns :=
  fun _ m h => ⟨m, h, UA_Node_extends_refl _ m⟩

theorem UA_NodeStore_extends_weaken {e : Option UA_NodeId} {ns ns' : List UA_Node}
    (h : UA_NodeStore_extends none ns ns') : UA_NodeStore_extends e ns ns' := by
  intro nodeId m hm
  obtain ⟨m', hm', hext⟩ := h nodeId m hm
  have hk : decide (some nodeId ≠ (none : Option UA_NodeId)) = true := by simp
  rw [hk] at hext
  exact ⟨m', hm', UA_Node_extends_weaken hext⟩

theorem UA_NodeStore_extends_trans {e : Option UA_NodeId} {a b c : List UA_Node}
    (h1 : UA_NodeStore_extends e a b) (h2 : UA_NodeStore_extends e b c) :
    UA_NodeStore_extends e a c := by
  intro nodeId m hm
  obtain ⟨m1, hm1, hext1⟩ := h1 nodeId m hm
  obtain ⟨m2, hm2, hext2⟩ := h2 nodeId m1 hm1
  refine ⟨m2, hm2, ?_⟩
  have := UA_Node_extends_trans hext1 hext2
  rw [Bool.and_self] at this
  exact this

/-- An edit whose callback extends the node extends the store. -/
theorem UA_Server_editNode_extends (server : UA_Server) (nodeId : UA_NodeId)
    (callback : UA_Node → UA_StatusCode × UA_Node) (k : Bool)
    (hcb : ∀ n, UA_Node_extends k n (callback n).2) :
    UA_NodeStore_extends (if k = true then none else some nodeId) server.nodestore
      (UA_Server_editNode server nodeId callback).2.nodestore := by
  intro other m hm
  have hget := UA_Server_editNode_get server nodeId callback
    (fun n => UA_Node_extends_nodeId (hcb n)) other
  by_cases ho : other = nodeId
  · subst ho
    rw [if_pos rfl, hm] at hget
    refine ⟨(callback m).2, hget, ?_⟩
    cases k with
    | true => exact UA_Node_extends_weaken (hcb m)
    | false =>
      obtain ⟨h1, h2, _⟩ := hcb m
      refine ⟨h1, h2, ?_⟩
      intro hk
      simp at hk
  · rw [if_neg ho, hm] at hget
    exact ⟨m, hget, UA_Node_extends_refl _ m⟩

theorem addOneWayReference_extends (item : UA_AddReferencesItem) (n : UA_Node) :
    UA_Node_extends true n (addOneWayReference item n).2 :=
  ⟨rfl, ⟨_, rfl⟩, fun _ => rfl⟩

theorem setObjectInstanceHandle_extends (constructor : UA_NodeId → Nat) (n : UA_Node) :
    UA_Node_extends false n (setObjectInstanceHandle constructor n).2 := by
  unfold setObjectInstanceHandle
  split
  · exact UA_Node_extends_refl _ n
  · split
    · exact ⟨rfl, ⟨[], (List.append_nil _).symm⟩, fun h => Bool.noConfusion h⟩
    · exact UA_Node_extends_refl _ n

theorem writeValueRankAttribute_extends (valueRank : Int) (n : UA_Node) :
    UA_Node_extends true n (writeValueRankAttribute valueRank n).2 :=
  ⟨rfl, ⟨[], (List.append_nil _).symm⟩, fun _ => rfl⟩

/-- A successful `Service_AddReferences_single` is two edits that append a reference. -/
theorem Service_AddReferences_single_extends (server server' : UA_Server)
    (item : UA_AddReferencesItem)
    (h : Service_AddReferences_single server item = (UA_STATUSCODE_GOOD, server')) :
    UA_NodeStore_extends none server.nodestore server'.nodestore ∧
    server'.callbacks = server.callbacks ∧ server'.calls = server.calls := by
  rw [Service_AddReferences_single_eq server item _ _ rfl rfl] at h
  by_cases huri : item.targetServerUri.length > 0
  · rw [if_pos huri] at h
    exact absurd (congrArg Prod.fst h)
      (show ¬ UA_STATUSCODE_BADNOTIMPLEMENTED = UA_STATUSCODE_GOOD by decide)
  rw [if_neg huri] at h
  have hext1 := UA_Server_editNode_extends server item.sourceNodeId (addOneWayReference item)
    true (addOneWayReference_extends item)
  have hcb1 : (UA_Server_editNode server item.sourceNodeId (addOneWayReference item)).2.callbacks
      = server.callbacks ∧
      (UA_Server_editNode server item.sourceNodeId (addOneWayReference item)).2.calls
      = server.calls := by
    unfold UA_Server_editNode
    split <;> exact ⟨rfl, rfl⟩
  generalize UA_Server_editNode server item.sourceNodeId (addOneWayReference item) = first
    at h hext1 hcb1
  have hext2 := UA_Server_editNode_extends first.2 item.targetNodeId.nodeId
    (addOneWayReference (Service_AddReferences_secondItem item)) true
    (addOneWayReference_extends _)
  have hcb2 : (UA_Server_editNode first.2 item.targetNodeId.nodeId
      (addOneWayReference (Service_AddReferences_secondItem item))).2.callbacks
      = first.2.callbacks ∧
      (UA_Server_editNode first.2 item.targetNodeId.nodeId
      (addOneWayReference (Service_AddReferences_secondItem item))).2.calls
      = first.2.calls := by
    unfold UA_Server_editNode
    split <;> exact ⟨rfl, rfl⟩
  generalize UA_Server_editNode first.2 item.targetNodeId.nodeId
    (addOneWayReference (Service_AddReferences_secondItem item)) = second at h hext2 hcb2
  by_cases h1 : first.1 ≠ UA_STATUSCODE_GOOD
  · rw [if_pos h1] at h
    exact absurd (congrArg Prod.fst h) h1
  rw [if_neg h1] at h
  by_cases h2 : second.1 ≠ UA_STATUSCODE_GOOD
  · rw [if_pos h2] at h
    exact absurd (congrArg Prod.fst h) h2
  rw [if_neg h2] at h
  have hs' : second.2 = server' := congrArg Prod.snd h
  subst hs'
  rw [if_pos rfl] at hext1 hext2
  exact ⟨UA_NodeStore_extends_trans hext1 hext2, hcb2.1.trans hcb1.1, hcb2.2.trans hcb1.2⟩

theorem typeCheckVariableNode_server (server : UA_Server) (node : UA_Node)
    (typeDef : UA_NodeId) :
    (typeCheckVariableNode server node typeDef).2 = server ∨
    (typeCheckVariableNode server node typeDef).2 =
      (UA_Server_writeValueRank server node.nodeId (-2)).2 := by
  unfold typeCheckVariableNode
  split
  · exact Or.inl rfl
  · split
    · exact Or.inl rfl
    · split
      · exact Or.inl rfl
      · split
        · exact Or.inl rfl
        · split
          · exact Or.inl rfl
          · dsimp only
            split
            · exact Or.inl rfl
            · split
              · exact Or.inl rfl
              · split
                · exact Or.inl rfl
                · split
                  · exact Or.inl rfl
                  · split <;> split <;> first | exact Or.inl rfl | exact Or.inr rfl

theorem typeCheckVariableNode_extends (server : UA_Server) (node : UA_Node)
    (typeDef : UA_NodeId) :
    UA_NodeStore_extends none server.nodestore
      (typeCheckVariableNode server node typeDef).2.nodestore ∧
    (typeCheckVariableNode server node typeDef).2.callbacks = server.callbacks ∧
    (typeCheckVariableNode server node typeDef).2.calls = server.calls := by
  rcases typeCheckVariableNode_server server node typeDef with h | h
  · rw [h]
    exact ⟨UA_NodeStore_extends_refl _ _, rfl, rfl⟩
  · rw [h]
    refine ⟨?_, ?_, ?_⟩
    · have := UA_Server_editNode_extends server node.nodeId (writeValueRankAttribute (-2)) true
        (writeValueRankAttribute_extends (-2))
      rw [if_pos rfl] at this
      exact this
    · unfold UA_Server_writeValueRank UA_Server_editNode
      split <;> rfl
    · unfold UA_Server_writeValueRank UA_Server_editNode
      split <;> rfl

theorem UA_NodeStore_get_append_of_some (ns : List UA_Node) (extra : List UA_Node)
    (nodeId : UA_NodeId) (m : UA_Node) (h : UA_NodeStore_get ns nodeId = some m) :
    UA_NodeStore_get (ns ++ extra) nodeId = some m := by
  unfold UA_NodeStore_get at h ⊢
  rw [List.find?_append, h]
  rfl

theorem UA_NodeStore_get_append_of_none (ns : List UA_Node) (extra : List UA_Node)
    (nodeId : UA_NodeId) (h : UA_NodeStore_get ns nodeId = none) :
    UA_NodeStore_get (ns ++ extra) nodeId = UA_NodeStore_get extra nodeId := by
  unfold UA_NodeStore_get at h ⊢
  rw [List.find?_append, h]
  rfl

/-- A successful insert stores the node under an id that was not in use and leaves the
stored nodes alone. -/
theorem UA_NodeStore_insert_good (ns ns' : List UA_Node) (node : UA_Node) (nodeId : UA_NodeId)
    (h : UA_NodeStore_insert ns node = (UA_STATUSCODE_GOOD, ns', nodeId)) :
    UA_NodeStore_get ns nodeId = none ∧
    UA_NodeStore_get ns' nodeId = some { node with nodeId := nodeId } ∧
    UA_NodeStore_extends none ns ns' := by
  unfold UA_NodeStore_insert at h
  dsimp only at h
  split at h
  · exact absurd (congrArg Prod.fst h)
      (show ¬ UA_STATUSCODE_BADNODEIDEXISTS = UA_STATUSCODE_GOOD by decide)
  · rename_i hnone
    have h2 := congrArg Prod.snd h
    have hns : _ = ns' := congrArg Prod.fst h2
    have hid : _ = nodeId := congrArg Prod.snd h2
    dsimp only at hns hid
    rw [hid] at hnone hns
    refine ⟨hnone, ?_, ?_⟩
    · rw [← hns, UA_NodeStore_get_append_of_none _ _ _ hnone]
      unfold UA_NodeStore_get
      rw [List.find?_cons, decide_eq_true rfl]
    · intro other m hm
      refine ⟨m, ?_, UA_Node_extends_refl _ m⟩
      rw [← hns]
      exact UA_NodeStore_get_append_of_some _ _ _ _ hm

/-- The loop `retval |= f(...)` ends Good only if every call returned Good; a relation that
every successful call establishes then holds from the first state to the last. -/
theorem UA_statusLoop_good {α : Type}
    (f : UA_Server → α → Option (UA_StatusCode × UA_Server))
    (P : UA_Server → UA_Server → Prop) (hrefl : ∀ s, P s s)
    (htrans : ∀ a b c, P a b → P b c → P a c)
    (hf : ∀ s x s', f s x = some (UA_STATUSCODE_GOOD, s') → P s s') :
    ∀ (l : List α) (retval : UA_StatusCode) (server server' : UA_Server),
      UA_statusLoop f l retval server = some (UA_STATUSCODE_GOOD, server') →
      retval = UA_STATUSCODE_GOOD ∧ P server server' := by
  intro l
  induction l with
  | nil =>
    intro retval server server' h
    unfold UA_statusLoop at h
    have h' := Option.some.inj h
    have hs : server = server' := congrArg Prod.snd h'
    exact ⟨congrArg Prod.fst h', hs ▸ hrefl _⟩
  | cons x rest ih =>
    intro retval server server' h
    unfold UA_statusLoop at h
    cases hfx : f server x with
    | none => rw [hfx] at h; exact absurd h (by simp)
    | some r =>
      rw [hfx] at h
      dsimp only at h
      obtain ⟨hor, hP⟩ := ih _ _ _ h
      obtain ⟨h1, h2⟩ := UA_StatusCode_or_eq_good _ _ hor
      refine ⟨h1, htrans _ _ _ (hf server x r.2 ?_) hP⟩
      rw [hfx, ← h2]

/-! ## The recursion through `Service_AddNode_finish`, one call deep -/

theorem Service_AddNode_finish_succ (budget : Nat) (server : UA_Server)
    (nodeId parentNodeId referenceTypeId0 typeDefinition0 : UA_NodeId)
    (instantiationCallback : Option UA_InstantiationCallback) :
    Service_AddNode_finish (budget + 1) server nodeId parentNodeId referenceTypeId0
      typeDefinition0 instantiationCallback =
    match UA_NodeStore_get server.nodestore nodeId with
    | none => some (UA_STATUSCODE_BADNODEIDUNKNOWN, server)
    | some node =>
      let referenceTypeId := Service_AddNode_finish_referenceTypeId node referenceTypeId0
      let typeDefinition :=
        Service_AddNode_finish_typeDefinition node parentNodeId typeDefinition0
      let checked := Service_AddNode_finish_checkParent server node parentNodeId referenceTypeId
      if checked ≠ UA_STATUSCODE_GOOD then
        some (Service_AddNode_finish_cleanup server nodeId checked)
      else
        let typed := Service_AddNode_finish_typeCheck server node typeDefinition
        if typed.1 ≠ UA_STATUSCODE_GOOD then
          some (Service_AddNode_finish_cleanup typed.2 nodeId typed.1)
        else
          let linked := Service_AddNode_finish_addParent typed.2 node parentNodeId referenceTypeId
          if linked.1 ≠ UA_STATUSCODE_GOOD then
            some (Service_AddNode_finish_cleanup linked.2 nodeId linked.1)
          else
            match instantiateNode budget linked.2 nodeId node.nodeClass typeDefinition
                instantiationCallback with
            | none => none
            | some instantiated =>
              if instantiated.1 ≠ UA_STATUSCODE_GOOD then
                some (Service_AddNode_finish_cleanup instantiated.2 nodeId instantiated.1)
              else some (UA_STATUSCODE_GOOD, instantiated.2) := by
  rw [Service_AddNode_finish]

theorem instantiateNode_succ (budget : Nat) (server : UA_Server) (nodeId : UA_NodeId)
    (nodeClass : UA_NodeClass) (typeId : UA_NodeId)
    (instantiationCallback : Option UA_InstantiationCallback) :
    instantiateNode (budget + 1) server nodeId nodeClass typeId instantiationCallback =
    if nodeClass ≠ UA_NODECLASS_VARIABLE ∧ nodeClass ≠ UA_NODECLASS_OBJECT then
      some (UA_STATUSCODE_GOOD, server)
    else
      match UA_NodeStore_get server.nodestore typeId with
      | none => some (UA_STATUSCODE_BADTYPEDEFINITIONINVALID, server)
      | some typenode =>
        if instantiateNode_typeOk nodeClass typenode = false then
          some (UA_STATUSCODE_BADTYPEDEFINITIONINVALID, server)
        else
          match UA_statusLoop
              (fun srv sourceNodeId =>
                copyChildNodes budget srv sourceNodeId nodeId instantiationCallback)
              (getTypeHierarchy server.nodestore typenode) UA_STATUSCODE_GOOD server with
          | none => none
          | some copied =>
            if copied.1 ≠ UA_STATUSCODE_GOOD then some copied
            else some (instantiateNode_complete copied.2 nodeId typenode typeId
              instantiationCallback) := by
  rw [instantiateNode]

theorem copyChildNode_succ (budget : Nat) (server : UA_Server) (destinationNodeId : UA_NodeId)
    (rd : UA_ReferenceDescription) (instantiationCallback : Option UA_InstantiationCallback) :
    copyChildNode (budget + 1) server destinationNodeId rd instantiationCallback =
    let found := instanceFindAggregateByBrowsename server destinationNodeId rd.browseName
    if found.1 ≠ UA_STATUSCODE_GOOD then some (found.1, server)
    else if UA_NodeId_isNull found.2 = false then
      if rd.nodeClass = UA_NODECLASS_VARIABLE ∨ rd.nodeClass = UA_NODECLASS_OBJECT then
        copyChildNodes budget server rd.nodeId.nodeId found.2 instantiationCallback
      else some (UA_STATUSCODE_GOOD, server)
    else if rd.nodeClass = UA_NODECLASS_METHOD then
      some (Service_AddReferences_single server
        { UA_AddReferencesItem_init with
          sourceNodeId := destinationNodeId
          referenceTypeId := rd.referenceTypeId
          isForward := true
          targetNodeId := rd.nodeId
          targetNodeClass := UA_NODECLASS_METHOD })
    else if rd.nodeClass = UA_NODECLASS_VARIABLE ∨ rd.nodeClass = UA_NODECLASS_OBJECT then
      match UA_NodeStore_getCopy server.nodestore rd.nodeId.nodeId with
      | none => some (UA_STATUSCODE_BADNODEIDINVALID, server)
      | some node =>
        let inserted := UA_NodeStore_insert server.nodestore
          { node with nodeId := UA_NODEID_NUMERIC destinationNodeId.namespaceIndex 0 }
        if inserted.1 = UA_STATUSCODE_GOOD then
          Service_AddNode_finish budget { server with nodestore := inserted.2.1 } inserted.2.2
            destinationNodeId rd.referenceTypeId (getNodeType node) instantiationCallback
        else some (inserted.1, server)
    else some (UA_STATUSCODE_GOOD, server) := by
  rw [copyChildNode]

theorem copyChildNodes_succ (budget : Nat) (server : UA_Server)
    (sourceNodeId destinationNodeId : UA_NodeId)
    (instantiationCallback : Option UA_InstantiationCallback) :
    copyChildNodes (budget + 1) server sourceNodeId destinationNodeId instantiationCallback =
    let br := Service_Browse_single server (copyChildNodes_browse sourceNodeId)
    if br.statusCode ≠ UA_STATUSCODE_GOOD then some (br.statusCode, server)
    else
      UA_statusLoop
        (fun srv rd => copyChildNode budget srv destinationNodeId rd instantiationCallback)
        br.references UA_STATUSCODE_GOOD server := by
  rw [copyChildNodes]

theorem UA_Server_extends_refl (e : Option UA_NodeId) (s : UA_Server) :
    UA_Server_extends e s s :=
  ⟨UA_NodeStore_extends_refl e _, rfl⟩

theorem UA_Server_extends_trans {e : Option UA_NodeId} {a b c : UA_Server}
    (h1 : UA_Server_extends e a b) (h2 : UA_Server_extends e b c) : UA_Server_extends e a c :=
  ⟨UA_NodeStore_extends_trans h1.1 h2.1, h2.2.trans h1.2⟩

theorem UA_Server_extends_weaken {e : Option UA_NodeId} {a b : UA_Server}
    (h : UA_Server_extends none a b) : UA_Server_extends e a b :=
  ⟨UA_NodeStore_extends_weaken h.1, h.2⟩

/-- Inserting a node under a new id and editing that node leaves the handles of the nodes
that were there before alone. -/
theorem UA_Server_extends_fresh {a b c : UA_Server} {nodeId : UA_NodeId}
    (h1 : UA_Server_extends none a b) (hnew : UA_NodeStore_get a.nodestore nodeId = none)
    (h2 : UA_Server_extends (some nodeId) b c) : UA_Server_extends none a c := by
  refine ⟨?_, h2.2.trans h1.2⟩
  intro other m hm
  obtain ⟨m1, hm1, hext1⟩ := h1.1 other m hm
  obtain ⟨m2, hm2, hext2⟩ := h2.1 other m1 hm1
  refine ⟨m2, hm2, ?_⟩
  have hne : other ≠ nodeId := by
    intro e
    rw [e, hnew] at hm
    exact Option.noConfusion hm
  have hk : decide (some other ≠ some nodeId) = true := by
    apply decide_eq_true
    intro e
    exact hne (Option.some.inj e)
  rw [hk] at hext2
  have := UA_Node_extends_trans hext1 hext2
  rw [Bool.and_true] at this
  exact this

theorem Service_AddNode_finish_typeCheck_extends (server : UA_Server) (node : UA_Node)
    (typeDefinition : UA_NodeId) :
    UA_Server_extends none server
      (Service_AddNode_finish_typeCheck server node typeDefinition).2 := by
  unfold Service_AddNode_finish_typeCheck
  split
  · exact ⟨(typeCheckVariableNode_extends server node typeDefinition).1,
      (typeCheckVariableNode_extends server node typeDefinition).2.1⟩
  · exact UA_Server_extends_refl _ _

theorem Service_AddNode_finish_addParent_extends (server server' : UA_Server) (node : UA_Node)
    (parentNodeId referenceTypeId : UA_NodeId)
    (h : Service_AddNode_finish_addParent server node parentNodeId referenceTypeId =
      (UA_STATUSCODE_GOOD, server')) :
    UA_Server_extends none server server' := by
  unfold Service_AddNode_finish_addParent at h
  split at h
  · have := Service_AddReferences_single_extends _ _ _ h
    exact ⟨this.1, this.2.1⟩
  · have hs : server = server' := congrArg Prod.snd h
    exact hs ▸ UA_Server_extends_refl _ _

theorem instantiateNode_construct_extends (server : UA_Server) (nodeId : UA_NodeId)
    (typenode : UA_Node) :
    UA_Server_extends (some nodeId) server (instantiateNode_construct server nodeId typenode) := by
  unfold instantiateNode_construct
  split
  · split
    · refine ⟨?_, ?_⟩
      · have := UA_Server_editNode_extends server nodeId
          (setObjectInstanceHandle (server.callbacks.construct ‹Nat›)) false
          (setObjectInstanceHandle_extends _)
        rw [if_neg (by decide)] at this
        exact this
      · unfold UA_Server_editNode
        split <;> rfl
    · exact UA_Server_extends_refl _ _
  · exact UA_Server_extends_refl _ _

theorem instantiateNode_complete_extends (server server' : UA_Server) (nodeId : UA_NodeId)
    (typenode : UA_Node) (typeId : UA_NodeId)
    (instantiationCallback : Option UA_InstantiationCallback)
    (h : instantiateNode_complete server nodeId typenode typeId instantiationCallback =
      (UA_STATUSCODE_GOOD, server')) :
    UA_Server_extends (some nodeId) server server' := by
  unfold instantiateNode_complete at h
  dsimp only at h
  have hctor := instantiateNode_construct_extends server nodeId typenode
  generalize instantiateNode_construct server nodeId typenode = constructed at h hctor
  have hadd := fun s' => Service_AddReferences_single_extends constructed s'
    (instantiateNode_addref nodeId typeId)
  generalize Service_AddReferences_single constructed (instantiateNode_addref nodeId typeId)
    = added at h hadd
  have hgood : added.1 = UA_STATUSCODE_GOOD := by
    cases instantiationCallback with
    | none => exact congrArg Prod.fst h
    | some cb =>
      dsimp only at h
      by_cases hg : added.1 = UA_STATUSCODE_GOOD
      · exact hg
      · rw [if_neg hg] at h
        exact congrArg Prod.fst h
  have hadd' := hadd added.2 (Prod.ext hgood rfl)
  have hstore : server'.nodestore = added.2.nodestore ∧ server'.callbacks = added.2.callbacks := by
    cases instantiationCallback with
    | none =>
      have hs : added.2 = server' := congrArg Prod.snd h
      rw [← hs]
      exact ⟨rfl, rfl⟩
    | some cb =>
      dsimp only at h
      rw [if_pos hgood] at h
      have hs := congrArg Prod.snd h
      dsimp only at hs
      rw [← hs]
      exact ⟨rfl, rfl⟩
  refine UA_Server_extends_trans hctor ?_
  refine ⟨?_, ?_⟩
  · rw [hstore.1]
    exact UA_NodeStore_extends_weaken hadd'.1
  · rw [hstore.2]
    exact hadd'.2.1

/-- The statement carried through the recursion: a call that returns Good extends the
address space; only the node being finished may receive an instance handle. -/
theorem Service_AddNode_finish_extends_all (budget : Nat) :
    (∀ server nodeId parentNodeId referenceTypeId typeDefinition cb server',
      Service_AddNode_finish budget server nodeId parentNodeId referenceTypeId typeDefinition cb
        = some (UA_STATUSCODE_GOOD, server') →
      UA_Server_extends (some nodeId) server server') ∧
    (∀ server nodeId nodeClass typeId cb server',
      instantiateNode budget server nodeId nodeClass typeId cb
        = some (UA_STATUSCODE_GOOD, server') →
      UA_Server_extends (some nodeId) server server') ∧
    (∀ server destinationNodeId rd cb server',
      copyChildNode budget server destinationNodeId rd cb = some (UA_STATUSCODE_GOOD, server') →
      UA_Server_extends none server server') ∧
    (∀ server sourceNodeId destinationNodeId cb server',
      copyChildNodes budget server sourceNodeId destinationNodeId cb
        = some (UA_STATUSCODE_GOOD, server') →
      UA_Server_extends none server server') := by
  induction budget with
  | zero =>
    refine ⟨?_, ?_, ?_, ?_⟩
    · intro server nodeId parentNodeId referenceTypeId typeDefinition cb server' h
      rw [Service_AddNode_finish] at h
      exact Option.noConfusion h
    · intro server nodeId nodeClass typeId cb server' h
      rw [instantiateNode] at h
      exact Option.noConfusion h
    · intro server destinationNodeId rd cb server' h
      rw [copyChildNode] at h
      exact Option.noConfusion h
    · intro server sourceNodeId destinationNodeId cb server' h
      rw [copyChildNodes] at h
      exact Option.noConfusion h
  | succ budget ih =>
    obtain ⟨ihFinish, ihInstantiate, ihCopyNode, ihCopyNodes⟩ := ih
    refine ⟨?_, ?_, ?_, ?_⟩
    · intro server nodeId parentNodeId referenceTypeId typeDefinition cb server' h
      rw [Service_AddNode_finish_succ] at h
      cases hget : UA_NodeStore_get server.nodestore nodeId with
      | none =>
        rw [hget] at h
        exact absurd (congrArg Prod.fst (Option.some.inj h))
          (show ¬ UA_STATUSCODE_BADNODEIDUNKNOWN = UA_STATUSCODE_GOOD by decide)
      | some node =>
        rw [hget] at h
        dsimp only at h
        by_cases hc : Service_AddNode_finish_checkParent server node parentNodeId
            (Service_AddNode_finish_referenceTypeId node referenceTypeId) ≠ UA_STATUSCODE_GOOD
        · rw [if_pos hc] at h
          exact absurd (congrArg Prod.fst (Option.some.inj h)) hc
        rw [if_neg hc] at h
        have htyped := Service_AddNode_finish_typeCheck_extends server node
          (Service_AddNode_finish_typeDefinition node parentNodeId typeDefinition)
        generalize Service_AddNode_finish_typeCheck server node
          (Service_AddNode_finish_typeDefinition node parentNodeId typeDefinition) = typed
          at h htyped
        by_cases ht : typed.1 ≠ UA_STATUSCODE_GOOD
        · rw [if_pos ht] at h
          exact absurd (congrArg Prod.fst (Option.some.inj h)) ht
        rw [if_neg ht] at h
        have hlinked := fun s' => Service_AddNode_finish_addParent_extends typed.2 s' node
          parentNodeId (Service_AddNode_finish_referenceTypeId node referenceTypeId)
        generalize Service_AddNode_finish_addParent typed.2 node parentNodeId
          (Service_AddNode_finish_referenceTypeId node referenceTypeId) = linked at h hlinked
        by_cases hl : linked.1 ≠ UA_STATUSCODE_GOOD
        · rw [if_pos hl] at h
          exact absurd (congrArg Prod.fst (Option.some.inj h)) hl
        rw [if_neg hl] at h
        have hl' : linked.1 = UA_STATUSCODE_GOOD := Classical.not_not.mp hl
        have hlinked' := hlinked linked.2 (Prod.ext hl' rfl)
        cases hinst : instantiateNode budget linked.2 nodeId node.nodeClass
            (Service_AddNode_finish_typeDefinition node parentNodeId typeDefinition) cb with
        | none =>
          rw [hinst] at h
          exact Option.noConfusion h
        | some instantiated =>
          rw [hinst] at h
          dsimp only at h
          by_cases hi : instantiated.1 ≠ UA_STATUSCODE_GOOD
          · rw [if_pos hi] at h
            exact absurd (congrArg Prod.fst (Option.some.inj h)) hi
          rw [if_neg hi] at h
          have hi' : instantiated.1 = UA_STATUSCODE_GOOD := Classical.not_not.mp hi
          have hs : instantiated.2 = server' := congrArg Prod.snd (Option.some.inj h)
          have hinst' := ihInstantiate linked.2 nodeId node.nodeClass _ cb instantiated.2
            (by rw [hinst, ← hi'])
          rw [← hs]
          exact UA_Server_extends_trans
            (UA_Server_extends_weaken (UA_Server_extends_trans htyped hlinked')) hinst'
    · intro server nodeId nodeClass typeId cb server' h
      rw [instantiateNode_succ] at h
      by_cases hcls : nodeClass ≠ UA_NODECLASS_VARIABLE ∧ nodeClass ≠ UA_NODECLASS_OBJECT
      · rw [if_pos hcls] at h
        have hs : server = server' := congrArg Prod.snd (Option.some.inj h)
        exact hs ▸ UA_Server_extends_refl _ _
      rw [if_neg hcls] at h
      cases hget : UA_NodeStore_get server.nodestore typeId with
      | none =>
        rw [hget] at h
        exact absurd (congrArg Prod.fst (Option.some.inj h))
          (show ¬ UA_STATUSCODE_BADTYPEDEFINITIONINVALID = UA_STATUSCODE_GOOD by decide)
      | some typenode =>
        rw [hget] at h
        dsimp only at h
        by_cases hok : instantiateNode_typeOk nodeClass typenode = false
        · rw [if_pos hok] at h
          exact absurd (congrArg Prod.fst (Option.some.inj h))
            (show ¬ UA_STATUSCODE_BADTYPEDEFINITIONINVALID = UA_STATUSCODE_GOOD by decide)
        rw [if_neg hok] at h
        cases hloop : UA_statusLoop
            (fun srv sourceNodeId => copyChildNodes budget srv sourceNodeId nodeId cb)
            (getTypeHierarchy server.nodestore typenode) UA_STATUSCODE_GOOD server with
        | none =>
          rw [hloop] at h
          exact Option.noConfusion h
        | some copied =>
          rw [hloop] at h
          dsimp only at h
          by_cases hcp : copied.1 ≠ UA_STATUSCODE_GOOD
          · rw [if_pos hcp] at h
            exact absurd (congrArg Prod.fst (Option.some.inj h)) hcp
          rw [if_neg hcp] at h
          have hcp' : copied.1 = UA_STATUSCODE_GOOD := Classical.not_not.mp hcp
          have hcopied := (UA_statusLoop_good _ (UA_Server_extends none)
            (UA_Server_extends_refl none) (fun _ _ _ => UA_Server_extends_trans)
            (fun s x s' hx => ihCopyNodes s x nodeId cb s' hx)
            _ _ _ copied.2 (by rw [hloop, ← hcp'])).2
          have hdone := instantiateNode_complete_extends copied.2 server' nodeId typenode
            typeId cb (Option.some.inj h)
          exact UA_Server_extends_trans (UA_Server_extends_weaken hcopied) hdone
    · intro server destinationNodeId rd cb server' h
      rw [copyChildNode_succ] at h
      dsimp only at h
      generalize instanceFindAggregateByBrowsename server destinationNodeId rd.browseName
        = found at h
      by_cases hf : found.1 ≠ UA_STATUSCODE_GOOD
      · rw [if_pos hf] at h
        exact absurd (congrArg Prod.fst (Option.some.inj h)) hf
      rw [if_neg hf] at h
      by_cases hnull : UA_NodeId_isNull found.2 = false
      · rw [if_pos hnull] at h
        by_cases hvo : rd.nodeClass = UA_NODECLASS_VARIABLE ∨ rd.nodeClass = UA_NODECLASS_OBJECT
        · rw [if_pos hvo] at h
          exact ihCopyNodes _ _ _ _ _ h
        · rw [if_neg hvo] at h
          have hs : server = server' := congrArg Prod.snd (Option.some.inj h)
          exact hs ▸ UA_Server_extends_refl _ _
      rw [if_neg hnull] at h
      by_cases hm : rd.nodeClass = UA_NODECLASS_METHOD
      · rw [if_pos hm] at h
        have := Service_AddReferences_single_extends _ _ _ (Option.some.inj h)
        exact ⟨this.1, this.2.1⟩
      rw [if_neg hm] at h
      by_cases hvo : rd.nodeClass = UA_NODECLASS_VARIABLE ∨ rd.nodeClass = UA_NODECLASS_OBJECT
      · rw [if_pos hvo] at h
        cases hcopy : UA_NodeStore_getCopy server.nodestore rd.nodeId.nodeId with
        | none =>
          rw [hcopy] at h
          exact absurd (congrArg Prod.fst (Option.some.inj h))
            (show ¬ UA_STATUSCODE_BADNODEIDINVALID = UA_STATUSCODE_GOOD by decide)
        | some node =>
          rw [hcopy] at h
          dsimp only at h
          have hins := fun ns' id => UA_NodeStore_insert_good server.nodestore ns'
            { node with nodeId := UA_NODEID_NUMERIC destinationNodeId.namespaceIndex 0 } id
          generalize UA_NodeStore_insert server.nodestore
            { node with nodeId := UA_NODEID_NUMERIC destinationNodeId.namespaceIndex 0 }
            = inserted at h hins
          by_cases hg : inserted.1 = UA_STATUSCODE_GOOD
          · rw [if_pos hg] at h
            have hfin := ihFinish _ _ _ _ _ _ _ h
            obtain ⟨hnew, _, hext⟩ := hins inserted.2.1 inserted.2.2
              (Prod.ext hg (Prod.ext rfl rfl))
            exact UA_Server_extends_fresh (b := { server with nodestore := inserted.2.1 })
              ⟨hext, rfl⟩ hnew hfin
          · rw [if_neg hg] at h
            exact absurd (congrArg Prod.fst (Option.some.inj h)) hg
      · rw [if_neg hvo] at h
        have hs : server = server' := congrArg Prod.snd (Option.some.inj h)
        exact hs ▸ UA_Server_extends_refl _ _
    · intro server sourceNodeId destinationNodeId cb server' h
      rw [copyChildNodes_succ] at h
      dsimp only at h
      by_cases hb : (Service_Browse_single server (copyChildNodes_browse sourceNodeId)).statusCode
          ≠ UA_STATUSCODE_GOOD
      · rw [if_pos hb] at h
        exact absurd (congrArg Prod.fst (Option.some.inj h)) hb
      rw [if_neg hb] at h
      exact (UA_statusLoop_good _ (UA_Server_extends none)
        (UA_Server_extends_refl none) (fun _ _ _ => UA_Server_extends_trans)
        (fun s x s' hx => ihCopyNode s destinationNodeId x cb s' hx) _ _ _ _ h).2

/-- After a successful `Service_AddReferences_single` the source holds the reference and the
target holds the mirror. -/
theorem Service_AddReferences_single_members (server server' : UA_Server)
    (item : UA_AddReferencesItem)
    (h : Service_AddReferences_single server item = (UA_STATUSCODE_GOOD, server')) :
    ∃ source target,
      UA_NodeStore_get server'.nodestore item.sourceNodeId = some source ∧
      UA_NodeStore_get server'.nodestore item.targetNodeId.nodeId = some target ∧
      ({ referenceTypeId := item.referenceTypeId, targetId := item.targetNodeId,
         isInverse := !item.isForward } : UA_ReferenceNode) ∈ source.references ∧
      ({ referenceTypeId := item.referenceTypeId,
         targetId := UA_ExpandedNodeId_ofNodeId item.sourceNodeId,
         isInverse := item.isForward } : UA_ReferenceNode) ∈ target.references := by
  obtain ⟨_, source, _, hdistinct, hsame, _⟩ :=
    Service_AddReferences_single_nodes server server' item h
  by_cases hst : item.targetNodeId.nodeId = item.sourceNodeId
  · have hs := hsame hst
    refine ⟨_, _, hs, by rw [hst]; exact hs, ?_, ?_⟩
    · simp
    · simp
  · obtain ⟨target, _, hs, ht⟩ := hdistinct hst
    refine ⟨_, _, hs, ht, ?_, ?_⟩
    · simp
    · simp

/-- A successful `Service_AddReferences_single` adds no node to the store. -/
theorem Service_AddReferences_single_origin (server server' : UA_Server)
    (item : UA_AddReferencesItem)
    (h : Service_AddReferences_single server item = (UA_STATUSCODE_GOOD, server'))
    (nodeId : UA_NodeId) (m' : UA_Node)
    (hm' : UA_NodeStore_get server'.nodestore nodeId = some m') :
    ∃ m, UA_NodeStore_get server.nodestore nodeId = some m ∧ UA_Node_extends true m m' := by
  cases hm : UA_NodeStore_get server.nodestore nodeId with
  | some m =>
    obtain ⟨m2, hm2, hext⟩ := (Service_AddReferences_single_extends server server' item h).1
      nodeId m hm
    rw [hm'] at hm2
    have hk : decide (some nodeId ≠ (none : Option UA_NodeId)) = true := by simp
    rw [hk] at hext
    exact ⟨m, rfl, (Option.some.inj hm2) ▸ hext⟩
  | none =>
    obtain ⟨_, source, hsource, hdistinct, hsame, hother⟩ :=
      Service_AddReferences_single_nodes server server' item h
    have hne1 : nodeId ≠ item.sourceNodeId := by
      intro e
      rw [e, hsource] at hm
      exact Option.noConfusion hm
    by_cases hst : item.targetNodeId.nodeId = item.sourceNodeId
    · have := hother nodeId hne1 (by rw [hst]; exact hne1)
      rw [hm', hm] at this
      exact Option.noConfusion this
    · obtain ⟨target, htarget, _, _⟩ := hdistinct hst
      have hne2 : nodeId ≠ item.targetNodeId.nodeId := by
        intro e
        rw [e, htarget] at hm
        exact Option.noConfusion hm
      have := hother nodeId hne1 hne2
      rw [hm', hm] at this
      exact Option.noConfusion this

/-! ## Delete nodes: the node is gone -/

theorem UA_NodeStore_remove_absent (ns : List UA_Node) (nodeId : UA_NodeId) :
    UA_NodeStore_get (UA_NodeStore_remove ns nodeId).2 nodeId = none := by
  unfold UA_NodeStore_remove
  cases hg : UA_NodeStore_get ns nodeId with
  | none => exact hg
  | some m =>
    show UA_NodeStore_get (ns.filter (fun n => !decide (n.nodeId = nodeId))) nodeId = none
    unfold UA_NodeStore_get
    rw [List.find?_eq_none]
    intro x hx
    have := (List.mem_filter.mp hx).2
    simpa using this

theorem Service_DeleteNodes_single_absent (server : UA_Server) (nodeId : UA_NodeId)
    (deleteReferences : Bool) :
    UA_NodeStore_get (Service_DeleteNodes_single server nodeId deleteReferences).2.nodestore
      nodeId = none := by
  unfold Service_DeleteNodes_single
  cases hg : UA_NodeStore_get server.nodestore nodeId with
  | none => exact hg
  | some node => exact UA_NodeStore_remove_absent _ _

/-- Every exit of `Service_AddNode_finish` with a status other than Good, the unknown node
apart, goes through `cleanup`. -/
theorem Service_AddNode_finish_failure (budget : Nat) (server : UA_Server)
    (nodeId parentNodeId referenceTypeId typeDefinition : UA_NodeId)
    (cb : Option UA_InstantiationCallback) (status : UA_StatusCode) (server' : UA_Server)
    (hpresent : UA_NodeStore_get server.nodestore nodeId ≠ none)
    (h : Service_AddNode_finish budget server nodeId parentNodeId referenceTypeId
      typeDefinition cb = some (status, server'))
    (hbad : status ≠ UA_STATUSCODE_GOOD) :
    UA_NodeStore_get server'.nodestore nodeId = none := by
  cases budget with
  | zero =>
    rw [Service_AddNode_finish] at h
    exact Option.noConfusion h
  | succ budget =>
    rw [Service_AddNode_finish_succ] at h
    cases hget : UA_NodeStore_get server.nodestore nodeId with
    | none => exact absurd hget hpresent
    | some node =>
      rw [hget] at h
      dsimp only at h
      have hclean : ∀ s r, some (Service_AddNode_finish_cleanup s nodeId r) = some (status, server')
          → UA_NodeStore_get server'.nodestore nodeId = none := by
        intro s r hc
        have hs : (Service_AddNode_finish_cleanup s nodeId r).2 = server' :=
          congrArg Prod.snd (Option.some.inj hc)
        rw [← hs]
        exact Service_DeleteNodes_single_absent s nodeId true
      split at h
      · exact hclean _ _ h
      · split at h
        · exact hclean _ _ h
        · split at h
          · exact hclean _ _ h
          · split at h
            · exact Option.noConfusion h
            · split at h
              · exact hclean _ _ h
              · exact absurd (congrArg Prod.fst (Option.some.inj h)).symm hbad

/-! ## Instantiation: the hasType reference and the instance handle -/

/-- A successful end of `instantiateNode` is a successful `AddReferences` of the hasType
reference on the server left by the constructor call. -/
theorem instantiateNode_complete_added (server server' : UA_Server) (nodeId : UA_NodeId)
    (typenode : UA_Node) (typeId : UA_NodeId)
    (instantiationCallback : Option UA_InstantiationCallback)
    (h : instantiateNode_complete server nodeId typenode typeId instantiationCallback =
      (UA_STATUSCODE_GOOD, server')) :
    ∃ added, Service_AddReferences_single (instantiateNode_construct server nodeId typenode)
        (instantiateNode_addref nodeId typeId) = (UA_STATUSCODE_GOOD, added) ∧
      server'.nodestore = added.nodestore ∧ server'.callbacks = added.callbacks := by
  unfold instantiateNode_complete at h
  dsimp only at h
  generalize Service_AddReferences_single (instantiateNode_construct server nodeId typenode)
    (instantiateNode_addref nodeId typeId) = added at h ⊢
  cases instantiationCallback with
  | none =>
    dsimp only at h
    subst h
    exact ⟨server', rfl, rfl, rfl⟩
  | some cb =>
    dsimp only at h
    by_cases hg : added.1 = UA_STATUSCODE_GOOD
    · rw [if_pos hg] at h
      have hs := congrArg Prod.snd h
      dsimp only at hs
      exact ⟨added.2, Prod.ext hg rfl, by rw [← hs], by rw [← hs]⟩
    · rw [if_neg hg] at h
      exact absurd (congrArg Prod.fst h) hg

/-- What `instantiateNode_construct` leaves as instance handle of an object. -/
theorem instantiateNode_construct_handle (server : UA_Server) (nodeId : UA_NodeId)
    (typenode node : UA_Node) (hnode : UA_NodeStore_get server.nodestore nodeId = some node)
    (hobject : node.nodeClass = UA_NODECLASS_OBJECT)
    (htype : typenode.nodeClass = UA_NODECLASS_OBJECTTYPE) :
    ∃ node', UA_NodeStore_get (instantiateNode_construct server nodeId typenode).nodestore
        nodeId = some node' ∧
      node'.instanceHandle =
        match typenode.lifecycleManagement.constructor with
        | some fn =>
          if node.instanceHandle = 0 then server.callbacks.construct fn nodeId
          else node.instanceHandle
        | none => node.instanceHandle := by
  unfold instantiateNode_construct
  rw [if_pos htype]
  cases hctor : typenode.lifecycleManagement.constructor with
  | none => exact ⟨node, hnode, rfl⟩
  | some fn =>
    dsimp only
    have hget := UA_Server_editNode_get server nodeId
      (setObjectInstanceHandle (server.callbacks.construct fn))
      (fun n => UA_Node_extends_nodeId (setObjectInstanceHandle_extends _ n)) nodeId
    rw [if_pos rfl, hnode] at hget
    have hget' : UA_NodeStore_get (UA_Server_editNode server nodeId
        (setObjectInstanceHandle (server.callbacks.construct fn))).2.nodestore nodeId =
        some (setObjectInstanceHandle (server.callbacks.construct fn) node).2 := hget
    refine ⟨_, hget', ?_⟩
    have hid : node.nodeId = nodeId := UA_NodeStore_get_nodeId hnode
    unfold setObjectInstanceHandle
    rw [if_neg (fun hne => hne hobject)]
    by_cases hzero : node.instanceHandle = 0
    · rw [if_pos hzero, if_pos hzero, hid]
    · rw [if_neg hzero, if_neg hzero]

/-- The instance handle of an object after a successful `instantiateNode`: the result of the
constructor of the type node itself, if it has one and the object had no handle. -/
theorem instantiateNode_instanceHandle (budget : Nat) (server server' : UA_Server)
    (nodeId typeId : UA_NodeId) (cb : Option UA_InstantiationCallback) (node : UA_Node)
    (hnode : UA_NodeStore_get server.nodestore nodeId = some node)
    (hobject : node.nodeClass = UA_NODECLASS_OBJECT)
    (h : instantiateNode budget server nodeId UA_NODECLASS_OBJECT typeId cb =
      some (UA_STATUSCODE_GOOD, server')) :
    ∃ typenode node',
      UA_NodeStore_get server.nodestore typeId = some typenode ∧
      typenode.nodeClass = UA_NODECLASS_OBJECTTYPE ∧ typenode.isAbstract = false ∧
      UA_NodeStore_get server'.nodestore nodeId = some node' ∧
      node'.instanceHandle =
        match typenode.lifecycleManagement.constructor with
        | some fn =>
          if node.instanceHandle = 0 then server.callbacks.construct fn nodeId
          else node.instanceHandle
        | none => node.instanceHandle := by
  cases budget with
  | zero =>
    rw [instantiateNode] at h
    exact Option.noConfusion h
  | succ budget =>
    rw [instantiateNode_succ] at h
    rw [if_neg (by decide)] at h
    cases hget : UA_NodeStore_get server.nodestore typeId with
    | none =>
      rw [hget] at h
      exact absurd (congrArg Prod.fst (Option.some.inj h))
        (show ¬ UA_STATUSCODE_BADTYPEDEFINITIONINVALID = UA_STATUSCODE_GOOD by decide)
    | some typenode =>
      rw [hget] at h
      dsimp only at h
      by_cases hok : instantiateNode_typeOk UA_NODECLASS_OBJECT typenode = false
      · rw [if_pos hok] at h
        exact absurd (congrArg Prod.fst (Option.some.inj h))
          (show ¬ UA_STATUSCODE_BADTYPEDEFINITIONINVALID = UA_STATUSCODE_GOOD by decide)
      rw [if_neg hok] at h
      have hok' : typenode.nodeClass = UA_NODECLASS_OBJECTTYPE ∧ typenode.isAbstract = false := by
        unfold instantiateNode_typeOk at hok
        rw [if_neg (by decide)] at hok
        simp only [ne_eq, Bool.not_eq_false', decide_eq_true_eq, Bool.not_eq_true',
          decide_eq_false_iff_not, not_or, Decidable.not_not, Bool.not_eq_true] at hok
        exact hok
      cases hloop : UA_statusLoop
          (fun srv sourceNodeId => copyChildNodes budget srv sourceNodeId nodeId cb)
          (getTypeHierarchy server.nodestore typenode) UA_STATUSCODE_GOOD server with
      | none =>
        rw [hloop] at h
        exact Option.noConfusion h
      | some copied =>
        rw [hloop] at h
        dsimp only at h
        by_cases hcp : copied.1 ≠ UA_STATUSCODE_GOOD
        · rw [if_pos hcp] at h
          exact absurd (congrArg Prod.fst (Option.some.inj h)) hcp
        rw [if_neg hcp] at h
        have hcp' : copied.1 = UA_STATUSCODE_GOOD := Classical.not_not.mp hcp
        have hcopied := (UA_statusLoop_good _ (UA_Server_extends none)
          (UA_Server_extends_refl none) (fun _ _ _ => UA_Server_extends_trans)
          (fun s x s' hx => (Service_AddNode_finish_extends_all budget).2.2.2 s x nodeId cb s' hx)
          _ _ _ copied.2 (by rw [hloop, ← hcp'])).2
        obtain ⟨node3, hnode3, hext3⟩ := hcopied.1 nodeId node hnode
        have hk : decide (some nodeId ≠ (none : Option UA_NodeId)) = true := by simp
        rw [hk] at hext3
        obtain ⟨node4, hnode4, hhandle4⟩ := instantiateNode_construct_handle copied.2 nodeId
          typenode node3 hnode3 ((UA_Node_extends_nodeClass hext3).trans hobject) hok'.1
        obtain ⟨added, hadded, hstore, _⟩ := instantiateNode_complete_added copied.2 server'
          nodeId typenode typeId cb (Option.some.inj h)
        obtain ⟨node5, hnode5, hext5⟩ :=
          (Service_AddReferences_single_extends _ _ _ hadded).1 nodeId node4 hnode4
        rw [hk] at hext5
        refine ⟨typenode, node5, rfl, hok'.1, hok'.2, by rw [hstore]; exact hnode5, ?_⟩
        rw [hext5.2.2 rfl, hhandle4, hext3.2.2 rfl, hcopied.2]

/-! ## `Service_AddNode_finish` on variables and objects -/

theorem Service_AddNode_finish_typeDefinition_object (node : UA_Node)
    (parentNodeId typeDefinition : UA_NodeId) (h : node.nodeClass = UA_NODECLASS_OBJECT) :
    Service_AddNode_finish_typeDefinition node parentNodeId typeDefinition =
      if UA_NodeId_isNull typeDefinition = true then UA_NODEID_NUMERIC 0 UA_NS0ID_BASEOBJECTTYPE
      else typeDefinition := by
  unfold Service_AddNode_finish_typeDefinition
  rw [h]
  rw [if_neg (show ¬ (UA_NODECLASS_OBJECT = UA_NODECLASS_VARIABLETYPE ∨
    UA_NODECLASS_OBJECT = UA_NODECLASS_OBJECTTYPE ∨
    UA_NODECLASS_OBJECT = UA_NODECLASS_REFERENCETYPE ∨
    UA_NODECLASS_OBJECT = UA_NODECLASS_DATATYPE) by decide)]
  by_cases hn : UA_NodeId_isNull typeDefinition = true
  · rw [if_pos ⟨Or.inr rfl, hn⟩, if_neg (by decide), if_pos hn]
  · rw [if_neg (fun hc => hn hc.2), if_neg hn]

theorem Service_AddNode_finish_typeDefinition_variable (node : UA_Node)
    (parentNodeId typeDefinition : UA_NodeId) (h : node.nodeClass = UA_NODECLASS_VARIABLE) :
    Service_AddNode_finish_typeDefinition node parentNodeId typeDefinition =
      if UA_NodeId_isNull typeDefinition = true then
        UA_NODEID_NUMERIC 0 UA_NS0ID_BASEDATAVARIABLETYPE
      else typeDefinition := by
  unfold Service_AddNode_finish_typeDefinition
  rw [h]
  rw [if_neg (show ¬ (UA_NODECLASS_VARIABLE = UA_NODECLASS_VARIABLETYPE ∨
    UA_NODECLASS_VARIABLE = UA_NODECLASS_OBJECTTYPE ∨
    UA_NODECLASS_VARIABLE = UA_NODECLASS_REFERENCETYPE ∨
    UA_NODECLASS_VARIABLE = UA_NODECLASS_DATATYPE) by decide)]
  by_cases hn : UA_NodeId_isNull typeDefinition = true
  · rw [if_pos ⟨Or.inl rfl, hn⟩, if_pos rfl, if_pos hn]
  · rw [if_neg (fun hc => hn hc.2), if_neg hn]

theorem Service_AddNode_finish_referenceTypeId_instance (node : UA_Node)
    (referenceTypeId : UA_NodeId)
    (h : node.nodeClass = UA_NODECLASS_VARIABLE ∨ node.nodeClass = UA_NODECLASS_OBJECT) :
    Service_AddNode_finish_referenceTypeId node referenceTypeId = referenceTypeId := by
  unfold Service_AddNode_finish_referenceTypeId
  rcases h with h | h <;> rw [h] <;> rw [if_neg (by decide)]

theorem UA_Node_extends_isAbstract {k : Bool} {m m' : UA_Node} (h : UA_Node_extends k m m') :
    m'.isAbstract = m.isAbstract :=
  show (UA_Node_fixedMembers m').isAbstract = (UA_Node_fixedMembers m).isAbstract from
    congrArg UA_Node.isAbstract h.1

/-- Adding the parent reference adds no node to the store. -/
theorem Service_AddNode_finish_addParent_origin (server server' : UA_Server) (node : UA_Node)
    (parentNodeId referenceTypeId : UA_NodeId)
    (h : Service_AddNode_finish_addParent server node parentNodeId referenceTypeId =
      (UA_STATUSCODE_GOOD, server'))
    (nodeId : UA_NodeId) (m' : UA_Node)
    (hm' : UA_NodeStore_get server'.nodestore nodeId = some m') :
    ∃ m, UA_NodeStore_get server.nodestore nodeId = some m ∧ UA_Node_extends true m m' := by
  unfold Service_AddNode_finish_addParent at h
  split at h
  · exact Service_AddReferences_single_origin _ _ _ h nodeId m' hm'
  · have hs : server = server' := congrArg Prod.snd h
    subst hs
    exact ⟨m', hm', UA_Node_extends_refl _ _⟩

/-- The instance handle of an object after a successful `Service_AddNode_finish`. -/
theorem Service_AddNode_finish_handle (budget : Nat) (server server' : UA_Server)
    (nodeId parentNodeId referenceTypeId typeDefinition : UA_NodeId)
    (cb : Option UA_InstantiationCallback) (node : UA_Node)
    (hnode : UA_NodeStore_get server.nodestore nodeId = some node)
    (hobject : node.nodeClass = UA_NODECLASS_OBJECT)
    (h : Service_AddNode_finish budget server nodeId parentNodeId referenceTypeId
      typeDefinition cb = some (UA_STATUSCODE_GOOD, server')) :
    ∃ typenode node',
      UA_NodeStore_get server.nodestore
        (if UA_NodeId_isNull typeDefinition = true then
          UA_NODEID_NUMERIC 0 UA_NS0ID_BASEOBJECTTYPE
         else typeDefinition) = some typenode ∧
      typenode.nodeClass = UA_NODECLASS_OBJECTTYPE ∧ typenode.isAbstract = false ∧
      UA_NodeStore_get server'.nodestore nodeId = some node' ∧
      node'.instanceHandle =
        match typenode.lifecycleManagement.constructor with
        | some fn =>
          if node.instanceHandle = 0 then server.callbacks.construct fn nodeId
          else node.instanceHandle
        | none => node.instanceHandle := by
  cases budget with
  | zero =>
    rw [Service_AddNode_finish] at h
    exact Option.noConfusion h
  | succ budget =>
    rw [Service_AddNode_finish_succ, hnode] at h
    dsimp only at h
    rw [Service_AddNode_finish_typeDefinition_object node parentNodeId typeDefinition hobject]
      at h
    generalize (if UA_NodeId_isNull typeDefinition = true then
        UA_NODEID_NUMERIC 0 UA_NS0ID_BASEOBJECTTYPE else typeDefinition) = typeId at h ⊢
    split at h
    · rename_i hc
      exact absurd (congrArg Prod.fst (Option.some.inj h)) hc
    have htyped : Service_AddNode_finish_typeCheck server node typeId =
        (UA_STATUSCODE_GOOD, server) := by
      unfold Service_AddNode_finish_typeCheck
      rw [hobject, if_neg (by decide)]
    rw [htyped] at h
    dsimp only at h
    rw [if_neg (fun hne => hne rfl)] at h
    have hlinked := fun s' => Service_AddNode_finish_addParent_extends server s' node
      parentNodeId (Service_AddNode_finish_referenceTypeId node referenceTypeId)
    have horigin := fun s' => Service_AddNode_finish_addParent_origin server s' node
      parentNodeId (Service_AddNode_finish_referenceTypeId node referenceTypeId)
    generalize Service_AddNode_finish_addParent server node parentNodeId
      (Service_AddNode_finish_referenceTypeId node referenceTypeId) = linked
      at h hlinked horigin
    split at h
    · rename_i hl
      exact absurd (congrArg Prod.fst (Option.some.inj h)) hl
    rename_i hl
    have hl' : linked.1 = UA_STATUSCODE_GOOD := Classical.not_not.mp hl
    have hlinked' := hlinked linked.2 (Prod.ext hl' rfl)
    have horigin' := horigin linked.2 (Prod.ext hl' rfl)
    rw [hobject] at h
    split at h
    · exact Option.noConfusion h
    rename_i instantiated hinst
    split at h
    · rename_i hi
      exact absurd (congrArg Prod.fst (Option.some.inj h)) hi
    rename_i hi
    have hi' : instantiated.1 = UA_STATUSCODE_GOOD := Classical.not_not.mp hi
    have hs : instantiated.2 = server' := congrArg Prod.snd (Option.some.inj h)
    obtain ⟨node2, hnode2, hext2⟩ := hlinked'.1 nodeId node hnode
    have hk : decide (some nodeId ≠ (none : Option UA_NodeId)) = true := by simp
    rw [hk] at hext2
    obtain ⟨typenode2, node', htype2, hclass2, habstract2, hnode', hhandle⟩ :=
      instantiateNode_instanceHandle budget linked.2 instantiated.2 nodeId typeId cb node2
        hnode2 ((UA_Node_extends_nodeClass hext2).trans hobject) (by rw [hinst, ← hi'])
    obtain ⟨typenode, htype, hext⟩ := horigin' typeId typenode2 htype2
    refine ⟨typenode, node', htype, ?_, ?_, by rw [← hs]; exact hnode', ?_⟩
    · rw [← UA_Node_extends_nodeClass hext]; exact hclass2
    · rw [← UA_Node_extends_isAbstract hext]; exact habstract2
    · rw [hhandle, UA_Node_extends_lifecycle hext, hext2.2.2 rfl, hlinked'.2]

/-- After a successful `instantiateNode` a variable or object holds the hasType reference. -/
theorem instantiateNode_hasType (budget : Nat) (server server' : UA_Server)
    (nodeId : UA_NodeId) (nodeClass : UA_NodeClass) (typeId : UA_NodeId)
    (cb : Option UA_InstantiationCallback)
    (hclass : nodeClass = UA_NODECLASS_VARIABLE ∨ nodeClass = UA_NODECLASS_OBJECT)
    (h : instantiateNode budget server nodeId nodeClass typeId cb =
      some (UA_STATUSCODE_GOOD, server')) :
    ∃ node', UA_NodeStore_get server'.nodestore nodeId = some node' ∧
      ({ referenceTypeId := UA_NODEID_NUMERIC 0 UA_NS0ID_HASTYPEDEFINITION,
         targetId := UA_ExpandedNodeId_ofNodeId typeId,
         isInverse := false } : UA_ReferenceNode) ∈ node'.references := by
  cases budget with
  | zero =>
    rw [instantiateNode] at h
    exact Option.noConfusion h
  | succ budget =>
    rw [instantiateNode_succ] at h
    rw [if_neg (by
      intro hc
      rcases hclass with h1 | h1
      · exact hc.1 h1
      · exact hc.2 h1)] at h
    split at h
    · exact absurd (congrArg Prod.fst (Option.some.inj h))
        (show ¬ UA_STATUSCODE_BADTYPEDEFINITIONINVALID = UA_STATUSCODE_GOOD by decide)
    rename_i typenode htypenode
    split at h
    · exact absurd (congrArg Prod.fst (Option.some.inj h))
        (show ¬ UA_STATUSCODE_BADTYPEDEFINITIONINVALID = UA_STATUSCODE_GOOD by decide)
    split at h
    · exact Option.noConfusion h
    rename_i copied hloop
    split at h
    · rename_i hcp
      exact absurd (congrArg Prod.fst (Option.some.inj h)) hcp
    obtain ⟨added, hadded, hstore, _⟩ := instantiateNode_complete_added copied.2 server'
      nodeId typenode typeId cb (Option.some.inj h)
    obtain ⟨source, _, hsource, _, hmem, _⟩ :=
      Service_AddReferences_single_members _ _ _ hadded
    exact ⟨source, by rw [hstore]; exact hsource, hmem⟩

/-- The references a successful `Service_AddNode_finish` leaves on a variable or object with
a parent, and on the parent. -/
theorem Service_AddNode_finish_references (budget : Nat) (server server' : UA_Server)
    (nodeId parentNodeId referenceTypeId typeDefinition : UA_NodeId)
    (cb : Option UA_InstantiationCallback) (node : UA_Node)
    (hnode : UA_NodeStore_get server.nodestore nodeId = some node)
    (hclass : node.nodeClass = UA_NODECLASS_VARIABLE ∨ node.nodeClass = UA_NODECLASS_OBJECT)
    (hparent : UA_NodeId_isNull parentNodeId = false)
    (h : Service_AddNode_finish budget server nodeId parentNodeId referenceTypeId
      typeDefinition cb = some (UA_STATUSCODE_GOOD, server')) :
    ∃ node' parent',
      UA_NodeStore_get server'.nodestore nodeId = some node' ∧
      UA_NodeStore_get server'.nodestore parentNodeId = some parent' ∧
      ({ referenceTypeId := referenceTypeId,
         targetId := UA_ExpandedNodeId_ofNodeId parentNodeId,
         isInverse := true } : UA_ReferenceNode) ∈ node'.references ∧
      ({ referenceTypeId := UA_NODEID_NUMERIC 0 UA_NS0ID_HASTYPEDEFINITION,
         targetId := UA_ExpandedNodeId_ofNodeId
           (if UA_NodeId_isNull typeDefinition = true then
              (if node.nodeClass = UA_NODECLASS_VARIABLE then
                 UA_NODEID_NUMERIC 0 UA_NS0ID_BASEDATAVARIABLETYPE
               else UA_NODEID_NUMERIC 0 UA_NS0ID_BASEOBJECTTYPE)
            else typeDefinition),
         isInverse := false } : UA_ReferenceNode) ∈ node'.references ∧
      ({ referenceTypeId := referenceTypeId,
         targetId := UA_ExpandedNodeId_ofNodeId nodeId,
         isInverse := false } : UA_ReferenceNode) ∈ parent'.references := by
  have htd : Service_AddNode_finish_typeDefinition node parentNodeId typeDefinition =
      (if UA_NodeId_isNull typeDefinition = true then
        (if node.nodeClass = UA_NODECLASS_VARIABLE then
           UA_NODEID_NUMERIC 0 UA_NS0ID_BASEDATAVARIABLETYPE
         else UA_NODEID_NUMERIC 0 UA_NS0ID_BASEOBJECTTYPE)
       else typeDefinition) := by
    rcases hclass with hv | ho
    · rw [Service_AddNode_finish_typeDefinition_variable _ _ _ hv, if_pos hv]
    · rw [Service_AddNode_finish_typeDefinition_object _ _ _ ho, ho,
        if_neg (show ¬ UA_NODECLASS_OBJECT = UA_NODECLASS_VARIABLE by decide)]
  rw [← htd]
  cases budget with
  | zero =>
    rw [Service_AddNode_finish] at h
    exact Option.noConfusion h
  | succ budget =>
    rw [Service_AddNode_finish_succ, hnode] at h
    dsimp only at h
    rw [Service_AddNode_finish_referenceTypeId_instance node referenceTypeId hclass] at h
    generalize Service_AddNode_finish_typeDefinition node parentNodeId typeDefinition = typeId
      at h ⊢
    split at h
    · rename_i hc
      exact absurd (congrArg Prod.fst (Option.some.inj h)) hc
    generalize Service_AddNode_finish_typeCheck server node typeId = typed at h
    split at h
    · rename_i ht
      exact absurd (congrArg Prod.fst (Option.some.inj h)) ht
    have hlinked : Service_AddNode_finish_addParent typed.2 node parentNodeId referenceTypeId =
        Service_AddReferences_single typed.2
          (Service_AddNode_finish_parentItem node parentNodeId referenceTypeId) := by
      unfold Service_AddNode_finish_addParent
      rw [if_pos hparent]
    rw [hlinked] at h
    have hmembers := fun s' => Service_AddReferences_single_members typed.2 s'
      (Service_AddNode_finish_parentItem node parentNodeId referenceTypeId)
    generalize Service_AddReferences_single typed.2
      (Service_AddNode_finish_parentItem node parentNodeId referenceTypeId) = linked
      at h hmembers
    split at h
    · rename_i hl
      exact absurd (congrArg Prod.fst (Option.some.inj h)) hl
    rename_i hl
    have hl' : linked.1 = UA_STATUSCODE_GOOD := Classical.not_not.mp hl
    obtain ⟨node2, parent2, hnode2, hparent2, hmem1, hmem2⟩ :=
      hmembers linked.2 (Prod.ext hl' rfl)
    have hid : node.nodeId = nodeId := UA_NodeStore_get_nodeId hnode
    have hsrc : (Service_AddNode_finish_parentItem node parentNodeId referenceTypeId).sourceNodeId
        = nodeId := hid
    rw [hsrc] at hnode2 hmem2
    split at h
    · exact Option.noConfusion h
    rename_i instantiated hinst
    split at h
    · rename_i hi
      exact absurd (congrArg Prod.fst (Option.some.inj h)) hi
    rename_i hi
    have hi' : instantiated.1 = UA_STATUSCODE_GOOD := Classical.not_not.mp hi
    have hs : instantiated.2 = server' := congrArg Prod.snd (Option.some.inj h)
    have hinst' : instantiateNode budget linked.2 nodeId node.nodeClass typeId cb =
        some (UA_STATUSCODE_GOOD, instantiated.2) := by rw [hinst, ← hi']
    have hext := (Service_AddNode_finish_extends_all budget).2.1 _ _ _ _ _ _ hinst'
    obtain ⟨node', hnode', hmem3⟩ := instantiateNode_hasType budget linked.2 instantiated.2
      nodeId node.nodeClass typeId cb hclass hinst'
    obtain ⟨node3, hnode3, hext3⟩ := hext.1 nodeId node2 hnode2
    obtain ⟨parent3, hparent3, hextp⟩ := hext.1 parentNodeId parent2 hparent2
    rw [hnode'] at hnode3
    have hn3 : node' = node3 := Option.some.inj hnode3
    subst hn3
    subst hs
    exact ⟨node', parent3, hnode', hparent3, UA_Node_extends_mem hext3 hmem1, hmem3,
      UA_Node_extends_mem hextp hmem2⟩

/-! ## Claims on `Service_AddNode_finish` -/

/-- C6 (as stated) fails: object `o` is finished against `T`, which has no constructor and
whose supertype `S` has one; the call returns Good and the instance handle of `o` is still
null, not the handle 101 that the constructor of `S` returns. -/
theorem Service_AddNode_finish_ignores_supertype_constructor :
    ex_subtype_added.map (fun r => r.1) = some UA_STATUSCODE_GOOD ∧
    (UA_NodeStore_get ex_subtype.nodestore (ex_id 2101)).map
      (fun t => (t.lifecycleManagement.constructor, getTypeHierarchy ex_subtype.nodestore t)) =
      some (none, [ex_id 2101, ex_id 2100]) ∧
    (UA_NodeStore_get ex_subtype.nodestore (ex_id 2100)).map
      (fun s => s.lifecycleManagement.constructor) = some (some 1) ∧
    ex_subtype.callbacks.construct 1 (ex_id 2102) = 101 ∧
    ex_subtype_added.map (fun r =>
      (UA_NodeStore_get r.2.nodestore (ex_id 2102)).map (fun o => o.instanceHandle)) =
      some (some 0) := by
  decide

/-- C6 (amended): for every Object node successfully finished by `Service_AddNode_finish`
against object type `T` (the base object type when the type definition is null), `T` is a
non-abstract object type and the instance handle afterwards is the value returned by the
constructor of `T` itself when `T` has one and the object had no handle; otherwise the
handle is what it was.  Supertypes of `T` are not asked for a constructor. -/
theorem Service_AddNode_finish_instanceHandle (budget : Nat) (server server' : UA_Server)
    (nodeId parentNodeId referenceTypeId typeDefinition : UA_NodeId)
    (cb : Option UA_InstantiationCallback) (node : UA_Node)
    (hnode : UA_NodeStore_get server.nodestore nodeId = some node)
    (hobject : node.nodeClass = UA_NODECLASS_OBJECT)
    (h : Service_AddNode_finish budget server nodeId parentNodeId referenceTypeId
      typeDefinition cb = some (UA_STATUSCODE_GOOD, server')) :
    ∃ typenode node',
      UA_NodeStore_get server.nodestore
        (if UA_NodeId_isNull typeDefinition = true then
          UA_NODEID_NUMERIC 0 UA_NS0ID_BASEOBJECTTYPE
         else typeDefinition) = some typenode ∧
      typenode.nodeClass = UA_NODECLASS_OBJECTTYPE ∧ typenode.isAbstract = false ∧
      UA_NodeStore_get server'.nodestore nodeId = some node' ∧
      node'.instanceHandle =
        match typenode.lifecycleManagement.constructor with
        | some fn =>
          if node.instanceHandle = 0 then server.callbacks.construct fn nodeId
          else node.instanceHandle
        | none => node.instanceHandle :=
  Service_AddNode_finish_handle budget server server' nodeId parentNodeId referenceTypeId
    typeDefinition cb node hnode hobject h

theorem Service_AddNode_finish_instanceHandle_witness :
    Service_AddNode_finish 4 ex_lifecycle (ex_id 2001) UA_NODEID_NULL UA_NODEID_NULL
      (ex_id 2000) none = some (UA_STATUSCODE_GOOD, ex_lifecycle_server) ∧
    ∃ typenode node',
      UA_NodeStore_get ex_lifecycle.nodestore (ex_id 2000) = some typenode ∧
      typenode.lifecycleManagement.constructor = some 1 ∧
      UA_NodeStore_get ex_lifecycle_server.nodestore (ex_id 2001) = some node' ∧
      node'.instanceHandle = 101 :=
  have h : Service_AddNode_finish 4 ex_lifecycle (ex_id 2001) UA_NODEID_NULL UA_NODEID_NULL
      (ex_id 2000) none = some (UA_STATUSCODE_GOOD, ex_lifecycle_server) := rfl
  ⟨h, by
    obtain ⟨typenode, node', htype, _, _, hnode', hhandle⟩ :=
      Service_AddNode_finish_instanceHandle 4 ex_lifecycle ex_lifecycle_server (ex_id 2001)
        UA_NODEID_NULL UA_NODEID_NULL (ex_id 2000) none
        (ex_node 2001 UA_NODECLASS_OBJECT "o1" []) (by decide) (by decide) h
    have htype' : UA_NodeStore_get ex_lifecycle.nodestore (ex_id 2000) = some typenode := htype
    have hctor : typenode.lifecycleManagement.constructor = some 1 := by
      have hlookup : UA_NodeStore_get ex_lifecycle.nodestore (ex_id 2000) =
          some { ex_node 2000 UA_NODECLASS_OBJECTTYPE "TT" [] with
                 lifecycleManagement := { constructor := some 1, destructor := some 2 } } := by
        decide
      rw [hlookup] at htype'
      rw [← Option.some.inj htype']
    rw [hctor] at hhandle
    exact ⟨typenode, node', htype', hctor, hnode', hhandle⟩⟩

/-- C7 (as stated) fails for the null type definition: `v1` is finished under
`ObjectsFolder` via `Organizes` with typeDef null; the call returns Good and `v1` holds no
forward reference `HasTypeDefinition` to the null id, it holds the one to
`BaseDataVariableType`. -/
theorem Service_AddNode_finish_default_typeDefinition :
    UA_NodeId_isNull (ex_id UA_NS0ID_OBJECTSFOLDER) = false ∧
    (UA_NodeStore_get ex_variables.nodestore (ex_id 3001)).map (fun n => n.nodeClass) =
      some UA_NODECLASS_VARIABLE ∧
    ex_v1_added_default.map (fun r => r.1) = some UA_STATUSCODE_GOOD ∧
    ex_v1_added_default.map (fun r =>
      (UA_NodeStore_get r.2.nodestore (ex_id 3001)).map (fun n =>
        decide (({ referenceTypeId := UA_NODEID_NUMERIC 0 UA_NS0ID_HASTYPEDEFINITION,
                   targetId := UA_ExpandedNodeId_ofNodeId UA_NODEID_NULL,
                   isInverse := false } : UA_ReferenceNode) ∈ n.references))) =
      some (some false) ∧
    ex_v1_added_default.map (fun r =>
      (UA_NodeStore_get r.2.nodestore (ex_id 3001)).map (fun n => n.references)) =
      some (some [ex_ref UA_NS0ID_ORGANIZES UA_NS0ID_OBJECTSFOLDER true,
                  ex_ref UA_NS0ID_HASTYPEDEFINITION UA_NS0ID_BASEDATAVARIABLETYPE false]) := by
  decide

/-- C7 (amended): for every Variable or Object node and non-null parent, whenever
`Service_AddNode_finish(nodeId, parentId, refTypeId, typeDef)` returns Good, the node holds
the inverse reference `{refTypeId, parentId}` and the forward reference
`{HasTypeDefinition, T}`, where `T` is `typeDef`, or `BaseDataVariableType` (variables) /
`BaseObjectType` (objects) when `typeDef` is the null id, and the parent holds the forward
mirror `{refTypeId, nodeId}`. -/
theorem Service_AddNode_finish_parent_and_type (budget : Nat) (server server' : UA_Server)
    (nodeId parentNodeId referenceTypeId typeDefinition : UA_NodeId)
    (cb : Option UA_InstantiationCallback) (node : UA_Node)
    (hnode : UA_NodeStore_get server.nodestore nodeId = some node)
    (hclass : node.nodeClass = UA_NODECLASS_VARIABLE ∨ node.nodeClass = UA_NODECLASS_OBJECT)
    (hparent : UA_NodeId_isNull parentNodeId = false)
    (h : Service_AddNode_finish budget server nodeId parentNodeId referenceTypeId
      typeDefinition cb = some (UA_STATUSCODE_GOOD, server')) :
    ∃ node' parent',
      UA_NodeStore_get server'.nodestore nodeId = some node' ∧
      UA_NodeStore_get server'.nodestore parentNodeId = some parent' ∧
      ({ referenceTypeId := referenceTypeId,
         targetId := UA_ExpandedNodeId_ofNodeId parentNodeId,
         isInverse := true } : UA_ReferenceNode) ∈ node'.references ∧
      ({ referenceTypeId := UA_NODEID_NUMERIC 0 UA_NS0ID_HASTYPEDEFINITION,
         targetId := UA_ExpandedNodeId_ofNodeId
           (if UA_NodeId_isNull typeDefinition = true then
              (if node.nodeClass = UA_NODECLASS_VARIABLE then
                 UA_NODEID_NUMERIC 0 UA_NS0ID_BASEDATAVARIABLETYPE
               else UA_NODEID_NUMERIC 0 UA_NS0ID_BASEOBJECTTYPE)
            else typeDefinition),
         isInverse := false } : UA_ReferenceNode) ∈ node'.references ∧
      ({ referenceTypeId := referenceTypeId,
         targetId := UA_ExpandedNodeId_ofNodeId nodeId,
         isInverse := false } : UA_ReferenceNode) ∈ parent'.references :=
  Service_AddNode_finish_references budget server server' nodeId parentNodeId referenceTypeId
    typeDefinition cb node hnode hclass hparent h

theorem Service_AddNode_finish_parent_and_type_witness :
    UA_NodeStore_get ex_variables.nodestore (ex_id 3001) = some ex_v1 ∧
    UA_NodeId_isNull (ex_id UA_NS0ID_OBJECTSFOLDER) = false ∧
    Service_AddNode_finish 4 ex_variables (ex_id 3001) (ex_id UA_NS0ID_OBJECTSFOLDER)
      (ex_id UA_NS0ID_ORGANIZES) (ex_id UA_NS0ID_BASEDATAVARIABLETYPE) none =
      some (UA_STATUSCODE_GOOD, ex_v1_server) ∧
    ∃ node' parent',
      UA_NodeStore_get ex_v1_server.nodestore (ex_id 3001) = some node' ∧
      UA_NodeStore_get ex_v1_server.nodestore (ex_id UA_NS0ID_OBJECTSFOLDER) = some parent' ∧
      ex_ref UA_NS0ID_ORGANIZES UA_NS0ID_OBJECTSFOLDER true ∈ node'.references ∧
      ex_ref UA_NS0ID_HASTYPEDEFINITION UA_NS0ID_BASEDATAVARIABLETYPE false ∈
        node'.references ∧
      ex_ref UA_NS0ID_ORGANIZES 3001 false ∈ parent'.references :=
  have h : Service_AddNode_finish 4 ex_variables (ex_id 3001) (ex_id UA_NS0ID_OBJECTSFOLDER)
      (ex_id UA_NS0ID_ORGANIZES) (ex_id UA_NS0ID_BASEDATAVARIABLETYPE) none =
      some (UA_STATUSCODE_GOOD, ex_v1_server) := rfl
  ⟨by decide, by decide, h,
    Service_AddNode_finish_parent_and_type 4 ex_variables ex_v1_server (ex_id 3001)
      (ex_id UA_NS0ID_OBJECTSFOLDER) (ex_id UA_NS0ID_ORGANIZES)
      (ex_id UA_NS0ID_BASEDATAVARIABLETYPE) none ex_v1 (by decide) (by decide) (by decide) h⟩

/-- C8: for every node that is in the store when `Service_AddNode_finish` is called, if the
call returns any status other than Good, the node is no longer in the store when the call
returns. -/
theorem Service_AddNode_finish_removes_on_failure (budget : Nat) (server : UA_Server)
    (nodeId parentNodeId referenceTypeId typeDefinition : UA_NodeId)
    (cb : Option UA_InstantiationCallback) (status : UA_StatusCode) (server' : UA_Server)
    (hpresent : UA_NodeStore_get server.nodestore nodeId ≠ none)
    (h : Service_AddNode_finish budget server nodeId parentNodeId referenceTypeId
      typeDefinition cb = some (status, server'))
    (hbad : status ≠ UA_STATUSCODE_GOOD) :
    UA_NodeStore_get server'.nodestore nodeId = none :=
  Service_AddNode_finish_failure budget server nodeId parentNodeId referenceTypeId
    typeDefinition cb status server' hpresent h hbad

theorem Service_AddNode_finish_removes_on_failure_witness :
    UA_NodeStore_get ex_variables.nodestore (ex_id 3001) ≠ none ∧
    Service_AddNode_finish 4 ex_variables (ex_id 3001) (ex_id 9999) (ex_id UA_NS0ID_ORGANIZES)
      (ex_id UA_NS0ID_BASEDATAVARIABLETYPE) none =
      some (UA_STATUSCODE_BADPARENTNODEIDINVALID, ex_v1_orphan_server) ∧
    UA_STATUSCODE_BADPARENTNODEIDINVALID ≠ UA_STATUSCODE_GOOD ∧
    UA_NodeStore_get ex_v1_orphan_server.nodestore (ex_id 3001) = none :=
  have h : Service_AddNode_finish 4 ex_variables (ex_id 3001) (ex_id 9999)
      (ex_id UA_NS0ID_ORGANIZES) (ex_id UA_NS0ID_BASEDATAVARIABLETYPE) none =
      some (UA_STATUSCODE_BADPARENTNODEIDINVALID, ex_v1_orphan_server) := rfl
  ⟨by decide, h, by decide,
    Service_AddNode_finish_removes_on_failure 4 ex_variables (ex_id 3001) (ex_id 9999)
      (ex_id UA_NS0ID_ORGANIZES) (ex_id UA_NS0ID_BASEDATAVARIABLETYPE) none
      UA_STATUSCODE_BADPARENTNODEIDINVALID ex_v1_orphan_server (by decide) h (by decide)⟩

/-! ## `Service_AddNodes_single` -/

theorem createNodeFromAttributes_none (item : UA_AddNodesItem)
    (h : (createNodeFromAttributes item).2 = none) :
    (createNodeFromAttributes item).1 ≠ UA_STATUSCODE_GOOD := by
  unfold createNodeFromAttributes at h ⊢
  by_cases hread : item.nodeAttributes.encoding < UA_EXTENSIONOBJECT_DECODED ∨
      item.nodeAttributes.decodedType = none
  · rw [if_pos hread]
    decide
  · rw [if_neg hread] at h ⊢
    dsimp only at h ⊢
    generalize createNodeFromAttributes_switch item _ = filled at h ⊢
    by_cases hg : filled.1 = UA_STATUSCODE_GOOD
    · rw [if_pos hg] at h
      exact Option.noConfusion h
    · rw [if_neg hg]
      exact hg

theorem createNodeFromAttributes_variable (item : UA_AddNodesItem)
    (hclass : item.nodeClass = UA_NODECLASS_VARIABLE) (status : UA_StatusCode) (node : UA_Node)
    (h : createNodeFromAttributes item = (status, some node)) :
    node.nodeClass = UA_NODECLASS_VARIABLE ∧ node.references = [] ∧
    node.nodeId = item.requestedNewNodeId.nodeId := by
  unfold createNodeFromAttributes at h
  split at h
  · exact Option.noConfusion (congrArg Prod.snd h)
  · dsimp only at h
    have hswitch : createNodeFromAttributes_switch item
        (copyStandardAttributes (UA_NodeStore_newNode item.nodeClass) item
          item.nodeAttributes.decodedData) =
        createNodeFromAttributes_case item UA_DataTypeTag.variableAttributes
          copyVariableNodeAttributes
          (copyStandardAttributes (UA_NodeStore_newNode UA_NODECLASS_VARIABLE) item
            item.nodeAttributes.decodedData) := by
      unfold createNodeFromAttributes_switch
      rw [hclass]
      rw [if_neg (show ¬ UA_NODECLASS_VARIABLE = UA_NODECLASS_OBJECT by decide)]
      rfl
    rw [hswitch] at h
    split at h
    · have hn := Option.some.inj (congrArg Prod.snd h)
      unfold createNodeFromAttributes_case at hn
      split at hn
      · rw [← hn]
        exact ⟨rfl, rfl, rfl⟩
      · rw [← hn]
        exact ⟨rfl, rfl, rfl⟩
    · exact Option.noConfusion (congrArg Prod.snd h)

theorem UA_NodeStore_get_singleton_none (n : UA_Node) (nodeId : UA_NodeId)
    (h : ¬ n.nodeId = nodeId) : UA_NodeStore_get [n] nodeId = none := by
  unfold UA_NodeStore_get
  rw [List.find?_cons, decide_eq_false h]
  rfl

theorem UA_NodeStore_get_singleton_self (n : UA_Node) :
    UA_NodeStore_get [n] n.nodeId = some n := by
  unfold UA_NodeStore_get
  rw [List.find?_cons, decide_eq_true rfl]

/-- A new node without references opens no way up for the walk of `isNodeInTree`. -/
theorem isNodeInTree_parents_append (ns : List UA_Node) (n : UA_Node)
    (referenceTypeIds : List UA_NodeId) (hrefs : n.references = [])
    (hnew : UA_NodeStore_get ns n.nodeId = none) (nodeId : UA_NodeId) :
    isNodeInTree_parents (ns ++ [n]) referenceTypeIds nodeId =
      isNodeInTree_parents ns referenceTypeIds nodeId := by
  unfold isNodeInTree_parents
  cases hg : UA_NodeStore_get ns nodeId with
  | some m => rw [UA_NodeStore_get_append_of_some _ _ _ _ hg]
  | none =>
    rw [UA_NodeStore_get_append_of_none _ _ _ hg]
    by_cases hn : n.nodeId = nodeId
    · rw [← hn, UA_NodeStore_get_singleton_self]
      dsimp only
      rw [hrefs]
      rfl
    · rw [UA_NodeStore_get_singleton_none _ _ hn]

theorem isNodeInTree_walk_append (ns : List UA_Node) (n : UA_Node) (nodeToFind : UA_NodeId)
    (referenceTypeIds : List UA_NodeId) (hrefs : n.references = [])
    (hnew : UA_NodeStore_get ns n.nodeId = none) (depth : Nat) :
    ∀ frontier, isNodeInTree_walk (ns ++ [n]) nodeToFind referenceTypeIds depth frontier =
      isNodeInTree_walk ns nodeToFind referenceTypeIds depth frontier := by
  have hfun : isNodeInTree_parents (ns ++ [n]) referenceTypeIds =
      isNodeInTree_parents ns referenceTypeIds :=
    funext (isNodeInTree_parents_append ns n referenceTypeIds hrefs hnew)
  induction depth with
  | zero => intro frontier; rfl
  | succ depth ih =>
    intro frontier
    unfold isNodeInTree_walk
    rw [hfun, ih]

theorem isNodeInTree_walk_deeper (ns : List UA_Node) (nodeToFind : UA_NodeId)
    (referenceTypeIds : List UA_NodeId) (depth : Nat) :
    ∀ frontier, isNodeInTree_walk ns nodeToFind referenceTypeIds depth frontier = true →
      isNodeInTree_walk ns nodeToFind referenceTypeIds (depth + 1) frontier = true := by
  induction depth with
  | zero =>
    intro frontier h
    unfold isNodeInTree_walk at h ⊢
    rw [h]
    rfl
  | succ depth ih =>
    intro frontier h
    rw [isNodeInTree_walk] at h ⊢
    cases hc : frontier.contains nodeToFind with
    | true => rfl
    | false =>
      rw [hc] at h
      rw [Bool.false_or] at h ⊢
      exact ih _ h

theorem isNodeInTree_append (ns : List UA_Node) (n : UA_Node) (leafNode nodeToFind : UA_NodeId)
    (referenceTypeIds : List UA_NodeId) (hrefs : n.references = [])
    (hnew : UA_NodeStore_get ns n.nodeId = none)
    (h : isNodeInTree ns leafNode nodeToFind referenceTypeIds = true) :
    isNodeInTree (ns ++ [n]) leafNode nodeToFind referenceTypeIds = true := by
  unfold isNodeInTree at h ⊢
  rw [List.length_append, List.length_singleton,
    isNodeInTree_walk_append ns n nodeToFind referenceTypeIds hrefs hnew]
  exact isNodeInTree_walk_deeper ns nodeToFind referenceTypeIds ns.length _ h

/-- A parent reference that passes the check still passes it once a new node without
references is in the store. -/
theorem checkParentReference_append (server : UA_Server) (n : UA_Node)
    (nodeClass : UA_NodeClass) (parentNodeId referenceTypeId : UA_NodeId)
    (hrefs : n.references = [])
    (hnew : UA_NodeStore_get server.nodestore n.nodeId = none)
    (h : checkParentReference server nodeClass parentNodeId referenceTypeId =
      UA_STATUSCODE_GOOD) :
    checkParentReference { server with nodestore := server.nodestore ++ [n] } nodeClass
      parentNodeId referenceTypeId = UA_STATUSCODE_GOOD := by
  unfold checkParentReference at h ⊢
  cases hp : UA_NodeStore_get server.nodestore parentNodeId with
  | none =>
    rw [hp] at h
    exact absurd h (show ¬ UA_STATUSCODE_BADPARENTNODEIDINVALID = UA_STATUSCODE_GOOD by decide)
  | some parent =>
    rw [hp] at h
    dsimp only at h ⊢
    rw [UA_NodeStore_get_append_of_some _ _ _ _ hp]
    dsimp only
    cases hr : UA_NodeStore_get server.nodestore referenceTypeId with
    | none =>
      rw [hr] at h
      exact absurd h
        (show ¬ UA_STATUSCODE_BADREFERENCETYPEIDINVALID = UA_STATUSCODE_GOOD by decide)
    | some referenceType =>
      rw [hr] at h
      dsimp only at h
      rw [UA_NodeStore_get_append_of_some _ _ _ _ hr]
      dsimp only
      split at h
      · exact absurd h (by decide)
      rename_i h1
      rw [if_neg h1]
      split at h
      · exact absurd h (by decide)
      rename_i h2
      rw [if_neg h2]
      split at h
      · rename_i h3
        rw [if_pos h3]
        exact h
      rename_i h3
      rw [if_neg h3]
      split at h
      · exact absurd h (by decide)
      rename_i h4
      have h4' : isNodeInTree server.nodestore referenceTypeId
          (UA_NODEID_NUMERIC 0 UA_NS0ID_HIERARCHICALREFERENCES)
          [UA_NODEID_NUMERIC 0 UA_NS0ID_HASSUBTYPE] = true := by
        cases hb : isNodeInTree server.nodestore referenceTypeId
          (UA_NODEID_NUMERIC 0 UA_NS0ID_HIERARCHICALREFERENCES)
          [UA_NODEID_NUMERIC 0 UA_NS0ID_HASSUBTYPE] with
        | true => rfl
        | false => rw [hb] at h4; exact absurd (by simp) h4
      rw [isNodeInTree_append _ _ _ _ _ hrefs hnew h4']
      rfl

theorem UA_NodeStore_insert_good_eq (ns ns' : List UA_Node) (node : UA_Node)
    (nodeId : UA_NodeId)
    (h : UA_NodeStore_insert ns node = (UA_STATUSCODE_GOOD, ns', nodeId)) :
    ns' = ns ++ [{ node with nodeId := nodeId }] := by
  unfold UA_NodeStore_insert at h
  dsimp only at h
  split at h
  · exact absurd (congrArg Prod.fst h)
      (show ¬ UA_STATUSCODE_BADNODEIDEXISTS = UA_STATUSCODE_GOOD by decide)
  · have h2 := congrArg Prod.snd h
    have hns : _ = ns' := congrArg Prod.fst h2
    have hid : _ = nodeId := congrArg Prod.snd h2
    dsimp only at hns hid
    rw [← hns, hid]

/-- What a successful `Service_AddNode_begin` did: the node built from the attributes is in
the store under the returned id. -/
theorem Service_AddNode_begin_good (server : UA_Server) (item : UA_AddNodesItem)
    (h : (Service_AddNode_begin server item).1.statusCode = UA_STATUSCODE_GOOD) :
    ∃ status node nodeId,
      createNodeFromAttributes item = (status, some node) ∧
      UA_NodeStore_get server.nodestore nodeId = none ∧
      Service_AddNode_begin server item =
        ({ statusCode := UA_STATUSCODE_GOOD, addedNodeId := nodeId },
         { server with nodestore := server.nodestore ++ [{ node with nodeId := nodeId }] }) := by
  unfold Service_AddNode_begin at h ⊢
  split at h
  · exact absurd h (show ¬ UA_STATUSCODE_BADNODEIDINVALID = UA_STATUSCODE_GOOD by decide)
  rename_i hns
  rw [if_neg hns]
  split at h
  · rename_i status hcreate
    have hnone : (createNodeFromAttributes item).2 = none := by rw [hcreate]
    have hbad := createNodeFromAttributes_none item hnone
    rw [hcreate] at hbad
    exact absurd h hbad
  · rename_i status node hcreate
    rw [hcreate]
    dsimp only at h ⊢
    split at h
    · rename_i hbad
      exact absurd h hbad
    rename_i hgood
    rw [if_neg hgood]
    have hins := fun ns' id => UA_NodeStore_insert_good server.nodestore ns' node id
    have hinseq := fun ns' id => UA_NodeStore_insert_good_eq server.nodestore ns' node id
    generalize UA_NodeStore_insert server.nodestore node = inserted at h hins hinseq ⊢
    split at h
    · rename_i hbad
      exact absurd h hbad
    rename_i hig
    rw [if_neg hig]
    have hig' : inserted.1 = UA_STATUSCODE_GOOD := Classical.not_not.mp hig
    have heq : inserted = (UA_STATUSCODE_GOOD, inserted.2.1, inserted.2.2) :=
      Prod.ext hig' (Prod.ext rfl rfl)
    refine ⟨status, node, inserted.2.2, rfl, (hins _ _ heq).1, ?_⟩
    rw [← hinseq _ _ heq]

theorem UA_NodeStore_remove_appended (ns : List UA_Node) (n : UA_Node)
    (hnew : UA_NodeStore_get ns n.nodeId = none) :
    UA_NodeStore_remove (ns ++ [n]) n.nodeId = (UA_STATUSCODE_GOOD, ns) := by
  unfold UA_NodeStore_remove
  rw [UA_NodeStore_get_append_of_none _ _ _ hnew, UA_NodeStore_get_singleton_self]
  dsimp only
  have hkeep : ∀ m ∈ ns, (!decide (m.nodeId = n.nodeId)) = true := by
    intro m hm
    unfold UA_NodeStore_get at hnew
    have := List.find?_eq_none.mp hnew m hm
    simpa using this
  rw [List.filter_append, List.filter_eq_self.mpr hkeep]
  rw [List.filter_cons_of_neg (by simp)]
  simp

/-- Deleting a node that is not an object and has no references is the removal from the
store. -/
theorem Service_DeleteNodes_single_plain (server : UA_Server) (nodeId : UA_NodeId)
    (node : UA_Node) (hnode : UA_NodeStore_get server.nodestore nodeId = some node)
    (hclass : node.nodeClass ≠ UA_NODECLASS_OBJECT) (hrefs : node.references = []) :
    Service_DeleteNodes_single server nodeId true =
      ((UA_NodeStore_remove server.nodestore nodeId).1,
       { server with nodestore := (UA_NodeStore_remove server.nodestore nodeId).2 }) := by
  unfold Service_DeleteNodes_single
  rw [hnode]
  dsimp only
  rw [if_neg hclass, if_pos rfl, hrefs]
  rfl

theorem typeCheckVariableNode_abstract (server : UA_Server) (node vt : UA_Node)
    (typeDef : UA_NodeId)
    (hboot : ¬ node.nodeId = UA_NODEID_NUMERIC 0 UA_NS0ID_BASEDATAVARIABLETYPE)
    (hvt : UA_NodeStore_get server.nodestore typeDef = some vt)
    (hvtclass : vt.nodeClass = UA_NODECLASS_VARIABLETYPE)
    (hclass : node.nodeClass = UA_NODECLASS_VARIABLE) (habstract : vt.isAbstract = true) :
    typeCheckVariableNode server node typeDef =
      (UA_STATUSCODE_BADTYPEDEFINITIONINVALID, server) := by
  unfold typeCheckVariableNode
  rw [if_neg (by unfold UA_NodeId_equal; rw [decide_eq_true_eq]; exact hboot), hvt]
  dsimp only
  rw [if_neg (fun hne => hne hvtclass), if_pos ⟨hclass, habstract⟩]

/-! ## Which ids are in the store -/

theorem UA_Server_editNode_isSome (server : UA_Server) (nodeId : UA_NodeId)
    (callback : UA_Node → UA_StatusCode × UA_Node)
    (hcb : ∀ n, (callback n).2.nodeId = n.nodeId) (other : UA_NodeId) :
    (UA_NodeStore_get (UA_Server_editNode server nodeId callback).2.nodestore other).isSome =
      (UA_NodeStore_get server.nodestore other).isSome := by
  rw [UA_Server_editNode_get server nodeId callback hcb other]
  by_cases ho : other = nodeId
  · rw [if_pos ho, ho]
    cases UA_NodeStore_get server.nodestore nodeId <;> rfl
  · rw [if_neg ho]

theorem Service_AddReferences_single_isSome (server : UA_Server) (item : UA_AddReferencesItem)
    (other : UA_NodeId) :
    (UA_NodeStore_get (Service_AddReferences_single server item).2.nodestore other).isSome =
      (UA_NodeStore_get server.nodestore other).isSome := by
  rw [Service_AddReferences_single_eq server item _ _ rfl rfl]
  have h1 := UA_Server_editNode_isSome server item.sourceNodeId (addOneWayReference item)
    (addOneWayReference_nodeId item) other
  generalize UA_Server_editNode server item.sourceNodeId (addOneWayReference item) = first
    at h1 ⊢
  have h2 := UA_Server_editNode_isSome first.2 item.targetNodeId.nodeId
    (addOneWayReference (Service_AddReferences_secondItem item))
    (addOneWayReference_nodeId _) other
  generalize UA_Server_editNode first.2 item.targetNodeId.nodeId
    (addOneWayReference (Service_AddReferences_secondItem item)) = second at h2 ⊢
  have h3 := UA_Server_editNode_isSome second.2 item.sourceNodeId
    (deleteOneWayReference (Service_AddReferences_deleteItem item))
    (deleteOneWayReference_nodeId _) other
  split
  · rfl
  · split
    · exact h1
    · split
      · exact h3.trans (h2.trans h1)
      · exact h2.trans h1

theorem Service_DeleteNodes_destructors_nodestore (nodeId : UA_NodeId) (handle : Nat)
    (rds : List UA_ReferenceDescription) :
    ∀ server, (Service_DeleteNodes_destructors server nodeId handle rds).nodestore =
      server.nodestore := by
  induction rds with
  | nil => intro server; rfl
  | cons rd rest ih =>
    intro server
    unfold Service_DeleteNodes_destructors
    split
    · exact ih server
    · split
      · exact ih server
      · split
        · exact ih server
        · rw [ih]

theorem Service_DeleteNodes_reference_isSome (server : UA_Server) (nodeId : UA_NodeId)
    (i : Nat) (other : UA_NodeId) :
    (UA_NodeStore_get (Service_DeleteNodes_reference server nodeId i).nodestore other).isSome =
      (UA_NodeStore_get server.nodestore other).isSome := by
  unfold Service_DeleteNodes_reference
  split
  · rfl
  · split
    · rfl
    · exact UA_Server_editNode_isSome _ _ _ (deleteOneWayReference_nodeId _) other

theorem Service_DeleteNodes_references_isSome (nodeId other : UA_NodeId) (l : List Nat) :
    ∀ server,
      (UA_NodeStore_get (l.foldl (fun srv i => Service_DeleteNodes_reference srv nodeId i)
        server).nodestore other).isSome = (UA_NodeStore_get server.nodestore other).isSome := by
  induction l with
  | nil => intro server; rfl
  | cons i rest ih =>
    intro server
    rw [List.foldl_cons, ih, Service_DeleteNodes_reference_isSome]

theorem UA_NodeStore_get_filter_ne (ns : List UA_Node) (nodeId other : UA_NodeId)
    (hne : other ≠ nodeId) :
    UA_NodeStore_get (ns.filter (fun n => !decide (n.nodeId = nodeId))) other =
      UA_NodeStore_get ns other := by
  induction ns with
  | nil => rfl
  | cons m ms ih =>
    unfold UA_NodeStore_get at ih ⊢
    by_cases hm : m.nodeId = nodeId
    · have hmo : ¬ m.nodeId = other := fun e => hne (e.symm.trans hm)
      rw [List.filter_cons_of_neg (by rw [decide_eq_true hm]; decide), List.find?_cons,
        decide_eq_false hmo]
      exact ih
    · rw [List.filter_cons_of_pos (by rw [decide_eq_false hm]; rfl), List.find?_cons,
        List.find?_cons]
      by_cases hmo : m.nodeId = other
      · rw [decide_eq_true hmo]
      · rw [decide_eq_false hmo]
        exact ih

theorem UA_NodeStore_remove_isSome (ns : List UA_Node) (nodeId other : UA_NodeId) :
    (UA_NodeStore_get (UA_NodeStore_remove ns nodeId).2 other).isSome =
      (decide (other ≠ nodeId) && (UA_NodeStore_get ns other).isSome) := by
  by_cases ho : other = nodeId
  · rw [ho, UA_NodeStore_remove_absent, decide_eq_false (fun h => h rfl)]
    rfl
  · rw [decide_eq_true ho, Bool.true_and]
    unfold UA_NodeStore_remove
    split
    · rfl
    · rw [UA_NodeStore_get_filter_ne _ _ _ ho]

/-- After `Service_DeleteNodes_single` the store holds the ids it held before, the deleted
one apart. -/
theorem Service_DeleteNodes_single_isSome (server : UA_Server) (nodeId : UA_NodeId)
    (deleteReferences : Bool) (other : UA_NodeId) :
    (UA_NodeStore_get (Service_DeleteNodes_single server nodeId deleteReferences).2.nodestore
      other).isSome = (decide (other ≠ nodeId) && (UA_NodeStore_get server.nodestore other).isSome)
    := by
  unfold Service_DeleteNodes_single
  cases hg : UA_NodeStore_get server.nodestore nodeId with
  | none =>
    dsimp only
    by_cases ho : other = nodeId
    · rw [ho, hg, decide_eq_false (fun h => h rfl)]
      rfl
    · rw [decide_eq_true ho, Bool.true_and]
  | some node =>
    dsimp only
    rw [UA_NodeStore_remove_isSome]
    congr 1
    split
    · rw [Service_DeleteNodes_references_isSome]
      split
      · rw [Service_DeleteNodes_destructors_nodestore]
      · rfl
    · split
      · rw [Service_DeleteNodes_destructors_nodestore]
      · rfl

/-! ## Abstract variable types are rejected -/

theorem checkParentReference_parent (server : UA_Server) (nodeClass : UA_NodeClass)
    (parentNodeId referenceTypeId : UA_NodeId)
    (h : checkParentReference server nodeClass parentNodeId referenceTypeId =
      UA_STATUSCODE_GOOD) :
    ∃ parent, UA_NodeStore_get server.nodestore parentNodeId = some parent := by
  unfold checkParentReference at h
  cases hp : UA_NodeStore_get server.nodestore parentNodeId with
  | none =>
    rw [hp] at h
    exact absurd h (show ¬ UA_STATUSCODE_BADPARENTNODEIDINVALID = UA_STATUSCODE_GOOD by decide)
  | some parent => exact ⟨parent, rfl⟩

/-- `Service_AddReferences_single` succeeds when both nodes are in the store and no server
uri is given. -/
theorem Service_AddReferences_single_status (server : UA_Server) (item : UA_AddReferencesItem)
    (source target : UA_Node) (huri : item.targetServerUri.length = 0)
    (hsource : UA_NodeStore_get server.nodestore item.sourceNodeId = some source)
    (htarget : UA_NodeStore_get server.nodestore item.targetNodeId.nodeId = some target) :
    (Service_AddReferences_single server item).1 = UA_STATUSCODE_GOOD := by
  rw [Service_AddReferences_single_eq server item _ _ rfl rfl]
  rw [if_neg (by omega)]
  have hst1 := UA_Server_editNode_status server item.sourceNodeId (addOneWayReference item)
  rw [hsource] at hst1
  have hsome := UA_Server_editNode_isSome server item.sourceNodeId (addOneWayReference item)
    (addOneWayReference_nodeId item) item.targetNodeId.nodeId
  rw [htarget] at hsome
  generalize UA_Server_editNode server item.sourceNodeId (addOneWayReference item) = first
    at hst1 hsome ⊢
  have hst1' : first.1 = UA_STATUSCODE_GOOD := hst1
  rw [if_neg (fun hne => hne hst1')]
  have hst2 := UA_Server_editNode_status first.2 item.targetNodeId.nodeId
    (addOneWayReference (Service_AddReferences_secondItem item))
  cases htgt : UA_NodeStore_get first.2.nodestore item.targetNodeId.nodeId with
  | none =>
    rw [htgt] at hsome
    exact Bool.noConfusion hsome
  | some t =>
    rw [htgt] at hst2
    have hst2' : (UA_Server_editNode first.2 item.targetNodeId.nodeId
      (addOneWayReference (Service_AddReferences_secondItem item))).1 = UA_STATUSCODE_GOOD :=
      hst2
    rw [if_neg (fun hne => hne hst2')]
    exact hst2'

theorem Service_AddNode_finish_addParent_isSome (server : UA_Server) (node : UA_Node)
    (parentNodeId referenceTypeId other : UA_NodeId) :
    (UA_NodeStore_get (Service_AddNode_finish_addParent server node parentNodeId
      referenceTypeId).2.nodestore other).isSome =
      (UA_NodeStore_get server.nodestore other).isSome := by
  unfold Service_AddNode_finish_addParent
  split
  · exact Service_AddReferences_single_isSome _ _ _
  · rfl

theorem Service_AddNode_finish_addParent_status (server : UA_Server) (node parent : UA_Node)
    (parentNodeId referenceTypeId : UA_NodeId)
    (hnode : UA_NodeStore_get server.nodestore node.nodeId = some node)
    (hparent : UA_NodeStore_get server.nodestore parentNodeId = some parent) :
    (Service_AddNode_finish_addParent server node parentNodeId referenceTypeId).1 =
      UA_STATUSCODE_GOOD := by
  unfold Service_AddNode_finish_addParent
  split
  · exact Service_AddReferences_single_status server _ node parent rfl hnode hparent
  · rfl

/-- `Service_AddNode_finish` on a variable whose type definition names an abstract variable
type: the status is `BadTypeDefinitionInvalid` and the node is deleted. -/
theorem Service_AddNode_finish_abstract (budget : Nat) (server : UA_Server)
    (nodeId parentNodeId referenceTypeId typeDefinition : UA_NodeId)
    (cb : Option UA_InstantiationCallback) (node vt : UA_Node)
    (hnode : UA_NodeStore_get server.nodestore nodeId = some node)
    (hclass : node.nodeClass = UA_NODECLASS_VARIABLE)
    (hparent : checkParentReference server UA_NODECLASS_VARIABLE parentNodeId referenceTypeId =
      UA_STATUSCODE_GOOD)
    (hnull : UA_NodeId_isNull typeDefinition = false)
    (hvt : UA_NodeStore_get server.nodestore typeDefinition = some vt)
    (hvtclass : vt.nodeClass = UA_NODECLASS_VARIABLETYPE) (habstract : vt.isAbstract = true) :
    ∃ server',
      Service_AddNode_finish (budget + 2) server nodeId parentNodeId referenceTypeId
        typeDefinition cb = some (UA_STATUSCODE_BADTYPEDEFINITIONINVALID, server') ∧
      (∀ other, (UA_NodeStore_get server'.nodestore other).isSome =
        (decide (other ≠ nodeId) && (UA_NodeStore_get server.nodestore other).isSome)) ∧
      (nodeId ≠ UA_NODEID_NUMERIC 0 UA_NS0ID_BASEDATAVARIABLETYPE →
        server' = (Service_DeleteNodes_single server nodeId true).2) := by
  have hid : node.nodeId = nodeId := UA_NodeStore_get_nodeId hnode
  rw [Service_AddNode_finish_succ, hnode]
  dsimp only
  rw [Service_AddNode_finish_referenceTypeId_instance node referenceTypeId (Or.inl hclass),
    Service_AddNode_finish_typeDefinition_variable node parentNodeId typeDefinition hclass,
    if_neg (show ¬ UA_NodeId_isNull typeDefinition = true by rw [hnull]; decide)]
  have hchecked : Service_AddNode_finish_checkParent server node parentNodeId referenceTypeId =
      UA_STATUSCODE_GOOD := by
    unfold Service_AddNode_finish_checkParent
    rw [if_pos (Or.inl (by rw [hclass]; decide)), hclass]
    exact hparent
  rw [hchecked, if_neg (fun hne => hne rfl)]
  have htypecheck : Service_AddNode_finish_typeCheck server node typeDefinition =
      typeCheckVariableNode server node typeDefinition := by
    unfold Service_AddNode_finish_typeCheck
    rw [if_pos (Or.inl hclass)]
  rw [htypecheck]
  by_cases hboot : node.nodeId = UA_NODEID_NUMERIC 0 UA_NS0ID_BASEDATAVARIABLETYPE
  · have htyped : typeCheckVariableNode server node typeDefinition =
        (UA_STATUSCODE_GOOD, server) := by
      unfold typeCheckVariableNode
      rw [if_pos (by unfold UA_NodeId_equal; exact decide_eq_true hboot)]
    rw [htyped]
    dsimp only
    rw [if_neg (fun hne => hne rfl)]
    obtain ⟨parent, hparent'⟩ := checkParentReference_parent _ _ _ _ hparent
    have hnode' : UA_NodeStore_get server.nodestore node.nodeId = some node := by
      rw [hid]; exact hnode
    have hlstatus := Service_AddNode_finish_addParent_status server node parent parentNodeId
      referenceTypeId hnode' hparent'
    have hlsome := Service_AddNode_finish_addParent_isSome server node parentNodeId
      referenceTypeId
    have hlext := fun s' => Service_AddNode_finish_addParent_extends server s' node
      parentNodeId referenceTypeId
    generalize Service_AddNode_finish_addParent server node parentNodeId referenceTypeId
      = linked at hlstatus hlsome hlext ⊢
    rw [if_neg (fun hne => hne hlstatus)]
    obtain ⟨vt2, hvt2, hextvt⟩ := (hlext linked.2 (Prod.ext hlstatus rfl)).1 typeDefinition vt hvt
    have hinst : instantiateNode (budget + 1) linked.2 nodeId node.nodeClass typeDefinition cb =
        some (UA_STATUSCODE_BADTYPEDEFINITIONINVALID, linked.2) := by
      rw [instantiateNode_succ, hclass,
        if_neg (fun hc => hc.1 rfl), hvt2]
      dsimp only
      have hnotok : instantiateNode_typeOk UA_NODECLASS_VARIABLE vt2 = false := by
        unfold instantiateNode_typeOk
        rw [if_pos rfl, UA_Node_extends_isAbstract hextvt, habstract]
        simp
      rw [if_pos hnotok]
    rw [hinst]
    dsimp only
    rw [if_pos (show UA_STATUSCODE_BADTYPEDEFINITIONINVALID ≠ UA_STATUSCODE_GOOD by decide)]
    refine ⟨_, rfl, ?_, ?_⟩
    · intro other
      show (UA_NodeStore_get (Service_DeleteNodes_single linked.2 nodeId true).2.nodestore
        other).isSome = _
      rw [Service_DeleteNodes_single_isSome, hlsome]
    · intro hne
      exact absurd (hid.symm.trans hboot) hne
  · rw [typeCheckVariableNode_abstract server node vt typeDefinition hboot hvt hvtclass hclass
      habstract]
    dsimp only
    rw [if_pos (show UA_STATUSCODE_BADTYPEDEFINITIONINVALID ≠ UA_STATUSCODE_GOOD by decide)]
    refine ⟨_, rfl, ?_, ?_⟩
    · intro other
      show (UA_NodeStore_get (Service_DeleteNodes_single server nodeId true).2.nodestore
        other).isSome = _
      rw [Service_DeleteNodes_single_isSome]
    · intro _
      rfl

/-- Claim C9, as stated, fails when the first half of the service fails: the request
`ex_item_abstract_namespace` is of class Variable, has a valid parent and parent reference
type and names the abstract variable type 3100, yet it asks for a node id in a namespace the
server does not have and `Service_AddNodes_single` returns `BadNodeIdInvalid`. -/
theorem Service_AddNodes_single_abstract_bad_namespace :
    ex_item_abstract_namespace.nodeClass = UA_NODECLASS_VARIABLE ∧
    checkParentReference ex_abstract UA_NODECLASS_VARIABLE
      ex_item_abstract_namespace.parentNodeId.nodeId
      ex_item_abstract_namespace.referenceTypeId = UA_STATUSCODE_GOOD ∧
    (UA_NodeStore_get ex_abstract.nodestore
      ex_item_abstract_namespace.typeDefinition.nodeId).map
        (fun vt => (vt.nodeClass, vt.isAbstract)) = some (UA_NODECLASS_VARIABLETYPE, true) ∧
    Service_AddNodes_single 4 ex_abstract ex_item_abstract_namespace none =
      some ({ statusCode := UA_STATUSCODE_BADNODEIDINVALID, addedNodeId := UA_NODEID_NULL },
        ex_abstract) ∧
    UA_STATUSCODE_BADNODEIDINVALID ≠ UA_STATUSCODE_BADTYPEDEFINITIONINVALID := by
  refine ⟨rfl, ?_, ?_, ?_, ?_⟩
  · decide
  · decide
  · rfl
  · decide

/-- Claim C9: an AddNodes item of class Variable that passes the first half of the service
(`Service_AddNode_begin` is Good), whose parent and parent reference type are valid and whose
typeDefinition names an abstract VariableType: `Service_AddNodes_single` returns
`BadTypeDefinitionInvalid` with a null added id, the ids in the store after the call are the
ids before the call, and unless the new node took the id of BaseDataVariableType the server
is left exactly as it was. -/
theorem Service_AddNodes_single_abstract_type (budget : Nat) (server : UA_Server)
    (item : UA_AddNodesItem) (cb : Option UA_InstantiationCallback) (vt : UA_Node)
    (hclass : item.nodeClass = UA_NODECLASS_VARIABLE)
    (hbegin : (Service_AddNode_begin server item).1.statusCode = UA_STATUSCODE_GOOD)
    (hparent : checkParentReference server UA_NODECLASS_VARIABLE item.parentNodeId.nodeId
      item.referenceTypeId = UA_STATUSCODE_GOOD)
    (hnull : UA_NodeId_isNull item.typeDefinition.nodeId = false)
    (hvt : UA_NodeStore_get server.nodestore item.typeDefinition.nodeId = some vt)
    (hvtclass : vt.nodeClass = UA_NODECLASS_VARIABLETYPE) (habstract : vt.isAbstract = true) :
    ∃ server',
      Service_AddNodes_single (budget + 2) server item cb =
        some ({ statusCode := UA_STATUSCODE_BADTYPEDEFINITIONINVALID,
                addedNodeId := UA_NODEID_NULL }, server') ∧
      (∀ id, (UA_NodeStore_get server'.nodestore id).isSome =
        (UA_NodeStore_get server.nodestore id).isSome) ∧
      ((Service_AddNode_begin server item).1.addedNodeId ≠
          UA_NODEID_NUMERIC 0 UA_NS0ID_BASEDATAVARIABLETYPE → server' = server) := by
  obtain ⟨status, node, nodeId, hcreate, hnew, hbegun⟩ := Service_AddNode_begin_good server item
    hbegin
  obtain ⟨hnclass, hnrefs, _⟩ := createNodeFromAttributes_variable item hclass status node
    hcreate
  have hnew1 : UA_NodeStore_get server.nodestore ({ node with nodeId := nodeId } : UA_Node).nodeId
      = none := hnew
  have hnode1 : UA_NodeStore_get (server.nodestore ++ [{ node with nodeId := nodeId }]) nodeId =
      some { node with nodeId := nodeId } := by
    rw [UA_NodeStore_get_append_of_none _ _ _ hnew]
    exact UA_NodeStore_get_singleton_self { node with nodeId := nodeId }
  obtain ⟨server', hfinish, hids, hsame⟩ := Service_AddNode_finish_abstract budget
    { server with nodestore := server.nodestore ++ [{ node with nodeId := nodeId }] }
    nodeId item.parentNodeId.nodeId item.referenceTypeId item.typeDefinition.nodeId cb
    { node with nodeId := nodeId } vt hnode1 hnclass
    (checkParentReference_append server { node with nodeId := nodeId } UA_NODECLASS_VARIABLE
      item.parentNodeId.nodeId item.referenceTypeId hnrefs hnew1 hparent)
    hnull (UA_NodeStore_get_append_of_some _ _ _ vt hvt) hvtclass habstract
  refine ⟨server', ?_, ?_, ?_⟩
  · unfold Service_AddNodes_single
    rw [hbegun]
    dsimp only
    rw [if_neg (fun hne => hne rfl), hfinish]
    dsimp only
    rw [if_pos (show UA_STATUSCODE_BADTYPEDEFINITIONINVALID ≠ UA_STATUSCODE_GOOD by decide)]
  · intro id
    rw [hids id]
    show (decide (id ≠ nodeId) &&
      (UA_NodeStore_get (server.nodestore ++ [{ node with nodeId := nodeId }]) id).isSome) = _
    by_cases hid : id = nodeId
    · rw [hid, hnew]
      simp
    · rw [decide_eq_true hid, Bool.true_and]
      cases hget : UA_NodeStore_get server.nodestore id with
      | some m => rw [UA_NodeStore_get_append_of_some _ _ _ m hget]
      | none =>
        rw [UA_NodeStore_get_append_of_none _ _ _ hget,
          UA_NodeStore_get_singleton_none { node with nodeId := nodeId } id
            (fun h => hid h.symm)]
  · rw [hbegun]
    intro hne
    rw [hsame hne,
      Service_DeleteNodes_single_plain _ nodeId { node with nodeId := nodeId } hnode1
        (by rw [show ({ node with nodeId := nodeId } : UA_Node).nodeClass = node.nodeClass from
          rfl, hnclass]; decide) hnrefs]
    show ({ server with nodestore := (UA_NodeStore_remove
      (server.nodestore ++ [{ node with nodeId := nodeId }])
      ({ node with nodeId := nodeId } : UA_Node).nodeId).2 } : UA_Server) = server
    rw [UA_NodeStore_remove_appended _ _ hnew1]

/-- Scenario "abstract type rejection" on `ex_abstract`: the add of `v2` with the abstract
type 3100 returns `BadTypeDefinitionInvalid` and leaves the server as it was. -/
theorem Service_AddNodes_single_abstract_type_witness :
    ∃ server',
      Service_AddNodes_single (2 + 2) ex_abstract ex_item_abstract none =
        some ({ statusCode := UA_STATUSCODE_BADTYPEDEFINITIONINVALID,
                addedNodeId := UA_NODEID_NULL }, server') ∧
      (∀ id, (UA_NodeStore_get server'.nodestore id).isSome =
        (UA_NodeStore_get ex_abstract.nodestore id).isSome) ∧
      ((Service_AddNode_begin ex_abstract ex_item_abstract).1.addedNodeId ≠
          UA_NODEID_NUMERIC 0 UA_NS0ID_BASEDATAVARIABLETYPE → server' = ex_abstract) :=
  Service_AddNodes_single_abstract_type 2 ex_abstract ex_item_abstract none
    { ex_node 3100 UA_NODECLASS_VARIABLETYPE "AbstractType" [] with
      isAbstract := true, dataType := ex_id UA_NS0ID_BASEDATATYPE, valueRank := -2 }
    rfl (by decide) (by decide) (by decide) (by decide) rfl rfl

/-! ## Value rank against array dimensions -/

/-- `typeCheckVariableNode` returns what `compatibleValueRankArrayDimensions` returns when
the checks before it pass and that one fails. -/
theorem typeCheckVariableNode_rank (server : UA_Server) (node vt : UA_Node)
    (typeDef : UA_NodeId)
    (hboot : ¬ node.nodeId = UA_NODEID_NUMERIC 0 UA_NS0ID_BASEDATAVARIABLETYPE)
    (hvt : UA_NodeStore_get server.nodestore typeDef = some vt)
    (hvtclass : vt.nodeClass = UA_NODECLASS_VARIABLETYPE)
    (hconcrete : vt.isAbstract = false)
    (hdata : compatibleDataType server node.dataType vt.dataType = true)
    (hread : (readValueAttribute server node).1 = UA_STATUSCODE_GOOD)
    (hrank : compatibleValueRankArrayDimensions node.valueRank
      (typeCheckVariableNode_arrayDims node (readValueAttribute server node).2) ≠
      UA_STATUSCODE_GOOD) :
    typeCheckVariableNode server node typeDef =
      (compatibleValueRankArrayDimensions node.valueRank
        (typeCheckVariableNode_arrayDims node (readValueAttribute server node).2), server) := by
  unfold typeCheckVariableNode
  rw [if_neg (by unfold UA_NodeId_equal; rw [decide_eq_true_eq]; exact hboot), hvt]
  dsimp only
  rw [if_neg (fun hne => hne hvtclass),
    if_neg (fun h => Bool.noConfusion (hconcrete.symm.trans h.2)),
    if_neg (fun hne => hne hdata), if_neg (fun hne => hne hread), if_pos hrank]

/-- A Variable whose valueRank and effective dimension count (the arrayDimensionsSize, or 1
when that is 0 and a typed non-scalar value is present) are rejected by
`compatibleValueRankArrayDimensions`, the earlier checks of `Service_AddNode_finish` and
`typeCheckVariableNode` passing: `Service_AddNode_finish` returns that non-Good status and
the new node is removed from the store. -/
theorem Service_AddNode_finish_rank_rejected (budget : Nat) (server : UA_Server)
    (nodeId parentNodeId referenceTypeId typeDefinition : UA_NodeId)
    (cb : Option UA_InstantiationCallback) (node vt : UA_Node)
    (hnode : UA_NodeStore_get server.nodestore nodeId = some node)
    (hclass : node.nodeClass = UA_NODECLASS_VARIABLE)
    (hboot : nodeId ≠ UA_NODEID_NUMERIC 0 UA_NS0ID_BASEDATAVARIABLETYPE)
    (hparent : checkParentReference server UA_NODECLASS_VARIABLE parentNodeId referenceTypeId =
      UA_STATUSCODE_GOOD)
    (hnull : UA_NodeId_isNull typeDefinition = false)
    (hvt : UA_NodeStore_get server.nodestore typeDefinition = some vt)
    (hvtclass : vt.nodeClass = UA_NODECLASS_VARIABLETYPE)
    (hconcrete : vt.isAbstract = false)
    (hdata : compatibleDataType server node.dataType vt.dataType = true)
    (hread : (readValueAttribute server node).1 = UA_STATUSCODE_GOOD)
    (hrank : compatibleValueRankArrayDimensions node.valueRank
      (typeCheckVariableNode_arrayDims node (readValueAttribute server node).2) ≠
      UA_STATUSCODE_GOOD) :
    typeCheckVariableNode_arrayDims node (readValueAttribute server node).2 =
      (if node.arrayDimensions.length = 0 ∧ (readValueAttribute server node).2.hasValue = true ∧
          (readValueAttribute server node).2.value.type.isSome = true ∧
          UA_Variant_isScalar (readValueAttribute server node).2.value = false then 1
        else node.arrayDimensions.length) ∧
    (typeCheckVariableNode server node typeDefinition).1 =
      compatibleValueRankArrayDimensions node.valueRank
        (typeCheckVariableNode_arrayDims node (readValueAttribute server node).2) ∧
    Service_AddNode_finish (budget + 1) server nodeId parentNodeId referenceTypeId
      typeDefinition cb =
      some (compatibleValueRankArrayDimensions node.valueRank
          (typeCheckVariableNode_arrayDims node (readValueAttribute server node).2),
        (Service_DeleteNodes_single server nodeId true).2) ∧
    UA_NodeStore_get (Service_DeleteNodes_single server nodeId true).2.nodestore nodeId =
      none := by
  have hid : node.nodeId = nodeId := UA_NodeStore_get_nodeId hnode
  have hboot' : ¬ node.nodeId = UA_NODEID_NUMERIC 0 UA_NS0ID_BASEDATAVARIABLETYPE := by
    rw [hid]; exact hboot
  have htyped := typeCheckVariableNode_rank server node vt typeDefinition hboot' hvt hvtclass
    hconcrete hdata hread hrank
  refine ⟨rfl, by rw [htyped], ?_, Service_DeleteNodes_single_absent server nodeId true⟩
  rw [Service_AddNode_finish_succ, hnode]
  dsimp only
  rw [Service_AddNode_finish_referenceTypeId_instance node referenceTypeId (Or.inl hclass),
    Service_AddNode_finish_typeDefinition_variable node parentNodeId typeDefinition hclass,
    if_neg (show ¬ UA_NodeId_isNull typeDefinition = true by rw [hnull]; decide)]
  have hchecked : Service_AddNode_finish_checkParent server node parentNodeId referenceTypeId =
      UA_STATUSCODE_GOOD := by
    unfold Service_AddNode_finish_checkParent
    rw [if_pos (Or.inl (by rw [hclass]; decide)), hclass]
    exact hparent
  rw [hchecked, if_neg (fun hne => hne rfl)]
  have htypecheck : Service_AddNode_finish_typeCheck server node typeDefinition =
      typeCheckVariableNode server node typeDefinition := by
    unfold Service_AddNode_finish_typeCheck
    rw [if_pos (Or.inl hclass)]
  rw [htypecheck, htyped]
  dsimp only
  rw [if_pos hrank]
  rfl

/-- Claim C10: adding a Variable with valueRank = 1, an empty arrayDimensions list and a
scalar value, the parent check and the earlier type checks passing: the effective dimension
count (the arrayDimensionsSize, or 1 when that is 0 and a typed non-scalar value is present)
is 0, the valueRank-versus-array-dimensions check in `typeCheckVariableNode` fails with
BadTypeMismatch, `Service_AddNode_finish` returns that status, and the new node is removed
from the store. -/
theorem Service_AddNode_finish_rank_mismatch (budget : Nat) (server : UA_Server)
    (nodeId parentNodeId referenceTypeId typeDefinition : UA_NodeId)
    (cb : Option UA_InstantiationCallback) (node vt : UA_Node)
    (hnode : UA_NodeStore_get server.nodestore nodeId = some node)
    (hclass : node.nodeClass = UA_NODECLASS_VARIABLE)
    (hrank1 : node.valueRank = 1)
    (hdims : node.arrayDimensions = [])
    (hscalar : UA_Variant_isScalar (readValueAttribute server node).2.value = true)
    (hboot : nodeId ≠ UA_NODEID_NUMERIC 0 UA_NS0ID_BASEDATAVARIABLETYPE)
    (hparent : checkParentReference server UA_NODECLASS_VARIABLE parentNodeId referenceTypeId =
      UA_STATUSCODE_GOOD)
    (hnull : UA_NodeId_isNull typeDefinition = false)
    (hvt : UA_NodeStore_get server.nodestore typeDefinition = some vt)
    (hvtclass : vt.nodeClass = UA_NODECLASS_VARIABLETYPE)
    (hconcrete : vt.isAbstract = false)
    (hdata : compatibleDataType server node.dataType vt.dataType = true)
    (hread : (readValueAttribute server node).1 = UA_STATUSCODE_GOOD) :
    typeCheckVariableNode_arrayDims node (readValueAttribute server node).2 =
      (if node.arrayDimensions.length = 0 ∧ (readValueAttribute server node).2.hasValue = true ∧
          (readValueAttribute server node).2.value.type.isSome = true ∧
          UA_Variant_isScalar (readValueAttribute server node).2.value = false then 1
        else node.arrayDimensions.length) ∧
    typeCheckVariableNode_arrayDims node (readValueAttribute server node).2 = 0 ∧
    compatibleValueRankArrayDimensions node.valueRank
      (typeCheckVariableNode_arrayDims node (readValueAttribute server node).2) =
      UA_STATUSCODE_BADTYPEMISMATCH ∧
    (typeCheckVariableNode server node typeDefinition).1 = UA_STATUSCODE_BADTYPEMISMATCH ∧
    Service_AddNode_finish (budget + 1) server nodeId parentNodeId referenceTypeId
      typeDefinition cb =
      some (UA_STATUSCODE_BADTYPEMISMATCH, (Service_DeleteNodes_single server nodeId true).2) ∧
    UA_NodeStore_get (Service_DeleteNodes_single server nodeId true).2.nodestore nodeId =
      none := by
  have hcount : typeCheckVariableNode_arrayDims node (readValueAttribute server node).2 = 0 := by
    unfold typeCheckVariableNode_arrayDims
    rw [if_neg (fun h => Bool.noConfusion (hscalar.symm.trans h.2.2.2)), hdims]
    rfl
  have hstatus : compatibleValueRankArrayDimensions node.valueRank
      (typeCheckVariableNode_arrayDims node (readValueAttribute server node).2) =
      UA_STATUSCODE_BADTYPEMISMATCH := by
    rw [hcount, hrank1]
    decide
  have hrank : compatibleValueRankArrayDimensions node.valueRank
      (typeCheckVariableNode_arrayDims node (readValueAttribute server node).2) ≠
      UA_STATUSCODE_GOOD := by
    rw [hstatus]
    decide
  have hgeneral := Service_AddNode_finish_rank_rejected budget server nodeId parentNodeId
    referenceTypeId typeDefinition cb node vt hnode hclass hboot hparent hnull hvt hvtclass
    hconcrete hdata hread hrank
  refine ⟨hgeneral.1, hcount, hstatus, ?_, ?_, hgeneral.2.2.2⟩
  · rw [hgeneral.2.1, hstatus]
  · rw [hgeneral.2.2.1, hstatus]

/-- The variable 3003 of `ex_rank1` has valueRank 1, no array dimensions and the scalar value
`Int32(7)`: the add under `ObjectsFolder` returns BadTypeMismatch and removes the node. -/
theorem Service_AddNode_finish_rank_mismatch_witness :
    (ex_ranked 3003 1).valueRank = 1 ∧ (ex_ranked 3003 1).arrayDimensions = [] ∧
    UA_Variant_isScalar (readValueAttribute ex_rank1 (ex_ranked 3003 1)).2.value = true ∧
    (typeCheckVariableNode ex_rank1 (ex_ranked 3003 1)
      (ex_id UA_NS0ID_BASEDATAVARIABLETYPE)).1 = UA_STATUSCODE_BADTYPEMISMATCH ∧
    Service_AddNode_finish (3 + 1) ex_rank1 (ex_id 3003) (ex_id UA_NS0ID_OBJECTSFOLDER)
      (ex_id UA_NS0ID_ORGANIZES) (ex_id UA_NS0ID_BASEDATAVARIABLETYPE) none =
      some (UA_STATUSCODE_BADTYPEMISMATCH,
        (Service_DeleteNodes_single ex_rank1 (ex_id 3003) true).2) ∧
    UA_NodeStore_get (Service_DeleteNodes_single ex_rank1 (ex_id 3003) true).2.nodestore
      (ex_id 3003) = none :=
  have h := Service_AddNode_finish_rank_mismatch 3 ex_rank1 (ex_id 3003)
    (ex_id UA_NS0ID_OBJECTSFOLDER) (ex_id UA_NS0ID_ORGANIZES)
    (ex_id UA_NS0ID_BASEDATAVARIABLETYPE) none (ex_ranked 3003 1)
    { ex_node UA_NS0ID_BASEDATAVARIABLETYPE UA_NODECLASS_VARIABLETYPE "BaseDataVariableType" []
      with dataType := ex_id UA_NS0ID_BASEDATATYPE, valueRank := -2 }
    (by decide) rfl rfl rfl (by decide) (by decide) (by decide) (by decide) (by decide) rfl rfl
    (by decide) (by decide)
  ⟨rfl, rfl, by decide, h.2.2.2.1, h.2.2.2.2.1, h.2.2.2.2.2⟩

/-! ## The parent reference of a new node -/

/-- The checks of `checkParentReference` once the parent and the reference type are found. -/
theorem checkParentReference_found (server : UA_Server) (nodeClass : UA_NodeClass)
    (parentNodeId referenceTypeId : UA_NodeId) (parent referenceType : UA_Node)
    (hparent : UA_NodeStore_get server.nodestore parentNodeId = some parent)
    (htype : UA_NodeStore_get server.nodestore referenceTypeId = some referenceType) :
    checkParentReference server nodeClass parentNodeId referenceTypeId =
      if referenceType.nodeClass ≠ UA_NODECLASS_REFERENCETYPE then
        UA_STATUSCODE_BADREFERENCETYPEIDINVALID
      else if referenceType.isAbstract = true then UA_STATUSCODE_BADREFERENCENOTALLOWED
      else if nodeClass = UA_NODECLASS_DATATYPE ∨ nodeClass = UA_NODECLASS_VARIABLETYPE ∨
          nodeClass = UA_NODECLASS_OBJECTTYPE ∨ nodeClass = UA_NODECLASS_REFERENCETYPE then
        if ¬ UA_NodeId_equal referenceTypeId (UA_NODEID_NUMERIC 0 UA_NS0ID_HASSUBTYPE) then
          UA_STATUSCODE_BADREFERENCENOTALLOWED
        else if parent.nodeClass ≠ nodeClass then UA_STATUSCODE_BADPARENTNODEIDINVALID
        else UA_STATUSCODE_GOOD
      else if ¬ isNodeInTree server.nodestore referenceTypeId
          (UA_NODEID_NUMERIC 0 UA_NS0ID_HIERARCHICALREFERENCES)
          [UA_NODEID_NUMERIC 0 UA_NS0ID_HASSUBTYPE] then
        UA_STATUSCODE_BADREFERENCETYPEIDINVALID
      else UA_STATUSCODE_GOOD := by
  unfold checkParentReference
  rw [hparent, htype]

theorem checkParentReference_no_parent (server : UA_Server) (nodeClass : UA_NodeClass)
    (parentNodeId referenceTypeId : UA_NodeId)
    (hparent : UA_NodeStore_get server.nodestore parentNodeId = none) :
    checkParentReference server nodeClass parentNodeId referenceTypeId =
      UA_STATUSCODE_BADPARENTNODEIDINVALID := by
  unfold checkParentReference
  rw [hparent]

theorem checkParentReference_no_type (server : UA_Server) (nodeClass : UA_NodeClass)
    (parentNodeId referenceTypeId : UA_NodeId) (parent : UA_Node)
    (hparent : UA_NodeStore_get server.nodestore parentNodeId = some parent)
    (htype : UA_NodeStore_get server.nodestore referenceTypeId = none) :
    checkParentReference server nodeClass parentNodeId referenceTypeId =
      UA_STATUSCODE_BADREFERENCETYPEIDINVALID := by
  unfold checkParentReference
  rw [hparent, htype]

/-- A Good `checkParentReference` has found the parent and the reference type. -/
theorem checkParentReference_good (server : UA_Server) (nodeClass : UA_NodeClass)
    (parentNodeId referenceTypeId : UA_NodeId)
    (h : checkParentReference server nodeClass parentNodeId referenceTypeId =
      UA_STATUSCODE_GOOD) :
    ∃ parent referenceType,
      UA_NodeStore_get server.nodestore parentNodeId = some parent ∧
      UA_NodeStore_get server.nodestore referenceTypeId = some referenceType := by
  cases hp : UA_NodeStore_get server.nodestore parentNodeId with
  | none =>
    rw [checkParentReference_no_parent _ _ _ _ hp] at h
    exact absurd h (show ¬ UA_STATUSCODE_BADPARENTNODEIDINVALID = UA_STATUSCODE_GOOD by decide)
  | some parent =>
    cases ht : UA_NodeStore_get server.nodestore referenceTypeId with
    | none =>
      rw [checkParentReference_no_type _ _ _ _ parent hp ht] at h
      exact absurd h
        (show ¬ UA_STATUSCODE_BADREFERENCETYPEIDINVALID = UA_STATUSCODE_GOOD by decide)
    | some referenceType => exact ⟨parent, referenceType, rfl, rfl⟩

/-- Claim C11: for a new node whose class is DataType, VariableType, ObjectType or
ReferenceType, `checkParentReference` returns Good if and only if the parent exists, the
reference type exists, is a ReferenceType node and is not abstract, the reference type id
equals HasSubtype, and the parent's nodeClass equals the new node's nodeClass.  With the
parent found, a ReferenceType node other than HasSubtype yields BadReferenceNotAllowed; with
a valid HasSubtype reference type, a parent of a different nodeClass yields
BadParentNodeIdInvalid. -/
theorem checkParentReference_type_node (server : UA_Server) (nodeClass : UA_NodeClass)
    (parentNodeId referenceTypeId : UA_NodeId)
    (hclass : nodeClass = UA_NODECLASS_DATATYPE ∨ nodeClass = UA_NODECLASS_VARIABLETYPE ∨
      nodeClass = UA_NODECLASS_OBJECTTYPE ∨ nodeClass = UA_NODECLASS_REFERENCETYPE) :
    (checkParentReference server nodeClass parentNodeId referenceTypeId = UA_STATUSCODE_GOOD ↔
      ∃ parent referenceType,
        UA_NodeStore_get server.nodestore parentNodeId = some parent ∧
        UA_NodeStore_get server.nodestore referenceTypeId = some referenceType ∧
        referenceType.nodeClass = UA_NODECLASS_REFERENCETYPE ∧
        referenceType.isAbstract = false ∧
        referenceTypeId = UA_NODEID_NUMERIC 0 UA_NS0ID_HASSUBTYPE ∧
        parent.nodeClass = nodeClass) ∧
    (∀ parent referenceType,
      UA_NodeStore_get server.nodestore parentNodeId = some parent →
      UA_NodeStore_get server.nodestore referenceTypeId = some referenceType →
      referenceType.nodeClass = UA_NODECLASS_REFERENCETYPE →
      referenceTypeId ≠ UA_NODEID_NUMERIC 0 UA_NS0ID_HASSUBTYPE →
      checkParentReference server nodeClass parentNodeId referenceTypeId =
        UA_STATUSCODE_BADREFERENCENOTALLOWED) ∧
    (∀ parent referenceType,
      UA_NodeStore_get server.nodestore parentNodeId = some parent →
      UA_NodeStore_get server.nodestore referenceTypeId = some referenceType →
      referenceType.nodeClass = UA_NODECLASS_REFERENCETYPE →
      referenceType.isAbstract = false →
      referenceTypeId = UA_NODEID_NUMERIC 0 UA_NS0ID_HASSUBTYPE →
      parent.nodeClass ≠ nodeClass →
      checkParentReference server nodeClass parentNodeId referenceTypeId =
        UA_STATUSCODE_BADPARENTNODEIDINVALID) := by
  refine ⟨⟨?_, ?_⟩, ?_, ?_⟩
  · intro h
    obtain ⟨parent, referenceType, hp, ht⟩ := checkParentReference_good _ _ _ _ h
    refine ⟨parent, referenceType, hp, ht, ?_⟩
    rw [checkParentReference_found _ _ _ _ parent referenceType hp ht] at h
    by_cases hrt : referenceType.nodeClass ≠ UA_NODECLASS_REFERENCETYPE
    · rw [if_pos hrt] at h
      exact absurd h
        (show ¬ UA_STATUSCODE_BADREFERENCETYPEIDINVALID = UA_STATUSCODE_GOOD by decide)
    rw [if_neg hrt] at h
    by_cases habs : referenceType.isAbstract = true
    · rw [if_pos habs] at h
      exact absurd h
        (show ¬ UA_STATUSCODE_BADREFERENCENOTALLOWED = UA_STATUSCODE_GOOD by decide)
    rw [if_neg habs, if_pos hclass] at h
    by_cases hsub : ¬ UA_NodeId_equal referenceTypeId (UA_NODEID_NUMERIC 0 UA_NS0ID_HASSUBTYPE)
        = true
    · rw [if_pos hsub] at h
      exact absurd h
        (show ¬ UA_STATUSCODE_BADREFERENCENOTALLOWED = UA_STATUSCODE_GOOD by decide)
    rw [if_neg hsub] at h
    by_cases hpc : parent.nodeClass ≠ nodeClass
    · rw [if_pos hpc] at h
      exact absurd h
        (show ¬ UA_STATUSCODE_BADPARENTNODEIDINVALID = UA_STATUSCODE_GOOD by decide)
    refine ⟨Classical.not_not.mp hrt, ?_, ?_, Classical.not_not.mp hpc⟩
    · cases hv : referenceType.isAbstract with
      | true => exact absurd hv habs
      | false => rfl
    · have := Classical.not_not.mp hsub
      unfold UA_NodeId_equal at this
      exact of_decide_eq_true this
  · rintro ⟨parent, referenceType, hp, ht, hrt, habs, hsub, hpc⟩
    rw [checkParentReference_found _ _ _ _ parent referenceType hp ht,
      if_neg (fun hne => hne hrt),
      if_neg (show ¬ referenceType.isAbstract = true by rw [habs]; decide), if_pos hclass,
      if_neg (show ¬ ¬ UA_NodeId_equal referenceTypeId
        (UA_NODEID_NUMERIC 0 UA_NS0ID_HASSUBTYPE) = true from
          fun hne => hne (by unfold UA_NodeId_equal; exact decide_eq_true hsub)),
      if_neg (fun hne => hne hpc)]
  · intro parent referenceType hp ht hrt hsub
    rw [checkParentReference_found _ _ _ _ parent referenceType hp ht,
      if_neg (fun hne => hne hrt)]
    by_cases habs : referenceType.isAbstract = true
    · rw [if_pos habs]
    · rw [if_neg habs, if_pos hclass,
        if_pos (show ¬ UA_NodeId_equal referenceTypeId
          (UA_NODEID_NUMERIC 0 UA_NS0ID_HASSUBTYPE) = true by
            unfold UA_NodeId_equal
            rw [decide_eq_true_eq]
            exact hsub)]
  · intro parent referenceType hp ht hrt habs hsub hpc
    rw [checkParentReference_found _ _ _ _ parent referenceType hp ht,
      if_neg (fun hne => hne hrt),
      if_neg (show ¬ referenceType.isAbstract = true by rw [habs]; decide), if_pos hclass,
      if_neg (show ¬ ¬ UA_NodeId_equal referenceTypeId
        (UA_NODEID_NUMERIC 0 UA_NS0ID_HASSUBTYPE) = true from
          fun hne => hne (by unfold UA_NodeId_equal; exact decide_eq_true hsub)),
      if_pos hpc]

/-- A new variable type under `BaseDataVariableType` via `HasSubtype` passes the check; via
`Organizes` it is not allowed; a new object type under the same parent is refused. -/
theorem checkParentReference_type_node_witness :
    checkParentReference (ex_server ex_ns0) UA_NODECLASS_VARIABLETYPE
      (ex_id UA_NS0ID_BASEDATAVARIABLETYPE) (ex_id UA_NS0ID_HASSUBTYPE) = UA_STATUSCODE_GOOD ∧
    checkParentReference (ex_server ex_ns0) UA_NODECLASS_VARIABLETYPE
      (ex_id UA_NS0ID_BASEDATAVARIABLETYPE) (ex_id UA_NS0ID_ORGANIZES) =
      UA_STATUSCODE_BADREFERENCENOTALLOWED ∧
    checkParentReference (ex_server ex_ns0) UA_NODECLASS_OBJECTTYPE
      (ex_id UA_NS0ID_BASEDATAVARIABLETYPE) (ex_id UA_NS0ID_HASSUBTYPE) =
      UA_STATUSCODE_BADPARENTNODEIDINVALID :=
  ⟨(checkParentReference_type_node (ex_server ex_ns0) UA_NODECLASS_VARIABLETYPE
      (ex_id UA_NS0ID_BASEDATAVARIABLETYPE) (ex_id UA_NS0ID_HASSUBTYPE)
      (Or.inr (Or.inl rfl))).1.mpr
      ⟨{ ex_node UA_NS0ID_BASEDATAVARIABLETYPE UA_NODECLASS_VARIABLETYPE "BaseDataVariableType"
           [] with dataType := ex_id UA_NS0ID_BASEDATATYPE, valueRank := -2 },
        ex_node UA_NS0ID_HASSUBTYPE UA_NODECLASS_REFERENCETYPE "HasSubtype" [],
        by decide, by decide, by decide, by decide, by decide, by decide⟩,
    (checkParentReference_type_node (ex_server ex_ns0) UA_NODECLASS_VARIABLETYPE
      (ex_id UA_NS0ID_BASEDATAVARIABLETYPE) (ex_id UA_NS0ID_ORGANIZES)
      (Or.inr (Or.inl rfl))).2.1
      { ex_node UA_NS0ID_BASEDATAVARIABLETYPE UA_NODECLASS_VARIABLETYPE "BaseDataVariableType"
          [] with dataType := ex_id UA_NS0ID_BASEDATATYPE, valueRank := -2 }
      (ex_node UA_NS0ID_ORGANIZES UA_NODECLASS_REFERENCETYPE "Organizes"
        [ex_ref UA_NS0ID_HASSUBTYPE UA_NS0ID_HIERARCHICALREFERENCES true])
      (by decide) (by decide) (by decide) (by decide),
    (checkParentReference_type_node (ex_server ex_ns0) UA_NODECLASS_OBJECTTYPE
      (ex_id UA_NS0ID_BASEDATAVARIABLETYPE) (ex_id UA_NS0ID_HASSUBTYPE)
      (Or.inr (Or.inr (Or.inl rfl)))).2.2
      { ex_node UA_NS0ID_BASEDATAVARIABLETYPE UA_NODECLASS_VARIABLETYPE "BaseDataVariableType"
          [] with dataType := ex_id UA_NS0ID_BASEDATATYPE, valueRank := -2 }
      (ex_node UA_NS0ID_HASSUBTYPE UA_NODECLASS_REFERENCETYPE "HasSubtype" [])
      (by decide) (by decide) (by decide) (by decide) (by decide) (by decide)⟩

/-- Claim C12: for a new node of a non-type class (Object, Variable, Method, View),
`checkParentReference` returns Good if and only if the parent exists, the reference type
exists as a non-abstract ReferenceType node, and the reference type is HierarchicalReferences
or reachable from it through HasSubtype (`isNodeInTree`).  A missing parent yields
BadParentNodeIdInvalid; with the parent found, a missing or non-ReferenceType reference type
yields BadReferenceTypeIdInvalid, an abstract ReferenceType node yields
BadReferenceNotAllowed, and a non-abstract, non-hierarchical one yields
BadReferenceTypeIdInvalid. -/
theorem checkParentReference_instance_node (server : UA_Server) (nodeClass : UA_NodeClass)
    (parentNodeId referenceTypeId : UA_NodeId)
    (hclass : ¬ (nodeClass = UA_NODECLASS_DATATYPE ∨ nodeClass = UA_NODECLASS_VARIABLETYPE ∨
      nodeClass = UA_NODECLASS_OBJECTTYPE ∨ nodeClass = UA_NODECLASS_REFERENCETYPE)) :
    (checkParentReference server nodeClass parentNodeId referenceTypeId = UA_STATUSCODE_GOOD ↔
      ∃ parent referenceType,
        UA_NodeStore_get server.nodestore parentNodeId = some parent ∧
        UA_NodeStore_get server.nodestore referenceTypeId = some referenceType ∧
        referenceType.nodeClass = UA_NODECLASS_REFERENCETYPE ∧
        referenceType.isAbstract = false ∧
        isNodeInTree server.nodestore referenceTypeId
          (UA_NODEID_NUMERIC 0 UA_NS0ID_HIERARCHICALREFERENCES)
          [UA_NODEID_NUMERIC 0 UA_NS0ID_HASSUBTYPE] = true) ∧
    (isNodeInTree server.nodestore (UA_NODEID_NUMERIC 0 UA_NS0ID_HIERARCHICALREFERENCES)
      (UA_NODEID_NUMERIC 0 UA_NS0ID_HIERARCHICALREFERENCES)
      [UA_NODEID_NUMERIC 0 UA_NS0ID_HASSUBTYPE] = true) ∧
    (UA_NodeStore_get server.nodestore parentNodeId = none →
      checkParentReference server nodeClass parentNodeId referenceTypeId =
        UA_STATUSCODE_BADPARENTNODEIDINVALID) ∧
    (∀ parent, UA_NodeStore_get server.nodestore parentNodeId = some parent →
      UA_NodeStore_get server.nodestore referenceTypeId = none →
      checkParentReference server nodeClass parentNodeId referenceTypeId =
        UA_STATUSCODE_BADREFERENCETYPEIDINVALID) ∧
    (∀ parent referenceType,
      UA_NodeStore_get server.nodestore parentNodeId = some parent →
      UA_NodeStore_get server.nodestore referenceTypeId = some referenceType →
      referenceType.nodeClass ≠ UA_NODECLASS_REFERENCETYPE →
      checkParentReference server nodeClass parentNodeId referenceTypeId =
        UA_STATUSCODE_BADREFERENCETYPEIDINVALID) ∧
    (∀ parent referenceType,
      UA_NodeStore_get server.nodestore parentNodeId = some parent →
      UA_NodeStore_get server.nodestore referenceTypeId = some referenceType →
      referenceType.nodeClass = UA_NODECLASS_REFERENCETYPE →
      referenceType.isAbstract = true →
      checkParentReference server nodeClass parentNodeId referenceTypeId =
        UA_STATUSCODE_BADREFERENCENOTALLOWED) ∧
    (∀ parent referenceType,
      UA_NodeStore_get server.nodestore parentNodeId = some parent →
      UA_NodeStore_get server.nodestore referenceTypeId = some referenceType →
      referenceType.nodeClass = UA_NODECLASS_REFERENCETYPE →
      referenceType.isAbstract = false →
      isNodeInTree server.nodestore referenceTypeId
        (UA_NODEID_NUMERIC 0 UA_NS0ID_HIERARCHICALREFERENCES)
        [UA_NODEID_NUMERIC 0 UA_NS0ID_HASSUBTYPE] = false →
      checkParentReference server nodeClass parentNodeId referenceTypeId =
        UA_STATUSCODE_BADREFERENCETYPEIDINVALID) := by
  refine ⟨⟨?_, ?_⟩, ?_, ?_, ?_, ?_, ?_, ?_⟩
  · intro h
    obtain ⟨parent, referenceType, hp, ht⟩ := checkParentReference_good _ _ _ _ h
    refine ⟨parent, referenceType, hp, ht, ?_⟩
    rw [checkParentReference_found _ _ _ _ parent referenceType hp ht] at h
    by_cases hrt : referenceType.nodeClass ≠ UA_NODECLASS_REFERENCETYPE
    · rw [if_pos hrt] at h
      exact absurd h
        (show ¬ UA_STATUSCODE_BADREFERENCETYPEIDINVALID = UA_STATUSCODE_GOOD by decide)
    rw [if_neg hrt] at h
    by_cases habs : referenceType.isAbstract = true
    · rw [if_pos habs] at h
      exact absurd h
        (show ¬ UA_STATUSCODE_BADREFERENCENOTALLOWED = UA_STATUSCODE_GOOD by decide)
    rw [if_neg habs, if_neg hclass] at h
    by_cases htree : ¬ isNodeInTree server.nodestore referenceTypeId
        (UA_NODEID_NUMERIC 0 UA_NS0ID_HIERARCHICALREFERENCES)
        [UA_NODEID_NUMERIC 0 UA_NS0ID_HASSUBTYPE] = true
    · rw [if_pos htree] at h
      exact absurd h
        (show ¬ UA_STATUSCODE_BADREFERENCETYPEIDINVALID = UA_STATUSCODE_GOOD by decide)
    refine ⟨Classical.not_not.mp hrt, ?_, Classical.not_not.mp htree⟩
    cases hv : referenceType.isAbstract with
    | true => exact absurd hv habs
    | false => rfl
  · rintro ⟨parent, referenceType, hp, ht, hrt, habs, htree⟩
    rw [checkParentReference_found _ _ _ _ parent referenceType hp ht,
      if_neg (fun hne => hne hrt),
      if_neg (show ¬ referenceType.isAbstract = true by rw [habs]; decide), if_neg hclass,
      if_neg (fun hne => hne htree)]
  · unfold isNodeInTree
    cases server.nodestore.length with
    | zero => simp [isNodeInTree_walk]
    | succ depth => simp [isNodeInTree_walk]
  · exact checkParentReference_no_parent _ _ _ _
  · intro parent hp ht
    exact checkParentReference_no_type _ _ _ _ parent hp ht
  · intro parent referenceType hp ht hrt
    rw [checkParentReference_found _ _ _ _ parent referenceType hp ht, if_pos hrt]
  · intro parent referenceType hp ht hrt habs
    rw [checkParentReference_found _ _ _ _ parent referenceType hp ht,
      if_neg (fun hne => hne hrt), if_pos habs]
  · intro parent referenceType hp ht hrt habs htree
    rw [checkParentReference_found _ _ _ _ parent referenceType hp ht,
      if_neg (fun hne => hne hrt),
      if_neg (show ¬ referenceType.isAbstract = true by rw [habs]; decide), if_neg hclass,
      if_pos (show ¬ isNodeInTree server.nodestore referenceTypeId
        (UA_NODEID_NUMERIC 0 UA_NS0ID_HIERARCHICALREFERENCES)
        [UA_NODEID_NUMERIC 0 UA_NS0ID_HASSUBTYPE] = true by rw [htree]; decide)]

/-- A new variable under `ObjectsFolder` via `Organizes` (a subtype of HierarchicalReferences)
passes the check; via `HasTypeDefinition`, which is not hierarchical, it is refused; under a
parent that is not in the store it is refused. -/
theorem checkParentReference_instance_node_witness :
    checkParentReference (ex_server ex_ns0) UA_NODECLASS_VARIABLE
      (ex_id UA_NS0ID_OBJECTSFOLDER) (ex_id UA_NS0ID_ORGANIZES) = UA_STATUSCODE_GOOD ∧
    checkParentReference (ex_server ex_ns0) UA_NODECLASS_VARIABLE
      (ex_id UA_NS0ID_OBJECTSFOLDER) (ex_id UA_NS0ID_HASTYPEDEFINITION) =
      UA_STATUSCODE_BADREFERENCETYPEIDINVALID ∧
    checkParentReference (ex_server ex_ns0) UA_NODECLASS_VARIABLE
      (ex_id 9999) (ex_id UA_NS0ID_ORGANIZES) = UA_STATUSCODE_BADPARENTNODEIDINVALID :=
  ⟨(checkParentReference_instance_node (ex_server ex_ns0) UA_NODECLASS_VARIABLE
      (ex_id UA_NS0ID_OBJECTSFOLDER) (ex_id UA_NS0ID_ORGANIZES) (by decide)).1.mpr
      ⟨ex_node UA_NS0ID_OBJECTSFOLDER UA_NODECLASS_OBJECT "Objects" [],
        ex_node UA_NS0ID_ORGANIZES UA_NODECLASS_REFERENCETYPE "Organizes"
          [ex_ref UA_NS0ID_HASSUBTYPE UA_NS0ID_HIERARCHICALREFERENCES true],
        by decide, by decide, by decide, by decide, by decide⟩,
    (checkParentReference_instance_node (ex_server ex_ns0) UA_NODECLASS_VARIABLE
      (ex_id UA_NS0ID_OBJECTSFOLDER) (ex_id UA_NS0ID_HASTYPEDEFINITION)
      (by decide)).2.2.2.2.2.2
      (ex_node UA_NS0ID_OBJECTSFOLDER UA_NODECLASS_OBJECT "Objects" [])
      (ex_node UA_NS0ID_HASTYPEDEFINITION UA_NODECLASS_REFERENCETYPE "HasTypeDefinition" [])
      (by decide) (by decide) (by decide) (by decide) (by decide),
    (checkParentReference_instance_node (ex_server ex_ns0) UA_NODECLASS_VARIABLE
      (ex_id 9999) (ex_id UA_NS0ID_ORGANIZES) (by decide)).2.2.1 (by decide)⟩

/-! ## Nodes without a parent -/

/-- Claim C13: for every node in the store whose nodeClass is not Object,
`Service_AddNode_finish` called with a null parentNodeId (and no node stored under that null
id) returns BadParentNodeIdInvalid, which is not Good, and removes the node from the store;
an Object node (`o1` of `ex_lifecycle`) is finished without a parent. -/
theorem Service_AddNode_finish_needs_parent (budget : Nat) (server : UA_Server)
    (nodeId parentNodeId referenceTypeId typeDefinition : UA_NodeId)
    (cb : Option UA_InstantiationCallback) (node : UA_Node)
    (hnode : UA_NodeStore_get server.nodestore nodeId = some node)
    (hclass : node.nodeClass ≠ UA_NODECLASS_OBJECT)
    (hnull : UA_NodeId_isNull parentNodeId = true)
    (hnone : UA_NodeStore_get server.nodestore parentNodeId = none) :
    Service_AddNode_finish (budget + 1) server nodeId parentNodeId referenceTypeId
      typeDefinition cb =
      some (UA_STATUSCODE_BADPARENTNODEIDINVALID,
        (Service_DeleteNodes_single server nodeId true).2) ∧
    UA_STATUSCODE_BADPARENTNODEIDINVALID ≠ UA_STATUSCODE_GOOD ∧
    UA_NodeStore_get (Service_DeleteNodes_single server nodeId true).2.nodestore nodeId =
      none ∧
    (Service_AddNode_finish 4 ex_lifecycle (ex_id 2001) UA_NODEID_NULL UA_NODEID_NULL
      (ex_id 2000) none).map (fun r => r.1) = some UA_STATUSCODE_GOOD := by
  refine ⟨?_, by decide, Service_DeleteNodes_single_absent server nodeId true, by decide⟩
  rw [Service_AddNode_finish_succ, hnode]
  dsimp only
  have hchecked : Service_AddNode_finish_checkParent server node parentNodeId
      (Service_AddNode_finish_referenceTypeId node referenceTypeId) =
      UA_STATUSCODE_BADPARENTNODEIDINVALID := by
    unfold Service_AddNode_finish_checkParent
    rw [if_pos (Or.inl hclass)]
    exact checkParentReference_no_parent _ _ _ _ hnone
  rw [hchecked,
    if_pos (show UA_STATUSCODE_BADPARENTNODEIDINVALID ≠ UA_STATUSCODE_GOOD by decide)]
  rfl

/-- The variable `v1` of `ex_variables` finished without a parent: BadParentNodeIdInvalid,
and `v1` is gone. -/
theorem Service_AddNode_finish_needs_parent_witness :
    Service_AddNode_finish (3 + 1) ex_variables (ex_id 3001) UA_NODEID_NULL
      (ex_id UA_NS0ID_ORGANIZES) (ex_id UA_NS0ID_BASEDATAVARIABLETYPE) none =
      some (UA_STATUSCODE_BADPARENTNODEIDINVALID,
        (Service_DeleteNodes_single ex_variables (ex_id 3001) true).2) ∧
    UA_NodeStore_get (Service_DeleteNodes_single ex_variables (ex_id 3001) true).2.nodestore
      (ex_id 3001) = none :=
  have h := Service_AddNode_finish_needs_parent 3 ex_variables (ex_id 3001) UA_NODEID_NULL
    (ex_id UA_NS0ID_ORGANIZES) (ex_id UA_NS0ID_BASEDATAVARIABLETYPE) none ex_v1
    (by decide) (by decide) (by decide) (by decide)
  ⟨h.1, h.2.2.1⟩

/-! ## Attribute payloads -/

/-- The switch of `createNodeFromAttributes` on a class without a `case` of its own. -/
theorem createNodeFromAttributes_switch_default (item : UA_AddNodesItem)
    (standard : UA_StatusCode × UA_Node)
    (hclass : item.nodeClass ∉
      [UA_NODECLASS_OBJECT, UA_NODECLASS_VARIABLE, UA_NODECLASS_OBJECTTYPE,
       UA_NODECLASS_VARIABLETYPE, UA_NODECLASS_REFERENCETYPE, UA_NODECLASS_DATATYPE,
       UA_NODECLASS_VIEW]) :
    (createNodeFromAttributes_switch item standard).1 = UA_STATUSCODE_BADNODECLASSINVALID := by
  simp only [List.mem_cons, List.mem_singleton, List.not_mem_nil, or_false, not_or] at hclass
  obtain ⟨h1, h2, h3, h4, h5, h6, h7⟩ := hclass
  unfold createNodeFromAttributes_switch
  rw [if_neg h1, if_neg h2, if_neg h3, if_neg h4, if_neg h5, if_neg h6, if_neg h7]

theorem createNodeFromAttributes_class_invalid (item : UA_AddNodesItem)
    (hdecoded : ¬ item.nodeAttributes.encoding < UA_EXTENSIONOBJECT_DECODED)
    (htagged : item.nodeAttributes.decodedType ≠ none)
    (hclass : item.nodeClass ∉
      [UA_NODECLASS_OBJECT, UA_NODECLASS_VARIABLE, UA_NODECLASS_OBJECTTYPE,
       UA_NODECLASS_VARIABLETYPE, UA_NODECLASS_REFERENCETYPE, UA_NODECLASS_DATATYPE,
       UA_NODECLASS_VIEW]) :
    createNodeFromAttributes item = (UA_STATUSCODE_BADNODECLASSINVALID, none) := by
  unfold createNodeFromAttributes
  rw [if_neg (fun h => h.elim hdecoded htagged)]
  have hbad := createNodeFromAttributes_switch_default item
    (copyStandardAttributes (UA_NodeStore_newNode item.nodeClass) item
      item.nodeAttributes.decodedData) hclass
  dsimp only
  rw [if_neg (by rw [hbad]; decide), hbad]

/-- Claim C15, as stated, fails for `Service_AddNode_begin`: the request
`ex_item_unspecified_namespace` has a decoded, type-tagged payload and the class Unspecified;
`createNodeFromAttributes` returns BadNodeClassInvalid for it, but `Service_AddNode_begin`
checks the namespace index first and returns BadNodeIdInvalid. -/
theorem Service_AddNode_begin_unspecified_bad_namespace :
    ex_item_unspecified_namespace.nodeClass = UA_NODECLASS_UNSPECIFIED ∧
    ex_item_unspecified_namespace.nodeAttributes.encoding = UA_EXTENSIONOBJECT_DECODED ∧
    ex_item_unspecified_namespace.nodeAttributes.decodedType =
      some UA_DataTypeTag.variableAttributes ∧
    createNodeFromAttributes ex_item_unspecified_namespace =
      (UA_STATUSCODE_BADNODECLASSINVALID, none) ∧
    (Service_AddNode_begin ex_abstract ex_item_unspecified_namespace).1.statusCode =
      UA_STATUSCODE_BADNODEIDINVALID ∧
    UA_STATUSCODE_BADNODEIDINVALID ≠ UA_STATUSCODE_BADNODECLASSINVALID := by
  refine ⟨rfl, rfl, rfl, ?_, ?_, ?_⟩
  · decide
  · decide
  · decide

/-- Claim C15: for every AddNodes item with a decoded, type-tagged attribute payload whose
nodeClass is Unspecified or any other class without a case of its own (not Object, Variable,
ObjectType, VariableType, ReferenceType, DataType or View), `createNodeFromAttributes`
returns BadNodeClassInvalid and produces no node; `Service_AddNode_begin` inserts no node,
and returns BadNodeClassInvalid when the requested namespace index is one of the server. -/
theorem createNodeFromAttributes_nodeClass_invalid (server : UA_Server)
    (item : UA_AddNodesItem)
    (hdecoded : ¬ item.nodeAttributes.encoding < UA_EXTENSIONOBJECT_DECODED)
    (htagged : item.nodeAttributes.decodedType ≠ none)
    (hclass : item.nodeClass ∉
      [UA_NODECLASS_OBJECT, UA_NODECLASS_VARIABLE, UA_NODECLASS_OBJECTTYPE,
       UA_NODECLASS_VARIABLETYPE, UA_NODECLASS_REFERENCETYPE, UA_NODECLASS_DATATYPE,
       UA_NODECLASS_VIEW]) :
    createNodeFromAttributes item = (UA_STATUSCODE_BADNODECLASSINVALID, none) ∧
    (Service_AddNode_begin server item).2 = server ∧
    (Service_AddNode_begin server item).1.statusCode ≠ UA_STATUSCODE_GOOD ∧
    (item.requestedNewNodeId.nodeId.namespaceIndex < server.namespacesSize →
      Service_AddNode_begin server item =
        ({ statusCode := UA_STATUSCODE_BADNODECLASSINVALID, addedNodeId := UA_NODEID_NULL },
         server)) := by
  have hcreate := createNodeFromAttributes_class_invalid item hdecoded htagged hclass
  have hbegin : Service_AddNode_begin server item =
      if item.requestedNewNodeId.nodeId.namespaceIndex ≥ server.namespacesSize then
        ({ statusCode := UA_STATUSCODE_BADNODEIDINVALID, addedNodeId := UA_NODEID_NULL },
         server)
      else
        ({ statusCode := UA_STATUSCODE_BADNODECLASSINVALID, addedNodeId := UA_NODEID_NULL },
         server) := by
    unfold Service_AddNode_begin
    rw [hcreate]
    rfl
  refine ⟨hcreate, ?_, ?_, ?_⟩
  · rw [hbegin]
    split <;> rfl
  · rw [hbegin]
    split
    · exact (show ¬ UA_STATUSCODE_BADNODEIDINVALID = UA_STATUSCODE_GOOD by decide)
    · exact (show ¬ UA_STATUSCODE_BADNODECLASSINVALID = UA_STATUSCODE_GOOD by decide)
  · intro hns
    rw [hbegin, if_neg (by omega)]

/-- The request `ex_item_unspecified` (class Unspecified, node id in namespace 0). -/
theorem createNodeFromAttributes_nodeClass_invalid_witness :
    createNodeFromAttributes ex_item_unspecified = (UA_STATUSCODE_BADNODECLASSINVALID, none) ∧
    Service_AddNode_begin ex_abstract ex_item_unspecified =
      ({ statusCode := UA_STATUSCODE_BADNODECLASSINVALID, addedNodeId := UA_NODEID_NULL },
       ex_abstract) :=
  have h := createNodeFromAttributes_nodeClass_invalid ex_abstract ex_item_unspecified
    (by decide) (by decide) (by decide)
  ⟨h.1, h.2.2.2 (by decide)⟩

/-! ## Method children -/

theorem instanceFindAggregateByBrowsename_eq (server : UA_Server) (searchInstance : UA_NodeId)
    (browseName : UA_QualifiedName) :
    instanceFindAggregateByBrowsename server searchInstance browseName =
      if (Service_Browse_single server
          (instanceFindAggregateByBrowsename_browse searchInstance)).statusCode ≠
          UA_STATUSCODE_GOOD then
        ((Service_Browse_single server
          (instanceFindAggregateByBrowsename_browse searchInstance)).statusCode, UA_NODEID_NULL)
      else
        match (Service_Browse_single server
            (instanceFindAggregateByBrowsename_browse searchInstance)).references.find?
            (instanceFindAggregateByBrowsename_equal browseName) with
        | some rd => (UA_STATUSCODE_GOOD, rd.nodeId.nodeId)
        | none => (UA_STATUSCODE_GOOD, UA_NODEID_NULL) :=
  rfl

/-- Without a child of that browse name the search leaves the null id. -/
theorem instanceFindAggregateByBrowsename_none (server : UA_Server)
    (searchInstance : UA_NodeId) (browseName : UA_QualifiedName)
    (hnone : ∀ child ∈ (Service_Browse_single server
      (instanceFindAggregateByBrowsename_browse searchInstance)).references,
      instanceFindAggregateByBrowsename_equal browseName child = false) :
    (instanceFindAggregateByBrowsename server searchInstance browseName).2 = UA_NODEID_NULL := by
  rw [instanceFindAggregateByBrowsename_eq]
  split
  · rfl
  · have hfind : (Service_Browse_single server
        (instanceFindAggregateByBrowsename_browse searchInstance)).references.find?
        (instanceFindAggregateByBrowsename_equal browseName) = none := by
      rw [List.find?_eq_none]
      intro child hchild
      rw [hnone child hchild]
      decide
    rw [hfind]

theorem UA_NodeStore_replace_length (ns : List UA_Node) (nodeId : UA_NodeId) (node : UA_Node) :
    (UA_NodeStore_replace ns nodeId node).length = ns.length := by
  unfold UA_NodeStore_replace
  exact List.length_map _ _

theorem UA_Server_editNode_length (server : UA_Server) (nodeId : UA_NodeId)
    (callback : UA_Node → UA_StatusCode × UA_Node) :
    (UA_Server_editNode server nodeId callback).2.nodestore.length =
      server.nodestore.length := by
  unfold UA_Server_editNode
  split
  · rfl
  · exact UA_NodeStore_replace_length _ _ _

/-- `Service_AddReferences_single` neither adds nor removes a node. -/
theorem Service_AddReferences_single_length (server : UA_Server)
    (item : UA_AddReferencesItem) :
    (Service_AddReferences_single server item).2.nodestore.length =
      server.nodestore.length := by
  rw [Service_AddReferences_single_eq server item _ _ rfl rfl]
  have h1 := UA_Server_editNode_length server item.sourceNodeId (addOneWayReference item)
  generalize UA_Server_editNode server item.sourceNodeId (addOneWayReference item) = first
    at h1 ⊢
  have h2 := UA_Server_editNode_length first.2 item.targetNodeId.nodeId
    (addOneWayReference (Service_AddReferences_secondItem item))
  generalize UA_Server_editNode first.2 item.targetNodeId.nodeId
    (addOneWayReference (Service_AddReferences_secondItem item)) = second at h2 ⊢
  have h3 := UA_Server_editNode_length second.2 item.sourceNodeId
    (deleteOneWayReference (Service_AddReferences_deleteItem item))
  split
  · rfl
  · split
    · exact h1
    · split
      · exact h3.trans (h2.trans h1)
      · exact h2.trans h1

/-- Claim C18: for every Method child `m` of a source type reached through reference type
`r` (described by `rd`), when the destination has no aggregated child with the browse name of
`m`: `copyChildNode` inserts no node into the store (same ids, same number of nodes) and, on
Good, adds exactly the forward reference `{r, m, isInverse = false}` to the destination and
the mirror `{r, destination, isInverse = true}` to `m`; every other node is as before. -/
theorem copyChildNode_method (budget : Nat) (server : UA_Server)
    (destinationNodeId : UA_NodeId) (rd : UA_ReferenceDescription)
    (cb : Option UA_InstantiationCallback)
    (hmethod : rd.nodeClass = UA_NODECLASS_METHOD)
    (hnone : ∀ child ∈ (Service_Browse_single server
      (instanceFindAggregateByBrowsename_browse destinationNodeId)).references,
      instanceFindAggregateByBrowsename_equal rd.browseName child = false) :
    ∃ status server',
      copyChildNode (budget + 1) server destinationNodeId rd cb = some (status, server') ∧
      (∀ id, (UA_NodeStore_get server'.nodestore id).isSome =
        (UA_NodeStore_get server.nodestore id).isSome) ∧
      server'.nodestore.length = server.nodestore.length ∧
      (status = UA_STATUSCODE_GOOD →
        ∃ destination,
          UA_NodeStore_get server.nodestore destinationNodeId = some destination ∧
          (rd.nodeId.nodeId ≠ destinationNodeId →
            ∃ m, UA_NodeStore_get server.nodestore rd.nodeId.nodeId = some m ∧
              UA_NodeStore_get server'.nodestore destinationNodeId =
                some { destination with
                       references := destination.references ++
                         [{ referenceTypeId := rd.referenceTypeId, targetId := rd.nodeId,
                            isInverse := false }] } ∧
              UA_NodeStore_get server'.nodestore rd.nodeId.nodeId =
                some { m with
                       references := m.references ++
                         [{ referenceTypeId := rd.referenceTypeId,
                            targetId := UA_ExpandedNodeId_ofNodeId destinationNodeId,
                            isInverse := true }] }) ∧
          (rd.nodeId.nodeId = destinationNodeId →
            UA_NodeStore_get server'.nodestore destinationNodeId =
              some { destination with
                     references := destination.references ++
                       [{ referenceTypeId := rd.referenceTypeId, targetId := rd.nodeId,
                          isInverse := false },
                        { referenceTypeId := rd.referenceTypeId,
                          targetId := UA_ExpandedNodeId_ofNodeId destinationNodeId,
                          isInverse := true }] }) ∧
          (∀ other, other ≠ destinationNodeId → other ≠ rd.nodeId.nodeId →
            UA_NodeStore_get server'.nodestore other =
              UA_NodeStore_get server.nodestore other)) := by
  have hfound := instanceFindAggregateByBrowsename_none server destinationNodeId rd.browseName
    hnone
  rw [copyChildNode_succ]
  dsimp only
  generalize instanceFindAggregateByBrowsename server destinationNodeId rd.browseName = found
    at hfound
  by_cases hf : found.1 ≠ UA_STATUSCODE_GOOD
  · rw [if_pos hf]
    exact ⟨found.1, server, rfl, fun _ => rfl, rfl, fun hgood => absurd hgood hf⟩
  rw [if_neg hf, hfound,
    if_neg (show ¬ UA_NodeId_isNull UA_NODEID_NULL = false by decide), if_pos hmethod]
  generalize hitem : ({ UA_AddReferencesItem_init with
      sourceNodeId := destinationNodeId
      referenceTypeId := rd.referenceTypeId
      isForward := true
      targetNodeId := rd.nodeId
      targetNodeClass := UA_NODECLASS_METHOD } : UA_AddReferencesItem) = item
  refine ⟨(Service_AddReferences_single server item).1,
    (Service_AddReferences_single server item).2, rfl,
    Service_AddReferences_single_isSome server item,
    Service_AddReferences_single_length server item, ?_⟩
  intro hgood
  obtain ⟨_, destination, hdest, hdistinct, hsame, hother⟩ :=
    Service_AddReferences_single_nodes server _ item (Prod.ext hgood rfl)
  subst hitem
  exact ⟨destination, hdest, hdistinct, hsame, hother⟩

/-- The method `m` of the type `MT` linked into the object `mo` of `ex_method`. -/
theorem copyChildNode_method_witness :
    ∃ status server',
      copyChildNode (1 + 1) ex_method (ex_id 4002) ex_method_rd none = some (status, server') ∧
      status = UA_STATUSCODE_GOOD ∧
      server'.nodestore.length = ex_method.nodestore.length ∧
      UA_NodeStore_get server'.nodestore (ex_id 4002) =
        some (ex_node 4002 UA_NODECLASS_OBJECT "mo" [ex_ref UA_NS0ID_HASCOMPONENT 4001 false]) ∧
      UA_NodeStore_get server'.nodestore (ex_id 4001) =
        some (ex_node 4001 UA_NODECLASS_METHOD "m"
          [ex_ref UA_NS0ID_HASCOMPONENT 4000 true, ex_ref UA_NS0ID_HASCOMPONENT 4002 true]) := by
  obtain ⟨status, server', hrun, _, hlength, _⟩ :=
    copyChildNode_method 1 ex_method (ex_id 4002) ex_method_rd none rfl (by decide)
  refine ⟨status, server', hrun, ?_, hlength, ?_, ?_⟩
  · have hval : copyChildNode (1 + 1) ex_method (ex_id 4002) ex_method_rd none =
        some (UA_STATUSCODE_GOOD,
          (Service_AddReferences_single ex_method
            { UA_AddReferencesItem_init with
              sourceNodeId := ex_id 4002
              referenceTypeId := ex_id UA_NS0ID_HASCOMPONENT
              isForward := true
              targetNodeId := UA_ExpandedNodeId_ofNodeId (ex_id 4001)
              targetNodeClass := UA_NODECLASS_METHOD }).2) := rfl
    rw [hval] at hrun
    exact (congrArg Prod.fst (Option.some.inj hrun)).symm
  · have hval : (copyChildNode (1 + 1) ex_method (ex_id 4002) ex_method_rd none).map
        (fun r => UA_NodeStore_get r.2.nodestore (ex_id 4002)) =
        some (some (ex_node 4002 UA_NODECLASS_OBJECT "mo"
          [ex_ref UA_NS0ID_HASCOMPONENT 4001 false])) := by decide
    rw [hrun] at hval
    exact Option.some.inj hval
  · have hval : (copyChildNode (1 + 1) ex_method (ex_id 4002) ex_method_rd none).map
        (fun r => UA_NodeStore_get r.2.nodestore (ex_id 4001)) =
        some (some (ex_node 4001 UA_NODECLASS_METHOD "m"
          [ex_ref UA_NS0ID_HASCOMPONENT 4000 true, ex_ref UA_NS0ID_HASCOMPONENT 4002 true])) := by
      decide
    rw [hrun] at hval
    exact Option.some.inj hval

/-! ## Subscription client: create -/

/-- Claim C19: `UA_Client_Subscriptions_new`: when the CreateSubscription service result is
Good, a subscription is added at the head of the list whose lifeTime, keepAliveCount and
publishingInterval are the response's revisedLifetimeCount, revisedMaxKeepAliveCount and
revisedPublishingInterval, whose id is `response.subscriptionId`, and that id is written to
the place the caller supplies; when the service result is not Good, that result is returned
and the client's subscription list is unchanged. -/
theorem UA_Client_Subscriptions_new_result (client : UA_Client)
    (settings : UA_SubscriptionSettings) (newSubscriptionId : Bool)
    (exchange : UA_CreateSubscriptionRequest → UA_CreateSubscriptionResponse × UA_ClientState)
    (response : UA_CreateSubscriptionResponse) (state : UA_ClientState)
    (hexchange : exchange (UA_Client_Subscriptions_new_request settings) = (response, state)) :
    (response.responseHeader.serviceResult = UA_STATUSCODE_GOOD →
      UA_Client_Subscriptions_new client settings newSubscriptionId exchange =
        (UA_STATUSCODE_GOOD,
         { client with
           state := state
           subscriptions :=
             { lifeTime := response.revisedLifetimeCount
               keepAliveCount := response.revisedMaxKeepAliveCount
               publishingInterval := response.revisedPublishingInterval
               subscriptionID := response.subscriptionId
               notificationsPerPublish := settings.maxNotificationsPerPublish
               priority := settings.priority
               monitoredItems := [] } :: client.subscriptions },
         if newSubscriptionId then some response.subscriptionId else none)) ∧
    (response.responseHeader.serviceResult ≠ UA_STATUSCODE_GOOD →
      UA_Client_Subscriptions_new client settings newSubscriptionId exchange =
        (response.responseHeader.serviceResult, { client with state := state }, none) ∧
      (UA_Client_Subscriptions_new client settings newSubscriptionId exchange).2.1.subscriptions
        = client.subscriptions) := by
  have hanswered : UA_Client_Service exchange client
      (UA_Client_Subscriptions_new_request settings) =
      (response, { client with state := state }) := by
    unfold UA_Client_Service
    rw [hexchange]
  constructor
  · intro hgood
    unfold UA_Client_Subscriptions_new
    dsimp only
    rw [hanswered]
    dsimp only
    rw [if_neg (fun hne => hne hgood)]
    rfl
  · intro hbad
    have hrun : UA_Client_Subscriptions_new client settings newSubscriptionId exchange =
        (response.responseHeader.serviceResult, { client with state := state }, none) := by
      unfold UA_Client_Subscriptions_new
      dsimp only
      rw [hanswered]
      dsimp only
      rw [if_pos hbad]
    exact ⟨hrun, by rw [hrun]⟩

/-- The client asks for interval 1000, lifetime 60 and keep-alive 5; the server grants
subscription 8 with 2000, 30 and 3, and these are what the new subscription holds. -/
theorem UA_Client_Subscriptions_new_result_witness :
    UA_Client_Subscriptions_new ex_client ex_settings true ex_createSubscription =
      (UA_STATUSCODE_GOOD,
       { ex_client with
         state := 3
         subscriptions :=
           { lifeTime := 30, keepAliveCount := 3, publishingInterval := 2000,
             subscriptionID := 8, notificationsPerPublish := 20, priority := 1,
             monitoredItems := [] } :: ex_client.subscriptions },
       some 8) :=
  (UA_Client_Subscriptions_new_result ex_client ex_settings true ex_createSubscription
    (ex_createSubscription (UA_Client_Subscriptions_new_request ex_settings)).1 3 rfl).1 rfl

theorem UA_Client_Subscription_edit_find (edit : UA_Client_Subscription → UA_Client_Subscription)
    (hedit : ∀ s, (edit s).subscriptionID = s.subscriptionID) (subscriptionId : Nat)
    (subs : List UA_Client_Subscription) (other : Nat) :
    (UA_Client_Subscription_edit edit subscriptionId subs).find?
        (fun sub => sub.subscriptionID == other) =
      if other = subscriptionId then
        (subs.find? (fun sub => sub.subscriptionID == other)).map edit
      else subs.find? (fun sub => sub.subscriptionID == other) := by
  induction subs with
  | nil =>
    unfold UA_Client_Subscription_edit
    split <;> rfl
  | cons sub rest ih =>
    unfold UA_Client_Subscription_edit
    by_cases hs : sub.subscriptionID = subscriptionId
    · rw [if_pos (by rw [hs]; exact beq_self_eq_true _)]
      by_cases ho : other = subscriptionId
      · rw [if_pos ho, List.find?_cons, List.find?_cons, hedit, hs, ho, beq_self_eq_true]
        rfl
      · rw [if_neg ho, List.find?_cons, List.find?_cons, hedit, hs]
        have hne : (subscriptionId == other) = false := by
          rw [beq_eq_false_iff_ne]
          exact fun h => ho h.symm
        rw [hne]
    · rw [if_neg (by rw [beq_iff_eq]; exact hs), List.find?_cons, ih]
      by_cases ho : other = subscriptionId
      · rw [if_pos ho, if_pos ho, List.find?_cons]
        have hne : (sub.subscriptionID == other) = false := by
          rw [beq_eq_false_iff_ne, ho]
          exact hs
        rw [hne]
      · rw [if_neg ho, if_neg ho, List.find?_cons]

/-- What `UA_Client_Subscriptions_addMonitoredItem` does once the subscription is found. -/
theorem UA_Client_Subscriptions_addMonitoredItem_found (client : UA_Client)
    (subscriptionId : Nat) (nodeId : UA_NodeId) (attributeID : Nat) (hf : Option Nat)
    (hfContext : Nat) (samplingInterval : UA_Double) (newMon : UA_Client_MonitoredItem)
    (exchange :
      UA_CreateMonitoredItemsRequest → UA_CreateMonitoredItemsResponse × UA_ClientState)
    (sub : UA_Client_Subscription) (response : UA_CreateMonitoredItemsResponse)
    (state : UA_ClientState)
    (hsub : findSubscription client subscriptionId = some sub)
    (hexchange : exchange (UA_Client_Subscriptions_addMonitoredItem_request
      ((client.monitoredItemHandles + 1) % UA_UINT32_MODULUS) subscriptionId nodeId attributeID
      samplingInterval) = (response, state)) :
    UA_Client_Subscriptions_addMonitoredItem client subscriptionId nodeId attributeID hf
        hfContext samplingInterval newMon exchange =
      if UA_Client_Subscriptions_addMonitoredItem_retval response ≠ UA_STATUSCODE_GOOD then
        (UA_Client_Subscriptions_addMonitoredItem_retval response,
         { client with
           state := state
           monitoredItemHandles := (client.monitoredItemHandles + 1) % UA_UINT32_MODULUS },
         none)
      else
        (UA_STATUSCODE_GOOD,
         { client with
           state := state
           monitoredItemHandles := (client.monitoredItemHandles + 1) % UA_UINT32_MODULUS
           subscriptions :=
             UA_Client_Subscription_edit
               (fun s =>
                 { s with
                   monitoredItems :=
                     { newMon with
                       monitoringMode := UA_MONITORINGMODE_REPORTING
                       monitoredNodeId := nodeId
                       attributeID := attributeID
                       clientHandle := (client.monitoredItemHandles + 1) % UA_UINT32_MODULUS
                       samplingInterval := samplingInterval
                       queueSize := 1
                       discardOldest := true
                       handler := hf
                       handlerContext := hfContext
                       monitoredItemId :=
                         match response.results with
                         | result :: _ => result.monitoredItemId
                         | [] => newMon.monitoredItemId } :: s.monitoredItems })
               subscriptionId client.subscriptions },
         some (match response.results with
               | result :: _ => result.monitoredItemId
               | [] => newMon.monitoredItemId)) := by
  unfold UA_Client_Subscriptions_addMonitoredItem
  rw [hsub]
  dsimp only
  unfold UA_Client_Service
  rw [hexchange]

/-- The derived status is Good exactly for a Good service result with one Good result. -/
theorem UA_Client_Subscriptions_addMonitoredItem_retval_good
    (response : UA_CreateMonitoredItemsResponse) :
    UA_Client_Subscriptions_addMonitoredItem_retval response = UA_STATUSCODE_GOOD ↔
      (response.responseHeader.serviceResult = UA_STATUSCODE_GOOD ∧
        ∃ result, response.results = [result] ∧ result.statusCode = UA_STATUSCODE_GOOD) := by
  unfold UA_Client_Subscriptions_addMonitoredItem_retval
  by_cases hservice : response.responseHeader.serviceResult = UA_STATUSCODE_GOOD
  · rw [if_pos hservice]
    cases hresults : response.results with
    | nil =>
      rw [if_neg (by decide)]
      constructor
      · intro h
        exact absurd h (show ¬ UA_STATUSCODE_BADUNEXPECTEDERROR = UA_STATUSCODE_GOOD by decide)
      · rintro ⟨_, result, hr, _⟩
        exact List.noConfusion hr
    | cons first rest =>
      cases rest with
      | nil =>
        rw [if_pos (show [first].length = 1 from rfl)]
        constructor
        · intro h
          exact ⟨hservice, first, rfl, h⟩
        · rintro ⟨_, result, hr, hgood⟩
          rw [List.cons.inj hr |>.1]
          exact hgood
      | cons second rest =>
        rw [if_neg (by simp)]
        constructor
        · intro h
          exact absurd h
            (show ¬ UA_STATUSCODE_BADUNEXPECTEDERROR = UA_STATUSCODE_GOOD by decide)
        · rintro ⟨_, result, hr, _⟩
          exact List.noConfusion (List.cons.inj hr).2
  · rw [if_neg hservice]
    constructor
    · intro h
      exact absurd h hservice
    · rintro ⟨h, _⟩
      exact absurd h hservice

theorem UA_Client_Subscription_edit_find_prepend (item : UA_Client_MonitoredItem)
    (subscriptionId : Nat) (subs : List UA_Client_Subscription) (other : Nat) :
    (UA_Client_Subscription_edit
        (fun s => { s with monitoredItems := item :: s.monitoredItems })
        subscriptionId subs).find? (fun sub => sub.subscriptionID == other) =
      if other = subscriptionId then
        (subs.find? (fun sub => sub.subscriptionID == other)).map
          (fun s => { s with monitoredItems := item :: s.monitoredItems })
      else subs.find? (fun sub => sub.subscriptionID == other) :=
  UA_Client_Subscription_edit_find
    (fun s => { s with monitoredItems := item :: s.monitoredItems }) (fun _ => rfl)
    subscriptionId subs other

/-- Claim C20: `UA_Client_Subscriptions_addMonitoredItem` on a known subscription adds a
monitored item to the subscription if and only if the CreateMonitoredItems service result is
Good and the single per-item status code is Good: then Good is returned and the item, with
the id the server gave, is put at the head of the subscription's list; in every other case
it returns a non-Good status and the subscription lists of the client are unchanged. -/
theorem UA_Client_Subscriptions_addMonitoredItem_iff (client : UA_Client)
    (subscriptionId : Nat) (nodeId : UA_NodeId) (attributeID : Nat) (hf : Option Nat)
    (hfContext : Nat) (samplingInterval : UA_Double) (newMon : UA_Client_MonitoredItem)
    (exchange :
      UA_CreateMonitoredItemsRequest → UA_CreateMonitoredItemsResponse × UA_ClientState)
    (sub : UA_Client_Subscription) (response : UA_CreateMonitoredItemsResponse)
    (state : UA_ClientState) (run : UA_StatusCode × UA_Client × Option Nat)
    (hsub : findSubscription client subscriptionId = some sub)
    (hexchange : exchange (UA_Client_Subscriptions_addMonitoredItem_request
      ((client.monitoredItemHandles + 1) % UA_UINT32_MODULUS) subscriptionId nodeId attributeID
      samplingInterval) = (response, state))
    (hrun : UA_Client_Subscriptions_addMonitoredItem client subscriptionId nodeId attributeID hf
      hfContext samplingInterval newMon exchange = run) :
    ((∃ item, findSubscription run.2.1 subscriptionId =
        some { sub with monitoredItems := item :: sub.monitoredItems }) ↔
      (response.responseHeader.serviceResult = UA_STATUSCODE_GOOD ∧
        ∃ result, response.results = [result] ∧ result.statusCode = UA_STATUSCODE_GOOD)) ∧
    (∀ result, response.responseHeader.serviceResult = UA_STATUSCODE_GOOD →
      response.results = [result] → result.statusCode = UA_STATUSCODE_GOOD →
      run.1 = UA_STATUSCODE_GOOD ∧ run.2.2 = some result.monitoredItemId ∧
      findSubscription run.2.1 subscriptionId =
        some { sub with
               monitoredItems :=
                 { newMon with
                   monitoringMode := UA_MONITORINGMODE_REPORTING
                   monitoredNodeId := nodeId
                   attributeID := attributeID
                   clientHandle := (client.monitoredItemHandles + 1) % UA_UINT32_MODULUS
                   samplingInterval := samplingInterval
                   queueSize := 1
                   discardOldest := true
                   handler := hf
                   handlerContext := hfContext
                   monitoredItemId := result.monitoredItemId } :: sub.monitoredItems } ∧
      ∀ other, other ≠ subscriptionId →
        findSubscription run.2.1 other = findSubscription client other) ∧
    (¬ (response.responseHeader.serviceResult = UA_STATUSCODE_GOOD ∧
        ∃ result, response.results = [result] ∧ result.statusCode = UA_STATUSCODE_GOOD) →
      run.1 ≠ UA_STATUSCODE_GOOD ∧ run.2.1.subscriptions = client.subscriptions ∧
      findSubscription run.2.1 subscriptionId = some sub) := by
  have hfound := UA_Client_Subscriptions_addMonitoredItem_found client subscriptionId nodeId
    attributeID hf hfContext samplingInterval newMon exchange sub response state hsub hexchange
  rw [hrun] at hfound
  have hiff := UA_Client_Subscriptions_addMonitoredItem_retval_good response
  have hbadcase : ¬ (response.responseHeader.serviceResult = UA_STATUSCODE_GOOD ∧
        ∃ result, response.results = [result] ∧ result.statusCode = UA_STATUSCODE_GOOD) →
      run.1 ≠ UA_STATUSCODE_GOOD ∧ run.2.1.subscriptions = client.subscriptions ∧
      findSubscription run.2.1 subscriptionId = some sub := by
    intro hnot
    have hbad : UA_Client_Subscriptions_addMonitoredItem_retval response ≠ UA_STATUSCODE_GOOD :=
      fun h => hnot (hiff.mp h)
    rw [if_pos hbad] at hfound
    rw [hfound]
    exact ⟨hbad, rfl, hsub⟩
  have hgoodcase : ∀ result, response.responseHeader.serviceResult = UA_STATUSCODE_GOOD →
      response.results = [result] → result.statusCode = UA_STATUSCODE_GOOD →
      run.1 = UA_STATUSCODE_GOOD ∧ run.2.2 = some result.monitoredItemId ∧
      findSubscription run.2.1 subscriptionId =
        some { sub with
               monitoredItems :=
                 { newMon with
                   monitoringMode := UA_MONITORINGMODE_REPORTING
                   monitoredNodeId := nodeId
                   attributeID := attributeID
                   clientHandle := (client.monitoredItemHandles + 1) % UA_UINT32_MODULUS
                   samplingInterval := samplingInterval
                   queueSize := 1
                   discardOldest := true
                   handler := hf
                   handlerContext := hfContext
                   monitoredItemId := result.monitoredItemId } :: sub.monitoredItems } ∧
      ∀ other, other ≠ subscriptionId →
        findSubscription run.2.1 other = findSubscription client other := by
    intro result hservice hresults hresult
    have hgood : UA_Client_Subscriptions_addMonitoredItem_retval response = UA_STATUSCODE_GOOD :=
      hiff.mpr ⟨hservice, result, hresults, hresult⟩
    rw [if_neg (fun hne => hne hgood), hresults] at hfound
    rw [hfound]
    refine ⟨rfl, rfl, ?_, ?_⟩
    · refine (UA_Client_Subscription_edit_find_prepend _ subscriptionId
        client.subscriptions subscriptionId).trans ?_
      rw [if_pos rfl]
      unfold findSubscription at hsub
      rw [hsub]
      rfl
    · intro other hother
      refine (UA_Client_Subscription_edit_find_prepend _ subscriptionId
        client.subscriptions other).trans ?_
      rw [if_neg hother]
      rfl
  refine ⟨⟨?_, ?_⟩, hgoodcase, hbadcase⟩
  · rintro ⟨item, hitem⟩
    by_contra hnot
    have hsame := (hbadcase hnot).2.2
    rw [hsame] at hitem
    have hlen := congrArg (fun s => s.monitoredItems.length) (Option.some.inj hitem)
    simp at hlen
  · rintro ⟨hservice, result, hresults, hresult⟩
    exact ⟨_, (hgoodcase result hservice hresults hresult).2.2.1⟩

/-- The client of the examples adds an item to subscription 7; the server answers Good with
one Good result for the monitored item 55, which is put on the subscription with the client
handle 42. -/
theorem UA_Client_Subscriptions_addMonitoredItem_iff_witness :
    (UA_Client_Subscriptions_addMonitoredItem ex_client 7 (ex_id 3001) 13 (some 1) 9 250
      ex_block ex_createMonitoredItems).1 = UA_STATUSCODE_GOOD ∧
    findSubscription (UA_Client_Subscriptions_addMonitoredItem ex_client 7 (ex_id 3001) 13
      (some 1) 9 250 ex_block ex_createMonitoredItems).2.1 7 =
      some { lifeTime := 100, keepAliveCount := 10, publishingInterval := 500,
             subscriptionID := 7, notificationsPerPublish := 0, priority := 0,
             monitoredItems :=
               [{ monitoringMode := UA_MONITORINGMODE_REPORTING, monitoredNodeId := ex_id 3001,
                  attributeID := 13, clientHandle := 42, samplingInterval := 250,
                  queueSize := 1, discardOldest := true, handler := some 1,
                  handlerContext := 9, handlerEvents := none, handlerEventsContext := 0,
                  monitoredItemId := 55 }] } :=
  have h := (UA_Client_Subscriptions_addMonitoredItem_iff ex_client 7 (ex_id 3001) 13 (some 1)
    9 250 ex_block ex_createMonitoredItems
    { lifeTime := 100, keepAliveCount := 10, publishingInterval := 500,
      subscriptionID := 7, notificationsPerPublish := 0, priority := 0, monitoredItems := [] }
    (ex_createMonitoredItems (UA_Client_Subscriptions_addMonitoredItem_request 42 7
      (ex_id 3001) 13 250)).1 3 _ rfl rfl rfl).2.1
    { statusCode := UA_STATUSCODE_GOOD, monitoredItemId := 55,
      revisedSamplingInterval := 250, revisedQueueSize := 1 } rfl rfl rfl
  ⟨h.1, h.2.2.1⟩

/-! ## The number of nodes along a successful add -/

theorem typeCheckVariableNode_length (server : UA_Server) (node : UA_Node)
    (typeDef : UA_NodeId) :
    (typeCheckVariableNode server node typeDef).2.nodestore.length =
      server.nodestore.length := by
  rcases typeCheckVariableNode_server server node typeDef with h | h
  · rw [h]
  · rw [h]
    exact UA_Server_editNode_length _ _ _

theorem Service_AddNode_finish_typeCheck_length (server : UA_Server) (node : UA_Node)
    (typeDefinition : UA_NodeId) :
    (Service_AddNode_finish_typeCheck server node typeDefinition).2.nodestore.length =
      server.nodestore.length := by
  unfold Service_AddNode_finish_typeCheck
  split
  · exact typeCheckVariableNode_length _ _ _
  · rfl

theorem Service_AddNode_finish_addParent_length (server : UA_Server) (node : UA_Node)
    (parentNodeId referenceTypeId : UA_NodeId) :
    (Service_AddNode_finish_addParent server node parentNodeId
      referenceTypeId).2.nodestore.length = server.nodestore.length := by
  unfold Service_AddNode_finish_addParent
  split
  · exact Service_AddReferences_single_length _ _
  · rfl

theorem instantiateNode_construct_length (server : UA_Server) (nodeId : UA_NodeId)
    (typenode : UA_Node) :
    (instantiateNode_construct server nodeId typenode).nodestore.length =
      server.nodestore.length := by
  unfold instantiateNode_construct
  split
  · split
    · exact UA_Server_editNode_length _ _ _
    · rfl
  · rfl

theorem instantiateNode_complete_length (server : UA_Server) (nodeId : UA_NodeId)
    (typenode : UA_Node) (typeId : UA_NodeId)
    (instantiationCallback : Option UA_InstantiationCallback) :
    (instantiateNode_complete server nodeId typenode typeId
      instantiationCallback).2.nodestore.length = server.nodestore.length := by
  have hadded := Service_AddReferences_single_length
    (instantiateNode_construct server nodeId typenode) (instantiateNode_addref nodeId typeId)
  rw [instantiateNode_construct_length] at hadded
  unfold instantiateNode_complete
  dsimp only
  split
  · split
    · exact hadded
    · exact hadded
  · exact hadded

/-- A call that returns Good removes no node. -/
theorem Service_AddNode_finish_length_all (budget : Nat) :
    (∀ server nodeId parentNodeId referenceTypeId typeDefinition cb server',
      Service_AddNode_finish budget server nodeId parentNodeId referenceTypeId typeDefinition cb
        = some (UA_STATUSCODE_GOOD, server') →
      server.nodestore.length ≤ server'.nodestore.length) ∧
    (∀ server nodeId nodeClass typeId cb server',
      instantiateNode budget server nodeId nodeClass typeId cb
        = some (UA_STATUSCODE_GOOD, server') →
      server.nodestore.length ≤ server'.nodestore.length) ∧
    (∀ server destinationNodeId rd cb server',
      copyChildNode budget server destinationNodeId rd cb = some (UA_STATUSCODE_GOOD, server') →
      server.nodestore.length ≤ server'.nodestore.length) ∧
    (∀ server sourceNodeId destinationNodeId cb server',
      copyChildNodes budget server sourceNodeId destinationNodeId cb
        = some (UA_STATUSCODE_GOOD, server') →
      server.nodestore.length ≤ server'.nodestore.length) := by
  induction budget with
  | zero =>
    refine ⟨?_, ?_, ?_, ?_⟩
    · intro server nodeId parentNodeId referenceTypeId typeDefinition cb server' h
      rw [Service_AddNode_finish] at h
      exact Option.noConfusion h
    · intro server nodeId nodeClass typeId cb server' h
      rw [instantiateNode] at h
      exact Option.noConfusion h
    · intro server destinationNodeId rd cb server' h
      rw [copyChildNode] at h
      exact Option.noConfusion h
    · intro server sourceNodeId destinationNodeId cb server' h
      rw [copyChildNodes] at h
      exact Option.noConfusion h
  | succ budget ih =>
    obtain ⟨ihFinish, ihInstantiate, ihCopyNode, ihCopyNodes⟩ := ih
    refine ⟨?_, ?_, ?_, ?_⟩
    · intro server nodeId parentNodeId referenceTypeId typeDefinition cb server' h
      rw [Service_AddNode_finish_succ] at h
      cases hget : UA_NodeStore_get server.nodestore nodeId with
      | none =>
        rw [hget] at h
        exact absurd (congrArg Prod.fst (Option.some.inj h))
          (show ¬ UA_STATUSCODE_BADNODEIDUNKNOWN = UA_STATUSCODE_GOOD by decide)
      | some node =>
        rw [hget] at h
        dsimp only at h
        by_cases hc : Service_AddNode_finish_checkParent server node parentNodeId
            (Service_AddNode_finish_referenceTypeId node referenceTypeId) ≠ UA_STATUSCODE_GOOD
        · rw [if_pos hc] at h
          exact absurd (congrArg Prod.fst (Option.some.inj h)) hc
        rw [if_neg hc] at h
        have htyped := Service_AddNode_finish_typeCheck_length server node
          (Service_AddNode_finish_typeDefinition node parentNodeId typeDefinition)
        generalize Service_AddNode_finish_typeCheck server node
          (Service_AddNode_finish_typeDefinition node parentNodeId typeDefinition) = typed
          at h htyped
        by_cases ht : typed.1 ≠ UA_STATUSCODE_GOOD
        · rw [if_pos ht] at h
          exact absurd (congrArg Prod.fst (Option.some.inj h)) ht
        rw [if_neg ht] at h
        have hlinked := Service_AddNode_finish_addParent_length typed.2 node
          parentNodeId (Service_AddNode_finish_referenceTypeId node referenceTypeId)
        generalize Service_AddNode_finish_addParent typed.2 node parentNodeId
          (Service_AddNode_finish_referenceTypeId node referenceTypeId) = linked at h hlinked
        by_cases hl : linked.1 ≠ UA_STATUSCODE_GOOD
        · rw [if_pos hl] at h
          exact absurd (congrArg Prod.fst (Option.some.inj h)) hl
        rw [if_neg hl] at h
        cases hinst : instantiateNode budget linked.2 nodeId node.nodeClass
            (Service_AddNode_finish_typeDefinition node parentNodeId typeDefinition) cb with
        | none =>
          rw [hinst] at h
          exact Option.noConfusion h
        | some instantiated =>
          rw [hinst] at h
          dsimp only at h
          by_cases hi : instantiated.1 ≠ UA_STATUSCODE_GOOD
          · rw [if_pos hi] at h
            exact absurd (congrArg Prod.fst (Option.some.inj h)) hi
          rw [if_neg hi] at h
          have hi' : instantiated.1 = UA_STATUSCODE_GOOD := Classical.not_not.mp hi
          have hs : instantiated.2 = server' := congrArg Prod.snd (Option.some.inj h)
          have hinst' := ihInstantiate linked.2 nodeId node.nodeClass _ cb instantiated.2
            (by rw [hinst, ← hi'])
          rw [← hs]
          omega
    · intro server nodeId nodeClass typeId cb server' h
      rw [instantiateNode_succ] at h
      by_cases hcls : nodeClass ≠ UA_NODECLASS_VARIABLE ∧ nodeClass ≠ UA_NODECLASS_OBJECT
      · rw [if_pos hcls] at h
        have hs : server = server' := congrArg Prod.snd (Option.some.inj h)
        rw [hs]
      rw [if_neg hcls] at h
      cases hget : UA_NodeStore_get server.nodestore typeId with
      | none =>
        rw [hget] at h
        exact absurd (congrArg Prod.fst (Option.some.inj h))
          (show ¬ UA_STATUSCODE_BADTYPEDEFINITIONINVALID = UA_STATUSCODE_GOOD by decide)
      | some typenode =>
        rw [hget] at h
        dsimp only at h
        by_cases hok : instantiateNode_typeOk nodeClass typenode = false
        · rw [if_pos hok] at h
          exact absurd (congrArg Prod.fst (Option.some.inj h))
            (show ¬ UA_STATUSCODE_BADTYPEDEFINITIONINVALID = UA_STATUSCODE_GOOD by decide)
        rw [if_neg hok] at h
        cases hloop : UA_statusLoop
            (fun srv sourceNodeId => copyChildNodes budget srv sourceNodeId nodeId cb)
            (getTypeHierarchy server.nodestore typenode) UA_STATUSCODE_GOOD server with
        | none =>
          rw [hloop] at h
          exact Option.noConfusion h
        | some copied =>
          rw [hloop] at h
          dsimp only at h
          by_cases hcp : copied.1 ≠ UA_STATUSCODE_GOOD
          · rw [if_pos hcp] at h
            exact absurd (congrArg Prod.fst (Option.some.inj h)) hcp
          rw [if_neg hcp] at h
          have hcp' : copied.1 = UA_STATUSCODE_GOOD := Classical.not_not.mp hcp
          have hcopied := (UA_statusLoop_good _
            (fun s s' => s.nodestore.length ≤ s'.nodestore.length)
            (fun _ => Nat.le_refl _) (fun _ _ _ => Nat.le_trans)
            (fun s x s' hx => ihCopyNodes s x nodeId cb s' hx)
            _ _ _ copied.2 (by rw [hloop, ← hcp'])).2
          have hdone := instantiateNode_complete_length copied.2 nodeId typenode typeId cb
          have hs : (instantiateNode_complete copied.2 nodeId typenode typeId cb).2 = server' :=
            congrArg Prod.snd (Option.some.inj h)
          rw [← hs]
          omega
    · intro server destinationNodeId rd cb server' h
      rw [copyChildNode_succ] at h
      dsimp only at h
      generalize instanceFindAggregateByBrowsename server destinationNodeId rd.browseName
        = found at h
      by_cases hf : found.1 ≠ UA_STATUSCODE_GOOD
      · rw [if_pos hf] at h
        exact absurd (congrArg Prod.fst (Option.some.inj h)) hf
      rw [if_neg hf] at h
      by_cases hnull : UA_NodeId_isNull found.2 = false
      · rw [if_pos hnull] at h
        by_cases hvo : rd.nodeClass = UA_NODECLASS_VARIABLE ∨ rd.nodeClass = UA_NODECLASS_OBJECT
        · rw [if_pos hvo] at h
          exact ihCopyNodes _ _ _ _ _ h
        · rw [if_neg hvo] at h
          have hs : server = server' := congrArg Prod.snd (Option.some.inj h)
          rw [hs]
      rw [if_neg hnull] at h
      by_cases hm : rd.nodeClass = UA_NODECLASS_METHOD
      · rw [if_pos hm] at h
        have hs : (Service_AddReferences_single server
            { UA_AddReferencesItem_init with
              sourceNodeId := destinationNodeId
              referenceTypeId := rd.referenceTypeId
              isForward := true
              targetNodeId := rd.nodeId
              targetNodeClass := UA_NODECLASS_METHOD }).2 = server' :=
          congrArg Prod.snd (Option.some.inj h)
        rw [← hs]
        exact Nat.le_of_eq (Service_AddReferences_single_length _ _).symm
      rw [if_neg hm] at h
      by_cases hvo : rd.nodeClass = UA_NODECLASS_VARIABLE ∨ rd.nodeClass = UA_NODECLASS_OBJECT
      · rw [if_pos hvo] at h
        cases hcopy : UA_NodeStore_getCopy server.nodestore rd.nodeId.nodeId with
        | none =>
          rw [hcopy] at h
          exact absurd (congrArg Prod.fst (Option.some.inj h))
            (show ¬ UA_STATUSCODE_BADNODEIDINVALID = UA_STATUSCODE_GOOD by decide)
        | some node =>
          rw [hcopy] at h
          dsimp only at h
          have hins := fun ns' id => UA_NodeStore_insert_good_eq server.nodestore ns'
            { node with nodeId := UA_NODEID_NUMERIC destinationNodeId.namespaceIndex 0 } id
          generalize UA_NodeStore_insert server.nodestore
            { node with nodeId := UA_NODEID_NUMERIC destinationNodeId.namespaceIndex 0 }
            = inserted at h hins
          by_cases hg : inserted.1 = UA_STATUSCODE_GOOD
          · rw [if_pos hg] at h
            have hfin := ihFinish _ _ _ _ _ _ _ h
            have heq := hins inserted.2.1 inserted.2.2 (Prod.ext hg (Prod.ext rfl rfl))
            have hlen : inserted.2.1.length = server.nodestore.length + 1 := by
              rw [heq, List.length_append]
              rfl
            have hfin' : inserted.2.1.length ≤ server'.nodestore.length := hfin
            omega
          · rw [if_neg hg] at h
            exact absurd (congrArg Prod.fst (Option.some.inj h)) hg
      · rw [if_neg hvo] at h
        have hs : server = server' := congrArg Prod.snd (Option.some.inj h)
        rw [hs]
    · intro server sourceNodeId destinationNodeId cb server' h
      rw [copyChildNodes_succ] at h
      dsimp only at h
      by_cases hb : (Service_Browse_single server (copyChildNodes_browse sourceNodeId)).statusCode
          ≠ UA_STATUSCODE_GOOD
      · rw [if_pos hb] at h
        exact absurd (congrArg Prod.fst (Option.some.inj h)) hb
      rw [if_neg hb] at h
      exact (UA_statusLoop_good _ (fun s s' => s.nodestore.length ≤ s'.nodestore.length)
        (fun _ => Nat.le_refl _) (fun _ _ _ => Nat.le_trans)
        (fun s x s' hx => ihCopyNode s destinationNodeId x cb s' hx) _ _ _ _ h).2

/-! ## Growth of the address space -/

theorem UA_NodeStore_grows_refl (ns : List UA_Node) : UA_NodeStore_grows ns ns :=
  ⟨fun _ m h => ⟨m, h, UA_Node_extends_refl _ m⟩, Nat.le_refl _⟩

theorem UA_NodeStore_grows_trans {a b c : List UA_Node} (h1 : UA_NodeStore_grows a b)
    (h2 : UA_NodeStore_grows b c) : UA_NodeStore_grows a c := by
  refine ⟨?_, Nat.le_trans h1.2 h2.2⟩
  intro nodeId m hm
  obtain ⟨m1, hm1, hext1⟩ := h1.1 nodeId m hm
  obtain ⟨m2, hm2, hext2⟩ := h2.1 nodeId m1 hm1
  exact ⟨m2, hm2, UA_Node_extends_trans hext1 hext2⟩

theorem UA_NodeStore_grows_of_extends {e : Option UA_NodeId} {ns ns' : List UA_Node}
    (h : UA_NodeStore_extends e ns ns') (hlen : ns.length ≤ ns'.length) :
    UA_NodeStore_grows ns ns' := by
  refine ⟨?_, hlen⟩
  intro nodeId m hm
  obtain ⟨m', hm', hext⟩ := h nodeId m hm
  exact ⟨m', hm', hext.1, hext.2.1, fun hk => Bool.noConfusion hk⟩

theorem UA_Node_extends_browseName {k : Bool} {m m' : UA_Node} (h : UA_Node_extends k m m') :
    m'.browseName = m.browseName :=
  show (UA_Node_fixedMembers m').browseName = (UA_Node_fixedMembers m).browseName from
    congrArg UA_Node.browseName h.1

theorem copyChildNodes_grows (budget : Nat) (server server' : UA_Server)
    (sourceNodeId destinationNodeId : UA_NodeId) (cb : Option UA_InstantiationCallback)
    (h : copyChildNodes budget server sourceNodeId destinationNodeId cb =
      some (UA_STATUSCODE_GOOD, server')) :
    UA_NodeStore_grows server.nodestore server'.nodestore :=
  UA_NodeStore_grows_of_extends
    ((Service_AddNode_finish_extends_all budget).2.2.2 _ _ _ _ _ h).1
    ((Service_AddNode_finish_length_all budget).2.2.2 _ _ _ _ _ h)

theorem copyChildNode_grows (budget : Nat) (server server' : UA_Server)
    (destinationNodeId : UA_NodeId) (rd : UA_ReferenceDescription)
    (cb : Option UA_InstantiationCallback)
    (h : copyChildNode budget server destinationNodeId rd cb =
      some (UA_STATUSCODE_GOOD, server')) :
    UA_NodeStore_grows server.nodestore server'.nodestore :=
  UA_NodeStore_grows_of_extends
    ((Service_AddNode_finish_extends_all budget).2.2.1 _ _ _ _ _ h).1
    ((Service_AddNode_finish_length_all budget).2.2.1 _ _ _ _ _ h)

theorem Service_AddNode_finish_grows (budget : Nat) (server server' : UA_Server)
    (nodeId parentNodeId referenceTypeId typeDefinition : UA_NodeId)
    (cb : Option UA_InstantiationCallback)
    (h : Service_AddNode_finish budget server nodeId parentNodeId referenceTypeId
      typeDefinition cb = some (UA_STATUSCODE_GOOD, server')) :
    UA_NodeStore_grows server.nodestore server'.nodestore :=
  UA_NodeStore_grows_of_extends
    ((Service_AddNode_finish_extends_all budget).1 _ _ _ _ _ _ _ h).1
    ((Service_AddNode_finish_length_all budget).1 _ _ _ _ _ _ _ h)

theorem Service_AddReferences_single_grows (server server' : UA_Server)
    (item : UA_AddReferencesItem)
    (h : Service_AddReferences_single server item = (UA_STATUSCODE_GOOD, server')) :
    UA_NodeStore_grows server.nodestore server'.nodestore := by
  refine UA_NodeStore_grows_of_extends (Service_AddReferences_single_extends _ _ _ h).1 ?_
  have hlen := Service_AddReferences_single_length server item
  rw [h] at hlen
  exact Nat.le_of_eq hlen.symm

theorem isNodeInTree_parents_grows {ns ns' : List UA_Node} (hgrow : UA_NodeStore_grows ns ns')
    (referenceTypeIds : List UA_NodeId) (nodeId parent : UA_NodeId)
    (h : parent ∈ isNodeInTree_parents ns referenceTypeIds nodeId) :
    parent ∈ isNodeInTree_parents ns' referenceTypeIds nodeId := by
  unfold isNodeInTree_parents at h ⊢
  cases hg : UA_NodeStore_get ns nodeId with
  | none =>
    rw [hg] at h
    exact absurd h (List.not_mem_nil _)
  | some node =>
    rw [hg] at h
    obtain ⟨node', hg', hext⟩ := hgrow.1 nodeId node hg
    obtain ⟨added, hadded⟩ := hext.2.1
    rw [hg']
    dsimp only at h ⊢
    rw [hadded, List.filter_append, List.map_append]
    exact List.mem_append_left _ h

theorem isNodeInTree_walk_grows {ns ns' : List UA_Node} (hgrow : UA_NodeStore_grows ns ns')
    (nodeToFind : UA_NodeId) (referenceTypeIds : List UA_NodeId) (depth : Nat) :
    ∀ frontier frontier', (∀ x ∈ frontier, x ∈ frontier') →
      isNodeInTree_walk ns nodeToFind referenceTypeIds depth frontier = true →
      isNodeInTree_walk ns' nodeToFind referenceTypeIds depth frontier' = true := by
  induction depth with
  | zero =>
    intro frontier frontier' hsub h
    unfold isNodeInTree_walk at h ⊢
    exact List.elem_iff.mpr (hsub _ (List.elem_iff.mp h))
  | succ depth ih =>
    intro frontier frontier' hsub h
    rw [isNodeInTree_walk] at h ⊢
    rw [Bool.or_eq_true] at h ⊢
    rcases h with h | h
    · exact Or.inl (List.elem_iff.mpr (hsub _ (List.elem_iff.mp h)))
    · refine Or.inr (ih _ _ ?_ h)
      intro x hx
      obtain ⟨a, ha, hxa⟩ := List.mem_flatMap.mp hx
      exact List.mem_flatMap.mpr ⟨a, hsub a ha, isNodeInTree_parents_grows hgrow _ _ _ hxa⟩

theorem isNodeInTree_walk_depth (ns : List UA_Node) (nodeToFind : UA_NodeId)
    (referenceTypeIds : List UA_NodeId) (frontier : List UA_NodeId) (depth extra : Nat)
    (h : isNodeInTree_walk ns nodeToFind referenceTypeIds depth frontier = true) :
    isNodeInTree_walk ns nodeToFind referenceTypeIds (depth + extra) frontier = true := by
  induction extra with
  | zero => exact h
  | succ extra ih => exact isNodeInTree_walk_deeper ns nodeToFind referenceTypeIds _ _ ih

/-- What `isNodeInTree` finds stays found when the address space grows. -/
theorem isNodeInTree_grows {ns ns' : List UA_Node} (hgrow : UA_NodeStore_grows ns ns')
    (leafNode nodeToFind : UA_NodeId) (referenceTypeIds : List UA_NodeId)
    (h : isNodeInTree ns leafNode nodeToFind referenceTypeIds = true) :
    isNodeInTree ns' leafNode nodeToFind referenceTypeIds = true := by
  unfold isNodeInTree at h ⊢
  have h1 := isNodeInTree_walk_grows hgrow nodeToFind referenceTypeIds ns.length
    [leafNode] [leafNode] (fun _ hx => hx) h
  have h2 := isNodeInTree_walk_depth ns' nodeToFind referenceTypeIds [leafNode] ns.length
    (ns'.length - ns.length) h1
  have hlen : ns.length + (ns'.length - ns.length) = ns'.length := by
    have := hgrow.2
    omega
  rw [hlen] at h2
  exact h2

theorem Service_Browse_relevant_grows {ns ns' : List UA_Node} (hgrow : UA_NodeStore_grows ns ns')
    (descr : UA_BrowseDescription) (r : UA_ReferenceNode)
    (h : Service_Browse_relevant ns descr r = true) :
    Service_Browse_relevant ns' descr r = true := by
  unfold Service_Browse_relevant at h ⊢
  rw [Bool.and_eq_true] at h ⊢
  refine ⟨h.1, ?_⟩
  have h2 := h.2
  rw [Bool.or_eq_true] at h2 ⊢
  rcases h2 with h2 | h2
  · exact Or.inl h2
  · rw [Bool.and_eq_true] at h2 ⊢
    exact Or.inr ⟨h2.1, isNodeInTree_grows hgrow _ _ _ h2.2⟩

/-! ## What the browse service lists -/

theorem Service_Browse_single_mem (server : UA_Server) (descr : UA_BrowseDescription)
    (rd : UA_ReferenceDescription) :
    rd ∈ (Service_Browse_single server descr).references ↔
      ∃ node r target,
        UA_NodeStore_get server.nodestore descr.nodeId = some node ∧
        r ∈ node.references ∧
        Service_Browse_relevant server.nodestore descr r = true ∧
        UA_NodeStore_get server.nodestore r.targetId.nodeId = some target ∧
        ¬ (descr.nodeClassMask ≠ 0 ∧ target.nodeClass &&& descr.nodeClassMask = 0) ∧
        Service_Browse_describe descr r target = rd := by
  unfold Service_Browse_single
  cases hg : UA_NodeStore_get server.nodestore descr.nodeId with
  | none =>
    constructor
    · intro h
      exact absurd h (List.not_mem_nil _)
    · rintro ⟨node, _, _, hnode, _⟩
      exact Option.noConfusion hnode
  | some node =>
    dsimp only
    rw [List.mem_filterMap]
    constructor
    · rintro ⟨r, hr, hdescribed⟩
      rw [List.mem_filter] at hr
      cases ht : UA_NodeStore_get server.nodestore r.targetId.nodeId with
      | none =>
        rw [ht] at hdescribed
        exact Option.noConfusion hdescribed
      | some target =>
        rw [ht] at hdescribed
        dsimp only at hdescribed
        by_cases hmask : descr.nodeClassMask ≠ 0 ∧ target.nodeClass &&& descr.nodeClassMask = 0
        · rw [if_pos hmask] at hdescribed
          exact Option.noConfusion hdescribed
        · rw [if_neg hmask] at hdescribed
          exact ⟨node, r, target, rfl, hr.1, hr.2, ht, hmask, Option.some.inj hdescribed⟩
    · rintro ⟨node', r, target, hnode, hr, hrel, ht, hmask, hdescribed⟩
      have hnode' : node' = node := (Option.some.inj hnode).symm
      subst hnode'
      refine ⟨r, List.mem_filter.mpr ⟨hr, hrel⟩, ?_⟩
      rw [ht]
      dsimp only
      rw [if_neg hmask, hdescribed]

/-- The filter of the two browse requests for aggregated children looks at the direction and
the type of a reference only. -/
theorem Service_Browse_relevant_aggregates (ns : List UA_Node) (nodeId other : UA_NodeId)
    (r q : UA_ReferenceNode) (hinverse : q.isInverse = r.isInverse)
    (htype : q.referenceTypeId = r.referenceTypeId) :
    Service_Browse_relevant ns (instanceFindAggregateByBrowsename_browse nodeId) q =
      Service_Browse_relevant ns (copyChildNodes_browse other) r := by
  unfold Service_Browse_relevant
  rw [hinverse, htype]
  rfl

theorem Service_Browse_relevant_forward (ns : List UA_Node) (nodeId : UA_NodeId)
    (r : UA_ReferenceNode)
    (h : Service_Browse_relevant ns (copyChildNodes_browse nodeId) r = true) :
    r.isInverse = false := by
  unfold Service_Browse_relevant at h
  rw [Bool.and_eq_true] at h
  have h1 := h.1
  rw [if_pos (show (copyChildNodes_browse nodeId).browseDirection = UA_BROWSEDIRECTION_FORWARD
    from rfl)] at h1
  cases hv : r.isInverse with
  | false => rfl
  | true =>
    rw [hv] at h1
    exact Bool.noConfusion h1

theorem Service_Browse_describe_copyChildNodes (nodeId : UA_NodeId) (r : UA_ReferenceNode)
    (target : UA_Node) :
    Service_Browse_describe (copyChildNodes_browse nodeId) r target =
      { referenceTypeId := r.referenceTypeId, isForward := false,
        nodeId := UA_ExpandedNodeId_ofNodeId target.nodeId, browseName := target.browseName,
        displayName := { locale := "", text := "" }, nodeClass := target.nodeClass,
        typeDefinition := UA_ExpandedNodeId_ofNodeId UA_NODEID_NULL } := by
  unfold Service_Browse_describe
  have hmask : (copyChildNodes_browse nodeId).resultMask = 13 := rfl
  rw [hmask]
  rfl

theorem Service_Browse_describe_instanceFind (nodeId : UA_NodeId) (r : UA_ReferenceNode)
    (target : UA_Node) :
    Service_Browse_describe (instanceFindAggregateByBrowsename_browse nodeId) r target =
      { referenceTypeId := UA_NODEID_NULL, isForward := false,
        nodeId := UA_ExpandedNodeId_ofNodeId target.nodeId, browseName := target.browseName,
        displayName := { locale := "", text := "" }, nodeClass := target.nodeClass,
        typeDefinition := UA_ExpandedNodeId_ofNodeId UA_NODEID_NULL } := by
  unfold Service_Browse_describe
  have hmask : (instanceFindAggregateByBrowsename_browse nodeId).resultMask = 12 := rfl
  rw [hmask]
  rfl

/-- What `instanceFindAggregateByBrowsename_exists` says in terms of the store. -/
theorem instanceFindAggregateByBrowsename_exists_iff (server : UA_Server) (nodeId : UA_NodeId)
    (browseName : UA_QualifiedName) :
    instanceFindAggregateByBrowsename_exists server nodeId browseName = true ↔
      ∃ node r target,
        UA_NodeStore_get server.nodestore nodeId = some node ∧
        r ∈ node.references ∧
        Service_Browse_relevant server.nodestore (copyChildNodes_browse UA_NODEID_NULL) r
          = true ∧
        UA_NodeStore_get server.nodestore r.targetId.nodeId = some target ∧
        target.nodeClass &&&
          (UA_NODECLASS_OBJECT ||| UA_NODECLASS_VARIABLE ||| UA_NODECLASS_METHOD) ≠ 0 ∧
        target.browseName.namespaceIndex = browseName.namespaceIndex ∧
        target.browseName.name = browseName.name := by
  unfold instanceFindAggregateByBrowsename_exists
  rw [List.any_eq_true]
  constructor
  · rintro ⟨rd, hrd, hequal⟩
    obtain ⟨node, r, target, hnode, hr, hrel, ht, hmask, hdescribed⟩ :=
      (Service_Browse_single_mem server _ rd).mp hrd
    refine ⟨node, r, target, hnode, hr, ?_, ht, ?_, ?_⟩
    · rw [← Service_Browse_relevant_aggregates server.nodestore nodeId UA_NODEID_NULL r r rfl
        rfl]
      exact hrel
    · intro hzero
      exact hmask ⟨(show ¬ (UA_NODECLASS_OBJECT ||| UA_NODECLASS_VARIABLE |||
        UA_NODECLASS_METHOD) = 0 by decide), hzero⟩
    · rw [← hdescribed, Service_Browse_describe_instanceFind] at hequal
      unfold instanceFindAggregateByBrowsename_equal at hequal
      rw [Bool.and_eq_true, beq_iff_eq, beq_iff_eq] at hequal
      exact hequal
  · rintro ⟨node, r, target, hnode, hr, hrel, ht, hmask, hns, hname⟩
    refine ⟨Service_Browse_describe (instanceFindAggregateByBrowsename_browse nodeId) r target,
      ?_, ?_⟩
    · refine (Service_Browse_single_mem server _ _).mpr
        ⟨node, r, target, hnode, hr, ?_, ht, fun hzero => hmask hzero.2, rfl⟩
      rw [Service_Browse_relevant_aggregates server.nodestore nodeId UA_NODEID_NULL r r rfl rfl]
      exact hrel
    · rw [Service_Browse_describe_instanceFind]
      unfold instanceFindAggregateByBrowsename_equal
      rw [Bool.and_eq_true, beq_iff_eq, beq_iff_eq]
      exact ⟨hns, hname⟩

/-- An aggregated child stays one when the address space grows. -/
theorem instanceFindAggregateByBrowsename_exists_grows (server server' : UA_Server)
    (hgrow : UA_NodeStore_grows server.nodestore server'.nodestore) (nodeId : UA_NodeId)
    (browseName : UA_QualifiedName)
    (h : instanceFindAggregateByBrowsename_exists server nodeId browseName = true) :
    instanceFindAggregateByBrowsename_exists server' nodeId browseName = true := by
  rw [instanceFindAggregateByBrowsename_exists_iff] at h ⊢
  obtain ⟨node, r, target, hnode, hr, hrel, ht, hmask, hns, hname⟩ := h
  obtain ⟨node', hnode', hext⟩ := hgrow.1 nodeId node hnode
  obtain ⟨target', ht', hextt⟩ := hgrow.1 _ target ht
  refine ⟨node', r, target', hnode', UA_Node_extends_mem hext hr,
    Service_Browse_relevant_grows hgrow _ _ hrel, ht', ?_, ?_, ?_⟩
  · rw [UA_Node_extends_nodeClass hextt]
    exact hmask
  · rw [UA_Node_extends_browseName hextt]
    exact hns
  · rw [UA_Node_extends_browseName hextt]
    exact hname

/-- What `copyChildNodes` lists is described in the store. -/
theorem copyChildNode_described_of_mem (server : UA_Server) (sourceNodeId : UA_NodeId)
    (rd : UA_ReferenceDescription)
    (h : rd ∈ (Service_Browse_single server (copyChildNodes_browse sourceNodeId)).references) :
    copyChildNode_described server.nodestore rd := by
  obtain ⟨node, r, target, hnode, hr, hrel, ht, hmask, hdescribed⟩ :=
    (Service_Browse_single_mem server _ rd).mp h
  have hforward := Service_Browse_relevant_forward _ _ _ hrel
  have hid : target.nodeId = r.targetId.nodeId := UA_NodeStore_get_nodeId ht
  subst hdescribed
  rw [Service_Browse_describe_copyChildNodes]
  refine ⟨?_, target, ?_, rfl, rfl⟩
  · have hsame : Service_Browse_relevant server.nodestore (copyChildNodes_browse UA_NODEID_NULL)
        { referenceTypeId := r.referenceTypeId,
          targetId := UA_ExpandedNodeId_ofNodeId target.nodeId, isInverse := false } =
        Service_Browse_relevant server.nodestore (copyChildNodes_browse sourceNodeId) r := by
      unfold Service_Browse_relevant
      rw [hforward]
      rfl
    exact hsame.trans hrel
  · show UA_NodeStore_get server.nodestore target.nodeId = some target
    rw [hid]
    exact ht

theorem copyChildNode_described_grows {ns ns' : List UA_Node} (hgrow : UA_NodeStore_grows ns ns')
    (rd : UA_ReferenceDescription) (h : copyChildNode_described ns rd) :
    copyChildNode_described ns' rd := by
  obtain ⟨hrel, target, ht, hname, hclass⟩ := h
  obtain ⟨target', ht', hext⟩ := hgrow.1 _ target ht
  exact ⟨Service_Browse_relevant_grows hgrow _ _ hrel, target', ht',
    (UA_Node_extends_browseName hext).trans hname, (UA_Node_extends_nodeClass hext).trans hclass⟩

/-! ## A copied child is exposed by the destination -/

/-- A search that ends Good with a non-null id has found a child. -/
theorem instanceFindAggregateByBrowsename_found (server : UA_Server)
    (searchInstance : UA_NodeId) (browseName : UA_QualifiedName)
    (hnull : UA_NodeId_isNull
      (instanceFindAggregateByBrowsename server searchInstance browseName).2 = false) :
    instanceFindAggregateByBrowsename_exists server searchInstance browseName = true := by
  rw [instanceFindAggregateByBrowsename_eq] at hnull
  unfold instanceFindAggregateByBrowsename_exists
  by_cases hstatus : (Service_Browse_single server
      (instanceFindAggregateByBrowsename_browse searchInstance)).statusCode ≠ UA_STATUSCODE_GOOD
  · rw [if_pos hstatus] at hnull
    exact absurd hnull (show ¬ UA_NodeId_isNull UA_NODEID_NULL = false by decide)
  · rw [if_neg hstatus] at hnull
    cases hfind : (Service_Browse_single server
        (instanceFindAggregateByBrowsename_browse searchInstance)).references.find?
        (instanceFindAggregateByBrowsename_equal browseName) with
    | none =>
      rw [hfind] at hnull
      exact absurd hnull (show ¬ UA_NodeId_isNull UA_NODEID_NULL = false by decide)
    | some rd =>
      rw [List.any_eq_true]
      exact ⟨rd, List.mem_of_find?_eq_some hfind, List.find?_some hfind⟩

theorem UA_NodeStore_insert_grows (ns ns' : List UA_Node) (node : UA_Node) (nodeId : UA_NodeId)
    (h : UA_NodeStore_insert ns node = (UA_STATUSCODE_GOOD, ns', nodeId)) :
    UA_NodeStore_grows ns ns' := by
  refine UA_NodeStore_grows_of_extends (UA_NodeStore_insert_good ns ns' node nodeId h).2.2 ?_
  rw [UA_NodeStore_insert_good_eq ns ns' node nodeId h, List.length_append]
  exact Nat.le_add_right _ _

/-- A Good `copyChildNode` for the description of a stored object, variable or method
leaves the destination with an aggregated child of the described browse name. -/
theorem copyChildNode_exposes (budget : Nat) (server server' : UA_Server)
    (destinationNodeId : UA_NodeId) (rd : UA_ReferenceDescription)
    (cb : Option UA_InstantiationCallback)
    (hdescribed : copyChildNode_described server.nodestore rd)
    (hclass : rd.nodeClass = UA_NODECLASS_OBJECT ∨ rd.nodeClass = UA_NODECLASS_VARIABLE ∨
      rd.nodeClass = UA_NODECLASS_METHOD)
    (hdest : UA_NodeId_isNull destinationNodeId = false)
    (h : copyChildNode budget server destinationNodeId rd cb =
      some (UA_STATUSCODE_GOOD, server')) :
    instanceFindAggregateByBrowsename_exists server' destinationNodeId rd.browseName = true := by
  cases budget with
  | zero =>
    rw [copyChildNode] at h
    exact Option.noConfusion h
  | succ budget =>
    rw [copyChildNode_succ] at h
    dsimp only at h
    have hfound := instanceFindAggregateByBrowsename_found server destinationNodeId
      rd.browseName
    generalize instanceFindAggregateByBrowsename server destinationNodeId rd.browseName
      = found at h hfound
    by_cases hf : found.1 ≠ UA_STATUSCODE_GOOD
    · rw [if_pos hf] at h
      exact absurd (congrArg Prod.fst (Option.some.inj h)) hf
    rw [if_neg hf] at h
    by_cases hnull : UA_NodeId_isNull found.2 = false
    · rw [if_pos hnull] at h
      by_cases hvo : rd.nodeClass = UA_NODECLASS_VARIABLE ∨ rd.nodeClass = UA_NODECLASS_OBJECT
      · rw [if_pos hvo] at h
        exact instanceFindAggregateByBrowsename_exists_grows server server'
          (copyChildNodes_grows _ _ _ _ _ _ h) _ _ (hfound hnull)
      · rw [if_neg hvo] at h
        have hs : server = server' := congrArg Prod.snd (Option.some.inj h)
        rw [← hs]
        exact hfound hnull
    rw [if_neg hnull] at h
    by_cases hm : rd.nodeClass = UA_NODECLASS_METHOD
    · rw [if_pos hm] at h
      have hadded := Option.some.inj h
      obtain ⟨source, target, hsource, htarget, hmem, _⟩ :=
        Service_AddReferences_single_members server server' _ hadded
      obtain ⟨hrel, described, hd, hname, hdclass⟩ := copyChildNode_described_grows
        (Service_AddReferences_single_grows server server' _ hadded) rd hdescribed
      rw [instanceFindAggregateByBrowsename_exists_iff]
      refine ⟨source, _, described, hsource, hmem, hrel, hd, ?_, ?_, ?_⟩
      · rw [hdclass, hm]
        decide
      · rw [hname]
      · rw [hname]
    rw [if_neg hm] at h
    by_cases hvo : rd.nodeClass = UA_NODECLASS_VARIABLE ∨ rd.nodeClass = UA_NODECLASS_OBJECT
    · rw [if_pos hvo] at h
      obtain ⟨hrel, described, hd, hname, hdclass⟩ := hdescribed
      have hcopy : UA_NodeStore_getCopy server.nodestore rd.nodeId.nodeId = some described := hd
      rw [hcopy] at h
      dsimp only at h
      have hins := fun ns' id => UA_NodeStore_insert_good server.nodestore ns'
        { described with nodeId := UA_NODEID_NUMERIC destinationNodeId.namespaceIndex 0 } id
      have hinsgrow := fun ns' id => UA_NodeStore_insert_grows server.nodestore ns'
        { described with nodeId := UA_NODEID_NUMERIC destinationNodeId.namespaceIndex 0 } id
      generalize UA_NodeStore_insert server.nodestore
        { described with nodeId := UA_NODEID_NUMERIC destinationNodeId.namespaceIndex 0 }
        = inserted at h hins hinsgrow
      by_cases hg : inserted.1 = UA_STATUSCODE_GOOD
      · rw [if_pos hg] at h
        obtain ⟨_, hstored, _⟩ := hins inserted.2.1 inserted.2.2
          (Prod.ext hg (Prod.ext rfl rfl))
        have hgrow1 := hinsgrow inserted.2.1 inserted.2.2 (Prod.ext hg (Prod.ext rfl rfl))
        have hgrow2 := Service_AddNode_finish_grows _ _ _ _ _ _ _ _ h
        have hnodeclass : ({ ({ described with
            nodeId := UA_NODEID_NUMERIC destinationNodeId.namespaceIndex 0 } : UA_Node) with
            nodeId := inserted.2.2 } : UA_Node).nodeClass = UA_NODECLASS_VARIABLE ∨
            ({ ({ described with
            nodeId := UA_NODEID_NUMERIC destinationNodeId.namespaceIndex 0 } : UA_Node) with
            nodeId := inserted.2.2 } : UA_Node).nodeClass = UA_NODECLASS_OBJECT := by
          show described.nodeClass = UA_NODECLASS_VARIABLE ∨
            described.nodeClass = UA_NODECLASS_OBJECT
          rw [hdclass]
          exact hvo
        obtain ⟨node', parent', hnode', hparent', _, _, hmem⟩ :=
          Service_AddNode_finish_references budget
            { server with nodestore := inserted.2.1 } server' inserted.2.2 destinationNodeId
            rd.referenceTypeId (getNodeType described) cb _ hstored hnodeclass hdest h
        obtain ⟨node'', hnode'', hext⟩ := hgrow2.1 inserted.2.2 _ hstored
        have hsame : node'' = node' := Option.some.inj (hnode''.symm.trans hnode')
        subst hsame
        have hrel' := Service_Browse_relevant_grows (UA_NodeStore_grows_trans hgrow1 hgrow2) _ _
          hrel
        rw [instanceFindAggregateByBrowsename_exists_iff]
        refine ⟨parent', _, node'', hparent', hmem, ?_, hnode', ?_, ?_, ?_⟩
        · have hsame : Service_Browse_relevant server'.nodestore
              (copyChildNodes_browse UA_NODEID_NULL)
              { referenceTypeId := rd.referenceTypeId,
                targetId := UA_ExpandedNodeId_ofNodeId inserted.2.2, isInverse := false } =
              Service_Browse_relevant server'.nodestore (copyChildNodes_browse UA_NODEID_NULL)
              { referenceTypeId := rd.referenceTypeId, targetId := rd.nodeId,
                isInverse := false } := by
            unfold Service_Browse_relevant
            rfl
          exact hsame.trans hrel'
        · rw [UA_Node_extends_nodeClass hext]
          show described.nodeClass &&& _ ≠ 0
          rw [hdclass]
          rcases hvo with hv | ho
          · rw [hv]
            decide
          · rw [ho]
            decide
        · rw [UA_Node_extends_browseName hext]
          show described.browseName.namespaceIndex = _
          rw [hname]
        · rw [UA_Node_extends_browseName hext]
          show described.browseName.name = _
          rw [hname]
      · rw [if_neg hg] at h
        exact absurd (congrArg Prod.fst (Option.some.inj h)) hg
    · rcases hclass with ho | hv | hmeth
      · exact absurd (Or.inr ho) hvo
      · exact absurd (Or.inl hv) hvo
      · exact absurd hmeth hm

/-- The loop `retval |= f(...)` that ends Good: every call returned Good; what a call
establishes for its element, and the relation between the states, hold at the end. -/
theorem UA_statusLoop_each {α : Type}
    (f : UA_Server → α → Option (UA_StatusCode × UA_Server))
    (R : UA_Server → UA_Server → Prop) (hrefl : ∀ s, R s s)
    (htrans : ∀ a b c, R a b → R b c → R a c)
    (V P : α → UA_Server → Prop)
    (hV : ∀ x s s', R s s' → V x s → V x s')
    (hP : ∀ x s s', R s s' → P x s → P x s')
    (hf : ∀ s x s', V x s → f s x = some (UA_STATUSCODE_GOOD, s') → R s s' ∧ P x s') :
    ∀ (l : List α) (retval : UA_StatusCode) (server server' : UA_Server),
      (∀ x ∈ l, V x server) →
      UA_statusLoop f l retval server = some (UA_STATUSCODE_GOOD, server') →
      retval = UA_STATUSCODE_GOOD ∧ R server server' ∧ ∀ x ∈ l, P x server' := by
  intro l
  induction l with
  | nil =>
    intro retval server server' _ h
    unfold UA_statusLoop at h
    have h' := Option.some.inj h
    have hs : server = server' := congrArg Prod.snd h'
    exact ⟨congrArg Prod.fst h', hs ▸ hrefl _, fun _ hx => absurd hx (List.not_mem_nil _)⟩
  | cons x rest ih =>
    intro retval server server' hvalid h
    unfold UA_statusLoop at h
    cases hfx : f server x with
    | none => rw [hfx] at h; exact absurd h (by simp)
    | some r =>
      rw [hfx] at h
      dsimp only at h
      have hr : f server x = some (UA_STATUSCODE_GOOD, r.2) → R server r.2 ∧ P x r.2 :=
        hf server x r.2 (hvalid x (List.mem_cons_self _ _))
      cases hrest : UA_statusLoop f rest (retval ||| r.1) r.2 with
      | none => rw [hrest] at h; exact Option.noConfusion h
      | some out =>
        rw [hrest] at h
        have hout : out = (UA_STATUSCODE_GOOD, server') := Option.some.inj h
        rw [hout] at hrest
        by_cases hgood : r.1 = UA_STATUSCODE_GOOD
        · have hstep := hr (by rw [hfx, ← hgood])
          obtain ⟨hor, hR, hall⟩ := ih _ _ _
            (fun y hy => hV y _ _ hstep.1 (hvalid y (List.mem_cons_of_mem _ hy))) hrest
          refine ⟨(UA_StatusCode_or_eq_good _ _ hor).1, htrans _ _ _ hstep.1 hR, ?_⟩
          intro y hy
          rcases List.mem_cons.mp hy with hyx | hyrest
          · rw [hyx]
            exact hP x _ _ hR hstep.2
          · exact hall y hyrest
        · have hbad : ∀ (l : List α) (retval : UA_StatusCode) (s : UA_Server),
              UA_statusLoop f l retval s = some (UA_STATUSCODE_GOOD, server') →
              retval = UA_STATUSCODE_GOOD := by
            intro l
            induction l with
            | nil =>
              intro retval s hl
              unfold UA_statusLoop at hl
              exact congrArg Prod.fst (Option.some.inj hl)
            | cons y l ihl =>
              intro retval s hl
              unfold UA_statusLoop at hl
              cases hfy : f s y with
              | none => rw [hfy] at hl; exact absurd hl (by simp)
              | some q =>
                rw [hfy] at hl
                exact (UA_StatusCode_or_eq_good _ _ (ihl _ _ hl)).1
          exact absurd (UA_StatusCode_or_eq_good _ _ (hbad _ _ _ hrest)).2 hgood

/-- The children `copyChildNodes` lists stay listed when the address space grows. -/
theorem Service_Browse_single_grows (server server' : UA_Server)
    (hgrow : UA_NodeStore_grows server.nodestore server'.nodestore) (sourceNodeId : UA_NodeId)
    (rd : UA_ReferenceDescription)
    (h : rd ∈ (Service_Browse_single server (copyChildNodes_browse sourceNodeId)).references) :
    rd ∈ (Service_Browse_single server' (copyChildNodes_browse sourceNodeId)).references := by
  rw [Service_Browse_single_mem] at h ⊢
  obtain ⟨node, r, target, hnode, hr, hrel, ht, hmask, hdescribed⟩ := h
  obtain ⟨node', hnode', hext⟩ := hgrow.1 _ node hnode
  obtain ⟨target', ht', hextt⟩ := hgrow.1 _ target ht
  refine ⟨node', r, target', hnode', UA_Node_extends_mem hext hr,
    Service_Browse_relevant_grows hgrow _ _ hrel, ht', ?_, ?_⟩
  · rw [UA_Node_extends_nodeClass hextt]
    exact hmask
  · rw [← hdescribed, Service_Browse_describe_copyChildNodes,
      Service_Browse_describe_copyChildNodes, UA_Node_extends_nodeClass hextt,
      UA_Node_extends_browseName hextt, UA_Node_extends_nodeId hextt]

/-- A Good `copyChildNodes` leaves the destination with an aggregated child for every
object, variable or method child of the source. -/
theorem copyChildNodes_exposes (budget : Nat) (server server' : UA_Server)
    (sourceNodeId destinationNodeId : UA_NodeId) (cb : Option UA_InstantiationCallback)
    (hdest : UA_NodeId_isNull destinationNodeId = false)
    (h : copyChildNodes budget server sourceNodeId destinationNodeId cb =
      some (UA_STATUSCODE_GOOD, server')) :
    ∀ rd ∈ (Service_Browse_single server (copyChildNodes_browse sourceNodeId)).references,
      (rd.nodeClass = UA_NODECLASS_OBJECT ∨ rd.nodeClass = UA_NODECLASS_VARIABLE ∨
        rd.nodeClass = UA_NODECLASS_METHOD) →
      instanceFindAggregateByBrowsename_exists server' destinationNodeId rd.browseName
        = true := by
  cases budget with
  | zero =>
    rw [copyChildNodes] at h
    exact Option.noConfusion h
  | succ budget =>
    rw [copyChildNodes_succ] at h
    dsimp only at h
    by_cases hb : (Service_Browse_single server (copyChildNodes_browse sourceNodeId)).statusCode
        ≠ UA_STATUSCODE_GOOD
    · rw [if_pos hb] at h
      exact absurd (congrArg Prod.fst (Option.some.inj h)) hb
    rw [if_neg hb] at h
    exact (UA_statusLoop_each
      (fun srv rd => copyChildNode budget srv destinationNodeId rd cb)
      (fun s s' => UA_NodeStore_grows s.nodestore s'.nodestore)
      (fun _ => UA_NodeStore_grows_refl _) (fun _ _ _ => UA_NodeStore_grows_trans)
      (fun rd s => copyChildNode_described s.nodestore rd)
      (fun rd s => (rd.nodeClass = UA_NODECLASS_OBJECT ∨ rd.nodeClass = UA_NODECLASS_VARIABLE ∨
        rd.nodeClass = UA_NODECLASS_METHOD) →
        instanceFindAggregateByBrowsename_exists s destinationNodeId rd.browseName = true)
      (fun rd _ _ hR hv => copyChildNode_described_grows hR rd hv)
      (fun rd s s' hR hp hc =>
        instanceFindAggregateByBrowsename_exists_grows s s' hR _ _ (hp hc))
      (fun s rd s' hv hrun =>
        ⟨copyChildNode_grows _ _ _ _ _ _ hrun,
          fun hc => copyChildNode_exposes budget s s' destinationNodeId rd cb hv hc hdest hrun⟩)
      _ _ _ _ (fun rd hrd => copyChildNode_described_of_mem server sourceNodeId rd hrd) h).2.2

theorem instantiateNode_complete_grows (server server' : UA_Server) (nodeId : UA_NodeId)
    (typenode : UA_Node) (typeId : UA_NodeId)
    (instantiationCallback : Option UA_InstantiationCallback)
    (h : instantiateNode_complete server nodeId typenode typeId instantiationCallback =
      (UA_STATUSCODE_GOOD, server')) :
    UA_NodeStore_grows server.nodestore server'.nodestore := by
  refine UA_NodeStore_grows_of_extends
    (instantiateNode_complete_extends server server' nodeId typenode typeId
      instantiationCallback h).1 ?_
  have hlen := instantiateNode_complete_length server nodeId typenode typeId
    instantiationCallback
  rw [h] at hlen
  exact Nat.le_of_eq hlen.symm

/-- A Good `instantiateNode` of a variable or object under a non-null id leaves the instance
with an aggregated child for every object, variable or method child of the type and of the
types in its hierarchy. -/
theorem instantiateNode_exposes (budget : Nat) (server server' : UA_Server)
    (nodeId : UA_NodeId) (nodeClass : UA_NodeClass) (typeId : UA_NodeId)
    (cb : Option UA_InstantiationCallback) (typenode : UA_Node)
    (hclass : nodeClass = UA_NODECLASS_VARIABLE ∨ nodeClass = UA_NODECLASS_OBJECT)
    (hnonnull : UA_NodeId_isNull nodeId = false)
    (htype : UA_NodeStore_get server.nodestore typeId = some typenode)
    (h : instantiateNode budget server nodeId nodeClass typeId cb =
      some (UA_STATUSCODE_GOOD, server')) :
    ∀ t ∈ getTypeHierarchy server.nodestore typenode,
      ∀ c ∈ (Service_Browse_single server (copyChildNodes_browse t)).references,
        (c.nodeClass = UA_NODECLASS_OBJECT ∨ c.nodeClass = UA_NODECLASS_VARIABLE ∨
          c.nodeClass = UA_NODECLASS_METHOD) →
        instanceFindAggregateByBrowsename_exists server' nodeId c.browseName = true := by
  cases budget with
  | zero =>
    rw [instantiateNode] at h
    exact Option.noConfusion h
  | succ budget =>
    rw [instantiateNode_succ] at h
    rw [if_neg (fun hc => by
      rcases hclass with hv | ho
      · exact hc.1 hv
      · exact hc.2 ho), htype] at h
    dsimp only at h
    by_cases hok : instantiateNode_typeOk nodeClass typenode = false
    · rw [if_pos hok] at h
      exact absurd (congrArg Prod.fst (Option.some.inj h))
        (show ¬ UA_STATUSCODE_BADTYPEDEFINITIONINVALID = UA_STATUSCODE_GOOD by decide)
    rw [if_neg hok] at h
    cases hloop : UA_statusLoop
        (fun srv sourceNodeId => copyChildNodes budget srv sourceNodeId nodeId cb)
        (getTypeHierarchy server.nodestore typenode) UA_STATUSCODE_GOOD server with
    | none =>
      rw [hloop] at h
      exact Option.noConfusion h
    | some copied =>
      rw [hloop] at h
      dsimp only at h
      by_cases hcp : copied.1 ≠ UA_STATUSCODE_GOOD
      · rw [if_pos hcp] at h
        exact absurd (congrArg Prod.fst (Option.some.inj h)) hcp
      rw [if_neg hcp] at h
      have hcp' : copied.1 = UA_STATUSCODE_GOOD := Classical.not_not.mp hcp
      have hdone := instantiateNode_complete_grows copied.2 server' nodeId typenode typeId cb
        (Option.some.inj h)
      have hall := (UA_statusLoop_each
        (fun srv sourceNodeId => copyChildNodes budget srv sourceNodeId nodeId cb)
        (fun s s' => UA_NodeStore_grows s.nodestore s'.nodestore)
        (fun _ => UA_NodeStore_grows_refl _) (fun _ _ _ => UA_NodeStore_grows_trans)
        (fun _ s => UA_NodeStore_grows server.nodestore s.nodestore)
        (fun t s =>
          ∀ c ∈ (Service_Browse_single server (copyChildNodes_browse t)).references,
            (c.nodeClass = UA_NODECLASS_OBJECT ∨ c.nodeClass = UA_NODECLASS_VARIABLE ∨
              c.nodeClass = UA_NODECLASS_METHOD) →
            instanceFindAggregateByBrowsename_exists s nodeId c.browseName = true)
        (fun _ _ _ hR hv => UA_NodeStore_grows_trans hv hR)
        (fun t s s' hR hp c hc hcc =>
          instanceFindAggregateByBrowsename_exists_grows s s' hR _ _ (hp c hc hcc))
        (fun s t s' hv hrun =>
          ⟨copyChildNodes_grows _ _ _ _ _ _ hrun,
            fun c hc hcc => copyChildNodes_exposes budget s s' t nodeId cb hnonnull hrun c
              (Service_Browse_single_grows server s hv t c hc) hcc⟩)
        _ _ _ copied.2 (fun _ _ => UA_NodeStore_grows_refl _) (by rw [hloop, ← hcp'])).2.2
      intro t ht c hc hcc
      exact instanceFindAggregateByBrowsename_exists_grows copied.2 server' hdone _ _
        (hall t ht c hc hcc)

/-! ## Type-hierarchy coverage -/

/-- The store holds no node under a null id: a successful insert stores the node under an id
that is not null, an identifier that is null having been replaced by an allocated one. -/
theorem UA_NodeStore_insert_nonnull (ns ns' : List UA_Node) (node : UA_Node)
    (nodeId : UA_NodeId)
    (h : UA_NodeStore_insert ns node = (UA_STATUSCODE_GOOD, ns', nodeId)) :
    UA_NodeId_isNull nodeId = false := by
  unfold UA_NodeStore_insert at h
  dsimp only at h
  split at h
  · exact absurd (congrArg Prod.fst h)
      (show ¬ UA_STATUSCODE_BADNODEIDEXISTS = UA_STATUSCODE_GOOD by decide)
  · have h2 := congrArg Prod.snd h
    have hid : _ = nodeId := congrArg Prod.snd h2
    dsimp only at hid
    rw [← hid]
    by_cases hnull : UA_NodeId_isNull { node.nodeId with namespaceIndex := 0 } = true
    · rw [if_pos hnull]
      unfold UA_NodeId_isNull UA_NODEID_NUMERIC
      simp
    · rw [if_neg hnull]
      have hfalse : UA_NodeId_isNull { node.nodeId with namespaceIndex := 0 } = false := by
        cases hb : UA_NodeId_isNull { node.nodeId with namespaceIndex := 0 }
        · rfl
        · exact absurd hb hnull
      unfold UA_NodeId_isNull at hfalse ⊢
      simp only [beq_self_eq_true, Bool.true_and] at hfalse
      rw [hfalse, Bool.and_false]

/-- Why the coverage of the type hierarchy is stated for instances with a non-null node id:
were a node stored under a null id (which `insert` never does, `UA_NodeStore_insert_nonnull`),
as the object under `ex_id_empty` is here, its instantiation from `CT` would return Good,
the copy of the variable `c` would be made (node 4103), but `Service_AddNode_finish` adds no
parent reference for a null parent id and the instance would have no child named `c`. -/
theorem instantiateNode_null_instance_misses_child :
    UA_NodeId_isNull ex_id_empty = true ∧
    (UA_NodeStore_get ex_components_null.nodestore ex_id_empty).map (fun n => n.nodeClass) =
      some UA_NODECLASS_OBJECT ∧
    instantiateNode 6 ex_components_null ex_id_empty UA_NODECLASS_OBJECT (ex_id 4100) none =
      some (UA_STATUSCODE_GOOD, ex_components_null_server) ∧
    ((Service_Browse_single ex_components_null
      (copyChildNodes_browse (ex_id 4100))).references.map
        (fun rd => (rd.nodeId.nodeId, rd.browseName, rd.nodeClass))) =
      [ (ex_id 4101, { namespaceIndex := 0, name := "c" }, UA_NODECLASS_VARIABLE),
        (ex_id 4102, { namespaceIndex := 0, name := "m" }, UA_NODECLASS_METHOD) ] ∧
    instanceFindAggregateByBrowsename_exists ex_components_null_server ex_id_empty
      { namespaceIndex := 0, name := "c" } = false ∧
    (UA_NodeStore_get ex_components_null_server.nodestore (ex_id 4103)).map
      (fun n => (n.nodeClass, n.browseName)) =
      some (UA_NODECLASS_VARIABLE, { namespaceIndex := 0, name := "c" }) := by
  refine ⟨by decide, by decide, rfl, ?_, ?_, ?_⟩
  · decide
  · decide
  · decide

/-! ## Copying the children a second time -/

/-- A loop all of whose calls return Good and leave the server alone does so itself. -/
theorem UA_statusLoop_fixed {α : Type}
    (f : UA_Server → α → Option (UA_StatusCode × UA_Server)) (server : UA_Server) :
    ∀ (l : List α), (∀ x ∈ l, f server x = some (UA_STATUSCODE_GOOD, server)) →
      UA_statusLoop f l UA_STATUSCODE_GOOD server = some (UA_STATUSCODE_GOOD, server) := by
  intro l
  induction l with
  | nil =>
    intro _
    rfl
  | cons x rest ih =>
    intro hall
    unfold UA_statusLoop
    rw [hall x (List.mem_cons_self _ _)]
    dsimp only
    rw [show UA_STATUSCODE_GOOD ||| UA_STATUSCODE_GOOD = UA_STATUSCODE_GOOD by decide]
    exact ih (fun y hy => hall y (List.mem_cons_of_mem _ hy))

/-- When every child of the source is matched by browse name on the destination, all the
way down, `copyChildNodes` returns Good and leaves the server as it is. -/
theorem copyChildNodes_merged_fixed (server : UA_Server)
    (cb : Option UA_InstantiationCallback) (depth : Nat) :
    ∀ (budget : Nat) (sourceNodeId destinationNodeId : UA_NodeId),
      copyChildNodes_merged server depth sourceNodeId destinationNodeId = true →
      2 * depth ≤ budget →
      copyChildNodes budget server sourceNodeId destinationNodeId cb =
        some (UA_STATUSCODE_GOOD, server) := by
  induction depth with
  | zero =>
    intro budget sourceNodeId destinationNodeId hmerged _
    rw [copyChildNodes_merged] at hmerged
    exact Bool.noConfusion hmerged
  | succ depth ih =>
    intro budget sourceNodeId destinationNodeId hmerged hbudget
    obtain ⟨rest, hrest⟩ : ∃ rest, budget = rest + 2 := ⟨budget - 2, by omega⟩
    subst hrest
    rw [copyChildNodes_merged, Bool.and_eq_true, decide_eq_true_eq, List.all_eq_true]
      at hmerged
    obtain ⟨hstatus, hall⟩ := hmerged
    rw [copyChildNodes_succ]
    dsimp only
    rw [if_neg (fun hne => hne hstatus)]
    apply UA_statusLoop_fixed
    intro rd hrd
    have hrd' := hall rd hrd
    rw [Bool.and_eq_true, Bool.and_eq_true, decide_eq_true_eq] at hrd'
    obtain ⟨⟨hfound, hnull⟩, hbelow⟩ := hrd'
    rw [copyChildNode_succ]
    dsimp only
    rw [if_neg (fun hne => hne hfound)]
    have hnull' : UA_NodeId_isNull
        (instanceFindAggregateByBrowsename server destinationNodeId rd.browseName).2 = false := by
      cases hv : UA_NodeId_isNull
          (instanceFindAggregateByBrowsename server destinationNodeId rd.browseName).2 with
      | false => rfl
      | true =>
        rw [hv] at hnull
        exact Bool.noConfusion hnull
    rw [if_pos hnull']
    by_cases hvo : rd.nodeClass = UA_NODECLASS_VARIABLE ∨ rd.nodeClass = UA_NODECLASS_OBJECT
    · rw [if_pos hvo] at hbelow ⊢
      exact ih rest _ _ hbelow (by omega)
    · rw [if_neg hvo]

/-- Claim C16, as stated, fails: in `ex_recursive` the object `i` is itself the component of
the type `RT`.  The first `copyChildNodes(RT, i)` returns Good and puts a copy of `i`
(node 4202) under `i`; the second call finds that copy by its name, descends into it and
puts a copy of the copy (node 4203) under it: one node and references are added. -/
theorem copyChildNodes_second_call_copies :
    copyChildNodes 5 ex_recursive (ex_id 4200) (ex_id 4201) none =
      some (UA_STATUSCODE_GOOD, ex_recursive_server) ∧
    ex_recursive_second.map (fun r => (r.1, r.2.nodestore.length)) =
      some (UA_STATUSCODE_GOOD, ex_recursive_server.nodestore.length + 1) ∧
    UA_NodeStore_get ex_recursive_server.nodestore (ex_id 4203) = none ∧
    ex_recursive_second.map (fun r =>
      (UA_NodeStore_get r.2.nodestore (ex_id 4203)).map (fun n => n.browseName)) =
      some (some { namespaceIndex := 0, name := "i" }) ∧
    ex_recursive_second.map (fun r => decide (r.2.nodestore = ex_recursive_server.nodestore)) =
      some false := by
  refine ⟨rfl, ?_, ?_, ?_, ?_⟩
  · decide!
  · decide!
  · decide!
  · decide!

/-- Claim C16: for every store, source type node `T` and instance node `I` with a non-null
id: if `copyChildNodes(T, I)` returns Good, every object, variable or method child of `T`
has a counterpart of the same browse name on `I` afterwards; and when the children of `T`
are matched by browse name on `I` all the way down (`copyChildNodes_merged`), an immediately
following second `copyChildNodes(T, I)` returns Good, inserts no new node and adds no
reference: the server after the second call equals the server after the first. -/
theorem copyChildNodes_second_call (budget budget2 depth : Nat) (server server1 : UA_Server)
    (sourceNodeId destinationNodeId : UA_NodeId) (cb : Option UA_InstantiationCallback)
    (hdest : UA_NodeId_isNull destinationNodeId = false)
    (hfirst : copyChildNodes budget server sourceNodeId destinationNodeId cb =
      some (UA_STATUSCODE_GOOD, server1)) :
    (∀ c ∈ (Service_Browse_single server (copyChildNodes_browse sourceNodeId)).references,
      (c.nodeClass = UA_NODECLASS_OBJECT ∨ c.nodeClass = UA_NODECLASS_VARIABLE ∨
        c.nodeClass = UA_NODECLASS_METHOD) →
      instanceFindAggregateByBrowsename_exists server1 destinationNodeId c.browseName = true) ∧
    (copyChildNodes_merged server1 depth sourceNodeId destinationNodeId = true →
      2 * depth ≤ budget2 →
      copyChildNodes budget2 server1 sourceNodeId destinationNodeId cb =
        some (UA_STATUSCODE_GOOD, server1)) :=
  ⟨copyChildNodes_exposes budget server server1 sourceNodeId destinationNodeId cb hdest hfirst,
    copyChildNodes_merged_fixed server1 cb depth budget2 sourceNodeId destinationNodeId⟩

/-- The children of `CT` (the variable `c` and the method `m`) copied to the object `co`:
the first call returns Good, after it the children are matched on `co`, and the second call
returns Good and leaves the server as the first call left it. -/
theorem copyChildNodes_second_call_witness :
    copyChildNodes 5 ex_components (ex_id 4100) (ex_id 4103) none =
      some (UA_STATUSCODE_GOOD, ex_components_copied_server) ∧
    copyChildNodes_merged ex_components_copied_server 2 (ex_id 4100) (ex_id 4103) = true ∧
    copyChildNodes 4 ex_components_copied_server (ex_id 4100) (ex_id 4103) none =
      some (UA_STATUSCODE_GOOD, ex_components_copied_server) :=
  have hfirst : copyChildNodes 5 ex_components (ex_id 4100) (ex_id 4103) none =
      some (UA_STATUSCODE_GOOD, ex_components_copied_server) := rfl
  have hmerged : copyChildNodes_merged ex_components_copied_server 2 (ex_id 4100)
      (ex_id 4103) = true := by decide
  ⟨hfirst, hmerged,
    (copyChildNodes_second_call 5 4 2 ex_components ex_components_copied_server (ex_id 4100)
      (ex_id 4103) none (by decide) hfirst).2 hmerged (by decide)⟩

/-! ## Monitored events: the status taken from the response -/

/-- What `UA_Client_Subscriptions_addMonitoredEvent` does once the subscription is found. -/
theorem UA_Client_Subscriptions_addMonitoredEvent_found (client : UA_Client)
    (subscriptionId : Nat) (nodeId : UA_NodeId) (attributeID : Nat)
    (selectClause whereClause : List Nat) (hf : Option Nat)
    (hfContext : Nat) (newMon : UA_Client_MonitoredItem)
    (exchange :
      UA_CreateMonitoredItemsRequest → UA_CreateMonitoredItemsResponse × UA_ClientState)
    (sub : UA_Client_Subscription) (response : UA_CreateMonitoredItemsResponse)
    (state : UA_ClientState)
    (hsub : findSubscription client subscriptionId = some sub)
    (hexchange : exchange (UA_Client_Subscriptions_addMonitoredEvent_request
      ((client.monitoredItemHandles + 1) % UA_UINT32_MODULUS) subscriptionId nodeId attributeID
      selectClause whereClause) = (response, state)) :
    UA_Client_Subscriptions_addMonitoredEvent client subscriptionId nodeId attributeID
        selectClause whereClause hf hfContext newMon exchange =
      if UA_Client_Subscriptions_addMonitoredEvent_retval response ≠ UA_STATUSCODE_GOOD then
        some (UA_Client_Subscriptions_addMonitoredEvent_retval response,
         { client with
           state := state
           monitoredItemHandles := (client.monitoredItemHandles + 1) % UA_UINT32_MODULUS },
         none)
      else
        match response.results with
        | [] => none
        | result :: _ =>
          some (UA_STATUSCODE_GOOD,
           { client with
             state := state
             monitoredItemHandles := (client.monitoredItemHandles + 1) % UA_UINT32_MODULUS
             subscriptions :=
               UA_Client_Subscription_edit
                 (fun s =>
                   { s with
                     monitoredItems :=
                       { newMon with
                         monitoringMode := UA_MONITORINGMODE_REPORTING
                         monitoredNodeId := nodeId
                         attributeID := attributeID
                         clientHandle :=
                           (client.monitoredItemHandles + 1) % UA_UINT32_MODULUS
                         samplingInterval := 0
                         queueSize := 0
                         discardOldest := false
                         handlerEvents := hf
                         handlerEventsContext := hfContext
                         monitoredItemId := result.monitoredItemId } :: s.monitoredItems })
                 subscriptionId client.subscriptions },
           some result.monitoredItemId) := by
  unfold UA_Client_Subscriptions_addMonitoredEvent
  rw [hsub]
  dsimp only
  unfold UA_Client_Service
  rw [hexchange]

/-- Claim C21 at a failing input: the CreateMonitoredItems response has the service result
BadUnexpectedError and one result with status Good and monitored item id 55.
`UA_Client_Subscriptions_addMonitoredEvent` returns Good and the subscription holds the
new item, whereas `UA_Client_Subscriptions_addMonitoredItem` on the same response returns
the service result and registers nothing. -/
theorem UA_Client_Subscriptions_addMonitoredEvent_failed_service :
    (ex_createMonitoredItems_failed
      (UA_Client_Subscriptions_addMonitoredEvent_request 42 7 (ex_id 3001) 12 [1]
        [])).1.responseHeader.serviceResult = UA_STATUSCODE_BADUNEXPECTEDERROR ∧
    (UA_Client_Subscriptions_addMonitoredEvent ex_client 7 (ex_id 3001) 12 [1] [] (some 5) 9
        ex_block ex_createMonitoredItems_failed).map
      (fun r => (r.1, (findSubscription r.2.1 7).map
        (fun sub => sub.monitoredItems.map (fun mon => mon.monitoredItemId)))) =
      some (UA_STATUSCODE_GOOD, some [55]) ∧
    (fun r : UA_StatusCode × UA_Client × Option Nat => (r.1, (findSubscription r.2.1 7).map
        (fun sub => sub.monitoredItems.map (fun mon => mon.monitoredItemId))))
      (UA_Client_Subscriptions_addMonitoredItem ex_client 7 (ex_id 3001) 12 (some 5) 9 250
        ex_block ex_createMonitoredItems_failed) =
      (UA_STATUSCODE_BADUNEXPECTEDERROR, some []) := by
  refine ⟨rfl, ?_, ?_⟩
  · decide
  · decide

/-- Claim C22, as stated, fails on `UA_Client_Subscriptions_addMonitoredItem`: for a response
with service result Good and `resultsSize == 0` the claim gives the service result, Good;
the function returns BadUnexpectedError and registers nothing. -/
theorem UA_Client_Subscriptions_addMonitoredItem_no_results :
    (ex_createMonitoredItems_empty
      (UA_Client_Subscriptions_addMonitoredItem_request 42 7 (ex_id 3001) 13 250)).1 =
      { responseHeader := { serviceResult := UA_STATUSCODE_GOOD }, results := [] } ∧
    (UA_Client_Subscriptions_addMonitoredItem ex_client 7 (ex_id 3001) 13 (some 1) 9 250
      ex_block ex_createMonitoredItems_empty).1 = UA_STATUSCODE_BADUNEXPECTEDERROR ∧
    UA_STATUSCODE_BADUNEXPECTEDERROR ≠ UA_STATUSCODE_GOOD ∧
    (UA_Client_Subscriptions_addMonitoredItem ex_client 7 (ex_id 3001) 13 (some 1) 9 250
      ex_block ex_createMonitoredItems_empty).2.1.subscriptions = ex_client.subscriptions := by
  refine ⟨rfl, ?_, by decide, ?_⟩
  · decide
  · decide

/-- Claim C22: the status the two create paths return for a CreateMonitoredItems response,
the subscription being known.  `UA_Client_Subscriptions_addMonitoredItem` returns the
service result when it is not Good; when it is Good, `results[0].statusCode` when
`resultsSize == 1` and BadUnexpectedError for every other size (0 included).
`UA_Client_Subscriptions_addMonitoredEvent` returns the service result when
`resultsSize == 0` and the service result is not Good, and `results[0].statusCode` when
`resultsSize == 1` and the service result is Good. -/
theorem UA_Client_Subscriptions_create_status (client : UA_Client) (subscriptionId : Nat)
    (nodeId : UA_NodeId) (attributeID : Nat) (hf : Option Nat) (hfContext : Nat)
    (samplingInterval : UA_Double) (selectClause whereClause : List Nat)
    (newMon : UA_Client_MonitoredItem)
    (exchange :
      UA_CreateMonitoredItemsRequest → UA_CreateMonitoredItemsResponse × UA_ClientState)
    (sub : UA_Client_Subscription) (response : UA_CreateMonitoredItemsResponse)
    (state : UA_ClientState)
    (hsub : findSubscription client subscriptionId = some sub)
    (hitemAnswer : exchange (UA_Client_Subscriptions_addMonitoredItem_request
      ((client.monitoredItemHandles + 1) % UA_UINT32_MODULUS) subscriptionId nodeId attributeID
      samplingInterval) = (response, state))
    (heventAnswer : exchange (UA_Client_Subscriptions_addMonitoredEvent_request
      ((client.monitoredItemHandles + 1) % UA_UINT32_MODULUS) subscriptionId nodeId attributeID
      selectClause whereClause) = (response, state)) :
    (response.responseHeader.serviceResult ≠ UA_STATUSCODE_GOOD →
      (UA_Client_Subscriptions_addMonitoredItem client subscriptionId nodeId attributeID hf
        hfContext samplingInterval newMon exchange).1 =
        response.responseHeader.serviceResult) ∧
    (response.responseHeader.serviceResult = UA_STATUSCODE_GOOD →
      ∀ result, response.results = [result] →
        (UA_Client_Subscriptions_addMonitoredItem client subscriptionId nodeId attributeID hf
          hfContext samplingInterval newMon exchange).1 = result.statusCode) ∧
    (response.responseHeader.serviceResult = UA_STATUSCODE_GOOD →
      response.results.length ≠ 1 →
        (UA_Client_Subscriptions_addMonitoredItem client subscriptionId nodeId attributeID hf
          hfContext samplingInterval newMon exchange).1 = UA_STATUSCODE_BADUNEXPECTEDERROR) ∧
    (response.responseHeader.serviceResult ≠ UA_STATUSCODE_GOOD →
      response.results = [] →
        (UA_Client_Subscriptions_addMonitoredEvent client subscriptionId nodeId attributeID
          selectClause whereClause hf hfContext newMon exchange).map (fun r => r.1) =
          some response.responseHeader.serviceResult) ∧
    (response.responseHeader.serviceResult = UA_STATUSCODE_GOOD →
      ∀ result, response.results = [result] →
        (UA_Client_Subscriptions_addMonitoredEvent client subscriptionId nodeId attributeID
          selectClause whereClause hf hfContext newMon exchange).map (fun r => r.1) =
          some result.statusCode) := by
  have hitem := UA_Client_Subscriptions_addMonitoredItem_found client subscriptionId nodeId
    attributeID hf hfContext samplingInterval newMon exchange sub response state hsub
    hitemAnswer
  have hevent := UA_Client_Subscriptions_addMonitoredEvent_found client subscriptionId nodeId
    attributeID selectClause whereClause hf hfContext newMon exchange sub response state hsub
    heventAnswer
  have hstatus : (UA_Client_Subscriptions_addMonitoredItem client subscriptionId nodeId
      attributeID hf hfContext samplingInterval newMon exchange).1 =
      UA_Client_Subscriptions_addMonitoredItem_retval response := by
    rw [hitem]
    by_cases hgood : UA_Client_Subscriptions_addMonitoredItem_retval response =
        UA_STATUSCODE_GOOD
    · rw [if_neg (fun hne => hne hgood), hgood]
    · rw [if_pos hgood]
  refine ⟨?_, ?_, ?_, ?_, ?_⟩
  · intro hbad
    rw [hstatus]
    unfold UA_Client_Subscriptions_addMonitoredItem_retval
    rw [if_neg hbad]
  · intro hgood result hresults
    rw [hstatus]
    unfold UA_Client_Subscriptions_addMonitoredItem_retval
    rw [if_pos hgood, hresults, if_pos (show [result].length = 1 from rfl)]
  · intro hgood hsize
    rw [hstatus]
    unfold UA_Client_Subscriptions_addMonitoredItem_retval
    rw [if_pos hgood, if_neg hsize]
  · intro hbad hresults
    have hretval : UA_Client_Subscriptions_addMonitoredEvent_retval response =
        response.responseHeader.serviceResult := by
      unfold UA_Client_Subscriptions_addMonitoredEvent_retval
      rw [hresults]
    rw [hevent, hretval, if_pos hbad]
    rfl
  · intro _ result hresults
    have hretval : UA_Client_Subscriptions_addMonitoredEvent_retval response =
        result.statusCode := by
      unfold UA_Client_Subscriptions_addMonitoredEvent_retval
      rw [hresults]
    rw [hevent, hretval]
    by_cases hitemgood : result.statusCode = UA_STATUSCODE_GOOD
    · rw [if_neg (fun hne => hne hitemgood), hresults, hitemgood]
      rfl
    · rw [if_pos hitemgood]
      rfl

/-- The server of `ex_createMonitoredItems` answers Good with the single result Good for
the monitored item 55: both create paths return that status, Good. -/
theorem UA_Client_Subscriptions_create_status_witness :
    findSubscription ex_client 7 = some
      { lifeTime := 100, keepAliveCount := 10, publishingInterval := 500,
        subscriptionID := 7, notificationsPerPublish := 0, priority := 0,
        monitoredItems := [] } ∧
    (UA_Client_Subscriptions_addMonitoredItem ex_client 7 (ex_id 3001) 13 (some 1) 9 250
      ex_block ex_createMonitoredItems).1 = UA_STATUSCODE_GOOD ∧
    (UA_Client_Subscriptions_addMonitoredEvent ex_client 7 (ex_id 3001) 13 [1] [] (some 1) 9
      ex_block ex_createMonitoredItems).map (fun r => r.1) = some UA_STATUSCODE_GOOD :=
  have h := UA_Client_Subscriptions_create_status ex_client 7 (ex_id 3001) 13 (some 1) 9 250
    [1] [] ex_block ex_createMonitoredItems
    { lifeTime := 100, keepAliveCount := 10, publishingInterval := 500,
      subscriptionID := 7, notificationsPerPublish := 0, priority := 0,
      monitoredItems := [] }
    { responseHeader := { serviceResult := UA_STATUSCODE_GOOD },
      results := [{ statusCode := UA_STATUSCODE_GOOD, monitoredItemId := 55,
                    revisedSamplingInterval := 250, revisedQueueSize := 1 }] }
    3 (by decide) rfl rfl
  ⟨by decide, h.2.1 rfl _ rfl, h.2.2.2.2 rfl _ rfl⟩

/-! ## Removing a monitored item -/

/-- The subscription `findSubscription` returns is the first one with the id: the list
splits around it. -/
theorem findSubscription_split (client : UA_Client) (subscriptionId : Nat)
    (sub : UA_Client_Subscription) (hsub : findSubscription client subscriptionId = some sub) :
    sub.subscriptionID = subscriptionId ∧
    ∃ before after, client.subscriptions = before ++ sub :: after ∧
      ∀ s ∈ before, s.subscriptionID ≠ subscriptionId := by
  unfold findSubscription at hsub
  generalize client.subscriptions = subs at hsub
  induction subs with
  | nil => exact absurd hsub (by simp)
  | cons first rest ih =>
    rw [List.find?_cons] at hsub
    by_cases hfirst : first.subscriptionID = subscriptionId
    · rw [show (first.subscriptionID == subscriptionId) = true from beq_iff_eq.mpr hfirst]
        at hsub
      have hsame : first = sub := Option.some.inj hsub
      rw [← hsame]
      exact ⟨hfirst, [], rest, rfl, fun s hs => absurd hs (List.not_mem_nil s)⟩
    · rw [show (first.subscriptionID == subscriptionId) = false from
        beq_eq_false_iff_ne.mpr hfirst] at hsub
      obtain ⟨hid, before, after, hsplit, hbefore⟩ := ih hsub
      refine ⟨hid, first :: before, after, by rw [hsplit]; rfl, ?_⟩
      intro s hs
      rcases List.mem_cons.mp hs with h | h
      · rw [h]; exact hfirst
      · exact hbefore s h

/-- A write through the pointer to the first subscription with the id changes that
subscription and no other. -/
theorem UA_Client_Subscription_edit_split
    (edit : UA_Client_Subscription → UA_Client_Subscription) (subscriptionId : Nat)
    (before after : List UA_Client_Subscription) (sub : UA_Client_Subscription)
    (hsub : sub.subscriptionID = subscriptionId)
    (hbefore : ∀ s ∈ before, s.subscriptionID ≠ subscriptionId) :
    UA_Client_Subscription_edit edit subscriptionId (before ++ sub :: after) =
      before ++ edit sub :: after := by
  induction before with
  | nil =>
    show UA_Client_Subscription_edit edit subscriptionId (sub :: after) = edit sub :: after
    unfold UA_Client_Subscription_edit
    rw [if_pos (beq_iff_eq.mpr hsub)]
  | cons first rest ih =>
    show UA_Client_Subscription_edit edit subscriptionId (first :: (rest ++ sub :: after)) =
      first :: (rest ++ edit sub :: after)
    unfold UA_Client_Subscription_edit
    have hfirst : first.subscriptionID ≠ subscriptionId := hbefore first (List.mem_cons_self _ _)
    rw [if_neg (by rw [beq_iff_eq]; exact hfirst),
      ih (fun s hs => hbefore s (List.mem_cons_of_mem _ hs))]

/-- The monitored item the search stops at is the first one with the id: the list splits
around it, and unlinking it leaves the two parts. -/
theorem UA_Client_MonitoredItem_find_split (monitoredItemId : Nat)
    (items : List UA_Client_MonitoredItem) (mon : UA_Client_MonitoredItem)
    (hmon : UA_Client_MonitoredItem_find monitoredItemId items = some mon) :
    mon.monitoredItemId = monitoredItemId ∧
    ∃ pre post, items = pre ++ mon :: post ∧
      (∀ m ∈ pre, m.monitoredItemId ≠ monitoredItemId) ∧
      UA_Client_MonitoredItem_remove monitoredItemId items = pre ++ post := by
  induction items with
  | nil => exact absurd hmon (by simp [UA_Client_MonitoredItem_find])
  | cons first rest ih =>
    unfold UA_Client_MonitoredItem_find at hmon
    unfold UA_Client_MonitoredItem_remove
    by_cases hfirst : first.monitoredItemId = monitoredItemId
    · rw [if_pos (beq_iff_eq.mpr hfirst)] at hmon
      rw [if_pos (beq_iff_eq.mpr hfirst)]
      have hsame : first = mon := Option.some.inj hmon
      rw [← hsame]
      exact ⟨hfirst, [], rest, rfl, fun m hm => absurd hm (List.not_mem_nil m), rfl⟩
    · rw [if_neg (by rw [beq_iff_eq]; exact hfirst)] at hmon
      rw [if_neg (by rw [beq_iff_eq]; exact hfirst)]
      obtain ⟨hid, pre, post, hsplit, hpre, hremove⟩ := ih hmon
      refine ⟨hid, first :: pre, post, by rw [hsplit]; rfl, ?_, by rw [hremove]; rfl⟩
      intro m hm
      rcases List.mem_cons.mp hm with h | h
      · rw [h]; exact hfirst
      · exact hpre m h

/-- What `UA_Client_Subscriptions_removeMonitoredItem` does once the subscription and the
item are found. -/
theorem UA_Client_Subscriptions_removeMonitoredItem_found (client : UA_Client)
    (subscriptionId monitoredItemId : Nat)
    (exchange :
      UA_DeleteMonitoredItemsRequest → UA_DeleteMonitoredItemsResponse × UA_ClientState)
    (sub : UA_Client_Subscription) (mon : UA_Client_MonitoredItem)
    (response : UA_DeleteMonitoredItemsResponse) (state : UA_ClientState)
    (hsub : findSubscription client subscriptionId = some sub)
    (hmon : UA_Client_MonitoredItem_find monitoredItemId sub.monitoredItems = some mon)
    (hexchange : exchange { subscriptionId := sub.subscriptionID,
                            monitoredItemIds := [mon.monitoredItemId] } = (response, state)) :
    UA_Client_Subscriptions_removeMonitoredItem client subscriptionId monitoredItemId exchange =
      if UA_Client_Subscriptions_removeMonitoredItem_retval response ≠ UA_STATUSCODE_GOOD ∧
          UA_Client_Subscriptions_removeMonitoredItem_retval response ≠
            UA_STATUSCODE_BADMONITOREDITEMIDINVALID then
        (UA_Client_Subscriptions_removeMonitoredItem_retval response,
         { client with state := state },
         [UA_Client_ServiceCall.deleteMonitoredItems
            { subscriptionId := sub.subscriptionID,
              monitoredItemIds := [mon.monitoredItemId] }])
      else
        (UA_STATUSCODE_GOOD,
         { client with
           state := state
           subscriptions :=
             UA_Client_Subscription_edit
               (fun s =>
                 { s with
                   monitoredItems :=
                     UA_Client_MonitoredItem_remove monitoredItemId s.monitoredItems })
               subscriptionId client.subscriptions },
         [UA_Client_ServiceCall.deleteMonitoredItems
            { subscriptionId := sub.subscriptionID,
              monitoredItemIds := [mon.monitoredItemId] }]) := by
  unfold UA_Client_Subscriptions_removeMonitoredItem
  rw [hsub]
  dsimp only
  rw [hmon]
  dsimp only
  unfold UA_Client_Service
  dsimp only
  rw [hexchange]

theorem UA_Client_Subscriptions_removeMonitoredItem_retval_eq
    (response : UA_DeleteMonitoredItemsResponse) :
    UA_Client_Subscriptions_removeMonitoredItem_retval response =
      if response.responseHeader.serviceResult = UA_STATUSCODE_GOOD ∧
          response.results.length > 1 then
        response.results.headD response.responseHeader.serviceResult
      else response.responseHeader.serviceResult := by
  unfold UA_Client_Subscriptions_removeMonitoredItem_retval
  cases response.results with
  | nil => rfl
  | cons first rest => rfl

/-- Claim C23: `UA_Client_Subscriptions_removeMonitoredItem` on an existing subscription and
item.  The effective code is the DeleteMonitoredItems service result, `results[0]` taking
its place only when the service result is Good and `resultsSize > 1` (with
`resultsSize <= 1` it is the service result).  If the effective code is Good or
BadMonitoredItemIdInvalid, Good is returned and the item, the first one with the id in the
first subscription with the subscription id, is unlinked while every other item and every
other subscription stays as it was; otherwise the effective code is returned and the
subscriptions with their items are unchanged. -/
theorem UA_Client_Subscriptions_removeMonitoredItem_effective (client : UA_Client)
    (subscriptionId monitoredItemId : Nat)
    (exchange :
      UA_DeleteMonitoredItemsRequest → UA_DeleteMonitoredItemsResponse × UA_ClientState)
    (sub : UA_Client_Subscription) (mon : UA_Client_MonitoredItem)
    (response : UA_DeleteMonitoredItemsResponse) (state : UA_ClientState)
    (effective : UA_StatusCode)
    (hsub : findSubscription client subscriptionId = some sub)
    (hmon : UA_Client_MonitoredItem_find monitoredItemId sub.monitoredItems = some mon)
    (hexchange : exchange { subscriptionId := sub.subscriptionID,
                            monitoredItemIds := [mon.monitoredItemId] } = (response, state))
    (heffective : effective =
      if response.responseHeader.serviceResult = UA_STATUSCODE_GOOD ∧
          response.results.length > 1 then
        response.results.headD response.responseHeader.serviceResult
      else response.responseHeader.serviceResult) :
    (response.results.length ≤ 1 → effective = response.responseHeader.serviceResult) ∧
    (effective = UA_STATUSCODE_GOOD ∨ effective = UA_STATUSCODE_BADMONITOREDITEMIDINVALID →
      (UA_Client_Subscriptions_removeMonitoredItem client subscriptionId monitoredItemId
        exchange).1 = UA_STATUSCODE_GOOD ∧
      ∃ before after pre post,
        client.subscriptions = before ++ sub :: after ∧
        (∀ s ∈ before, s.subscriptionID ≠ subscriptionId) ∧
        sub.monitoredItems = pre ++ mon :: post ∧
        (∀ m ∈ pre, m.monitoredItemId ≠ monitoredItemId) ∧
        (UA_Client_Subscriptions_removeMonitoredItem client subscriptionId monitoredItemId
          exchange).2.1.subscriptions =
          before ++ { sub with monitoredItems := pre ++ post } :: after) ∧
    (¬ (effective = UA_STATUSCODE_GOOD ∨ effective = UA_STATUSCODE_BADMONITOREDITEMIDINVALID) →
      (UA_Client_Subscriptions_removeMonitoredItem client subscriptionId monitoredItemId
        exchange).1 = effective ∧
      (UA_Client_Subscriptions_removeMonitoredItem client subscriptionId monitoredItemId
        exchange).2.1.subscriptions = client.subscriptions) := by
  have hrun := UA_Client_Subscriptions_removeMonitoredItem_found client subscriptionId
    monitoredItemId exchange sub mon response state hsub hmon hexchange
  rw [UA_Client_Subscriptions_removeMonitoredItem_retval_eq response, ← heffective] at hrun
  refine ⟨?_, ?_, ?_⟩
  · intro hsize
    rw [heffective, if_neg (fun h => absurd h.2 (Nat.not_lt.mpr hsize))]
  · intro hok
    have hcond : ¬ (effective ≠ UA_STATUSCODE_GOOD ∧
        effective ≠ UA_STATUSCODE_BADMONITOREDITEMIDINVALID) := by
      rintro ⟨h1, h2⟩
      rcases hok with h | h
      · exact h1 h
      · exact h2 h
    rw [if_neg hcond] at hrun
    rw [hrun]
    refine ⟨rfl, ?_⟩
    obtain ⟨hid, before, after, hsplit, hbefore⟩ := findSubscription_split client
      subscriptionId sub hsub
    obtain ⟨_, pre, post, hitems, hpre, hremove⟩ := UA_Client_MonitoredItem_find_split
      monitoredItemId sub.monitoredItems mon hmon
    refine ⟨before, after, pre, post, hsplit, hbefore, hitems, hpre, ?_⟩
    show UA_Client_Subscription_edit _ subscriptionId client.subscriptions = _
    rw [hsplit, UA_Client_Subscription_edit_split _ subscriptionId before after sub hid hbefore,
      hremove]
  · intro hbad
    have hcond : effective ≠ UA_STATUSCODE_GOOD ∧
        effective ≠ UA_STATUSCODE_BADMONITOREDITEMIDINVALID :=
      ⟨fun h => hbad (Or.inl h), fun h => hbad (Or.inr h)⟩
    rw [if_pos hcond] at hrun
    rw [hrun]
    exact ⟨rfl, rfl⟩

/-- Item 55 of subscription 7 is removed although the only result of the response is
BadUnexpectedError: with one result the service result, Good, is what counts.  Item 56 and
subscription 9 stay. -/
theorem UA_Client_Subscriptions_removeMonitoredItem_effective_witness :
    (UA_Client_Subscriptions_removeMonitoredItem ex_client_items 7 55
      ex_deleteMonitoredItems).1 = UA_STATUSCODE_GOOD ∧
    (UA_Client_Subscriptions_removeMonitoredItem ex_client_items 7 55
      ex_deleteMonitoredItems).2.1.subscriptions =
      [ ex_subscription 7 [ex_monitoredItem 56 43],
        ex_subscription 9 [ex_monitoredItem 70 44] ] :=
  have h := (UA_Client_Subscriptions_removeMonitoredItem_effective ex_client_items 7 55
    ex_deleteMonitoredItems
    (ex_subscription 7 [ex_monitoredItem 56 43, ex_monitoredItem 55 42])
    (ex_monitoredItem 55 42)
    { responseHeader := { serviceResult := UA_STATUSCODE_GOOD },
      results := [UA_STATUSCODE_BADUNEXPECTEDERROR] }
    3 UA_STATUSCODE_GOOD (by decide) (by decide) rfl (by decide)).2.1 (Or.inl rfl)
  ⟨h.1, by decide⟩

/-! ## Removing a subscription -/

theorem findSubscription_of_split (client : UA_Client) (subscriptionId : Nat)
    (before after : List UA_Client_Subscription) (sub : UA_Client_Subscription)
    (hsplit : client.subscriptions = before ++ sub :: after)
    (hsub : sub.subscriptionID = subscriptionId)
    (hbefore : ∀ s ∈ before, s.subscriptionID ≠ subscriptionId) :
    findSubscription client subscriptionId = some sub := by
  unfold findSubscription
  rw [hsplit]
  clear hsplit
  induction before with
  | nil =>
    show (sub :: after).find? _ = some sub
    rw [List.find?_cons, show (sub.subscriptionID == subscriptionId) = true from
      beq_iff_eq.mpr hsub]
  | cons first rest ih =>
    show (first :: (rest ++ sub :: after)).find? _ = some sub
    rw [List.find?_cons, show (first.subscriptionID == subscriptionId) = false from
      beq_eq_false_iff_ne.mpr (hbefore first (List.mem_cons_self _ _))]
    exact ih (fun s hs => hbefore s (List.mem_cons_of_mem _ hs))

theorem UA_Client_Subscription_remove_split (subscriptionId : Nat)
    (before after : List UA_Client_Subscription) (sub : UA_Client_Subscription)
    (hsub : sub.subscriptionID = subscriptionId)
    (hbefore : ∀ s ∈ before, s.subscriptionID ≠ subscriptionId) :
    UA_Client_Subscription_remove subscriptionId (before ++ sub :: after) = before ++ after := by
  induction before with
  | nil =>
    show UA_Client_Subscription_remove subscriptionId (sub :: after) = after
    unfold UA_Client_Subscription_remove
    rw [if_pos (beq_iff_eq.mpr hsub)]
  | cons first rest ih =>
    show UA_Client_Subscription_remove subscriptionId (first :: (rest ++ sub :: after)) =
      first :: (rest ++ after)
    unfold UA_Client_Subscription_remove
    have hfirst : first.subscriptionID ≠ subscriptionId := hbefore first (List.mem_cons_self _ _)
    rw [if_neg (by rw [beq_iff_eq]; exact hfirst),
      ih (fun s hs => hbefore s (List.mem_cons_of_mem _ hs))]

/-- `UA_Client_Subscriptions_forceDelete` takes the first subscription with the id out of
the list, with its monitored items, and leaves the others. -/
theorem UA_Client_Subscriptions_forceDelete_split (client : UA_Client) (subscriptionId : Nat)
    (before after : List UA_Client_Subscription) (sub : UA_Client_Subscription)
    (hsplit : client.subscriptions = before ++ sub :: after)
    (hsub : sub.subscriptionID = subscriptionId)
    (hbefore : ∀ s ∈ before, s.subscriptionID ≠ subscriptionId) :
    UA_Client_Subscriptions_forceDelete client subscriptionId =
      { client with subscriptions := before ++ after } := by
  unfold UA_Client_Subscriptions_forceDelete
  dsimp only
  rw [hsplit, UA_Client_Subscription_edit_split _ subscriptionId before after sub hsub hbefore,
    UA_Client_Subscription_remove_split subscriptionId before after
      { sub with monitoredItems := [] } hsub hbefore]

/-- The loop over the monitored items of a subscription, when it ends Good, has unlinked
every item of that subscription and has touched no other subscription. -/
theorem UA_Client_Subscriptions_remove_items_good
    (deleteMonitoredItems :
      Nat → UA_DeleteMonitoredItemsRequest → UA_DeleteMonitoredItemsResponse × UA_ClientState)
    (subscriptionId : Nat) (before after : List UA_Client_Subscription) :
    ∀ (items : List UA_Client_MonitoredItem) (k : Nat) (client : UA_Client)
      (sub : UA_Client_Subscription),
      client.subscriptions = before ++ sub :: after →
      sub.subscriptionID = subscriptionId →
      (∀ s ∈ before, s.subscriptionID ≠ subscriptionId) →
      sub.monitoredItems = items →
      (UA_Client_Subscriptions_remove_items deleteMonitoredItems subscriptionId items k
        client).1 = UA_STATUSCODE_GOOD →
      (UA_Client_Subscriptions_remove_items deleteMonitoredItems subscriptionId items k
        client).2.1.subscriptions = before ++ { sub with monitoredItems := [] } :: after := by
  intro items
  induction items with
  | nil =>
    intro k client sub hsplit _ _ hitems _
    unfold UA_Client_Subscriptions_remove_items
    show client.subscriptions = _
    rw [hsplit, ← hitems]
  | cons mon rest ih =>
    intro k client sub hsplit hid hbefore hitems hgood
    have hsub := findSubscription_of_split client subscriptionId before after sub hsplit hid
      hbefore
    have hmon : UA_Client_MonitoredItem_find mon.monitoredItemId sub.monitoredItems =
        some mon := by
      rw [hitems]
      unfold UA_Client_MonitoredItem_find
      rw [if_pos (beq_iff_eq.mpr rfl)]
    have hremoved := UA_Client_Subscriptions_removeMonitoredItem_found client subscriptionId
      mon.monitoredItemId (deleteMonitoredItems k) sub mon
      (deleteMonitoredItems k { subscriptionId := sub.subscriptionID,
                                monitoredItemIds := [mon.monitoredItemId] }).1
      (deleteMonitoredItems k { subscriptionId := sub.subscriptionID,
                                monitoredItemIds := [mon.monitoredItemId] }).2
      hsub hmon rfl
    unfold UA_Client_Subscriptions_remove_items at hgood ⊢
    dsimp only at hgood ⊢
    generalize UA_Client_Subscriptions_removeMonitoredItem client subscriptionId
      mon.monitoredItemId (deleteMonitoredItems k) = removed at hremoved hgood ⊢
    by_cases hfirst : removed.1 = UA_STATUSCODE_GOOD
    · rw [if_neg (fun hne => hne hfirst)] at hgood ⊢
      dsimp only at hgood ⊢
      split at hremoved
      · rename_i hbad
        rw [hremoved] at hfirst
        exact absurd hfirst hbad.1
      · have hclient : removed.2.1.subscriptions =
            before ++ { sub with monitoredItems := rest } :: after := by
          rw [hremoved]
          show UA_Client_Subscription_edit _ subscriptionId client.subscriptions = _
          rw [hsplit, UA_Client_Subscription_edit_split _ subscriptionId before after sub hid
            hbefore]
          rw [hitems]
          unfold UA_Client_MonitoredItem_remove
          rw [if_pos (beq_iff_eq.mpr rfl)]
        exact ih (k + 1) removed.2.1 { sub with monitoredItems := rest } hclient hid hbefore
          rfl hgood
    · rw [if_pos hfirst] at hgood
      exact absurd hgood hfirst

theorem UA_Client_Subscriptions_remove_retval_eq (response : UA_DeleteSubscriptionsResponse) :
    UA_Client_Subscriptions_remove_retval response =
      if response.responseHeader.serviceResult = UA_STATUSCODE_GOOD ∧
          response.results.length > 0 then
        response.results.headD response.responseHeader.serviceResult
      else response.responseHeader.serviceResult := by
  unfold UA_Client_Subscriptions_remove_retval
  cases response.results with
  | nil => rfl
  | cons first rest => rfl

/-- Claim C24: `UA_Client_Subscriptions_remove`.  An unknown subscription id returns
BadSubscriptionIdInvalid, the client as it was and no request handed to the transport.  For
a known subscription whose monitored items are all removed successfully: the outcome of
DeleteSubscriptions is the service result, or `results[0]` when the service result is Good
and `resultsSize > 0`; if it is Good or BadSubscriptionIdInvalid, Good is returned and the
subscription (with its monitored items) is out of the list of the client, the other
subscriptions being unchanged; for any other outcome that code is returned and the
subscription is still in the list. -/
theorem UA_Client_Subscriptions_remove_outcome (client : UA_Client) (subscriptionId : Nat)
    (deleteMonitoredItems :
      Nat → UA_DeleteMonitoredItemsRequest → UA_DeleteMonitoredItemsResponse × UA_ClientState)
    (deleteSubscriptions :
      UA_DeleteSubscriptionsRequest → UA_DeleteSubscriptionsResponse × UA_ClientState) :
    (findSubscription client subscriptionId = none →
      UA_Client_Subscriptions_remove client subscriptionId deleteMonitoredItems
        deleteSubscriptions = (UA_STATUSCODE_BADSUBSCRIPTIONIDINVALID, client, [])) ∧
    (∀ (sub : UA_Client_Subscription) (response : UA_DeleteSubscriptionsResponse)
      (state : UA_ClientState) (outcome : UA_StatusCode),
      findSubscription client subscriptionId = some sub →
      (UA_Client_Subscriptions_remove_items deleteMonitoredItems sub.subscriptionID
        sub.monitoredItems 0 client).1 = UA_STATUSCODE_GOOD →
      deleteSubscriptions { subscriptionIds := [sub.subscriptionID] } = (response, state) →
      outcome =
        (if response.responseHeader.serviceResult = UA_STATUSCODE_GOOD ∧
            response.results.length > 0 then
          response.results.headD response.responseHeader.serviceResult
        else response.responseHeader.serviceResult) →
      ∃ before after,
        client.subscriptions = before ++ sub :: after ∧
        (∀ s ∈ before, s.subscriptionID ≠ subscriptionId) ∧
        (outcome = UA_STATUSCODE_GOOD ∨ outcome = UA_STATUSCODE_BADSUBSCRIPTIONIDINVALID →
          (UA_Client_Subscriptions_remove client subscriptionId deleteMonitoredItems
            deleteSubscriptions).1 = UA_STATUSCODE_GOOD ∧
          (UA_Client_Subscriptions_remove client subscriptionId deleteMonitoredItems
            deleteSubscriptions).2.1.subscriptions = before ++ after) ∧
        (¬ (outcome = UA_STATUSCODE_GOOD ∨
              outcome = UA_STATUSCODE_BADSUBSCRIPTIONIDINVALID) →
          (UA_Client_Subscriptions_remove client subscriptionId deleteMonitoredItems
            deleteSubscriptions).1 = outcome ∧
          (UA_Client_Subscriptions_remove client subscriptionId deleteMonitoredItems
            deleteSubscriptions).2.1.subscriptions =
            before ++ { sub with monitoredItems := [] } :: after)) := by
  constructor
  · intro hnone
    unfold UA_Client_Subscriptions_remove
    rw [hnone]
  · intro sub response state outcome hsub hitems hexchange houtcome
    obtain ⟨hid, before, after, hsplit, hbefore⟩ := findSubscription_split client
      subscriptionId sub hsub
    have hid' : ∀ s ∈ before, s.subscriptionID ≠ sub.subscriptionID := by
      rw [hid]; exact hbefore
    have hafter := UA_Client_Subscriptions_remove_items_good deleteMonitoredItems
      sub.subscriptionID before after sub.monitoredItems 0 client sub hsplit rfl hid' rfl hitems
    have hrun : UA_Client_Subscriptions_remove client subscriptionId deleteMonitoredItems
        deleteSubscriptions =
        if outcome ≠ UA_STATUSCODE_GOOD ∧ outcome ≠ UA_STATUSCODE_BADSUBSCRIPTIONIDINVALID then
          (outcome,
           { (UA_Client_Subscriptions_remove_items deleteMonitoredItems sub.subscriptionID
               sub.monitoredItems 0 client).2.1 with state := state },
           (UA_Client_Subscriptions_remove_items deleteMonitoredItems sub.subscriptionID
               sub.monitoredItems 0 client).2.2 ++
             [UA_Client_ServiceCall.deleteSubscriptions
               { subscriptionIds := [sub.subscriptionID] }])
        else
          (UA_STATUSCODE_GOOD,
           UA_Client_Subscriptions_forceDelete
             { (UA_Client_Subscriptions_remove_items deleteMonitoredItems sub.subscriptionID
                 sub.monitoredItems 0 client).2.1 with state := state } sub.subscriptionID,
           (UA_Client_Subscriptions_remove_items deleteMonitoredItems sub.subscriptionID
               sub.monitoredItems 0 client).2.2 ++
             [UA_Client_ServiceCall.deleteSubscriptions
               { subscriptionIds := [sub.subscriptionID] }]) := by
      unfold UA_Client_Subscriptions_remove
      rw [hsub]
      dsimp only
      rw [if_neg (fun hne => hne hitems)]
      unfold UA_Client_Service
      dsimp only
      rw [show ({ UA_DeleteSubscriptionsRequest_init with
                  subscriptionIds := [sub.subscriptionID] } : UA_DeleteSubscriptionsRequest) =
        { subscriptionIds := [sub.subscriptionID] } from rfl, hexchange,
        UA_Client_Subscriptions_remove_retval_eq response, ← houtcome]
    refine ⟨before, after, hsplit, hbefore, ?_, ?_⟩
    · intro hok
      have hcond : ¬ (outcome ≠ UA_STATUSCODE_GOOD ∧
          outcome ≠ UA_STATUSCODE_BADSUBSCRIPTIONIDINVALID) := by
        rintro ⟨h1, h2⟩
        rcases hok with h | h
        · exact h1 h
        · exact h2 h
      rw [hrun, if_neg hcond]
      refine ⟨rfl, ?_⟩
      exact congrArg UA_Client.subscriptions
        (UA_Client_Subscriptions_forceDelete_split
          { (UA_Client_Subscriptions_remove_items deleteMonitoredItems sub.subscriptionID
              sub.monitoredItems 0 client).2.1 with state := state }
          sub.subscriptionID before after { sub with monitoredItems := [] } hafter rfl hid')
    · intro hbad
      have hcond : outcome ≠ UA_STATUSCODE_GOOD ∧
          outcome ≠ UA_STATUSCODE_BADSUBSCRIPTIONIDINVALID :=
        ⟨fun h => hbad (Or.inl h), fun h => hbad (Or.inr h)⟩
      rw [hrun, if_pos hcond]
      exact ⟨rfl, hafter⟩

/-- Subscription 7 with its two items is removed from `ex_client_items`: two
DeleteMonitoredItems requests and one DeleteSubscriptions request go out, the server no
longer knows the subscription (BadSubscriptionIdInvalid), Good is returned and subscription
9 is what the client is left with. -/
theorem UA_Client_Subscriptions_remove_outcome_witness :
    UA_Client_Subscriptions_remove ex_client_items 7 (fun _ => ex_deleteMonitoredItems)
        ex_deleteSubscriptions =
      (UA_STATUSCODE_GOOD,
       { ex_client_items with
         subscriptions := [ex_subscription 9 [ex_monitoredItem 70 44]] },
       [ UA_Client_ServiceCall.deleteMonitoredItems
           { subscriptionId := 7, monitoredItemIds := [56] },
         UA_Client_ServiceCall.deleteMonitoredItems
           { subscriptionId := 7, monitoredItemIds := [55] },
         UA_Client_ServiceCall.deleteSubscriptions { subscriptionIds := [7] } ]) ∧
    ∃ before after,
      ex_client_items.subscriptions =
        before ++ ex_subscription 7 [ex_monitoredItem 56 43, ex_monitoredItem 55 42] :: after ∧
      (UA_Client_Subscriptions_remove ex_client_items 7 (fun _ => ex_deleteMonitoredItems)
        ex_deleteSubscriptions).2.1.subscriptions = before ++ after :=
  have h := (UA_Client_Subscriptions_remove_outcome ex_client_items 7
    (fun _ => ex_deleteMonitoredItems) ex_deleteSubscriptions).2
    (ex_subscription 7 [ex_monitoredItem 56 43, ex_monitoredItem 55 42])
    { responseHeader := { serviceResult := UA_STATUSCODE_GOOD },
      results := [UA_STATUSCODE_BADSUBSCRIPTIONIDINVALID] }
    3 UA_STATUSCODE_BADSUBSCRIPTIONIDINVALID (by decide) (by decide) rfl (by decide)
  ⟨by decide,
   h.elim (fun before hb => hb.elim (fun after ha =>
     ⟨before, after, ha.1, (ha.2.2.1 (Or.inr rfl)).2⟩))⟩

/-! ## The ledger of pending acknowledgements -/

theorem UA_Client_NotificationsAckNumber_remove_eq (orig_ack : UA_SubscriptionAcknowledgement)
    (pending : List UA_SubscriptionAcknowledgement) :
    UA_Client_NotificationsAckNumber_remove orig_ack pending = pending.erase orig_ack := by
  induction pending with
  | nil => rfl
  | cons ack rest ih =>
    unfold UA_Client_NotificationsAckNumber_remove
    by_cases hsame : ack = orig_ack
    · rw [hsame, if_pos (by simp), List.erase_cons_head]
    · have hcond : ¬ ((ack.subscriptionId == orig_ack.subscriptionId &&
          ack.sequenceNumber == orig_ack.sequenceNumber) = true) := by
        intro h
        rw [Bool.and_eq_true, beq_iff_eq, beq_iff_eq] at h
        apply hsame
        cases ack
        cases orig_ack
        simp only at h
        rw [h.1, h.2]
      rw [if_neg hcond, ih, List.erase_cons_tail (by simpa using hsame)]

/-- On a ledger without duplicates the first loop of `UA_Client_processPublishResponse`
leaves the entries that the response does not report as settled. -/
theorem UA_Client_processPublishResponse_acks_filter :
    ∀ (results : List UA_StatusCode) (acknowledgements pending :
        List UA_SubscriptionAcknowledgement),
      pending.Nodup →
      UA_Client_processPublishResponse_acks results acknowledgements pending =
        pending.filter (fun ack =>
          decide (ack ∉ UA_Client_processPublishResponse_acknowledged results
            acknowledgements)) := by
  intro results
  induction results with
  | nil =>
    intro acknowledgements pending _
    unfold UA_Client_processPublishResponse_acks
      UA_Client_processPublishResponse_acknowledged
    simp
  | cons result results ih =>
    intro acknowledgements pending hnodup
    cases acknowledgements with
    | nil =>
      unfold UA_Client_processPublishResponse_acks
        UA_Client_processPublishResponse_acknowledged
      simp
    | cons orig_ack acknowledgements =>
      unfold UA_Client_processPublishResponse_acks
        UA_Client_processPublishResponse_acknowledged
      by_cases hskip : result ≠ UA_STATUSCODE_GOOD ∧
          result ≠ UA_STATUSCODE_BADSEQUENCENUMBERUNKNOWN
      · rw [if_pos hskip, if_pos hskip]
        exact ih acknowledgements pending hnodup
      · rw [if_neg hskip, if_neg hskip, UA_Client_NotificationsAckNumber_remove_eq,
          ih acknowledgements (pending.erase orig_ack) (hnodup.erase orig_ack),
          hnodup.erase_eq_filter, List.filter_filter]
        apply List.filter_congr
        intro ack _
        by_cases hsame : ack = orig_ack
        · simp [hsame]
        · simp [hsame]

/-- An acknowledgement is reported as settled exactly when some index holds it in the
request and a Good or BadSequenceNumberUnknown result in the response. -/
theorem UA_Client_processPublishResponse_acknowledged_mem
    (ack : UA_SubscriptionAcknowledgement) :
    ∀ (results : List UA_StatusCode) (acknowledgements : List UA_SubscriptionAcknowledgement),
      ack ∈ UA_Client_processPublishResponse_acknowledged results acknowledgements ↔
        ∃ (i : Nat) (result : UA_StatusCode),
          results[i]? = some result ∧ acknowledgements[i]? = some ack ∧
          (result = UA_STATUSCODE_GOOD ∨ result = UA_STATUSCODE_BADSEQUENCENUMBERUNKNOWN) := by
  intro results
  induction results with
  | nil =>
    intro acknowledgements
    unfold UA_Client_processPublishResponse_acknowledged
    simp
  | cons first results ih =>
    intro acknowledgements
    cases acknowledgements with
    | nil =>
      unfold UA_Client_processPublishResponse_acknowledged
      simp
    | cons orig_ack acknowledgements =>
      unfold UA_Client_processPublishResponse_acknowledged
      have hrest := ih acknowledgements
      constructor
      · intro hmem
        by_cases hskip : first ≠ UA_STATUSCODE_GOOD ∧
            first ≠ UA_STATUSCODE_BADSEQUENCENUMBERUNKNOWN
        · rw [if_pos hskip] at hmem
          obtain ⟨i, result, hr, ha, hok⟩ := hrest.mp hmem
          exact ⟨i + 1, result, by simpa using hr, by simpa using ha, hok⟩
        · rw [if_neg hskip] at hmem
          rcases List.mem_cons.mp hmem with hhead | htail
          · refine ⟨0, first, by simp, by rw [hhead]; simp, ?_⟩
            by_contra hno
            exact hskip ⟨fun h => hno (Or.inl h), fun h => hno (Or.inr h)⟩
          · obtain ⟨i, result, hr, ha, hok⟩ := hrest.mp htail
            exact ⟨i + 1, result, by simpa using hr, by simpa using ha, hok⟩
      · rintro ⟨i, result, hr, ha, hok⟩
        cases i with
        | zero =>
          have hfirst : first = result := by simpa using hr
          have hack : orig_ack = ack := by simpa using ha
          have hskip : ¬ (first ≠ UA_STATUSCODE_GOOD ∧
              first ≠ UA_STATUSCODE_BADSEQUENCENUMBERUNKNOWN) := by
            rw [hfirst]
            rintro ⟨h1, h2⟩
            rcases hok with h | h
            · exact h1 h
            · exact h2 h
          rw [if_neg hskip, hack]
          exact List.mem_cons_self _ _
        | succ j =>
          have hin : ack ∈ UA_Client_processPublishResponse_acknowledged results
              acknowledgements :=
            hrest.mpr ⟨j, result, by simpa using hr, by simpa using ha, hok⟩
          by_cases hskip : first ≠ UA_STATUSCODE_GOOD ∧
              first ≠ UA_STATUSCODE_BADSEQUENCENUMBERUNKNOWN
          · rw [if_pos hskip]; exact hin
          · rw [if_neg hskip]; exact List.mem_cons_of_mem _ hin

/-- What `UA_Client_processPublishResponse` does with a Good response for a known
subscription. -/
theorem UA_Client_processPublishResponse_processed (client : UA_Client)
    (request : UA_PublishRequest) (response : UA_PublishResponse)
    (sub : UA_Client_Subscription)
    (hgood : response.responseHeader.serviceResult = UA_STATUSCODE_GOOD)
    (hsub : findSubscription client response.subscriptionId = some sub) :
    UA_Client_processPublishResponse client request response =
      ({ client with
         pendingNotificationsAcks :=
           { sequenceNumber := response.notificationMessage.sequenceNumber,
             subscriptionId := sub.subscriptionID } ::
             UA_Client_processPublishResponse_acks response.results
               request.subscriptionAcknowledgements client.pendingNotificationsAcks },
       UA_Client_processPublishResponse_notifications sub
         response.notificationMessage.notificationData) := by
  unfold UA_Client_processPublishResponse
  rw [if_neg (fun hne => hne hgood), hsub]

/-- Claim C25, as stated, fails when a sequence number is delivered again while its
acknowledgement is pending: the client holds `{7, 42}` from a first response; a second Good
response for subscription 7 carries sequence number 42 once more and no result for the
acknowledgement sent; the ledger then holds the entry `{7, 42}` twice. -/
theorem UA_Client_processPublishResponse_delivered_twice :
    ex_client_delivered.pendingNotificationsAcks =
      [{ subscriptionId := 7, sequenceNumber := 42 }] ∧
    (UA_Client_processPublishResponse ex_client_delivered
      { subscriptionAcknowledgements := ex_client_delivered.pendingNotificationsAcks }
      (ex_publishResponse 42 [] [] false)).1.pendingNotificationsAcks =
      [{ subscriptionId := 7, sequenceNumber := 42 },
       { subscriptionId := 7, sequenceNumber := 42 }] ∧
    ((UA_Client_processPublishResponse ex_client_delivered
      { subscriptionAcknowledgements := ex_client_delivered.pendingNotificationsAcks }
      (ex_publishResponse 42 [] [] false)).1.pendingNotificationsAcks.count
        { subscriptionId := 7, sequenceNumber := 42 }) = 2 := by
  refine ⟨by decide, by decide, by decide⟩

/-- The ledger after a Good response for a known subscription, the request having carried
the ledger and the ledger holding no entry twice: the new entry followed by the old entries
that the response does not report as settled. -/
theorem UA_Client_processPublishResponse_ledger (client : UA_Client)
    (request : UA_PublishRequest) (response : UA_PublishResponse)
    (sub : UA_Client_Subscription)
    (hgood : response.responseHeader.serviceResult = UA_STATUSCODE_GOOD)
    (hsub : findSubscription client response.subscriptionId = some sub)
    (hrequest : request.subscriptionAcknowledgements = client.pendingNotificationsAcks)
    (hnodup : client.pendingNotificationsAcks.Nodup) :
    (UA_Client_processPublishResponse client request response).1.pendingNotificationsAcks =
      { sequenceNumber := response.notificationMessage.sequenceNumber,
        subscriptionId := sub.subscriptionID } ::
        client.pendingNotificationsAcks.filter (fun ack =>
          decide (ack ∉ UA_Client_processPublishResponse_acknowledged response.results
            client.pendingNotificationsAcks)) := by
  rw [UA_Client_processPublishResponse_processed client request response sub hgood hsub]
  show _ :: UA_Client_processPublishResponse_acks _ _ _ = _
  rw [hrequest, UA_Client_processPublishResponse_acks_filter _ _ _ hnodup]

/-- Claim C25: one step of the ledger of pending acknowledgements, from which the closure
along a sequence of responses follows.  `UA_Client_processPublishResponse` handles a Good
response for a known subscription `sub` that answers a request carrying the ledger; the
ledger holds no entry twice and does not yet hold the pair of `sub` and the delivered
sequence number.  Then the ledger still holds no entry twice; it holds the delivered pair
exactly once; an entry whose acknowledgement the response reports with Good or
BadSequenceNumberUnknown (the result at the index of the entry) is no longer in the ledger;
every other entry is still there, exactly once. -/
theorem UA_Client_processPublishResponse_ledger_closure (client : UA_Client)
    (request : UA_PublishRequest) (response : UA_PublishResponse)
    (sub : UA_Client_Subscription)
    (hgood : response.responseHeader.serviceResult = UA_STATUSCODE_GOOD)
    (hsub : findSubscription client response.subscriptionId = some sub)
    (hrequest : request.subscriptionAcknowledgements = client.pendingNotificationsAcks)
    (hnodup : client.pendingNotificationsAcks.Nodup)
    (hfresh : ({ sequenceNumber := response.notificationMessage.sequenceNumber,
                 subscriptionId := sub.subscriptionID } : UA_SubscriptionAcknowledgement) ∉
      client.pendingNotificationsAcks) :
    (UA_Client_processPublishResponse client request response).1.pendingNotificationsAcks.Nodup ∧
    (UA_Client_processPublishResponse client request response).1.pendingNotificationsAcks.count
      { sequenceNumber := response.notificationMessage.sequenceNumber,
        subscriptionId := sub.subscriptionID } = 1 ∧
    ∀ (i : Nat) (entry : UA_SubscriptionAcknowledgement),
      client.pendingNotificationsAcks[i]? = some entry →
      ((∃ result, response.results[i]? = some result ∧
          (result = UA_STATUSCODE_GOOD ∨ result = UA_STATUSCODE_BADSEQUENCENUMBERUNKNOWN)) →
        entry ∉
          (UA_Client_processPublishResponse client request response).1.pendingNotificationsAcks) ∧
      (¬ (∃ result, response.results[i]? = some result ∧
          (result = UA_STATUSCODE_GOOD ∨ result = UA_STATUSCODE_BADSEQUENCENUMBERUNKNOWN)) →
        (UA_Client_processPublishResponse client request
          response).1.pendingNotificationsAcks.count entry = 1) := by
  have hledger := UA_Client_processPublishResponse_ledger client request response sub hgood
    hsub hrequest hnodup
  have hnew : (UA_Client_processPublishResponse client request
      response).1.pendingNotificationsAcks.Nodup := by
    rw [hledger]
    refine List.nodup_cons.mpr ⟨?_, hnodup.filter _⟩
    intro hmem
    exact hfresh (List.mem_of_mem_filter hmem)
  refine ⟨hnew, ?_, ?_⟩
  · apply List.count_eq_one_of_mem hnew
    rw [hledger]
    exact List.mem_cons_self _ _
  · intro i entry hentry
    have hin : entry ∈ client.pendingNotificationsAcks := List.getElem?_mem hentry
    constructor
    · rintro ⟨result, hresult, hok⟩ hmem
      rw [hledger] at hmem
      rcases List.mem_cons.mp hmem with hhead | htail
      · rw [hhead] at hin
        exact hfresh hin
      · have hnot := (List.mem_filter.mp htail).2
        rw [decide_eq_true_eq] at hnot
        exact hnot ((UA_Client_processPublishResponse_acknowledged_mem entry response.results
          client.pendingNotificationsAcks).mpr ⟨i, result, hresult, hentry, hok⟩)
    · intro hnone
      apply List.count_eq_one_of_mem hnew
      rw [hledger]
      apply List.mem_cons_of_mem
      rw [List.mem_filter]
      refine ⟨hin, ?_⟩
      rw [decide_eq_true_eq]
      intro hreported
      obtain ⟨j, result, hresult, hat, hok⟩ :=
        (UA_Client_processPublishResponse_acknowledged_mem entry response.results
          client.pendingNotificationsAcks).mp hreported
      have hij : i = j := by
        have hi : i < client.pendingNotificationsAcks.length :=
          (List.getElem?_eq_some_iff.mp hentry).1
        exact List.getElem?_inj hi hnodup (hentry.trans hat.symm)
      rw [← hij] at hresult
      exact hnone ⟨result, hresult, hok⟩

/-- The client holds `{7, 42}`; the next response reports that acknowledgement with
BadSequenceNumberUnknown and delivers sequence number 43: the ledger then holds `{7, 43}`
once and `{7, 42}` no more. -/
theorem UA_Client_processPublishResponse_ledger_closure_witness :
    ex_client_delivered.pendingNotificationsAcks =
      [{ subscriptionId := 7, sequenceNumber := 42 }] ∧
    (UA_Client_processPublishResponse ex_client_delivered
      { subscriptionAcknowledgements := ex_client_delivered.pendingNotificationsAcks }
      (ex_publishResponse 43 [UA_STATUSCODE_BADSEQUENCENUMBERUNKNOWN] []
        false)).1.pendingNotificationsAcks.count
        { sequenceNumber := 43, subscriptionId := 7 } = 1 ∧
    ({ subscriptionId := 7, sequenceNumber := 42 } : UA_SubscriptionAcknowledgement) ∉
      (UA_Client_processPublishResponse ex_client_delivered
        { subscriptionAcknowledgements := ex_client_delivered.pendingNotificationsAcks }
        (ex_publishResponse 43 [UA_STATUSCODE_BADSEQUENCENUMBERUNKNOWN] []
          false)).1.pendingNotificationsAcks :=
  have h := UA_Client_processPublishResponse_ledger_closure ex_client_delivered
    { subscriptionAcknowledgements := ex_client_delivered.pendingNotificationsAcks }
    (ex_publishResponse 43 [UA_STATUSCODE_BADSEQUENCENUMBERUNKNOWN] [] false)
    (ex_subscription 7 [ex_monitoredItem 56 43, ex_monitoredItem 55 42])
    rfl (by decide) rfl (by decide) (by decide)
  ⟨by decide, h.2.1,
   (h.2.2 0 { subscriptionId := 7, sequenceNumber := 42 } (by decide)).1
     ⟨UA_STATUSCODE_BADSEQUENCENUMBERUNKNOWN, by decide, Or.inr rfl⟩⟩

/-! ## Routing by client handle -/

theorem UA_Client_MonitoredItem_findHandle_eq (clientHandle : Nat)
    (items : List UA_Client_MonitoredItem) :
    UA_Client_MonitoredItem_findHandle clientHandle items =
      items.find? (fun mon => mon.clientHandle == clientHandle) := by
  induction items with
  | nil => rfl
  | cons mon rest ih =>
    unfold UA_Client_MonitoredItem_findHandle
    rw [List.find?_cons]
    cases hmatch : mon.clientHandle == clientHandle with
    | true => rw [if_pos rfl]
    | false => rw [if_neg (by decide), ih]

/-- With pairwise distinct client handles the search by client handle finds the one item
that has the handle. -/
theorem UA_Client_MonitoredItem_findHandle_unique (items : List UA_Client_MonitoredItem)
    (hdistinct : (items.map (fun mon => mon.clientHandle)).Nodup)
    (mon : UA_Client_MonitoredItem) (hmem : mon ∈ items) :
    UA_Client_MonitoredItem_findHandle mon.clientHandle items = some mon := by
  induction items with
  | nil => exact absurd hmem (List.not_mem_nil mon)
  | cons first rest ih =>
    unfold UA_Client_MonitoredItem_findHandle
    rw [List.map_cons, List.nodup_cons] at hdistinct
    rcases List.mem_cons.mp hmem with hhead | htail
    · rw [hhead, if_pos (beq_iff_eq.mpr rfl)]
    · have hne : first.clientHandle ≠ mon.clientHandle := by
        intro hsame
        apply hdistinct.1
        rw [hsame]
        exact List.mem_map_of_mem (fun m : UA_Client_MonitoredItem => m.clientHandle) htail
      rw [if_neg (by rw [beq_iff_eq]; exact hne)]
      exact ih hdistinct.2 htail

/-- The loop over a data change notification makes the invocations the notifications are
routed to, in order, and only data-change invocations. -/
theorem UA_Client_processPublishResponse_dataChange_eq (sub : UA_Client_Subscription)
    (monitoredItems : List UA_MonitoredItemNotification) :
    UA_Client_processPublishResponse_dataChange sub monitoredItems =
      monitoredItems.filterMap (UA_Client_Subscription_route_spec sub) ∧
    (UA_Client_processPublishResponse_dataChange sub monitoredItems).filter
      UA_Client_HandlerCall_isDataChange =
      UA_Client_processPublishResponse_dataChange sub monitoredItems := by
  induction monitoredItems with
  | nil => exact ⟨rfl, rfl⟩
  | cons mitemNot rest ih =>
    unfold UA_Client_processPublishResponse_dataChange
    rw [List.filterMap_cons]
    unfold UA_Client_Subscription_route_spec
    rw [UA_Client_MonitoredItem_findHandle_eq]
    cases sub.monitoredItems.find? (fun mon => mon.clientHandle == mitemNot.clientHandle) with
    | none => exact ih
    | some mon =>
      dsimp only [Option.map]
      refine ⟨by rw [ih.1]; rfl, ?_⟩
      rw [List.filter_cons_of_pos (by rfl), ih.2]

/-- The loop over an event notification list makes no data-change invocation. -/
theorem UA_Client_processPublishResponse_events_filter (sub : UA_Client_Subscription)
    (events : List UA_EventFieldList) :
    (UA_Client_processPublishResponse_events sub events).filter
      UA_Client_HandlerCall_isDataChange = [] := by
  induction events with
  | nil => rfl
  | cons eventFieldList rest ih =>
    unfold UA_Client_processPublishResponse_events
    cases UA_Client_MonitoredItem_findHandle eventFieldList.clientHandle sub.monitoredItems with
    | none => exact ih
    | some mon =>
      dsimp only
      rw [List.filter_cons_of_neg (by simp [UA_Client_HandlerCall_isDataChange]), ih]

/-- The data-change invocations of the notification loop, in terms of the reference
definitions. -/
theorem UA_Client_processPublishResponse_notifications_dataChange
    (sub : UA_Client_Subscription) (notificationData : List UA_NotificationData) :
    (UA_Client_processPublishResponse_notifications sub notificationData).filter
      UA_Client_HandlerCall_isDataChange =
      (notificationData.flatMap (fun notification =>
        if notification.encoding = UA_EXTENSIONOBJECT_DECODED then
          match notification.decoded with
          | UA_NotificationData_decoded.dataChangeNotification monitoredItems => monitoredItems
          | _ => []
        else [])).filterMap (UA_Client_Subscription_route_spec sub) := by
  induction notificationData with
  | nil => rfl
  | cons notification rest ih =>
    unfold UA_Client_processPublishResponse_notifications
    rw [List.flatMap_cons, List.filterMap_append, ← ih]
    by_cases hdecoded : notification.encoding = UA_EXTENSIONOBJECT_DECODED
    · rw [if_neg (fun hne => hne hdecoded), if_pos hdecoded]
      cases notification.decoded with
      | dataChangeNotification monitoredItems =>
        dsimp only
        rw [List.filter_append,
          (UA_Client_processPublishResponse_dataChange_eq sub monitoredItems).2,
          (UA_Client_processPublishResponse_dataChange_eq sub monitoredItems).1]
      | eventNotificationList events =>
        dsimp only
        rw [List.filter_append, UA_Client_processPublishResponse_events_filter]
        rfl
      | other typeIndex => rfl
    · rw [if_pos hdecoded, if_neg hdecoded]
      rfl

/-- Claim C26: client-handle routing.  For a Good PublishResponse on a known subscription
whose monitored items have pairwise distinct client handles, the data-change handler
invocations `UA_Client_processPublishResponse` makes are, in array order (index in
`notificationData`, then index in `monitoredItems`), those of the monitored-item
notifications whose client handle is that of a monitored item of the subscription, one
invocation each, with the id (handler and context) of that item and the value of the
notification; a notification whose client handle no item has causes no invocation. -/
theorem UA_Client_processPublishResponse_routing (client : UA_Client)
    (request : UA_PublishRequest) (response : UA_PublishResponse)
    (sub : UA_Client_Subscription)
    (hgood : response.responseHeader.serviceResult = UA_STATUSCODE_GOOD)
    (hsub : findSubscription client response.subscriptionId = some sub)
    (hdistinct : (sub.monitoredItems.map (fun mon => mon.clientHandle)).Nodup) :
    (UA_Client_processPublishResponse client request response).2.filter
      UA_Client_HandlerCall_isDataChange =
      (UA_PublishResponse_monitoredItemNotifications_spec response).filterMap
        (UA_Client_Subscription_route_spec sub) ∧
    (∀ (mitemNot : UA_MonitoredItemNotification) (mon : UA_Client_MonitoredItem),
      mon ∈ sub.monitoredItems → mon.clientHandle = mitemNot.clientHandle →
      UA_Client_Subscription_route_spec sub mitemNot =
        some (UA_Client_HandlerCall.dataChange mon.handler mon.monitoredItemId mitemNot.value
          mon.handlerContext)) ∧
    (∀ mitemNot : UA_MonitoredItemNotification,
      (∀ mon ∈ sub.monitoredItems, mon.clientHandle ≠ mitemNot.clientHandle) →
      UA_Client_Subscription_route_spec sub mitemNot = none) := by
  refine ⟨?_, ?_, ?_⟩
  · rw [UA_Client_processPublishResponse_processed client request response sub hgood hsub]
    exact UA_Client_processPublishResponse_notifications_dataChange sub
      response.notificationMessage.notificationData
  · intro mitemNot mon hmem hhandle
    unfold UA_Client_Subscription_route_spec
    rw [← UA_Client_MonitoredItem_findHandle_eq, ← hhandle,
      UA_Client_MonitoredItem_findHandle_unique sub.monitoredItems hdistinct mon hmem]
    rfl
  · intro mitemNot hnone
    unfold UA_Client_Subscription_route_spec
    rw [List.find?_eq_none.mpr (fun mon hmem => by
      rw [beq_iff_eq]; exact hnone mon hmem)]
    rfl

/-- Subscription 7 of `ex_client_items` has the items 56 and 55 with the client handles 43
and 42.  The response notifies the handles 42, 99 and 43: the handler is invoked for item
55 with the first value and for item 56 with the third; handle 99 leads to no invocation,
and neither does the event for handle 44, which belongs to subscription 9. -/
theorem UA_Client_processPublishResponse_routing_witness :
    (UA_Client_processPublishResponse ex_client_items { subscriptionAcknowledgements := [] }
      (ex_publishResponse 42 [] ex_notificationData false)).2 =
      [ UA_Client_HandlerCall.dataChange (some 1) 55 (ex_dataValue 1) 9,
        UA_Client_HandlerCall.dataChange (some 1) 56 (ex_dataValue 3) 9 ] ∧
    (UA_Client_processPublishResponse ex_client_items { subscriptionAcknowledgements := [] }
      (ex_publishResponse 42 [] ex_notificationData false)).2.filter
      UA_Client_HandlerCall_isDataChange =
      (UA_PublishResponse_monitoredItemNotifications_spec
        (ex_publishResponse 42 [] ex_notificationData false)).filterMap
        (UA_Client_Subscription_route_spec
          (ex_subscription 7 [ex_monitoredItem 56 43, ex_monitoredItem 55 42])) :=
  ⟨by decide,
   (UA_Client_processPublishResponse_routing ex_client_items
     { subscriptionAcknowledgements := [] }
     (ex_publishResponse 42 [] ex_notificationData false)
     (ex_subscription 7 [ex_monitoredItem 56 43, ex_monitoredItem 55 42])
     rfl (by decide) (by decide)).1⟩

/-! ## Event handlers -/

/-- Claim C27 at a failing input: an event item is registered with handler 5 and context 9
on a block whose `handlerContext` member holds 0; the item stores the context in
`handlerEventsContext`.  When an event for the client handle of the item (42) arrives,
`UA_Client_processPublishResponse` invokes handler 5 with the id 55 and the field of the
event, but with `handlerContext`, 0, not with the context 9 supplied at registration. -/
theorem UA_Client_processPublishResponse_event_context :
    (UA_Client_Subscriptions_addMonitoredEvent ex_client 7 (ex_id 3001) 12 [1] [] (some 5) 9
      ex_block ex_createMonitoredItems).map (fun r => (r.1, r.2.2)) =
      some (UA_STATUSCODE_GOOD, some 55) ∧
    (findSubscription ex_client_event 7).map (fun sub => sub.monitoredItems.map (fun mon =>
      (mon.monitoredItemId, mon.clientHandle, mon.handlerEvents, mon.handlerEventsContext,
        mon.handlerContext))) = some [(55, 42, some 5, 9, 0)] ∧
    (UA_Client_processPublishResponse ex_client_event { subscriptionAcknowledgements := [] }
      (ex_publishResponse 42 [] ex_eventData false)).2 =
      [UA_Client_HandlerCall.event (some 5) 55 1 [(ex_dataValue 17).value] 0] := by
  refine ⟨by decide, by decide, by decide⟩

/-! ## The publish loop -/

/-- The second pass over the pending acknowledgements appends them, in order, to what is
already written. -/
theorem UA_PublishRequest_subscriptionAcknowledgements_append :
    ∀ (pending written : List UA_SubscriptionAcknowledgement),
      UA_PublishRequest_subscriptionAcknowledgements pending written = written ++ pending := by
  intro pending
  induction pending with
  | nil =>
    intro written
    unfold UA_PublishRequest_subscriptionAcknowledgements
    rw [List.append_nil]
  | cons ack rest ih =>
    intro written
    unfold UA_PublishRequest_subscriptionAcknowledgements
    rw [ih, List.append_assoc]
    rfl

theorem UA_Client_processPublishResponse_state (client : UA_Client)
    (request : UA_PublishRequest) (response : UA_PublishResponse) :
    (UA_Client_processPublishResponse client request response).1.state = client.state ∧
    (UA_Client_processPublishResponse client request response).1.config = client.config := by
  unfold UA_Client_processPublishResponse
  by_cases hgood : response.responseHeader.serviceResult = UA_STATUSCODE_GOOD
  · rw [if_neg (fun hne => hne hgood)]
    cases findSubscription client response.subscriptionId with
    | none => exact ⟨rfl, rfl⟩
    | some sub => exact ⟨rfl, rfl⟩
  · rw [if_pos hgood]
    exact ⟨rfl, rfl⟩

/-- One pass of the publish loop: the request it builds carries the ledger as it is. -/
theorem UA_Client_Subscriptions_manuallySendPublishRequest_loop_succ
    (publish : Nat → UA_PublishRequest → UA_PublishResponse × UA_ClientState)
    (nowMonotonic : Nat → UA_DateTime) (maxDate : UA_DateTime) (passes k : Nat)
    (client : UA_Client) :
    UA_Client_Subscriptions_manuallySendPublishRequest_loop publish nowMonotonic maxDate
        (passes + 1) k client =
      if nowMonotonic (k + 1) > maxDate then
        some (UA_STATUSCODE_GOODNONCRITICALTIMEOUT,
          (UA_Client_PublishIteration_pass publish k client).2,
          [(UA_Client_PublishIteration_pass publish k client).1])
      else if (UA_Client_PublishIteration_pass publish k client).1.response.moreNotifications
      then
        match UA_Client_Subscriptions_manuallySendPublishRequest_loop publish nowMonotonic
            maxDate passes (k + 1) (UA_Client_PublishIteration_pass publish k client).2 with
        | none => none
        | some run =>
          some (run.1, run.2.1, (UA_Client_PublishIteration_pass publish k client).1 :: run.2.2)
      else
        some (UA_STATUSCODE_GOOD, (UA_Client_PublishIteration_pass publish k client).2,
          [(UA_Client_PublishIteration_pass publish k client).1]) := by
  have hrequest : ({ UA_PublishRequest_init with
      subscriptionAcknowledgements :=
        UA_PublishRequest_subscriptionAcknowledgements client.pendingNotificationsAcks [] } :
      UA_PublishRequest) =
      { subscriptionAcknowledgements := client.pendingNotificationsAcks } := by
    rw [UA_PublishRequest_subscriptionAcknowledgements_append]
    rfl
  rw [UA_Client_Subscriptions_manuallySendPublishRequest_loop]
  dsimp only
  rw [hrequest]
  rfl

/-- The record of the loop is a chain of processed exchanges, and every request of the
record carries the ledger of the client its pass found. -/
theorem UA_Client_Subscriptions_manuallySendPublishRequest_loop_chain
    (publish : Nat → UA_PublishRequest → UA_PublishResponse × UA_ClientState)
    (nowMonotonic : Nat → UA_DateTime) (maxDate : UA_DateTime) :
    ∀ (passes k : Nat) (client : UA_Client)
      (run : UA_StatusCode × UA_Client × List UA_Client_PublishIteration),
      UA_Client_Subscriptions_manuallySendPublishRequest_loop publish nowMonotonic maxDate
        passes k client = some run →
      UA_Client_PublishIteration_chain publish k client run.2.2 run.2.1 ∧
      (∀ iteration ∈ run.2.2,
        iteration.request.subscriptionAcknowledgements =
          iteration.client.pendingNotificationsAcks) ∧
      run.2.2 ≠ [] := by
  intro passes
  induction passes with
  | zero =>
    intro k client run hrun
    rw [UA_Client_Subscriptions_manuallySendPublishRequest_loop] at hrun
    exact absurd hrun (by simp)
  | succ passes ih =>
    intro k client run hrun
    rw [UA_Client_Subscriptions_manuallySendPublishRequest_loop_succ] at hrun
    have hone : UA_Client_PublishIteration_chain publish k client
        [(UA_Client_PublishIteration_pass publish k client).1]
        (UA_Client_PublishIteration_pass publish k client).2 ∧
        (∀ iteration ∈ [(UA_Client_PublishIteration_pass publish k client).1],
          iteration.request.subscriptionAcknowledgements =
            iteration.client.pendingNotificationsAcks) := by
      refine ⟨⟨rfl, rfl, rfl, rfl⟩, ?_⟩
      intro iteration hmem
      rw [List.mem_singleton.mp hmem]
      rfl
    split at hrun
    · rw [← Option.some.inj hrun]
      exact ⟨hone.1, hone.2, List.cons_ne_nil _ _⟩
    · split at hrun
      · split at hrun
        · exact absurd hrun (by simp)
        · rename_i inner hinner
          obtain ⟨hchain, hacks, _⟩ := ih (k + 1) _ inner hinner
          rw [← Option.some.inj hrun]
          refine ⟨⟨rfl, rfl, rfl, hchain⟩, ?_, List.cons_ne_nil _ _⟩
          intro iteration hmem
          rcases List.mem_cons.mp hmem with hhead | htail
          · rw [hhead]; rfl
          · exact hacks iteration htail
      · rw [← Option.some.inj hrun]
        exact ⟨hone.1, hone.2, List.cons_ne_nil _ _⟩

/-- After at least one pass the connection state of the client is the one the transport
left it in. -/
theorem UA_Client_PublishIteration_chain_state
    (publish : Nat → UA_PublishRequest → UA_PublishResponse × UA_ClientState) :
    ∀ (iterations : List UA_Client_PublishIteration) (k : Nat) (client final : UA_Client),
      UA_Client_PublishIteration_chain publish k client iterations final →
      iterations ≠ [] →
      ∃ (j : Nat) (request : UA_PublishRequest), final.state = (publish j request).2 := by
  intro iterations
  induction iterations with
  | nil => intro _ _ _ _ hne; exact absurd rfl hne
  | cons iteration rest ih =>
    intro k client final hchain _
    obtain ⟨_, _, _, hrest⟩ := hchain
    cases rest with
    | nil =>
      refine ⟨k, iteration.request, ?_⟩
      have hfinal : final = _ := hrest
      rw [hfinal, (UA_Client_processPublishResponse_state _ _ _).1]
    | cons next others =>
      exact ih (k + 1) _ final hrest (List.cons_ne_nil _ _)

/-- What `UA_Client_Subscriptions_manuallySendPublishRequest` returns in terms of its
loop. -/
theorem UA_Client_Subscriptions_manuallySendPublishRequest_eq (client : UA_Client)
    (publish : Nat → UA_PublishRequest → UA_PublishResponse × UA_ClientState)
    (nowMonotonic : Nat → UA_DateTime) (passes : Nat)
    (hsession : ¬ client.state < UA_CLIENTSTATE_SESSION) :
    UA_Client_Subscriptions_manuallySendPublishRequest client publish nowMonotonic passes =
      match UA_Client_Subscriptions_manuallySendPublishRequest_loop publish nowMonotonic
          (nowMonotonic 0 + (client.config.timeout : Int) * UA_MSEC_TO_DATETIME)
          passes 0 client with
      | none => none
      | some run =>
        if run.2.1.state < UA_CLIENTSTATE_SESSION then
          some (UA_STATUSCODE_BADSERVERNOTCONNECTED, run.2.1, run.2.2)
        else some run := by
  unfold UA_Client_Subscriptions_manuallySendPublishRequest
  exact if_neg hsession

/-- Claim C28: every PublishRequest built by
`UA_Client_Subscriptions_manuallySendPublishRequest` carries as
`subscriptionAcknowledgements` exactly the ledger of pending acknowledgements at that
moment, the same pairs in the same order.  The passes of a run are recorded with the client
each of them found; the record is the chain of the exchanges made, and in each pass the
acknowledgements of the request are the ledger of that client. -/
theorem UA_Client_Subscriptions_manuallySendPublishRequest_acknowledgements
    (client : UA_Client)
    (publish : Nat → UA_PublishRequest → UA_PublishResponse × UA_ClientState)
    (nowMonotonic : Nat → UA_DateTime) (passes : Nat) (status : UA_StatusCode)
    (final : UA_Client) (iterations : List UA_Client_PublishIteration)
    (hrun : UA_Client_Subscriptions_manuallySendPublishRequest client publish nowMonotonic
      passes = some (status, final, iterations)) :
    UA_Client_PublishIteration_chain publish 0 client iterations final ∧
    ∀ iteration ∈ iterations,
      iteration.request.subscriptionAcknowledgements =
        iteration.client.pendingNotificationsAcks := by
  by_cases hsession : client.state < UA_CLIENTSTATE_SESSION
  · unfold UA_Client_Subscriptions_manuallySendPublishRequest at hrun
    rw [if_pos hsession] at hrun
    have h := Option.some.inj hrun
    have hfinal : client = final := congrArg (fun r => r.2.1) h
    have hiterations : [] = iterations := congrArg (fun r => r.2.2) h
    rw [← hfinal, ← hiterations]
    exact ⟨rfl, fun iteration hmem => absurd hmem (List.not_mem_nil iteration)⟩
  · rw [UA_Client_Subscriptions_manuallySendPublishRequest_eq client publish nowMonotonic
      passes hsession] at hrun
    split at hrun
    · exact absurd hrun (by simp)
    · rename_i run hloop
      obtain ⟨hchain, hacks, _⟩ :=
        UA_Client_Subscriptions_manuallySendPublishRequest_loop_chain publish nowMonotonic _
          passes 0 client run hloop
      have hfinal : run.2.1 = final := by
        split at hrun
        · exact congrArg (fun r => r.2.1) (Option.some.inj hrun)
        · exact congrArg (fun r => r.2.1) (Option.some.inj hrun)
      have hiterations : run.2.2 = iterations := by
        split at hrun
        · exact congrArg (fun r => r.2.2) (Option.some.inj hrun)
        · exact congrArg (fun r => r.2.2) (Option.some.inj hrun)
      rw [← hfinal, ← hiterations]
      exact ⟨hchain, hacks⟩

/-- The publish round trip: a client with subscription 7 receives a response carrying
sequence number 42 and a data change for the unknown client handle 99.  No handler is
called, the ledger then holds `{7, 42}`, and the next request carries that pair. -/
theorem UA_Client_Subscriptions_manuallySendPublishRequest_acknowledgements_witness :
    UA_Client_Subscriptions_manuallySendPublishRequest ex_client_items ex_publish ex_clock 2 =
      some (ex_publish_run.1, ex_publish_run.2.1, ex_publish_run.2.2) ∧
    ex_publish_run.2.2.map (fun iteration =>
      (iteration.client.pendingNotificationsAcks, iteration.response.notificationMessage.sequenceNumber,
        iteration.calls)) =
      [ ([], 42, []), ([{ subscriptionId := 7, sequenceNumber := 42 }], 43, []) ] ∧
    ∀ iteration ∈ ex_publish_run.2.2,
      iteration.request.subscriptionAcknowledgements =
        iteration.client.pendingNotificationsAcks :=
  have hrun : UA_Client_Subscriptions_manuallySendPublishRequest ex_client_items ex_publish
      ex_clock 2 = some (ex_publish_run.1, ex_publish_run.2.1, ex_publish_run.2.2) := by
    decide
  ⟨hrun, by decide,
   (UA_Client_Subscriptions_manuallySendPublishRequest_acknowledgements ex_client_items
     ex_publish ex_clock 2 ex_publish_run.1 ex_publish_run.2.1 ex_publish_run.2.2 hrun).2⟩

/-- Claim C30: `UA_Client_Subscriptions_manuallySendPublishRequest` returns
BadServerNotConnected, with no pass of the loop made (no Publish request built or sent) and
the client as it was, the ledger included, when the client state is below SESSION at entry;
and whenever the client state is below SESSION when the loop has ended, the status returned
is BadServerNotConnected, whether the loop ended Good or on its deadline. -/
theorem UA_Client_Subscriptions_manuallySendPublishRequest_notConnected (client : UA_Client)
    (publish : Nat → UA_PublishRequest → UA_PublishResponse × UA_ClientState)
    (nowMonotonic : Nat → UA_DateTime) :
    (client.state < UA_CLIENTSTATE_SESSION →
      ∀ passes, UA_Client_Subscriptions_manuallySendPublishRequest client publish nowMonotonic
        passes = some (UA_STATUSCODE_BADSERVERNOTCONNECTED, client, [])) ∧
    (∀ (passes : Nat) (status : UA_StatusCode) (final : UA_Client)
      (iterations : List UA_Client_PublishIteration),
      UA_Client_Subscriptions_manuallySendPublishRequest client publish nowMonotonic passes =
        some (status, final, iterations) →
      final.state < UA_CLIENTSTATE_SESSION →
      status = UA_STATUSCODE_BADSERVERNOTCONNECTED) := by
  constructor
  · intro hbelow passes
    unfold UA_Client_Subscriptions_manuallySendPublishRequest
    rw [if_pos hbelow]
  · intro passes status final iterations hrun hbelow
    by_cases hsession : client.state < UA_CLIENTSTATE_SESSION
    · unfold UA_Client_Subscriptions_manuallySendPublishRequest at hrun
      rw [if_pos hsession] at hrun
      exact (congrArg (fun r => r.1) (Option.some.inj hrun)).symm
    · rw [UA_Client_Subscriptions_manuallySendPublishRequest_eq client publish nowMonotonic
        passes hsession] at hrun
      split at hrun
      · exact absurd hrun (by simp)
      · rename_i run hloop
        split at hrun
        · exact (congrArg (fun r => r.1) (Option.some.inj hrun)).symm
        · rename_i hup
          have hfinal : run.2.1 = final := congrArg (fun r => r.2.1) (Option.some.inj hrun)
          rw [hfinal] at hup
          exact absurd hbelow hup

/-- A client in state 2 (secure channel, no session) gets BadServerNotConnected at once.
With `ex_publish_dropped` the session is lost during the second exchange: the loop of
`ex_client_short` ends on its deadline after two passes, and the status returned is
BadServerNotConnected, not GoodNonCriticalTimeout. -/
theorem UA_Client_Subscriptions_manuallySendPublishRequest_notConnected_witness :
    UA_Client_Subscriptions_manuallySendPublishRequest { ex_client_items with state := 2 }
      ex_publish ex_clock 5 =
      some (UA_STATUSCODE_BADSERVERNOTCONNECTED, { ex_client_items with state := 2 }, []) ∧
    (UA_Client_Subscriptions_manuallySendPublishRequest_loop ex_publish_dropped ex_clock
      (ex_clock 0 + 30 * UA_MSEC_TO_DATETIME) 5 0 ex_client_short).map (fun r => r.1) =
      some UA_STATUSCODE_GOODNONCRITICALTIMEOUT ∧
    (UA_Client_Subscriptions_manuallySendPublishRequest ex_client_short ex_publish_dropped
      ex_clock 5).map (fun r => (r.1, r.2.1.state, r.2.2.length)) =
      some (UA_STATUSCODE_BADSERVERNOTCONNECTED, 0, 2) :=
  ⟨(UA_Client_Subscriptions_manuallySendPublishRequest_notConnected
      { ex_client_items with state := 2 } ex_publish ex_clock).1 (by decide) 5,
   by decide, by decide⟩

/-- The loop makes exactly `n + 1` passes when the first `n` of them end within the
deadline with more notifications announced and pass `n` ends beyond the deadline or with
nothing more announced; it returns GoodNonCriticalTimeout in the first case and Good in the
second. -/
theorem UA_Client_Subscriptions_manuallySendPublishRequest_loop_run
    (publish : Nat → UA_PublishRequest → UA_PublishResponse × UA_ClientState)
    (nowMonotonic : Nat → UA_DateTime) (maxDate : UA_DateTime) :
    ∀ (n k : Nat) (client : UA_Client),
      (∀ j, j < n → ¬ nowMonotonic (k + j + 1) > maxDate) →
      (∀ j, j < n → ∀ request, (publish (k + j) request).1.moreNotifications = true) →
      (nowMonotonic (k + n + 1) > maxDate ∨
        ∀ request, (publish (k + n) request).1.moreNotifications = false) →
      ∀ passes, n + 1 ≤ passes →
        ∃ run, UA_Client_Subscriptions_manuallySendPublishRequest_loop publish nowMonotonic
            maxDate passes k client = some run ∧
          run.2.2.length = n + 1 ∧
          run.1 = if nowMonotonic (k + n + 1) > maxDate then
            UA_STATUSCODE_GOODNONCRITICALTIMEOUT else UA_STATUSCODE_GOOD := by
  intro n
  induction n with
  | zero =>
    intro k client _ _ hstop passes hpasses
    obtain ⟨p, hp⟩ : ∃ p, passes = p + 1 := ⟨passes - 1, by omega⟩
    rw [hp, UA_Client_Subscriptions_manuallySendPublishRequest_loop_succ]
    rw [Nat.add_zero] at hstop ⊢
    by_cases hlate : nowMonotonic (k + 1) > maxDate
    · rw [if_pos hlate]
      exact ⟨_, rfl, rfl, by rw [if_pos hlate]⟩
    · rw [if_neg hlate]
      have hdone : (UA_Client_PublishIteration_pass publish k client).1.response.moreNotifications
          = false := by
        rcases hstop with h | h
        · exact absurd h hlate
        · exact h _
      rw [hdone, if_neg (by decide)]
      exact ⟨_, rfl, rfl, by rw [if_neg hlate]⟩
  | succ n ih =>
    intro k client hwithin hmore hstop passes hpasses
    obtain ⟨p, hp⟩ : ∃ p, passes = p + 1 := ⟨passes - 1, by omega⟩
    rw [hp, UA_Client_Subscriptions_manuallySendPublishRequest_loop_succ]
    have hfirst : ¬ nowMonotonic (k + 1) > maxDate := hwithin 0 (Nat.succ_pos n)
    have hgo : (UA_Client_PublishIteration_pass publish k client).1.response.moreNotifications
        = true := hmore 0 (Nat.succ_pos n) _
    rw [if_neg hfirst, hgo, if_pos rfl]
    have hshift : ∀ j, k + 1 + j = k + (j + 1) := fun j => by omega
    obtain ⟨run, hrun, hlength, hstatus⟩ := ih (k + 1)
      (UA_Client_PublishIteration_pass publish k client).2
      (fun j hj => by rw [hshift]; exact hwithin (j + 1) (Nat.succ_lt_succ hj))
      (fun j hj => by rw [hshift]; exact hmore (j + 1) (Nat.succ_lt_succ hj))
      (by rw [hshift]; exact hstop) p (by omega)
    rw [hrun]
    refine ⟨_, rfl, ?_, ?_⟩
    · show (_ :: run.2.2).length = n + 1 + 1
      rw [List.length_cons, hlength]
    · show run.1 = _
      rw [hstatus, hshift]

/-- With the session up throughout, what the loop returns is what
`UA_Client_Subscriptions_manuallySendPublishRequest` returns. -/
theorem UA_Client_Subscriptions_manuallySendPublishRequest_session (client : UA_Client)
    (publish : Nat → UA_PublishRequest → UA_PublishResponse × UA_ClientState)
    (nowMonotonic : Nat → UA_DateTime) (passes : Nat)
    (run : UA_StatusCode × UA_Client × List UA_Client_PublishIteration)
    (hsession : ¬ client.state < UA_CLIENTSTATE_SESSION)
    (hstate : ∀ k request, ¬ (publish k request).2 < UA_CLIENTSTATE_SESSION)
    (hloop : UA_Client_Subscriptions_manuallySendPublishRequest_loop publish nowMonotonic
      (nowMonotonic 0 + (client.config.timeout : Int) * UA_MSEC_TO_DATETIME) passes 0 client =
      some run) :
    UA_Client_Subscriptions_manuallySendPublishRequest client publish nowMonotonic passes =
      some run ∧
    UA_Client_PublishIteration_chain publish 0 client run.2.2 run.2.1 := by
  obtain ⟨hchain, _, hne⟩ := UA_Client_Subscriptions_manuallySendPublishRequest_loop_chain
    publish nowMonotonic _ passes 0 client run hloop
  obtain ⟨j, request, hfinal⟩ := UA_Client_PublishIteration_chain_state publish run.2.2 0
    client run.2.1 hchain hne
  rw [UA_Client_Subscriptions_manuallySendPublishRequest_eq client publish nowMonotonic passes
    hsession, hloop]
  dsimp only
  rw [if_neg (by rw [hfinal]; exact hstate j request)]
  exact ⟨rfl, hchain⟩

/-- Claim C29: `UA_Client_Subscriptions_manuallySendPublishRequest` with the client in
SESSION state throughout; `maxDate` is the first clock reading plus the configured timeout.
If every PublishResponse announces more notifications and the monotonic clock eventually
exceeds `maxDate`, the loop ends and GoodNonCriticalTimeout is returned.  If a response
that announces nothing more arrives with the clock within `maxDate`, all earlier passes
having ended within `maxDate` with more announced, Good is returned.  In both cases the
record of the run is the chain of the exchanges made: every response the transport gave was
processed by `UA_Client_processPublishResponse`, the last one included, before the run
ended. -/
theorem UA_Client_Subscriptions_manuallySendPublishRequest_deadline (client : UA_Client)
    (publish : Nat → UA_PublishRequest → UA_PublishResponse × UA_ClientState)
    (nowMonotonic : Nat → UA_DateTime) (maxDate : UA_DateTime)
    (hsession : ¬ client.state < UA_CLIENTSTATE_SESSION)
    (hstate : ∀ k request, ¬ (publish k request).2 < UA_CLIENTSTATE_SESSION)
    (hmax : maxDate = nowMonotonic 0 + (client.config.timeout : Int) * UA_MSEC_TO_DATETIME) :
    ((∀ k request, (publish k request).1.moreNotifications = true) →
      (∃ m, nowMonotonic (m + 1) > maxDate) →
      ∃ n, ∀ passes, n + 1 ≤ passes →
        ∃ final iterations,
          UA_Client_Subscriptions_manuallySendPublishRequest client publish nowMonotonic
            passes = some (UA_STATUSCODE_GOODNONCRITICALTIMEOUT, final, iterations) ∧
          iterations.length = n + 1 ∧
          UA_Client_PublishIteration_chain publish 0 client iterations final) ∧
    (∀ n, (∀ j, j < n → ¬ nowMonotonic (j + 1) > maxDate) →
      (∀ j, j < n → ∀ request, (publish j request).1.moreNotifications = true) →
      ¬ nowMonotonic (n + 1) > maxDate →
      (∀ request, (publish n request).1.moreNotifications = false) →
      ∀ passes, n + 1 ≤ passes →
        ∃ final iterations,
          UA_Client_Subscriptions_manuallySendPublishRequest client publish nowMonotonic
            passes = some (UA_STATUSCODE_GOOD, final, iterations) ∧
          iterations.length = n + 1 ∧
          UA_Client_PublishIteration_chain publish 0 client iterations final) := by
  constructor
  · intro hmore hclock
    refine ⟨Nat.find hclock, ?_⟩
    intro passes hpasses
    have hlate : nowMonotonic (Nat.find hclock + 1) > maxDate := Nat.find_spec hclock
    obtain ⟨run, hloop, hlength, hstatus⟩ :=
      UA_Client_Subscriptions_manuallySendPublishRequest_loop_run publish nowMonotonic maxDate
        (Nat.find hclock) 0 client
        (fun j hj => by rw [Nat.zero_add]; exact Nat.find_min hclock hj)
        (fun j _ request => hmore _ request)
        (Or.inl (by rw [Nat.zero_add]; exact hlate)) passes hpasses
    rw [Nat.zero_add, if_pos hlate] at hstatus
    rw [hmax] at hloop
    obtain ⟨hrun, hchain⟩ := UA_Client_Subscriptions_manuallySendPublishRequest_session client
      publish nowMonotonic passes run hsession hstate hloop
    refine ⟨run.2.1, run.2.2, ?_, hlength, hchain⟩
    rw [hrun, ← hstatus]
  · intro n hwithin hmore hintime hdone passes hpasses
    obtain ⟨run, hloop, hlength, hstatus⟩ :=
      UA_Client_Subscriptions_manuallySendPublishRequest_loop_run publish nowMonotonic maxDate
        n 0 client
        (fun j hj => by rw [Nat.zero_add]; exact hwithin j hj)
        (fun j hj request => by rw [Nat.zero_add]; exact hmore j hj request)
        (Or.inr (by rw [Nat.zero_add]; exact hdone)) passes hpasses
    rw [Nat.zero_add, if_neg hintime] at hstatus
    rw [hmax] at hloop
    obtain ⟨hrun, hchain⟩ := UA_Client_Subscriptions_manuallySendPublishRequest_session client
      publish nowMonotonic passes run hsession hstate hloop
    refine ⟨run.2.1, run.2.2, ?_, hlength, hchain⟩
    rw [hrun, ← hstatus]

/-- The server of `ex_publish_more` always announces more; the clock advances 20
milliseconds per reading and the timeout of `ex_client_short` is 30 milliseconds: the
second reading within the loop is beyond the deadline, the run makes two passes and returns
GoodNonCriticalTimeout, and both sequence numbers delivered, 0 and 1, were processed (the
first is acknowledged by the second response, the second is pending). -/
theorem UA_Client_Subscriptions_manuallySendPublishRequest_deadline_witness :
    (∃ n, ∀ passes, n + 1 ≤ passes →
      ∃ final iterations,
        UA_Client_Subscriptions_manuallySendPublishRequest ex_client_short ex_publish_more
          ex_clock passes = some (UA_STATUSCODE_GOODNONCRITICALTIMEOUT, final, iterations) ∧
        iterations.length = n + 1 ∧
        UA_Client_PublishIteration_chain ex_publish_more 0 ex_client_short iterations final) ∧
    (UA_Client_Subscriptions_manuallySendPublishRequest ex_client_short ex_publish_more
      ex_clock 5).map (fun r => (r.1, r.2.1.pendingNotificationsAcks, r.2.2.length)) =
      some (UA_STATUSCODE_GOODNONCRITICALTIMEOUT,
        [{ subscriptionId := 7, sequenceNumber := 1 }], 2) :=
  ⟨(UA_Client_Subscriptions_manuallySendPublishRequest_deadline ex_client_short
      ex_publish_more ex_clock (ex_clock 0 + 30 * UA_MSEC_TO_DATETIME) (by decide)
      (fun _ _ => show ¬ (3 : UA_ClientState) < UA_CLIENTSTATE_SESSION by decide) rfl).1
      (fun _ _ => rfl) ⟨1, by decide⟩,
   by decide⟩

/-! ## Publish responses: what is dropped and what the ledger becomes -/

/-- Claim C33: `UA_Client_processPublishResponse` leaves the whole client as it was (the
ledger of pending acknowledgements, the subscriptions and their monitored items) and
invokes no handler when the service result of the response is not Good or when
`response.subscriptionId` is the id of no subscription of the client. -/
theorem UA_Client_processPublishResponse_dropped (client : UA_Client)
    (request : UA_PublishRequest) (response : UA_PublishResponse)
    (hdropped : response.responseHeader.serviceResult ≠ UA_STATUSCODE_GOOD ∨
      findSubscription client response.subscriptionId = none) :
    UA_Client_processPublishResponse client request response = (client, []) := by
  unfold UA_Client_processPublishResponse
  by_cases hgood : response.responseHeader.serviceResult = UA_STATUSCODE_GOOD
  · rcases hdropped with hbad | hnone
    · exact absurd hgood hbad
    · rw [if_neg (fun hne => hne hgood), hnone]
  · rw [if_pos hgood]

/-- The client holds `{7, 42}` and two subscriptions with items.  A response with the
service result BadUnexpectedError is dropped although it names subscription 7, reports the
acknowledgement and carries notifications; so is a Good response for the unknown
subscription 8. -/
theorem UA_Client_processPublishResponse_dropped_witness :
    UA_Client_processPublishResponse ex_client_delivered
      { subscriptionAcknowledgements := ex_client_delivered.pendingNotificationsAcks }
      ex_publishResponse_failed = (ex_client_delivered, []) ∧
    UA_Client_processPublishResponse ex_client_delivered
      { subscriptionAcknowledgements := ex_client_delivered.pendingNotificationsAcks }
      { ex_publishResponse 43 [UA_STATUSCODE_GOOD] ex_notificationData false with
        subscriptionId := 8 } = (ex_client_delivered, []) :=
  ⟨UA_Client_processPublishResponse_dropped ex_client_delivered
     { subscriptionAcknowledgements := ex_client_delivered.pendingNotificationsAcks }
     ex_publishResponse_failed (Or.inl (by decide)),
   by decide⟩

/-- The first loop of `UA_Client_processPublishResponse` computes the reference ledger. -/
theorem UA_Client_processPublishResponse_acks_spec :
    ∀ (results : List UA_StatusCode) (acknowledgements pending :
        List UA_SubscriptionAcknowledgement),
      UA_Client_processPublishResponse_acks results acknowledgements pending =
        (results.zip acknowledgements).foldl
          (fun left answered =>
            if answered.1 = UA_STATUSCODE_GOOD ∨
                answered.1 = UA_STATUSCODE_BADSEQUENCENUMBERUNKNOWN
            then left.erase answered.2 else left)
          pending := by
  intro results
  induction results with
  | nil =>
    intro acknowledgements pending
    unfold UA_Client_processPublishResponse_acks
    rfl
  | cons result results ih =>
    intro acknowledgements pending
    cases acknowledgements with
    | nil =>
      unfold UA_Client_processPublishResponse_acks
      rfl
    | cons orig_ack acknowledgements =>
      unfold UA_Client_processPublishResponse_acks
      rw [List.zip_cons_cons, List.foldl_cons]
      by_cases hskip : result ≠ UA_STATUSCODE_GOOD ∧
          result ≠ UA_STATUSCODE_BADSEQUENCENUMBERUNKNOWN
      · have hno : ¬ (result = UA_STATUSCODE_GOOD ∨
            result = UA_STATUSCODE_BADSEQUENCENUMBERUNKNOWN) := by
          rintro (h | h)
          · exact hskip.1 h
          · exact hskip.2 h
        rw [if_pos hskip, ih]
        dsimp only
        rw [if_neg hno]
      · have hyes : result = UA_STATUSCODE_GOOD ∨
            result = UA_STATUSCODE_BADSEQUENCENUMBERUNKNOWN := by
          by_contra hno
          exact hskip ⟨fun h => hno (Or.inl h), fun h => hno (Or.inr h)⟩
        rw [if_neg hskip, ih, UA_Client_NotificationsAckNumber_remove_eq]
        dsimp only
        rw [if_pos hyes]

/-- An entry that the response does not report as settled is as often in the ledger after
the first loop as before. -/
theorem UA_Client_processPublishResponse_acks_count (entry : UA_SubscriptionAcknowledgement) :
    ∀ (results : List UA_StatusCode) (acknowledgements pending :
        List UA_SubscriptionAcknowledgement),
      entry ∉ UA_Client_processPublishResponse_acknowledged results acknowledgements →
      (UA_Client_processPublishResponse_acks results acknowledgements pending).count entry =
        pending.count entry := by
  intro results
  induction results with
  | nil =>
    intro acknowledgements pending _
    unfold UA_Client_processPublishResponse_acks
    rfl
  | cons result results ih =>
    intro acknowledgements pending hnot
    cases acknowledgements with
    | nil =>
      unfold UA_Client_processPublishResponse_acks
      rfl
    | cons orig_ack acknowledgements =>
      unfold UA_Client_processPublishResponse_acks
      unfold UA_Client_processPublishResponse_acknowledged at hnot
      by_cases hskip : result ≠ UA_STATUSCODE_GOOD ∧
          result ≠ UA_STATUSCODE_BADSEQUENCENUMBERUNKNOWN
      · rw [if_pos hskip] at hnot ⊢
        exact ih acknowledgements pending hnot
      · rw [if_neg hskip] at hnot ⊢
        rw [List.mem_cons, not_or] at hnot
        rw [ih acknowledgements _ hnot.2, UA_Client_NotificationsAckNumber_remove_eq,
          List.count_erase_of_ne hnot.1]

/-- Claim C34: for a Good PublishResponse on a known subscription `sub`, the ledger of
pending acknowledgements after `UA_Client_processPublishResponse` is the new entry
`{sub, notificationMessage.sequenceNumber}` followed by the old ledger from which, for each
index `i < min(resultsSize, request.subscriptionAcknowledgementsSize)` with `results[i]`
Good or BadSequenceNumberUnknown, the first entry equal to
`request.subscriptionAcknowledgements[i]` has been removed.  An entry that equals no
acknowledgement of the request with such a result (its result is another code, or there is
no result for it) is retained: it is in that part as often as it was in the old ledger. -/
theorem UA_Client_processPublishResponse_pending (client : UA_Client)
    (request : UA_PublishRequest) (response : UA_PublishResponse)
    (sub : UA_Client_Subscription)
    (hgood : response.responseHeader.serviceResult = UA_STATUSCODE_GOOD)
    (hsub : findSubscription client response.subscriptionId = some sub) :
    (UA_Client_processPublishResponse client request response).1.pendingNotificationsAcks =
      { subscriptionId := sub.subscriptionID,
        sequenceNumber := response.notificationMessage.sequenceNumber } ::
        UA_Client_pendingNotificationsAcks_spec client.pendingNotificationsAcks request
          response ∧
    ∀ entry : UA_SubscriptionAcknowledgement,
      (∀ (i : Nat) (result : UA_StatusCode), response.results[i]? = some result →
        request.subscriptionAcknowledgements[i]? = some entry →
        result ≠ UA_STATUSCODE_GOOD ∧ result ≠ UA_STATUSCODE_BADSEQUENCENUMBERUNKNOWN) →
      (UA_Client_pendingNotificationsAcks_spec client.pendingNotificationsAcks request
        response).count entry = client.pendingNotificationsAcks.count entry := by
  have hspec : UA_Client_pendingNotificationsAcks_spec client.pendingNotificationsAcks
      request response =
      UA_Client_processPublishResponse_acks response.results
        request.subscriptionAcknowledgements client.pendingNotificationsAcks := by
    unfold UA_Client_pendingNotificationsAcks_spec
    rw [UA_Client_processPublishResponse_acks_spec]
  constructor
  · rw [UA_Client_processPublishResponse_processed client request response sub hgood hsub,
      hspec]
  · intro entry hother
    rw [hspec]
    apply UA_Client_processPublishResponse_acks_count
    intro hmem
    obtain ⟨i, result, hresult, hat, hok⟩ :=
      (UA_Client_processPublishResponse_acknowledged_mem entry response.results
        request.subscriptionAcknowledgements).mp hmem
    have hno := hother i result hresult hat
    rcases hok with h | h
    · exact hno.1 h
    · exact hno.2 h

/-- The ledger holds `{7, 42}`; the request carried it and the response, which delivers
sequence number 43, reports BadUnexpectedError for it: the ledger becomes `{7, 43}`,
`{7, 42}`.  Reported with Good the old entry is gone. -/
theorem UA_Client_processPublishResponse_pending_witness :
    (UA_Client_processPublishResponse ex_client_delivered
      { subscriptionAcknowledgements := ex_client_delivered.pendingNotificationsAcks }
      (ex_publishResponse 43 [UA_STATUSCODE_BADUNEXPECTEDERROR] []
        false)).1.pendingNotificationsAcks =
      { subscriptionId := 7, sequenceNumber := 43 } ::
        UA_Client_pendingNotificationsAcks_spec ex_client_delivered.pendingNotificationsAcks
          { subscriptionAcknowledgements := ex_client_delivered.pendingNotificationsAcks }
          (ex_publishResponse 43 [UA_STATUSCODE_BADUNEXPECTEDERROR] [] false) ∧
    (UA_Client_processPublishResponse ex_client_delivered
      { subscriptionAcknowledgements := ex_client_delivered.pendingNotificationsAcks }
      (ex_publishResponse 43 [UA_STATUSCODE_BADUNEXPECTEDERROR] []
        false)).1.pendingNotificationsAcks =
      [{ subscriptionId := 7, sequenceNumber := 43 },
       { subscriptionId := 7, sequenceNumber := 42 }] ∧
    (UA_Client_processPublishResponse ex_client_delivered
      { subscriptionAcknowledgements := ex_client_delivered.pendingNotificationsAcks }
      (ex_publishResponse 43 [UA_STATUSCODE_GOOD] [] false)).1.pendingNotificationsAcks =
      [{ subscriptionId := 7, sequenceNumber := 43 }] :=
  ⟨(UA_Client_processPublishResponse_pending ex_client_delivered
      { subscriptionAcknowledgements := ex_client_delivered.pendingNotificationsAcks }
      (ex_publishResponse 43 [UA_STATUSCODE_BADUNEXPECTEDERROR] [] false)
      (ex_subscription 7 [ex_monitoredItem 56 43, ex_monitoredItem 55 42])
      rfl (by decide)).1,
   by decide, by decide⟩

/-! ## Monitored events: the read of the first result -/

/-- Claim C37 at a failing input: the CreateMonitoredItems response has the service result
Good and no result at all (`resultsSize == 0`).  The status
`UA_Client_Subscriptions_addMonitoredEvent` derives is the service result, Good, so it goes
on to register the item and reads `response.results[0].monitoredItemId`, an element the
response does not have (the model has no value for the run).
`UA_Client_Subscriptions_addMonitoredItem` on the same response returns BadUnexpectedError
and registers nothing. -/
theorem UA_Client_Subscriptions_addMonitoredEvent_no_results :
    (ex_createMonitoredItems_empty
      (UA_Client_Subscriptions_addMonitoredEvent_request 42 7 (ex_id 3001) 12 [1] [])).1 =
      { responseHeader := { serviceResult := UA_STATUSCODE_GOOD }, results := [] } ∧
    UA_Client_Subscriptions_addMonitoredEvent_retval
      { responseHeader := { serviceResult := UA_STATUSCODE_GOOD }, results := [] } =
      UA_STATUSCODE_GOOD ∧
    UA_Client_Subscriptions_addMonitoredEvent ex_client 7 (ex_id 3001) 12 [1] [] (some 5) 9
      ex_block ex_createMonitoredItems_empty = none ∧
    (UA_Client_Subscriptions_addMonitoredItem ex_client 7 (ex_id 3001) 12 (some 5) 9 250
      ex_block ex_createMonitoredItems_empty).1 = UA_STATUSCODE_BADUNEXPECTEDERROR := by
  refine ⟨rfl, by decide, by decide, by decide⟩

/-! ## The client-handle generator -/

/-- A call that registers nothing and only advances the counter keeps the invariant. -/
theorem UA_Client_monitoredItemHandles_spec_advance (client advanced : UA_Client)
    (hsubs : advanced.subscriptions = client.subscriptions)
    (hcounter : advanced.monitoredItemHandles = client.monitoredItemHandles + 1)
    (hspec : UA_Client_monitoredItemHandles_spec client) :
    UA_Client_monitoredItemHandles_spec advanced := by
  unfold UA_Client_monitoredItemHandles_spec UA_Client_clientHandles at hspec ⊢
  rw [hsubs, hcounter]
  exact ⟨fun handle hmem => Nat.le_succ_of_le (hspec.1 handle hmem), hspec.2.1, hspec.2.2⟩

/-- Registering an item whose client handle is the advanced counter keeps the invariant. -/
theorem UA_Client_monitoredItemHandles_spec_register (client registered : UA_Client)
    (before after : List UA_Client_Subscription) (sub : UA_Client_Subscription)
    (created : UA_Client_MonitoredItem)
    (hsplit : client.subscriptions = before ++ sub :: after)
    (hsubs : registered.subscriptions =
      before ++ { sub with monitoredItems := created :: sub.monitoredItems } :: after)
    (hcounter : registered.monitoredItemHandles = client.monitoredItemHandles + 1)
    (hhandle : created.clientHandle = client.monitoredItemHandles + 1)
    (hspec : UA_Client_monitoredItemHandles_spec client) :
    UA_Client_monitoredItemHandles_spec registered := by
  unfold UA_Client_monitoredItemHandles_spec UA_Client_clientHandles at hspec ⊢
  rw [hsplit] at hspec
  rw [hsubs, hcounter]
  obtain ⟨hbound, hnodup, horder⟩ := hspec
  have hbelow : ∀ handle ∈ (before ++ sub :: after).flatMap
      (fun s => s.monitoredItems.map (fun mon => mon.clientHandle)),
      handle < created.clientHandle := by
    intro handle hmem
    rw [hhandle]
    exact Nat.lt_succ_of_le (hbound handle hmem)
  have hperm : ((before ++ { sub with monitoredItems := created :: sub.monitoredItems } ::
      after).flatMap (fun s => s.monitoredItems.map (fun mon => mon.clientHandle))).Perm
      (created.clientHandle :: (before ++ sub :: after).flatMap
        (fun s => s.monitoredItems.map (fun mon => mon.clientHandle))) := by
    rw [List.flatMap_append, List.flatMap_append, List.flatMap_cons, List.flatMap_cons]
    dsimp only
    rw [List.map_cons, List.cons_append]
    exact List.perm_middle
  refine ⟨?_, ?_, ?_⟩
  · intro handle hmem
    rcases List.mem_cons.mp (hperm.subset hmem) with hnew | hold
    · rw [hnew, hhandle]
    · exact Nat.le_succ_of_le (hbound handle hold)
  · refine hperm.symm.nodup (List.nodup_cons.mpr ⟨?_, hnodup⟩)
    intro hmem
    exact absurd (hbelow _ hmem) (Nat.lt_irrefl _)
  · intro s hs
    rcases List.mem_append.mp hs with hb | hrest
    · exact horder s (List.mem_append_left _ hb)
    · rcases List.mem_cons.mp hrest with hthis | ha
      · rw [hthis]
        dsimp only
        rw [List.map_cons, List.pairwise_cons]
        refine ⟨?_, horder sub (List.mem_append_right _ (List.mem_cons_self _ _))⟩
        intro older holder
        apply hbelow
        rw [List.mem_flatMap]
        exact ⟨sub, List.mem_append_right _ (List.mem_cons_self _ _), holder⟩
      · exact horder s (List.mem_append_right _ (List.mem_cons_of_mem _ ha))

/-- Claim C35: the client-handle generator.  A call of
`UA_Client_Subscriptions_addMonitoredItem` or `UA_Client_Subscriptions_addMonitoredEvent`
that finds its subscription advances `client.monitoredItemHandles` by one (in 32-bit
arithmetic), also when the call then fails, and the client handle of an item it registers
is the counter after that step.  Hence, as long as the counter does not wrap, the invariant
of the generator is kept: the client handles of all registered items across all
subscriptions are pairwise distinct, none is above the counter, and they increase in the
order of registration, every handle registered before being below the new one. -/
theorem UA_Client_monitoredItemHandles_generator (client : UA_Client)
    (subscriptionId : Nat) (nodeId : UA_NodeId) (attributeID : Nat) (hf : Option Nat)
    (hfContext : Nat) (samplingInterval : UA_Double) (selectClause whereClause : List Nat)
    (newMon : UA_Client_MonitoredItem)
    (exchange :
      UA_CreateMonitoredItemsRequest → UA_CreateMonitoredItemsResponse × UA_ClientState)
    (sub : UA_Client_Subscription)
    (hsub : findSubscription client subscriptionId = some sub) :
    ((UA_Client_Subscriptions_addMonitoredItem client subscriptionId nodeId attributeID hf
        hfContext samplingInterval newMon exchange).2.1.monitoredItemHandles =
        (client.monitoredItemHandles + 1) % UA_UINT32_MODULUS ∧
      ((UA_Client_Subscriptions_addMonitoredItem client subscriptionId nodeId attributeID hf
          hfContext samplingInterval newMon exchange).1 = UA_STATUSCODE_GOOD →
        ∃ created : UA_Client_MonitoredItem,
          created.clientHandle = (client.monitoredItemHandles + 1) % UA_UINT32_MODULUS ∧
          findSubscription (UA_Client_Subscriptions_addMonitoredItem client subscriptionId
            nodeId attributeID hf hfContext samplingInterval newMon exchange).2.1
            subscriptionId =
            some { sub with monitoredItems := created :: sub.monitoredItems })) ∧
    (∀ result, UA_Client_Subscriptions_addMonitoredEvent client subscriptionId nodeId
        attributeID selectClause whereClause hf hfContext newMon exchange = some result →
      result.2.1.monitoredItemHandles =
        (client.monitoredItemHandles + 1) % UA_UINT32_MODULUS ∧
      (result.1 = UA_STATUSCODE_GOOD →
        ∃ created : UA_Client_MonitoredItem,
          created.clientHandle = (client.monitoredItemHandles + 1) % UA_UINT32_MODULUS ∧
          findSubscription result.2.1 subscriptionId =
            some { sub with monitoredItems := created :: sub.monitoredItems })) ∧
    (client.monitoredItemHandles + 1 < UA_UINT32_MODULUS →
      UA_Client_monitoredItemHandles_spec client →
      UA_Client_monitoredItemHandles_spec
        (UA_Client_Subscriptions_addMonitoredItem client subscriptionId nodeId attributeID hf
          hfContext samplingInterval newMon exchange).2.1 ∧
      (∀ result, UA_Client_Subscriptions_addMonitoredEvent client subscriptionId nodeId
          attributeID selectClause whereClause hf hfContext newMon exchange = some result →
        UA_Client_monitoredItemHandles_spec result.2.1) ∧
      ∀ handle ∈ UA_Client_clientHandles client,
        handle < client.monitoredItemHandles + 1) := by
  obtain ⟨hid, before, after, hsplit, hbefore⟩ := findSubscription_split client
    subscriptionId sub hsub
  have hitem := UA_Client_Subscriptions_addMonitoredItem_found client subscriptionId nodeId
    attributeID hf hfContext samplingInterval newMon exchange sub _ _ hsub rfl
  have hevent := UA_Client_Subscriptions_addMonitoredEvent_found client subscriptionId nodeId
    attributeID selectClause whereClause hf hfContext newMon exchange sub _ _ hsub rfl
  generalize UA_Client_Subscriptions_addMonitoredItem client subscriptionId nodeId
    attributeID hf hfContext samplingInterval newMon exchange = itemRun at hitem ⊢
  generalize UA_Client_Subscriptions_addMonitoredEvent client subscriptionId nodeId
    attributeID selectClause whereClause hf hfContext newMon exchange = eventRun at hevent ⊢
  have hedit : ∀ created : UA_Client_MonitoredItem,
      UA_Client_Subscription_edit
        (fun s => { s with monitoredItems := created :: s.monitoredItems })
        subscriptionId client.subscriptions =
      before ++ { sub with monitoredItems := created :: sub.monitoredItems } :: after := by
    intro created
    rw [hsplit, UA_Client_Subscription_edit_split _ subscriptionId before after sub hid
      hbefore]
  refine ⟨⟨?_, ?_⟩, ?_, ?_⟩
  · rw [hitem]
    split <;> rfl
  · intro hgood
    split at hitem
    · rename_i hbad
      rw [hitem] at hgood
      exact absurd hgood hbad
    · rw [hitem]
      refine ⟨_, ?_, findSubscription_of_split _ subscriptionId before after _ (hedit _) hid
        hbefore⟩
      rfl
  · intro result hresult
    rw [hevent] at hresult
    split at hresult
    · rw [← Option.some.inj hresult]
      refine ⟨rfl, ?_⟩
      rename_i hbad
      intro hgood
      exact absurd hgood hbad
    · split at hresult
      · exact absurd hresult (by simp)
      · rw [← Option.some.inj hresult]
        refine ⟨rfl, fun _ => ⟨_, ?_, findSubscription_of_split _ subscriptionId before after
          _ (hedit _) hid hbefore⟩⟩
        rfl
  · intro hnowrap hspec
    have hmod : (client.monitoredItemHandles + 1) % UA_UINT32_MODULUS =
        client.monitoredItemHandles + 1 := Nat.mod_eq_of_lt hnowrap
    rw [hmod] at hitem hevent
    refine ⟨?_, ?_, ?_⟩
    · rw [hitem]
      split
      · exact UA_Client_monitoredItemHandles_spec_advance client _ rfl rfl hspec
      · exact UA_Client_monitoredItemHandles_spec_register client _ before after sub _ hsplit
          (hedit _) rfl rfl hspec
    · intro result hresult
      rw [hevent] at hresult
      split at hresult
      · rw [← Option.some.inj hresult]
        exact UA_Client_monitoredItemHandles_spec_advance client _ rfl rfl hspec
      · split at hresult
        · exact absurd hresult (by simp)
        · rw [← Option.some.inj hresult]
          exact UA_Client_monitoredItemHandles_spec_register client _ before after sub _
            hsplit (hedit _) rfl rfl hspec
    · intro handle hmem
      exact Nat.lt_succ_of_le (hspec.1 handle hmem)

/-- The client `ex_client_items` has the counter at 44 and the client handles 43, 42 and 44
registered.  A data-change item registered on subscription 7 gets the client handle 45, the
counter is 45 afterwards, and the invariant of the generator holds again. -/
theorem UA_Client_monitoredItemHandles_generator_witness :
    UA_Client_clientHandles
      (UA_Client_Subscriptions_addMonitoredItem ex_client_items 7 (ex_id 3001) 13 (some 1) 9
        250 ex_block ex_createMonitoredItems).2.1 = [45, 43, 42, 44] ∧
    (UA_Client_Subscriptions_addMonitoredItem ex_client_items 7 (ex_id 3001) 13 (some 1) 9
      250 ex_block ex_createMonitoredItems).2.1.monitoredItemHandles =
      (44 + 1) % UA_UINT32_MODULUS ∧
    UA_Client_monitoredItemHandles_spec
      (UA_Client_Subscriptions_addMonitoredItem ex_client_items 7 (ex_id 3001) 13 (some 1) 9
        250 ex_block ex_createMonitoredItems).2.1 :=
  have h := UA_Client_monitoredItemHandles_generator ex_client_items 7 (ex_id 3001) 13
    (some 1) 9 250 [1] [] ex_block ex_createMonitoredItems
    (ex_subscription 7 [ex_monitoredItem 56 43, ex_monitoredItem 55 42]) (by decide)
  ⟨by decide, h.1.1, (h.2.2 (by decide) ⟨by decide, by decide, by decide⟩).1⟩

/-! ## The guard of the parent check -/

/-- Claim C32, as stated, fails for an Object node with a null parent and a reference type
that is not null: the object `o1` of `ex_lifecycle` is finished Good with a null
`referenceTypeId`, whereas with `Organizes` as `referenceTypeId` the parent check runs,
finds no parent under the null id, and the call returns BadParentNodeIdInvalid and removes
the node. -/
theorem Service_AddNode_finish_object_referenceType :
    (UA_NodeStore_get ex_lifecycle.nodestore (ex_id 2001)).map (fun n => n.nodeClass) =
      some UA_NODECLASS_OBJECT ∧
    UA_NodeId_isNull UA_NODEID_NULL = true ∧
    (Service_AddNode_finish 4 ex_lifecycle (ex_id 2001) UA_NODEID_NULL UA_NODEID_NULL
      (ex_id 2000) none).map (fun r => r.1) = some UA_STATUSCODE_GOOD ∧
    (Service_AddNode_finish 4 ex_lifecycle (ex_id 2001) UA_NODEID_NULL
      (ex_id UA_NS0ID_ORGANIZES) (ex_id 2000) none).map
        (fun r => (r.1, UA_NodeStore_get r.2.nodestore (ex_id 2001))) =
      some (UA_STATUSCODE_BADPARENTNODEIDINVALID, none) := by
  refine ⟨by decide, by decide, by decide, by decide⟩

/-- Claim C32: `Service_AddNode_finish` runs `checkParentReference` exactly when the node is
not an Object, or the parent id is not null, or the reference type id is not null
(`HasSubtype` takes the place of the reference type id for type nodes).  When one of the
three holds and the check fails, its status is returned and the node removed.  For an
Object node with a null `parentNodeId` and a null `referenceTypeId` the check is skipped:
the call goes on to instantiate the node, although `checkParentReference` would return
BadParentNodeIdInvalid. -/
theorem Service_AddNode_finish_parent_check (budget : Nat) (server : UA_Server)
    (nodeId parentNodeId referenceTypeId typeDefinition : UA_NodeId)
    (cb : Option UA_InstantiationCallback) (node : UA_Node)
    (hnode : UA_NodeStore_get server.nodestore nodeId = some node) :
    (node.nodeClass ≠ UA_NODECLASS_OBJECT ∨ UA_NodeId_isNull parentNodeId = false ∨
        UA_NodeId_isNull (Service_AddNode_finish_referenceTypeId node referenceTypeId) = false →
      checkParentReference server node.nodeClass parentNodeId
        (Service_AddNode_finish_referenceTypeId node referenceTypeId) ≠ UA_STATUSCODE_GOOD →
      Service_AddNode_finish (budget + 1) server nodeId parentNodeId referenceTypeId
        typeDefinition cb =
        some (checkParentReference server node.nodeClass parentNodeId
          (Service_AddNode_finish_referenceTypeId node referenceTypeId),
          (Service_DeleteNodes_single server nodeId true).2)) ∧
    (node.nodeClass = UA_NODECLASS_OBJECT → UA_NodeId_isNull parentNodeId = true →
      UA_NodeId_isNull referenceTypeId = true →
      UA_NodeStore_get server.nodestore parentNodeId = none →
      checkParentReference server node.nodeClass parentNodeId referenceTypeId =
        UA_STATUSCODE_BADPARENTNODEIDINVALID ∧
      Service_AddNode_finish (budget + 1) server nodeId parentNodeId referenceTypeId
        typeDefinition cb =
        match instantiateNode budget server nodeId UA_NODECLASS_OBJECT
            (Service_AddNode_finish_typeDefinition node parentNodeId typeDefinition) cb with
        | none => none
        | some instantiated =>
          if instantiated.1 ≠ UA_STATUSCODE_GOOD then
            some (Service_AddNode_finish_cleanup instantiated.2 nodeId instantiated.1)
          else some (UA_STATUSCODE_GOOD, instantiated.2)) := by
  constructor
  · intro hguard hfail
    rw [Service_AddNode_finish_succ, hnode]
    dsimp only
    have hchecked : Service_AddNode_finish_checkParent server node parentNodeId
        (Service_AddNode_finish_referenceTypeId node referenceTypeId) =
        checkParentReference server node.nodeClass parentNodeId
          (Service_AddNode_finish_referenceTypeId node referenceTypeId) := by
      unfold Service_AddNode_finish_checkParent
      rw [if_pos hguard]
    rw [hchecked, if_pos hfail]
    rfl
  · intro hclass hparent hreftype hnone
    refine ⟨checkParentReference_no_parent _ _ _ _ hnone, ?_⟩
    rw [Service_AddNode_finish_succ, hnode]
    dsimp only
    have hsame : Service_AddNode_finish_referenceTypeId node referenceTypeId =
        referenceTypeId := by
      unfold Service_AddNode_finish_referenceTypeId
      rw [hclass, if_neg (by decide)]
    have hchecked : Service_AddNode_finish_checkParent server node parentNodeId
        (Service_AddNode_finish_referenceTypeId node referenceTypeId) =
        UA_STATUSCODE_GOOD := by
      unfold Service_AddNode_finish_checkParent
      rw [hsame, hclass, hparent, hreftype, if_neg (by decide)]
    have htyped : Service_AddNode_finish_typeCheck server node
        (Service_AddNode_finish_typeDefinition node parentNodeId typeDefinition) =
        (UA_STATUSCODE_GOOD, server) := by
      unfold Service_AddNode_finish_typeCheck
      rw [hclass, if_neg (by decide)]
    have hlinked : Service_AddNode_finish_addParent server node parentNodeId
        (Service_AddNode_finish_referenceTypeId node referenceTypeId) =
        (UA_STATUSCODE_GOOD, server) := by
      unfold Service_AddNode_finish_addParent
      rw [hparent, if_neg (by decide)]
    rw [hchecked, if_neg (fun hne => hne rfl), htyped]
    dsimp only
    rw [if_neg (fun hne => hne rfl), hlinked]
    dsimp only
    rw [if_neg (fun hne => hne rfl), hclass]

/-- The object `o1` of `ex_lifecycle` with a null parent and `Organizes` as reference type:
the guard holds, the check fails with BadParentNodeIdInvalid, and that is what the call
returns, with `o1` removed. -/
theorem Service_AddNode_finish_parent_check_witness :
    Service_AddNode_finish (3 + 1) ex_lifecycle (ex_id 2001) UA_NODEID_NULL
      (ex_id UA_NS0ID_ORGANIZES) (ex_id 2000) none =
      some (checkParentReference ex_lifecycle UA_NODECLASS_OBJECT UA_NODEID_NULL
          (Service_AddNode_finish_referenceTypeId
            (ex_node 2001 UA_NODECLASS_OBJECT "o1" []) (ex_id UA_NS0ID_ORGANIZES)),
        (Service_DeleteNodes_single ex_lifecycle (ex_id 2001) true).2) ∧
    checkParentReference ex_lifecycle UA_NODECLASS_OBJECT UA_NODEID_NULL
      (Service_AddNode_finish_referenceTypeId
        (ex_node 2001 UA_NODECLASS_OBJECT "o1" []) (ex_id UA_NS0ID_ORGANIZES)) =
      UA_STATUSCODE_BADPARENTNODEIDINVALID :=
  ⟨(Service_AddNode_finish_parent_check 3 ex_lifecycle (ex_id 2001) UA_NODEID_NULL
      (ex_id UA_NS0ID_ORGANIZES) (ex_id 2000) none
      (ex_node 2001 UA_NODECLASS_OBJECT "o1" []) (by decide)).1
      (Or.inr (Or.inr (by decide))) (by decide),
   by decide⟩

/-! ## The reverse scan of `deleteOneWayReference` -/

theorem size_t_decrement_zero : size_t_decrement 0 = UA_SIZE_MODULUS - 1 := by
  unfold size_t_decrement
  decide

/-- One iteration of the scan at an index below `referencesSize`: the entry matches and the
scan stops there, or it does not and the scan goes on below. -/
theorem deleteOneWayReference_scan_step (references : List UA_ReferenceNode)
    (item : UA_DeleteReferencesItem) (steps i : Nat) (entry : UA_ReferenceNode)
    (hentry : references[i]? = some entry) :
    (deleteOneWayReference_matches_spec item entry →
      deleteOneWayReference_scan references item (steps + 1) i = some i ∧
      deleteOneWayReference_scan_reads references item (steps + 1) i = some (some i, [i])) ∧
    (¬ deleteOneWayReference_matches_spec item entry →
      deleteOneWayReference_scan references item (steps + 1) i =
        deleteOneWayReference_scan references item steps (size_t_decrement i) ∧
      deleteOneWayReference_scan_reads references item (steps + 1) i =
        (deleteOneWayReference_scan_reads references item steps (size_t_decrement i)).map
          (fun rest => (rest.1, i :: rest.2))) := by
  have hi : i < references.length := (List.getElem?_eq_some_iff.mp hentry).1
  have hget : references.get? i = some entry := by rw [List.get?_eq_getElem?]; exact hentry
  have hnot : ¬ i > references.length := by omega
  unfold deleteOneWayReference_matches_spec
  constructor
  · rintro ⟨htarget, htype, hdir⟩
    unfold deleteOneWayReference_scan deleteOneWayReference_scan_reads
    rw [if_neg hnot, if_neg hnot, hget]
    dsimp only
    have h1 : ¬ ¬ UA_NodeId_equal item.targetNodeId.nodeId entry.targetId.nodeId = true := by
      unfold UA_NodeId_equal; simp [htarget]
    have h2 : ¬ ¬ UA_NodeId_equal item.referenceTypeId entry.referenceTypeId = true := by
      unfold UA_NodeId_equal; simp [htype]
    have h3 : ¬ item.isForward = entry.isInverse := fun h => hdir h.symm
    rw [if_neg h1, if_neg h2, if_neg h3, if_neg h1, if_neg h2, if_neg h3]
    exact ⟨rfl, rfl⟩
  · intro hno
    rw [deleteOneWayReference_scan.eq_2, deleteOneWayReference_scan_reads.eq_2]
    rw [if_neg hnot, if_neg hnot, hget]
    dsimp only
    by_cases h1 : ¬ UA_NodeId_equal item.targetNodeId.nodeId entry.targetId.nodeId = true
    · rw [if_pos h1, if_pos h1]
      exact ⟨rfl, rfl⟩
    · rw [if_neg h1, if_neg h1]
      by_cases h2 : ¬ UA_NodeId_equal item.referenceTypeId entry.referenceTypeId = true
      · rw [if_pos h2, if_pos h2]
        exact ⟨rfl, rfl⟩
      · rw [if_neg h2, if_neg h2]
        by_cases h3 : item.isForward = entry.isInverse
        · rw [if_pos h3, if_pos h3]
          exact ⟨rfl, rfl⟩
        · exfalso
          apply hno
          unfold UA_NodeId_equal at h1 h2
          refine ⟨?_, ?_, fun h => h3 h.symm⟩
          · simpa using h1
          · simpa using h2

/-- The scan from an index below `referencesSize`: it ends, having read indices from the
start index downwards, each once, and what it finds is the largest index at or below the
start whose entry matches the item.  One more iteration than there are reads is enough. -/
theorem deleteOneWayReference_scan_from (references : List UA_ReferenceNode)
    (item : UA_DeleteReferencesItem) (hlen : references.length + 1 < UA_SIZE_MODULUS) :
    ∀ (i : Nat), i < references.length →
      ∃ found reads,
        (∀ steps, reads.length + 1 ≤ steps →
          deleteOneWayReference_scan_reads references item steps i = some (found, reads) ∧
          deleteOneWayReference_scan references item steps i = found) ∧
        (∀ j ∈ reads, j ≤ i) ∧
        reads.Pairwise (fun earlier later => earlier > later) ∧
        reads.length ≤ i + 1 ∧
        (∀ k, found = some k →
          k ≤ i ∧ (∃ entry, references[k]? = some entry ∧
            deleteOneWayReference_matches_spec item entry) ∧
          ∀ j entry, k < j → j ≤ i → references[j]? = some entry →
            ¬ deleteOneWayReference_matches_spec item entry) ∧
        (found = none →
          ∀ j entry, j ≤ i → references[j]? = some entry →
            ¬ deleteOneWayReference_matches_spec item entry) := by
  intro i
  induction i with
  | zero =>
    intro hi
    obtain ⟨entry, hentry⟩ : ∃ entry, references[0]? = some entry :=
      ⟨references[0], List.getElem?_eq_getElem hi⟩
    have hbreak : size_t_decrement 0 > references.length := by
      rw [size_t_decrement_zero]; omega
    have hend : ∀ p, deleteOneWayReference_scan references item (p + 1) (size_t_decrement 0) =
          none ∧
        deleteOneWayReference_scan_reads references item (p + 1) (size_t_decrement 0) =
          some (none, []) := by
      intro p
      unfold deleteOneWayReference_scan deleteOneWayReference_scan_reads
      rw [if_pos hbreak, if_pos hbreak]
      exact ⟨rfl, rfl⟩
    by_cases hmatch : deleteOneWayReference_matches_spec item entry
    · refine ⟨some 0, [0], ?_, ?_, ?_, ?_, ?_, ?_⟩
      · intro steps hsteps
        obtain ⟨p, hp⟩ : ∃ p, steps = p + 1 := ⟨steps - 1, by simp at hsteps; omega⟩
        rw [hp]
        have hstep := deleteOneWayReference_scan_step references item p 0 entry hentry
        exact ⟨(hstep.1 hmatch).2, (hstep.1 hmatch).1⟩
      · intro j hj; rw [List.mem_singleton.mp hj]
      · exact List.pairwise_singleton _ _
      · exact Nat.le_refl _
      · intro k hk
        have hk0 : k = 0 := (Option.some.inj hk).symm
        rw [hk0]
        exact ⟨Nat.le_refl _, ⟨entry, hentry, hmatch⟩, fun j _ h1 h2 _ => by omega⟩
      · intro h; exact absurd h (by simp)
    · refine ⟨none, [0], ?_, ?_, ?_, ?_, ?_, ?_⟩
      · intro steps hsteps
        obtain ⟨p, hp⟩ : ∃ p, steps = p + 2 := ⟨steps - 2, by simp at hsteps; omega⟩
        rw [hp]
        have hstep := deleteOneWayReference_scan_step references item (p + 1) 0 entry hentry
        constructor
        · rw [(hstep.2 hmatch).2, (hend p).2]; rfl
        · rw [(hstep.2 hmatch).1, (hend p).1]
      · intro j hj; rw [List.mem_singleton.mp hj]
      · exact List.pairwise_singleton _ _
      · exact Nat.le_refl _
      · intro k hk; exact absurd hk (by simp)
      · intro _ j e hj hje
        have hj0 : j = 0 := by omega
        rw [hj0, hentry] at hje
        rw [← Option.some.inj hje]
        exact hmatch
  | succ i ih =>
    intro hi
    obtain ⟨entry, hentry⟩ : ∃ entry, references[i + 1]? = some entry :=
      ⟨references[i + 1], List.getElem?_eq_getElem hi⟩
    have hdec : size_t_decrement (i + 1) = i := size_t_decrement_succ i (by omega)
    by_cases hmatch : deleteOneWayReference_matches_spec item entry
    · refine ⟨some (i + 1), [i + 1], ?_, ?_, ?_, ?_, ?_, ?_⟩
      · intro steps hsteps
        obtain ⟨p, hp⟩ : ∃ p, steps = p + 1 := ⟨steps - 1, by simp at hsteps; omega⟩
        rw [hp]
        have hstep := deleteOneWayReference_scan_step references item p (i + 1) entry hentry
        exact ⟨(hstep.1 hmatch).2, (hstep.1 hmatch).1⟩
      · intro j hj; rw [List.mem_singleton.mp hj]
      · exact List.pairwise_singleton _ _
      · simp
      · intro k hk
        have hk0 : k = i + 1 := (Option.some.inj hk).symm
        rw [hk0]
        exact ⟨Nat.le_refl _, ⟨entry, hentry, hmatch⟩, fun j _ h1 h2 _ => by omega⟩
      · intro h; exact absurd h (by simp)
    · obtain ⟨found, reads, hrun, hbound, horder, hcount, hfound, hnone⟩ := ih (by omega)
      refine ⟨found, (i + 1) :: reads, ?_, ?_, ?_, ?_, ?_, ?_⟩
      · intro steps hsteps
        obtain ⟨p, hp⟩ : ∃ p, steps = p + 1 := ⟨steps - 1, by simp at hsteps; omega⟩
        rw [hp]
        have hstep := deleteOneWayReference_scan_step references item p (i + 1) entry hentry
        have hp1 : reads.length + 1 ≤ p := by
          rw [hp, List.length_cons] at hsteps; omega
        constructor
        · rw [(hstep.2 hmatch).2, hdec, (hrun p hp1).1]; rfl
        · rw [(hstep.2 hmatch).1, hdec, (hrun p hp1).2]
      · intro j hj
        rcases List.mem_cons.mp hj with h | h
        · rw [h]
        · exact Nat.le_succ_of_le (hbound j h)
      · rw [List.pairwise_cons]
        exact ⟨fun j hj => Nat.lt_succ_of_le (hbound j hj), horder⟩
      · rw [List.length_cons]; omega
      · intro k hk
        obtain ⟨hle, hthere, habove⟩ := hfound k hk
        refine ⟨Nat.le_succ_of_le hle, hthere, ?_⟩
        intro j e hkj hji hje
        by_cases hlast : j = i + 1
        · rw [hlast, hentry] at hje
          rw [← Option.some.inj hje]
          exact hmatch
        · exact habove j e hkj (by omega) hje
      · intro hnothing j e hji hje
        by_cases hlast : j = i + 1
        · rw [hlast, hentry] at hje
          rw [← Option.some.inj hje]
          exact hmatch
        · exact hnone hnothing j e (by omega) hje

/-- The scan as `deleteOneWayReference` starts it, at `referencesSize - 1` in `size_t`
arithmetic: it ends with the largest matching index of the list, or with nothing when no
entry matches, and reads only below `referencesSize`. -/
theorem deleteOneWayReference_scan_whole (references : List UA_ReferenceNode)
    (item : UA_DeleteReferencesItem) (hlen : references.length + 1 < UA_SIZE_MODULUS) :
    ∃ found reads,
      (∀ steps, reads.length + 1 ≤ steps →
        deleteOneWayReference_scan_reads references item steps
          (size_t_decrement references.length) = some (found, reads) ∧
        deleteOneWayReference_scan references item steps
          (size_t_decrement references.length) = found) ∧
      (∀ j ∈ reads, j < references.length) ∧
      reads.Pairwise (fun earlier later => earlier > later) ∧
      reads.length ≤ references.length ∧
      (∀ k, found = some k →
        (∃ entry, references[k]? = some entry ∧
          deleteOneWayReference_matches_spec item entry) ∧
        ∀ j entry, k < j → references[j]? = some entry →
          ¬ deleteOneWayReference_matches_spec item entry) ∧
      (found = none →
        ∀ entry ∈ references, ¬ deleteOneWayReference_matches_spec item entry) := by
  cases hsize : references.length with
  | zero =>
    have hnil : references = [] := List.length_eq_zero.mp hsize
    have hbreak : size_t_decrement 0 > references.length := by
      rw [size_t_decrement_zero]; omega
    refine ⟨none, [], ?_, ?_, List.Pairwise.nil, Nat.le_refl _, ?_, ?_⟩
    · intro steps hsteps
      obtain ⟨p, hp⟩ : ∃ p, steps = p + 1 := ⟨steps - 1, by simp at hsteps; omega⟩
      rw [hp]
      unfold deleteOneWayReference_scan deleteOneWayReference_scan_reads
      rw [if_pos hbreak, if_pos hbreak]
      exact ⟨rfl, rfl⟩
    · intro j hj; exact absurd hj (List.not_mem_nil j)
    · intro k hk; exact absurd hk (by simp)
    · intro _ entry hmem
      rw [hnil] at hmem
      exact absurd hmem (List.not_mem_nil entry)
  | succ n =>
    have hdec : size_t_decrement (n + 1) = n := size_t_decrement_succ n (by omega)
    obtain ⟨found, reads, hrun, hbound, horder, hcount, hfound, hnone⟩ :=
      deleteOneWayReference_scan_from references item hlen n (by omega)
    rw [hdec]
    refine ⟨found, reads, hrun, ?_, horder, hcount, ?_, ?_⟩
    · intro j hj
      exact Nat.lt_succ_of_le (hbound j hj)
    · intro k hk
      obtain ⟨hle, hthere, habove⟩ := hfound k hk
      refine ⟨hthere, ?_⟩
      intro j e hkj hje
      have hj : j < references.length := (List.getElem?_eq_some_iff.mp hje).1
      exact habove j e hkj (by omega) hje
    · intro hnothing entry hmem
      obtain ⟨j, hj, hje⟩ := List.getElem_of_mem hmem
      have hje2 : references[j]? = some entry := by
        rw [List.getElem?_eq_getElem hj, hje]
      exact hnone hnothing j entry (by omega) hje2

/-! ## `deleteOneWayReference` against its reference definition -/

/-- C31: `deleteOneWayReference` on a node whose reference array fits in memory equals the
reference definition. If the entry at index `i` matches the item (target node id equal,
reference type id equal, `isInverse` different from `item.isForward`) and no entry at a
larger index does, the result is Good, the rest of the node is untouched, and the new list is
the old one with entry `i` overwritten by the old last entry and the last position dropped:
the length decreases by exactly one and every other remaining position is unchanged. If no
entry matches, the result is UncertainReferenceNotDeleted and the node is unchanged. -/
theorem deleteOneWayReference_reference_definition (item : UA_DeleteReferencesItem)
    (node : UA_Node) (hlen : node.references.length + 1 < UA_SIZE_MODULUS) :
    (∀ (i : Nat) (entry : UA_ReferenceNode), node.references[i]? = some entry →
      deleteOneWayReference_matches_spec item entry →
      (∀ (j : Nat) (later : UA_ReferenceNode), i < j → node.references[j]? = some later →
        ¬ deleteOneWayReference_matches_spec item later) →
      ∃ last, node.references.getLast? = some last ∧
        deleteOneWayReference item node =
          (UA_STATUSCODE_GOOD,
           { node with references := (node.references.set i last).dropLast }) ∧
        ((node.references.set i last).dropLast).length + 1 = node.references.length ∧
        ∀ (j : Nat), j + 1 < node.references.length →
          ((node.references.set i last).dropLast)[j]? =
            if j = i then some last else node.references[j]?) ∧
    ((∀ entry ∈ node.references, ¬ deleteOneWayReference_matches_spec item entry) →
      deleteOneWayReference item node = (UA_STATUSCODE_UNCERTAINREFERENCENOTDELETED, node)) := by
  obtain ⟨found, reads, hrun, hbound, horder, hcount, hfound, hnone⟩ :=
    deleteOneWayReference_scan_whole node.references item hlen
  have hscan := (hrun (node.references.length + 1) (by omega)).2
  constructor
  · intro i entry hentry hmatch hlargest
    have hi : i < node.references.length := (List.getElem?_eq_some_iff.mp hentry).1
    have hfoundi : found = some i := by
      cases hf : found with
      | none =>
        exact absurd hmatch (hnone hf entry (List.getElem?_mem hentry))
      | some k =>
        obtain ⟨⟨e, hke, hkmatch⟩, habove⟩ := hfound k hf
        rcases Nat.lt_trichotomy k i with hlt | heq | hgt
        · exact absurd hmatch (habove i entry hlt hentry)
        · rw [heq]
        · exact absurd hkmatch (hlargest k e hgt hke)
    obtain ⟨last, hlast⟩ : ∃ last, node.references.getLast? = some last := by
      cases hl : node.references.getLast? with
      | none =>
        rw [List.getLast?_eq_none_iff] at hl
        rw [hl] at hi
        exact absurd hi (by simp)
      | some last => exact ⟨last, rfl⟩
    refine ⟨last, hlast, ?_, ?_, ?_⟩
    · unfold deleteOneWayReference
      rw [hscan, hfoundi]
      dsimp only
      rw [hlast]
    · rw [List.length_dropLast, List.length_set]
      omega
    · intro j hj
      rw [List.getElem?_dropLast, List.length_set, if_pos (by omega), List.getElem?_set]
      by_cases hji : j = i
      · rw [if_pos hji.symm, if_pos hji, if_pos hi]
      · rw [if_neg (fun h => hji h.symm), if_neg hji]
  · intro hno
    have hfoundnone : found = none := by
      cases hf : found with
      | none => rfl
      | some k =>
        obtain ⟨⟨e, hke, hkmatch⟩, _⟩ := hfound k hf
        exact absurd hkmatch (hno e (List.getElem?_mem hke))
    unfold deleteOneWayReference
    rw [hscan, hfoundnone]

theorem deleteOneWayReference_reference_definition_witness :
    ex_node_references.references.length + 1 < UA_SIZE_MODULUS ∧
    ∃ last, ex_node_references.references.getLast? = some last ∧
      deleteOneWayReference ex_deleteAB ex_node_references =
        (UA_STATUSCODE_GOOD,
         { ex_node_references with
           references := (ex_node_references.references.set 2 last).dropLast }) ∧
      ((ex_node_references.references.set 2 last).dropLast).length + 1 =
        ex_node_references.references.length ∧
      ∀ (j : Nat), j + 1 < ex_node_references.references.length →
        ((ex_node_references.references.set 2 last).dropLast)[j]? =
          if j = 2 then some last else ex_node_references.references[j]? :=
  ⟨by decide,
   (deleteOneWayReference_reference_definition ex_deleteAB ex_node_references (by decide)).1 2
     (ex_ref UA_NS0ID_ORGANIZES 1002 false) (by decide)
     (by unfold deleteOneWayReference_matches_spec; decide)
     (by
       intro j later hj hlater
       have hbound : j < 5 := (List.getElem?_eq_some_iff.mp hlater).1
       have hcases : j = 3 ∨ j = 4 := by omega
       rcases hcases with h | h
       · rw [h] at hlater
         rw [← Option.some.inj hlater]
         unfold deleteOneWayReference_matches_spec
         decide
       · rw [h] at hlater
         rw [← Option.some.inj hlater]
         unfold deleteOneWayReference_matches_spec
         decide)⟩

/-- C36: the reverse scan of `deleteOneWayReference` is total and in bounds for every
reference array that fits in memory, the empty one included. Started at `referencesSize - 1`
in `size_t` arithmetic (which wraps for size 0), it ends with a result, reads only at indices
below `referencesSize`, reads in strictly decreasing order (so each index at most once), and
reads at most `referencesSize` times: one pass more than there are reads, the one whose
bounds test leaves the loop, is all it needs. -/
theorem deleteOneWayReference_scan_in_bounds (references : List UA_ReferenceNode)
    (item : UA_DeleteReferencesItem) (hlen : references.length + 1 < UA_SIZE_MODULUS) :
    ∃ found reads,
      deleteOneWayReference_scan_reads references item (references.length + 1)
        (size_t_decrement references.length) = some (found, reads) ∧
      deleteOneWayReference_scan references item (references.length + 1)
        (size_t_decrement references.length) = found ∧
      (∀ steps, reads.length + 1 ≤ steps →
        deleteOneWayReference_scan_reads references item steps
          (size_t_decrement references.length) = some (found, reads)) ∧
      (∀ j ∈ reads, j < references.length) ∧
      reads.Pairwise (fun earlier later => earlier > later) ∧
      reads.Nodup ∧
      reads.length ≤ references.length := by
  obtain ⟨found, reads, hrun, hbound, horder, hcount, _, _⟩ :=
    deleteOneWayReference_scan_whole references item hlen
  refine ⟨found, reads, (hrun _ (by omega)).1, (hrun _ (by omega)).2,
    fun steps hsteps => (hrun steps hsteps).1, hbound, horder, ?_, hcount⟩
  exact horder.imp (fun h => Nat.ne_of_gt h)

theorem deleteOneWayReference_scan_in_bounds_witness :
    ([] : List UA_ReferenceNode).length + 1 < UA_SIZE_MODULUS ∧
    ∃ found reads,
      deleteOneWayReference_scan_reads [] ex_deleteAB (([] : List UA_ReferenceNode).length + 1)
        (size_t_decrement ([] : List UA_ReferenceNode).length) = some (found, reads) ∧
      deleteOneWayReference_scan [] ex_deleteAB (([] : List UA_ReferenceNode).length + 1)
        (size_t_decrement ([] : List UA_ReferenceNode).length) = found ∧
      (∀ steps, reads.length + 1 ≤ steps →
        deleteOneWayReference_scan_reads [] ex_deleteAB steps
          (size_t_decrement ([] : List UA_ReferenceNode).length) = some (found, reads)) ∧
      (∀ j ∈ reads, j < ([] : List UA_ReferenceNode).length) ∧
      reads.Pairwise (fun earlier later => earlier > later) ∧
      reads.Nodup ∧
      reads.length ≤ ([] : List UA_ReferenceNode).length :=
  ⟨by decide, deleteOneWayReference_scan_in_bounds [] ex_deleteAB (by decide)⟩

/-! ## Add method nodes -/

/-- C38: `UA_Server_addMethodNode_begin` with `outNewNodeId` supplied returns Good whatever
the insert into the NodeStore returned, because the status of `UA_NodeId_copy` overwrites it.
On the example server the requested id 85 is the `Objects` folder: the insert is refused, the
call without `outNewNodeId` returns BadNodeIdExists, the call with `outNewNodeId` returns
Good, leaves the store as it was and reports the id 85; `Service_AddNode_begin`, asked for
the same id, returns BadNodeIdExists. -/
theorem UA_Server_addMethodNode_begin_insert_status :
    (∀ (server : UA_Server) (requestedNewNodeId : UA_NodeId) (browseName : UA_QualifiedName)
        (attr : UA_NodeAttributes) (method : Option Nat) (handle : Nat),
      (UA_Server_addMethodNode_begin server requestedNewNodeId browseName attr method handle
        true).1 = UA_STATUSCODE_GOOD) ∧
    (UA_Server_addMethodNode_begin ex_methods (ex_id UA_NS0ID_OBJECTSFOLDER)
      { namespaceIndex := 0, name := "m" } ex_methodAttributes (some 1) 0 false).1 =
        UA_STATUSCODE_BADNODEIDEXISTS ∧
    (UA_Server_addMethodNode_begin ex_methods (ex_id UA_NS0ID_OBJECTSFOLDER)
      { namespaceIndex := 0, name := "m" } ex_methodAttributes (some 1) 0 true).1 =
        UA_STATUSCODE_GOOD ∧
    (UA_Server_addMethodNode_begin ex_methods (ex_id UA_NS0ID_OBJECTSFOLDER)
      { namespaceIndex := 0, name := "m" } ex_methodAttributes (some 1) 0 true).2.2 =
        some (ex_id UA_NS0ID_OBJECTSFOLDER) ∧
    (UA_Server_addMethodNode_begin ex_methods (ex_id UA_NS0ID_OBJECTSFOLDER)
      { namespaceIndex := 0, name := "m" } ex_methodAttributes (some 1) 0 true).2.1.nodestore =
        ex_methods.nodestore ∧
    (Service_AddNode_begin ex_methods (ex_item_object (ex_id UA_NS0ID_OBJECTSFOLDER))).1.statusCode =
      UA_STATUSCODE_BADNODEIDEXISTS := by
  refine ⟨?_, by decide, by decide, by decide, by decide, by decide⟩
  intro server requestedNewNodeId browseName attr method handle
  rfl

/-- C39: `UA_Server_addMethodNode_finish` with two input arguments and one output argument
on the method `m` (id 5001), which has no property at all: the browse finds no argument
node, the call returns Good, and the store has no node named `InputArguments` or
`OutputArguments` afterwards; the method has its parent reference and nothing else, as after
the call without arguments. On the method that already has an `InputArguments` property (id
5002) the same call adds a second one (id 5003) holding the two arguments. -/
theorem UA_Server_addMethodNode_finish_arguments :
    UA_Server_addMethodNode_finish_argsIds
      (Service_Browse_single ex_methods_begun
        (UA_Server_addMethodNode_finish_browse (ex_id 5001))).references =
      (UA_NODEID_NULL, UA_NODEID_NULL) ∧
    (UA_Server_addMethodNode_finish 4 ex_methods_begun (ex_id 5001)
      (ex_id UA_NS0ID_OBJECTSFOLDER) (ex_id UA_NS0ID_HASCOMPONENT) [1, 2] [3]).map
        (fun r => (r.1, ex_named "InputArguments" r.2.nodestore,
          ex_named "OutputArguments" r.2.nodestore)) =
      some (UA_STATUSCODE_GOOD, [], []) ∧
    (UA_Server_addMethodNode_finish 4 ex_methods_begun (ex_id 5001)
      (ex_id UA_NS0ID_OBJECTSFOLDER) (ex_id UA_NS0ID_HASCOMPONENT) [1, 2] [3]).map
        (fun r => ((UA_NodeStore_get r.2.nodestore (ex_id 5001)).map (fun n => n.references),
          r.2.nodestore.length)) =
      some (some [ex_ref UA_NS0ID_HASCOMPONENT UA_NS0ID_OBJECTSFOLDER true],
        ex_methods_begun.nodestore.length) ∧
    (UA_Server_addMethodNode_finish 4 ex_methods_begun (ex_id 5001)
      (ex_id UA_NS0ID_OBJECTSFOLDER) (ex_id UA_NS0ID_HASCOMPONENT) [1, 2] [3]).map
        (fun r => (r.1, r.2.nodestore)) =
      (UA_Server_addMethodNode_finish 4 ex_methods_begun (ex_id 5001)
        (ex_id UA_NS0ID_OBJECTSFOLDER) (ex_id UA_NS0ID_HASCOMPONENT) [] []).map
          (fun r => (r.1, r.2.nodestore)) ∧
    ex_named "InputArguments" ex_methods_property.nodestore =
      [(ex_id 5002, UA_VariantData.array [7])] ∧
    (UA_Server_addMethodNode_finish 8 ex_methods_property (ex_id 5001)
      (ex_id UA_NS0ID_OBJECTSFOLDER) (ex_id UA_NS0ID_HASCOMPONENT) [1, 2] [3]).map
        (fun r => (r.1, ex_named "InputArguments" r.2.nodestore)) =
      some (UA_STATUSCODE_GOOD,
        [(ex_id 5002, UA_VariantData.array [7]), (ex_id 5003, UA_VariantData.array [1, 2])]) := by
  refine ⟨by decide, by decide, by decide, by decide, by decide, by decide⟩

/-! ## The recursion of `copyChildNodes` on cyclic Aggregates references -/

theorem UA_NodeStore_targets_length (ns : List UA_Node) :
    (UA_NodeStore_targets ns).length = (ns.map (fun n => n.references.length)).sum := by
  unfold UA_NodeStore_targets
  induction ns with
  | nil => rfl
  | cons n rest ih =>
    rw [List.flatMap_cons, List.length_append, List.length_map, ih]
    rfl

theorem UA_NodeStore_targets_mem (ns : List UA_Node) (nodeId : UA_NodeId) (node : UA_Node)
    (r : UA_ReferenceNode) (hnode : UA_NodeStore_get ns nodeId = some node)
    (hr : r ∈ node.references) : r.targetId.nodeId ∈ UA_NodeStore_targets ns := by
  unfold UA_NodeStore_targets
  rw [List.mem_flatMap]
  refine ⟨node, ?_, List.mem_map.mpr ⟨r, hr, rfl⟩⟩
  unfold UA_NodeStore_get at hnode
  exact List.mem_of_find?_eq_some hnode

/-- The inner loop of `getTypeHierarchy_step`: the list is extended at the end, stays free of
duplicates, takes up the target of every inverse `HasSubtype` reference, and takes up
targets of the references only. -/
theorem getTypeHierarchy_step_fold (references : List UA_ReferenceNode) :
    ∀ (acc : List UA_NodeId), acc.Nodup →
      (∃ extra, references.foldl
          (fun acc r =>
            if r.isInverse ∧ r.referenceTypeId = UA_NODEID_NUMERIC 0 UA_NS0ID_HASSUBTYPE ∧
                ¬ r.targetId.nodeId ∈ acc then acc ++ [r.targetId.nodeId]
            else acc) acc = acc ++ extra) ∧
      (references.foldl
          (fun acc r =>
            if r.isInverse ∧ r.referenceTypeId = UA_NODEID_NUMERIC 0 UA_NS0ID_HASSUBTYPE ∧
                ¬ r.targetId.nodeId ∈ acc then acc ++ [r.targetId.nodeId]
            else acc) acc).Nodup ∧
      (∀ r ∈ references, r.isInverse = true →
        r.referenceTypeId = UA_NODEID_NUMERIC 0 UA_NS0ID_HASSUBTYPE →
        r.targetId.nodeId ∈ references.foldl
          (fun acc r =>
            if r.isInverse ∧ r.referenceTypeId = UA_NODEID_NUMERIC 0 UA_NS0ID_HASSUBTYPE ∧
                ¬ r.targetId.nodeId ∈ acc then acc ++ [r.targetId.nodeId]
            else acc) acc) ∧
      (∀ x ∈ references.foldl
          (fun acc r =>
            if r.isInverse ∧ r.referenceTypeId = UA_NODEID_NUMERIC 0 UA_NS0ID_HASSUBTYPE ∧
                ¬ r.targetId.nodeId ∈ acc then acc ++ [r.targetId.nodeId]
            else acc) acc,
        x ∈ acc ∨ ∃ r ∈ references, r.isInverse = true ∧
          r.referenceTypeId = UA_NODEID_NUMERIC 0 UA_NS0ID_HASSUBTYPE ∧
          r.targetId.nodeId = x) := by
  induction references with
  | nil =>
    intro acc hnodup
    exact ⟨⟨[], (List.append_nil acc).symm⟩, hnodup, fun r hr => absurd hr (List.not_mem_nil r),
      fun x hx => Or.inl hx⟩
  | cons q rest ih =>
    intro acc hnodup
    rw [List.foldl_cons]
    by_cases hq : q.isInverse ∧ q.referenceTypeId = UA_NODEID_NUMERIC 0 UA_NS0ID_HASSUBTYPE ∧
        ¬ q.targetId.nodeId ∈ acc
    · rw [if_pos hq]
      have hnodup' : (acc ++ [q.targetId.nodeId]).Nodup := by
        apply List.Nodup.append hnodup (List.nodup_singleton _)
        intro x hx hx'
        rw [List.mem_singleton] at hx'
        rw [hx'] at hx
        exact hq.2.2 hx
      obtain ⟨⟨extra, hextra⟩, hnd, hall, horigin⟩ := ih (acc ++ [q.targetId.nodeId]) hnodup'
      refine ⟨⟨q.targetId.nodeId :: extra, ?_⟩, hnd, ?_, ?_⟩
      · rw [hextra, List.append_assoc]
        rfl
      · intro r hr hinv htype
        rcases List.mem_cons.mp hr with h | h
        · rw [h, hextra]
          exact List.mem_append_left _ (List.mem_append_right _ (List.mem_singleton.mpr rfl))
        · exact hall r h hinv htype
      · intro x hx
        rcases horigin x hx with h | ⟨r, hr, hrx⟩
        · rcases List.mem_append.mp h with h1 | h1
          · exact Or.inl h1
          · exact Or.inr ⟨q, List.mem_cons_self _ _, hq.1, hq.2.1,
              (List.mem_singleton.mp h1).symm⟩
        · exact Or.inr ⟨r, List.mem_cons_of_mem _ hr, hrx⟩
    · rw [if_neg hq]
      obtain ⟨⟨extra, hextra⟩, hnd, hall, horigin⟩ := ih acc hnodup
      refine ⟨⟨extra, hextra⟩, hnd, ?_, ?_⟩
      · intro r hr hinv htype
        rcases List.mem_cons.mp hr with h | h
        · have hmem : q.targetId.nodeId ∈ acc := by
            by_contra hnot
            exact hq ⟨by rw [← h]; exact hinv, by rw [← h]; exact htype, hnot⟩
          rw [h, hextra]
          exact List.mem_append_left _ hmem
        · exact hall r h hinv htype
      · intro x hx
        rcases horigin x hx with h | ⟨r, hr, hrx⟩
        · exact Or.inl h
        · exact Or.inr ⟨r, List.mem_cons_of_mem _ hr, hrx⟩

/-- One expansion of the work list: what `getTypeHierarchy_step` does to it. -/
theorem getTypeHierarchy_step_spec (ns : List UA_Node) (nodeClass : UA_NodeClass)
    (results : List UA_NodeId) (nodeId : UA_NodeId) (hnodup : results.Nodup) :
    (∃ extra, getTypeHierarchy_step ns nodeClass results nodeId = results ++ extra) ∧
    (getTypeHierarchy_step ns nodeClass results nodeId).Nodup ∧
    (∀ node r, UA_NodeStore_get ns nodeId = some node → node.nodeClass = nodeClass →
      r ∈ node.references → r.isInverse = true →
      r.referenceTypeId = UA_NODEID_NUMERIC 0 UA_NS0ID_HASSUBTYPE →
      r.targetId.nodeId ∈ getTypeHierarchy_step ns nodeClass results nodeId) ∧
    (∀ x ∈ getTypeHierarchy_step ns nodeClass results nodeId,
      x ∈ results ∨ ∃ node r, UA_NodeStore_get ns nodeId = some node ∧
        node.nodeClass = nodeClass ∧ r ∈ node.references ∧ r.isInverse = true ∧
        r.referenceTypeId = UA_NODEID_NUMERIC 0 UA_NS0ID_HASSUBTYPE ∧
        r.targetId.nodeId = x) := by
  unfold getTypeHierarchy_step
  cases hget : UA_NodeStore_get ns nodeId with
  | none =>
    exact ⟨⟨[], (List.append_nil results).symm⟩, hnodup,
      fun node r h => Option.noConfusion h, fun x hx => Or.inl hx⟩
  | some node =>
    dsimp only
    by_cases hclass : node.nodeClass ≠ nodeClass
    · rw [if_pos hclass]
      refine ⟨⟨[], (List.append_nil results).symm⟩, hnodup, ?_, fun x hx => Or.inl hx⟩
      intro node' r h hc
      rw [← Option.some.inj h] at hc
      exact absurd hc hclass
    · rw [if_neg hclass]
      obtain ⟨hextra, hnd, hall, horigin⟩ := getTypeHierarchy_step_fold node.references results
        hnodup
      refine ⟨hextra, hnd, ?_, ?_⟩
      · intro node' r h _ hr hinv htype
        rw [← Option.some.inj h] at hr
        exact hall r hr hinv htype
      · intro x hx
        rcases horigin x hx with h | ⟨r, hr, hrx⟩
        · exact Or.inl h
        · exact Or.inr ⟨node, r, rfl, not_not.mp hclass, hr, hrx⟩

/-- The work-list loop of `getTypeHierarchy`, run for enough steps: the result keeps what
was listed, and with every listed node of the class it lists the targets of the node's
inverse `HasSubtype` references. -/
theorem getTypeHierarchy_walk_closed (ns : List UA_Node) (nodeClass : UA_NodeClass)
    (root : UA_NodeId) :
    ∀ (steps : Nat) (results : List UA_NodeId) (idx : Nat),
      results.Nodup →
      (∀ x ∈ results, x = root ∨ x ∈ UA_NodeStore_targets ns) →
      (UA_NodeStore_targets ns).length + 1 ≤ steps + idx →
      (∀ i t node r, i < idx → results[i]? = some t → UA_NodeStore_get ns t = some node →
        node.nodeClass = nodeClass → r ∈ node.references → r.isInverse = true →
        r.referenceTypeId = UA_NODEID_NUMERIC 0 UA_NS0ID_HASSUBTYPE →
        r.targetId.nodeId ∈ results) →
      (∀ x ∈ results, x ∈ getTypeHierarchy_walk ns nodeClass steps results idx) ∧
      (∀ t node r, t ∈ getTypeHierarchy_walk ns nodeClass steps results idx →
        UA_NodeStore_get ns t = some node →
        node.nodeClass = nodeClass → r ∈ node.references → r.isInverse = true →
        r.referenceTypeId = UA_NODEID_NUMERIC 0 UA_NS0ID_HASSUBTYPE →
        r.targetId.nodeId ∈ getTypeHierarchy_walk ns nodeClass steps results idx) := by
  have hbound : ∀ (results : List UA_NodeId), results.Nodup →
      (∀ x ∈ results, x = root ∨ x ∈ UA_NodeStore_targets ns) →
      results.length ≤ (UA_NodeStore_targets ns).length + 1 := by
    intro results hnodup hfrom
    have hsub : results ⊆ root :: UA_NodeStore_targets ns := by
      intro x hx
      rcases hfrom x hx with h | h
      · rw [h]; exact List.mem_cons_self _ _
      · exact List.mem_cons_of_mem _ h
    have := (List.Nodup.subperm hnodup hsub).length_le
    rw [List.length_cons] at this
    exact this
  have hall : ∀ (results : List UA_NodeId) (idx : Nat), results.length ≤ idx →
      (∀ i t node r, i < idx → results[i]? = some t → UA_NodeStore_get ns t = some node →
        node.nodeClass = nodeClass → r ∈ node.references → r.isInverse = true →
        r.referenceTypeId = UA_NODEID_NUMERIC 0 UA_NS0ID_HASSUBTYPE →
        r.targetId.nodeId ∈ results) →
      ∀ t node r, t ∈ results → UA_NodeStore_get ns t = some node →
        node.nodeClass = nodeClass → r ∈ node.references → r.isInverse = true →
        r.referenceTypeId = UA_NODEID_NUMERIC 0 UA_NS0ID_HASSUBTYPE →
        r.targetId.nodeId ∈ results := by
    intro results idx hlen hclosed t node r ht
    obtain ⟨i, hi, hit⟩ := List.getElem_of_mem ht
    exact hclosed i t node r (by omega) (by rw [List.getElem?_eq_getElem hi, hit])
  intro steps
  induction steps with
  | zero =>
    intro results idx hnodup hfrom hsteps hclosed
    have hlen := hbound results hnodup hfrom
    unfold getTypeHierarchy_walk
    exact ⟨fun x hx => hx, hall results idx (by omega) hclosed⟩
  | succ steps ih =>
    intro results idx hnodup hfrom hsteps hclosed
    unfold getTypeHierarchy_walk
    cases hget : results.get? idx with
    | none =>
      dsimp only
      have hlen : results.length ≤ idx := by
        rw [List.get?_eq_getElem?] at hget
        exact List.getElem?_eq_none_iff.mp hget
      exact ⟨fun x hx => hx, hall results idx hlen hclosed⟩
    | some t =>
      dsimp only
      rw [List.get?_eq_getElem?] at hget
      obtain ⟨⟨extra, hextra⟩, hnd, hstep, horigin⟩ :=
        getTypeHierarchy_step_spec ns nodeClass results t hnodup
      have hkeep : ∀ x ∈ results, x ∈ getTypeHierarchy_step ns nodeClass results t := by
        intro x hx
        rw [hextra]
        exact List.mem_append_left _ hx
      have hidx : idx < results.length := (List.getElem?_eq_some_iff.mp hget).1
      obtain ⟨hin, hout⟩ := ih (getTypeHierarchy_step ns nodeClass results t) (idx + 1) hnd
        (by
          intro x hx
          rcases horigin x hx with h | ⟨node, r, hnode, _, hr, _, _, hrx⟩
          · exact hfrom x h
          · right
            rw [← hrx]
            exact UA_NodeStore_targets_mem ns t node r hnode hr)
        (by omega)
        (by
          intro i u node r hi hiu hnode hclass hr hinv htype
          rw [hextra] at hiu
          have hilen : i < results.length := by omega
          rw [List.getElem?_append_left hilen] at hiu
          by_cases hlast : i = idx
          · rw [hlast, hget] at hiu
            rw [← Option.some.inj hiu] at hnode
            exact hstep node r hnode hclass hr hinv htype
          · exact hkeep _ (hclosed i u node r (by omega) hiu hnode hclass hr hinv htype))
      exact ⟨fun x hx => hin x (hkeep x hx), hout⟩

/-- The list `getTypeHierarchy` computes holds the type and every supertype of it. -/
theorem getTypeHierarchy_complete (ns : List UA_Node) (typenode : UA_Node) (t : UA_NodeId)
    (h : UA_NodeStore_supertype_spec ns typenode.nodeClass typenode.nodeId t) :
    t ∈ getTypeHierarchy ns typenode := by
  obtain ⟨hin, hclosed⟩ := getTypeHierarchy_walk_closed ns typenode.nodeClass typenode.nodeId
    ((ns.map (fun n => n.references.length)).sum + 1) [typenode.nodeId] 0
    (List.nodup_singleton _)
    (fun x hx => Or.inl (List.mem_singleton.mp hx))
    (by have hlen := UA_NodeStore_targets_length ns; omega)
    (fun i _ _ _ hi => absurd hi (Nat.not_lt_zero i))
  unfold getTypeHierarchy
  induction h with
  | self => exact hin _ (List.mem_singleton.mpr rfl)
  | step u node r _ hnode hclass hr hinv htype ih =>
    exact hclosed u node r ih hnode hclass hr hinv htype

theorem UA_NodeStore_noNullId_get (ns : List UA_Node) (h : UA_NodeStore_noNullId ns)
    (nodeId : UA_NodeId) (node : UA_Node) (hnode : UA_NodeStore_get ns nodeId = some node) :
    UA_NodeId_isNull nodeId = false := by
  have hmem : node ∈ ns := by
    unfold UA_NodeStore_get at hnode
    exact List.mem_of_find?_eq_some hnode
  rw [← UA_NodeStore_get_nodeId hnode]
  exact h node hmem

/-- The invariant is kept by `UA_NodeStore_insert`. -/
theorem UA_NodeStore_insert_noNullId (ns ns' : List UA_Node) (node : UA_Node)
    (nodeId : UA_NodeId) (hstore : UA_NodeStore_noNullId ns)
    (h : UA_NodeStore_insert ns node = (UA_STATUSCODE_GOOD, ns', nodeId)) :
    UA_NodeStore_noNullId ns' := by
  have hnonnull := UA_NodeStore_insert_nonnull ns ns' node nodeId h
  rw [UA_NodeStore_insert_good_eq ns ns' node nodeId h]
  intro n hn
  rcases List.mem_append.mp hn with h1 | h1
  · exact hstore n h1
  · rw [List.mem_singleton.mp h1]
    exact hnonnull

/-- A Good `instantiateNode` of a variable or object has found the type in the store, of the
class that goes with the instance. -/
theorem instantiateNode_good_type (budget : Nat) (server server' : UA_Server)
    (nodeId : UA_NodeId) (nodeClass : UA_NodeClass) (typeId : UA_NodeId)
    (cb : Option UA_InstantiationCallback)
    (hclass : nodeClass = UA_NODECLASS_VARIABLE ∨ nodeClass = UA_NODECLASS_OBJECT)
    (h : instantiateNode budget server nodeId nodeClass typeId cb =
      some (UA_STATUSCODE_GOOD, server')) :
    ∃ typenode, UA_NodeStore_get server.nodestore typeId = some typenode ∧
      typenode.nodeClass =
        (if nodeClass = UA_NODECLASS_VARIABLE then UA_NODECLASS_VARIABLETYPE
         else UA_NODECLASS_OBJECTTYPE) := by
  cases budget with
  | zero =>
    rw [instantiateNode] at h
    exact Option.noConfusion h
  | succ budget =>
    rw [instantiateNode_succ] at h
    have hguard : ¬ (nodeClass ≠ UA_NODECLASS_VARIABLE ∧ nodeClass ≠ UA_NODECLASS_OBJECT) := by
      rintro ⟨h1, h2⟩
      rcases hclass with hc | hc
      · exact h1 hc
      · exact h2 hc
    rw [if_neg hguard] at h
    cases htype : UA_NodeStore_get server.nodestore typeId with
    | none =>
      rw [htype] at h
      exact absurd (congrArg Prod.fst (Option.some.inj h))
        (show ¬ UA_STATUSCODE_BADTYPEDEFINITIONINVALID = UA_STATUSCODE_GOOD by decide)
    | some typenode =>
      rw [htype] at h
      dsimp only at h
      refine ⟨typenode, rfl, ?_⟩
      by_cases hok : instantiateNode_typeOk nodeClass typenode = false
      · rw [if_pos hok] at h
        exact absurd (congrArg Prod.fst (Option.some.inj h))
          (show ¬ UA_STATUSCODE_BADTYPEDEFINITIONINVALID = UA_STATUSCODE_GOOD by decide)
      · unfold instantiateNode_typeOk at hok
        by_cases hvar : nodeClass = UA_NODECLASS_VARIABLE
        · rw [if_pos hvar] at hok ⊢
          by_contra hne
          exact hok (by simp [hne])
        · rw [if_neg hvar] at hok ⊢
          by_contra hne
          exact hok (by simp [hne])

/-- Claim C17: for every Variable or Object instance `I` of the store successfully
instantiated from type `T` by `instantiateNode`: for every Object, Variable or Method node
`c` that is an Aggregates-child (including reference subtypes, forward) of `T` or of any
supertype of `T` (`UA_NodeStore_supertype_spec`: reached from `T` over inverse `HasSubtype`
references of the stored types), `I` has a forward Aggregates-child whose browse name
(namespace index and name) equals that of `c`.  The store is one that holds no node under a
null id, as every store built by `UA_NodeStore_insert` is. -/
theorem instantiateNode_type_hierarchy_coverage (budget : Nat) (server server' : UA_Server)
    (nodeId : UA_NodeId) (nodeClass : UA_NodeClass) (typeId : UA_NodeId)
    (cb : Option UA_InstantiationCallback) (inst : UA_Node)
    (hclass : nodeClass = UA_NODECLASS_VARIABLE ∨ nodeClass = UA_NODECLASS_OBJECT)
    (hstore : UA_NodeStore_noNullId server.nodestore)
    (hinstance : UA_NodeStore_get server.nodestore nodeId = some inst)
    (h : instantiateNode budget server nodeId nodeClass typeId cb =
      some (UA_STATUSCODE_GOOD, server')) :
    ∀ t, UA_NodeStore_supertype_spec server.nodestore
        (if nodeClass = UA_NODECLASS_VARIABLE then UA_NODECLASS_VARIABLETYPE
         else UA_NODECLASS_OBJECTTYPE) typeId t →
      ∀ c ∈ (Service_Browse_single server (copyChildNodes_browse t)).references,
        (c.nodeClass = UA_NODECLASS_OBJECT ∨ c.nodeClass = UA_NODECLASS_VARIABLE ∨
          c.nodeClass = UA_NODECLASS_METHOD) →
        instanceFindAggregateByBrowsename_exists server' nodeId c.browseName = true := by
  obtain ⟨typenode, htype, htypeclass⟩ := instantiateNode_good_type budget server server'
    nodeId nodeClass typeId cb hclass h
  have hnonnull := UA_NodeStore_noNullId_get server.nodestore hstore nodeId inst hinstance
  intro t ht
  have hid : typenode.nodeId = typeId := UA_NodeStore_get_nodeId htype
  rw [← htypeclass, ← hid] at ht
  exact instantiateNode_exposes budget server server' nodeId nodeClass typeId cb typenode
    hclass hnonnull htype h t (getTypeHierarchy_complete server.nodestore typenode t ht)

/-- The object `o` of `ex_inherited` instantiated from `DT`: `BT` is a supertype of `DT`, and
`o` exposes a child named `b`, as the variable component of `BT` is named. -/
theorem instantiateNode_type_hierarchy_coverage_witness :
    UA_NodeStore_noNullId ex_inherited.nodestore ∧
    instantiateNode 6 ex_inherited (ex_id 4304) UA_NODECLASS_OBJECT (ex_id 4302) none =
      some (UA_STATUSCODE_GOOD, ex_inherited_server) ∧
    UA_NodeStore_supertype_spec ex_inherited.nodestore UA_NODECLASS_OBJECTTYPE (ex_id 4302)
      (ex_id 4300) ∧
    ((Service_Browse_single ex_inherited (copyChildNodes_browse (ex_id 4300))).references.map
      (fun rd => (rd.browseName, rd.nodeClass))) =
      [({ namespaceIndex := 0, name := "b" }, UA_NODECLASS_VARIABLE)] ∧
    instanceFindAggregateByBrowsename_exists ex_inherited_server (ex_id 4304)
      { namespaceIndex := 0, name := "b" } = true :=
  have hstore : UA_NodeStore_noNullId ex_inherited.nodestore := by
    unfold UA_NodeStore_noNullId
    decide
  have hrun : instantiateNode 6 ex_inherited (ex_id 4304) UA_NODECLASS_OBJECT (ex_id 4302)
      none = some (UA_STATUSCODE_GOOD, ex_inherited_server) := rfl
  have hsuper : UA_NodeStore_supertype_spec ex_inherited.nodestore UA_NODECLASS_OBJECTTYPE
      (ex_id 4302) (ex_id 4300) :=
    UA_NodeStore_supertype_spec.step (ex_id 4302)
      (ex_node 4302 UA_NODECLASS_OBJECTTYPE "DT"
        [ex_ref UA_NS0ID_HASSUBTYPE 4300 true, ex_ref UA_NS0ID_HASCOMPONENT 4303 false])
      (ex_ref UA_NS0ID_HASSUBTYPE 4300 true)
      UA_NodeStore_supertype_spec.self (by decide) rfl (by decide) rfl rfl
  ⟨hstore, hrun, hsuper, by decide,
    instantiateNode_type_hierarchy_coverage 6 ex_inherited ex_inherited_server (ex_id 4304)
      UA_NODECLASS_OBJECT (ex_id 4302) none (ex_node 4304 UA_NODECLASS_OBJECT "o" [])
      (Or.inr rfl) hstore (by decide) hrun (ex_id 4300) hsuper
      { referenceTypeId := ex_id UA_NS0ID_HASCOMPONENT, isForward := false,
        nodeId := UA_ExpandedNodeId_ofNodeId (ex_id 4301),
        browseName := { namespaceIndex := 0, name := "b" },
        displayName := { locale := "", text := "" }, nodeClass := UA_NODECLASS_VARIABLE,
        typeDefinition := UA_ExpandedNodeId_ofNodeId UA_NODEID_NULL }
      (by decide) (Or.inr (Or.inl rfl))⟩

/-! ## Stores stratified by browse name: what carries over when the store grows -/

/-- The store `ex_cycle` is stratified under no ranking: the object `c` is its own
component. -/
theorem ex_cycle_not_stratified (rank : UA_QualifiedName → Nat) :
    ¬ UA_NodeStore_stratified rank ex_cycle.nodestore := by
  intro h
  cases hget : UA_NodeStore_get ex_cycle.nodestore (ex_id 5102) with
  | none => exact absurd hget (by decide)
  | some c =>
    have hmem : ex_ref UA_NS0ID_HASCOMPONENT 5102 false ∈ c.references := by
      have : (UA_NodeStore_get ex_cycle.nodestore (ex_id 5102)).map
          (fun n => decide (ex_ref UA_NS0ID_HASCOMPONENT 5102 false ∈ n.references)) =
          some true := by decide
      rw [hget] at this
      simpa using this
    obtain ⟨c', hc', hcond⟩ := (h (ex_id 5102) c hget).1 _ hmem rfl
    have hc2 : UA_NodeStore_get ex_cycle.nodestore (ex_id 5102) = some c' := hc'
    rw [hget] at hc2
    cases Option.some.inj hc2
    have hclass : c.nodeClass = UA_NODECLASS_OBJECT := by
      have : (UA_NodeStore_get ex_cycle.nodestore (ex_id 5102)).map
          (fun n => n.nodeClass) = some UA_NODECLASS_OBJECT := by decide
      rw [hget] at this
      simpa using this
    exact absurd (hcond (Or.inl hclass)).1 (Nat.lt_irrefl _)

